import Mathlib

/-!
# LegoOS: remote fault handlers, the fault engine, the scheduler core and the resource tree

A shallow embedding of

* `managers/memory/handle_pcache.c` (LLC-miss handler),
* `managers/memory/pcache/clflush.c` (flush handler),
* `managers/memory/vm/fault.c` (page-table walk and fault resolution),
* `kernel/sched/core.c` (run-queues, wakeup, the core scheduling step, affinity
  and migration),
* `kernel/resource.c` (requesting and looking up a resource),

as state-passing Lean functions, followed by theorems about them.

Conventions: machine integers are `Nat` bit patterns with an explicit modulus
where a conversion or an overflow matters; a pointer is an index (`Nat`), a
possibly-null pointer is an `Option`; a function that can stop the kernel
(null dereference, `BUG()`, read of an unset variable) returns `Except Oops`.
Externally visible actions are appended to `State.trace`.
-/

namespace LegoOS

/-! ## Words, pages and build constants -/

/-- Modulus of `unsigned long` and `u64`. -/
def U64_MOD : Nat := 2 ^ 64

/-- Modulus of `u32` and of the bit pattern of `int`. -/
def U32_MOD : Nat := 2 ^ 32

/-- Modelled from the spec: `PAGE_SHIFT` comes from an architecture header that is
not part of the sources at hand; the scenarios of the specification use 4 KiB
pages (`0x3001` is misaligned, `[0x1000,0x2000)` is one page). -/
def PAGE_SHIFT : Nat := 12

/-- The value of `1UL << PAGE_SHIFT`. -/
def PAGE_SIZE : Nat := 1 <<< PAGE_SHIFT

/-- The value of `~(PAGE_SIZE - 1)` as an `unsigned long`. -/
def PAGE_MASK : Nat := U64_MOD - PAGE_SIZE

/-- Numeric constants that the sources use but do not define (error codes,
fault-result bits, VMA and fault flags, cache-line geometry). Every function of
the embedding takes them as a parameter. -/
structure Consts where
  TASK_SIZE_MAX : Nat
  CONFIG_PCACHE_FILL_SPLIT_NR : Nat
  PCACHE_LINE_SIZE : Nat
  RET_ESRCH : Nat
  RET_EFAULT : Nat
  RET_ENOMEM : Nat
  RET_ESIGSEGV : Nat
  EINVAL : Nat
  ESRCH : Nat
  EFAULT : Nat
  VM_FAULT_OOM : Nat
  VM_FAULT_SIGBUS : Nat
  VM_FAULT_SIGSEGV : Nat
  VM_FAULT_ERROR : Nat
  VM_WRITE : Nat
  VM_GROWSDOWN : Nat
  FAULT_FLAG_WRITE : Nat
  PCACHE_MAPPING_FILE : Nat
  PCACHE_MAPPING_ANON : Nat
  PREFETCH_ORDER : Nat

/-- One concrete choice of the constants, used to evaluate the code on concrete
inputs: the usual x86-64 encodings (errno numbers, `VM_FAULT_*` bits with
`VM_FAULT_ERROR = OOM | SIGBUS | SIGSEGV | HWPOISON | HWPOISON_LARGE | FALLBACK`,
`VM_WRITE = 2`, `VM_GROWSDOWN = 0x100`, `FAULT_FLAG_WRITE = 1`, one fill per
page, a cache line of one page, a prefetch buffer of 8 pages); `RET_ESIGSEGV`,
which is no errno number, is given a value above the errno range. -/
def x86_consts : Consts where
  TASK_SIZE_MAX := 2 ^ 47 - 4096
  CONFIG_PCACHE_FILL_SPLIT_NR := 1
  PCACHE_LINE_SIZE := 4096
  RET_ESRCH := 3
  RET_EFAULT := 14
  RET_ENOMEM := 12
  RET_ESIGSEGV := 517
  EINVAL := 22
  ESRCH := 3
  EFAULT := 14
  VM_FAULT_OOM := 0x0001
  VM_FAULT_SIGBUS := 0x0002
  VM_FAULT_SIGSEGV := 0x0040
  VM_FAULT_ERROR := 0x0873
  VM_WRITE := 0x2
  VM_GROWSDOWN := 0x100
  FAULT_FLAG_WRITE := 0x01
  PCACHE_MAPPING_FILE := 1
  PCACHE_MAPPING_ANON := 2
  PREFETCH_ORDER := 3

/-! ## Leaf page-table entries -/

/-- Modelled from the spec: the page-table headers are not part of the sources at
hand. A leaf entry is a 64-bit word holding a page-aligned kernel virtual
address in its frame field and permission bits below it; this is the "present"
bit. -/
def _PAGE_PRESENT : Nat := 0x001

/-- Modelled from the spec: the page-table headers are missing; the "write" bit of
a leaf entry. -/
def _PAGE_RW : Nat := 0x002

/-- Modelled from the spec: the page-table headers are missing; the "dirty" bit of
a leaf entry. -/
def _PAGE_DIRTY : Nat := 0x040

/-- Modelled from the spec: the page-table headers are missing; the bit that keeps
a protection-none entry "present". -/
def _PAGE_PROTNONE : Nat := 0x100

/-- Modelled from the spec: `PTE_VFN_MASK` is missing from the sources; the
specification says the returned address is the entry "masked to the page
frame". -/
def PTE_VFN_MASK : Nat := PAGE_MASK

/-- The shift `(signed long)x >> n` on a 64-bit word, result kept as a 64-bit
pattern: the sign bit is replicated into the vacated positions. -/
def sar64 (x n : Nat) : Nat :=
  if x < 2 ^ 63 then x >>> n else (x >>> n) ||| (U64_MOD - 2 ^ (64 - n))

/-- Modelled from the spec: `lego_vfn_pte` is missing from the sources; it builds
a leaf entry from a virtual frame number and a protection template. -/
def lego_vfn_pte (vfn pgprot : Nat) : Nat :=
  ((vfn <<< PAGE_SHIFT) % U64_MOD) ||| pgprot

/-- Modelled from the spec: `pte_val` is missing from the sources; the raw word of
an entry. -/
def pte_val (pte : Nat) : Nat := pte

/-- Modelled from the spec: `pte_none` is missing from the sources; the absent
entry is the all-zero word. -/
def pte_none (pte : Nat) : Bool := pte == 0

/-- Modelled from the spec: `pte_present` is missing from the sources. -/
def pte_present (pte : Nat) : Bool := pte &&& (_PAGE_PRESENT ||| _PAGE_PROTNONE) != 0

/-- Modelled from the spec: `pte_same` is missing from the sources; equality of the
raw words. -/
def pte_same (a b : Nat) : Bool := a == b

/-- Modelled from the spec: `pte_write` is missing from the sources; tests the
write bit. -/
def pte_write (pte : Nat) : Bool := pte &&& _PAGE_RW != 0

/-- Modelled from the spec: `pte_dirty` is missing from the sources; tests the
dirty bit. -/
def pte_dirty (pte : Nat) : Bool := pte &&& _PAGE_DIRTY != 0

/-- Modelled from the spec: `pte_mkwrite` is missing from the sources; sets the
write bit. -/
def pte_mkwrite (pte : Nat) : Nat := pte ||| _PAGE_RW

/-- Modelled from the spec: `pte_mkdirty` is missing from the sources; sets the
dirty bit. -/
def pte_mkdirty (pte : Nat) : Nat := pte ||| _PAGE_DIRTY

/-- Modelled from the spec: `offset_in_page` is missing from the sources; the
byte offset of an address within its page, `p & ~PAGE_MASK`. -/
def offset_in_page (p : Nat) : Nat := p &&& (PAGE_SIZE - 1)

/-! ## Data model -/

/-- The argument block handed to a VMA's fault capability (`struct vm_fault`). -/
structure vm_fault where
  virtual_address : Nat
  pgoff : Nat
  flags : Nat
  page : Nat
deriving DecidableEq, Repr

/-- The capability set of a VMA (`struct vm_operations_struct`); only `fault` is
used by the code under study. The capability returns its result flags and the
argument block with `page` filled in. -/
structure vm_operations_struct where
  fault : Option (vm_fault → Nat × vm_fault)

/-- The fields of `struct vm_area_struct` that the code under study reads.
`vm_mm` is the pointer to the owning address space, `vm_file` the pointer to the
backing file (null for none). -/
structure vm_area_struct where
  vm_start : Nat
  vm_end : Nat
  vm_mm : Nat
  vm_page_prot : Nat
  vm_flags : Nat
  vm_ops : Option vm_operations_struct
  vm_pgoff : Nat
  vm_file : Option Nat := none

/-- Modelled from the spec: the page-table layout is missing from the sources.
Four levels, each slot keyed by the address bits that select it: `pgd` tells
whether the top-level slot `address >> 39` is populated, `pud` likewise for
`address >> 30`, `pmd` for `address >> 21`; `pte` is the leaf entry of page
`address >> 12` (zero when none). -/
structure PageTable where
  pgd : Nat → Bool
  pud : Nat → Bool
  pmd : Nat → Bool
  pte : Nat → Nat

/-- The fields of `struct lego_mm_struct` that the code under study touches:
the page table and the number of read holds on `mmap_sem`. -/
structure lego_mm_struct where
  pgd : PageTable
  mmap_sem : Nat

/-- The fields of `struct lego_task_struct` that the code under study reads;
`mm` is a pointer. -/
structure lego_task_struct where
  node : Nat
  pid : Nat
  mm : Nat
deriving DecidableEq, Repr

/-- Externally visible actions. -/
inductive Event where
  /-- The call `ibapi_reply_message(&v, size, desc)` on a local integer `v`. -/
  | reply (value : Int) (size : Nat) (desc : Nat)
  /-- The call `ibapi_reply_message((void *)addr, size, desc)` on kernel memory. -/
  | reply_mem (addr : Nat) (size : Nat) (desc : Nat)
  /-- The call `find_lego_task_by_pid(nid, pid)`. -/
  | find_task (nid pid : Nat)
  /-- The call `find_vma(mm, addr)`. -/
  | find_vma (mm addr : Nat)
  /-- The call `expand_stack(vma, addr)`, the VMA named by its start. -/
  | expand_stack (vm_start addr : Nat)
  /-- The call `handle_lego_mm_fault(vma, addr, flags, ..)`. -/
  | mm_fault (vm_start addr flags : Nat)
  /-- The call `vma->vm_ops->fault(vma, &vmf)`. -/
  | vm_fault (virtual_address pgoff flags : Nat)
  /-- A successful `__get_free_page`; `zeroed` records `__GFP_ZERO`. -/
  | get_free_page (zeroed : Bool) (addr : Nat)
  /-- A successful allocation of a page-table page for the given level (1 = pud
  table, 2 = pmd table, 3 = pte table). -/
  | pgtable_alloc (level : Nat) (addr : Nat)
  /-- The call `lego_copy_to_user(tsk, to, from, n)`. -/
  | copy_to_user (pid dst n : Nat)
  | down_read (mm : Nat)
  | up_read (mm : Nat)
  /-- A successful `__get_free_pages(gfp, order)`. -/
  | get_free_pages (order addr : Nat)
  /-- The call `storage_read(tsk, file, buf, count, &pos)`. -/
  | storage_read (file : Option Nat) (buf count pos : Nat)
deriving DecidableEq, Repr

/-- Ways the kernel stops instead of returning. -/
inductive Oops where
  | null_deref
  | bug
  | uninit
deriving DecidableEq, Repr

/-- State of the memory manager.

* `mms`: the address spaces, by pointer;
* `pool`: the answers the page allocator gives to the coming allocation calls,
  in order (`0` is a failed allocation, an exhausted list fails too);
* `racer`: an entry that a concurrent walker stores into the leaf slot this
  walker is about to lock, between this walker's first read of the slot and
  its acquisition of the page-table lock (`none`: no concurrent walker);
* `trace`: the actions performed so far. -/
structure State where
  mms : Nat → lego_mm_struct
  pool : List Nat
  racer : Option Nat
  trace : List Event

/-- The collaborators that live outside the sources at hand, as functions:
the task directory, the VMA index and the user copy. -/
structure Env where
  /-- The task with the given `(node, pid)`, if any. -/
  find_lego_task_by_pid : Nat → Nat → Option lego_task_struct
  /-- The result of `find_vma(mm, addr)`. -/
  find_vma : Nat → Nat → Option vm_area_struct
  /-- The result of `expand_stack(vma, addr)`: return value and the VMA as
  updated. -/
  expand_stack : vm_area_struct → Nat → Nat × vm_area_struct
  /-- The result of `lego_copy_to_user(tsk, to, from, n)`. -/
  lego_copy_to_user : lego_task_struct → Nat → List Nat → Nat → Nat

/-- Append an action to the trace. -/
def State.emit (s : State) (e : Event) : State :=
  { s with trace := s.trace ++ [e] }

/-- Replace the page table of address space `mm`. -/
def State.set_pgd (s : State) (mm : Nat) (pt : PageTable) : State :=
  { s with mms := Function.update s.mms mm { s.mms mm with pgd := pt } }

/-- The leaf entry stored in slot `slot` of address space `mm`. -/
def State.pte_at (s : State) (mm slot : Nat) : Nat :=
  (s.mms mm).pgd.pte slot

/-- Replace the leaf entry in slot `slot` of address space `mm`. -/
def State.set_pte (s : State) (mm slot entry : Nat) : State :=
  s.set_pgd mm { (s.mms mm).pgd with pte := Function.update (s.mms mm).pgd.pte slot entry }

/-! ## Allocator and page-table walk -/

/-- Modelled from the spec: the page allocator is an external collaborator
("allocate zeroed page"). The next answer is taken from `pool`; `0` or an
exhausted pool is a failed allocation. -/
def __get_free_page (zeroed : Bool) (s : State) : Nat × State :=
  match s.pool with
  | [] => (0, s)
  | a :: rest =>
    if a = 0 then (0, { s with pool := rest })
    else (a, { s with pool := rest, trace := s.trace ++ [Event.get_free_page zeroed a] })

/-- Modelled from the spec: allocation of one page-table page for `level`
(1 = pud table, 2 = pmd table, 3 = pte table), served by the same allocator. -/
def pgtable_page_alloc (level : Nat) (s : State) : Nat × State :=
  match s.pool with
  | [] => (0, s)
  | a :: rest =>
    if a = 0 then (0, { s with pool := rest })
    else (a, { s with pool := rest, trace := s.trace ++ [Event.pgtable_alloc level a] })

/-- Modelled from the spec: `lego_pgd_offset` is missing from the sources; the
top-level slot selected by `address`. -/
def lego_pgd_offset (_mm address : Nat) : Nat := address >>> 39

/-- Modelled from the spec: `lego_pud_alloc` is missing from the sources ("each
level allocated lazily on first touch; allocation failure reports
out-of-memory"). Returns the pud slot of `address`, after populating the pgd
slot when it is empty; `none` is the null pointer. -/
def lego_pud_alloc (mm pgd address : Nat) (s : State) : Option Nat × State :=
  if (s.mms mm).pgd.pgd pgd then (some (address >>> 30), s)
  else
    let r := pgtable_page_alloc 1 s
    if r.1 = 0 then (none, r.2)
    else (some (address >>> 30),
      r.2.set_pgd mm { (r.2.mms mm).pgd with pgd := Function.update (r.2.mms mm).pgd.pgd pgd true })

/-- Modelled from the spec: `lego_pmd_alloc` is missing from the sources; same
discipline one level down. Returns the pmd slot of `address`. -/
def lego_pmd_alloc (mm pud address : Nat) (s : State) : Option Nat × State :=
  if (s.mms mm).pgd.pud pud then (some (address >>> 21), s)
  else
    let r := pgtable_page_alloc 2 s
    if r.1 = 0 then (none, r.2)
    else (some (address >>> 21),
      r.2.set_pgd mm { (r.2.mms mm).pgd with pud := Function.update (r.2.mms mm).pgd.pud pud true })

/-- Modelled from the spec: `lego_pte_alloc` is missing from the sources; same
discipline for the leaf table. Returns the leaf slot of `address`. -/
def lego_pte_alloc (mm pmd address : Nat) (s : State) : Option Nat × State :=
  if (s.mms mm).pgd.pmd pmd then (some (address >>> PAGE_SHIFT), s)
  else
    let r := pgtable_page_alloc 3 s
    if r.1 = 0 then (none, r.2)
    else (some (address >>> PAGE_SHIFT),
      r.2.set_pgd mm { (r.2.mms mm).pgd with pmd := Function.update (r.2.mms mm).pgd.pmd pmd true })

/-- Acquisition of the page-table lock that guards leaf slot `slot`: a pending
store of a concurrent walker lands in the slot before the lock is obtained. -/
def spin_lock_pte (mm slot : Nat) (s : State) : State :=
  match s.racer with
  | none => s
  | some e => ({ s with racer := none }).set_pte mm slot e

/-- Modelled from the spec: `lego_pte_offset_lock` is missing from the sources;
it recomputes the leaf slot of `address` and returns it with the page-table
lock held. -/
def lego_pte_offset_lock (mm _pmd address : Nat) (s : State) : Nat × State :=
  (address >>> PAGE_SHIFT, spin_lock_pte mm (address >>> PAGE_SHIFT) s)

/-- Modelled from the spec: `lego_pte_unlock` is missing from the sources; lock
ownership is not part of the state, so releasing changes nothing. -/
def lego_pte_unlock (s : State) : State := s

/-- Modelled from the spec: `pte_set` is missing from the sources; stores an entry
into a leaf slot. -/
def pte_set (mm page_table entry : Nat) (s : State) : State :=
  s.set_pte mm page_table entry

/-! ## managers/memory/vm/fault.c -/

/-- Result of the inner fault routines: the returned `VM_FAULT_*` flags, the
value written through `mapping_flags` (if written) and the state. -/
structure PteFaultOut where
  ret : Nat
  mapping_flags : Option Nat
  st : State

/-- Source `do_swap_page`: a fatal placeholder. -/
def do_swap_page : Except Oops PteFaultOut := .error .bug

/-- Source `do_wp_page`: a fatal placeholder. -/
def do_wp_page : Except Oops PteFaultOut := .error .bug

/-- Source `__do_fault`. The parameter `mapping_flags` tells whether the
caller passed a non-null pointer. -/
def __do_fault (c : Consts) (mm : Nat) (vma : vm_area_struct) (address pmd pgoff flags orig_pte : Nat)
    (mapping_flags : Bool) (s : State) : Except Oops PteFaultOut :=
  let vmf : vm_fault :=
    { virtual_address := address &&& PAGE_MASK, pgoff := pgoff, flags := flags, page := 0 }
  match vma.vm_ops with
  | none => .error .null_deref
  | some ops =>
    match ops.fault with
    | none => .error .null_deref
    | some fault =>
      let r := fault vmf
      let s := s.emit (.vm_fault vmf.virtual_address vmf.pgoff vmf.flags)
      let ret := r.1
      let vmf := r.2
      if ret &&& c.VM_FAULT_ERROR ≠ 0 then .ok ⟨ret, none, s⟩
      else
        let l := lego_pte_offset_lock mm pmd address s
        let page_table := l.1
        let s := l.2
        let s :=
          if pte_same (s.pte_at mm page_table) orig_pte then
            let entry := lego_vfn_pte (sar64 vmf.page PAGE_SHIFT) vma.vm_page_prot
            let entry := if flags &&& c.FAULT_FLAG_WRITE ≠ 0 then pte_mkwrite (pte_mkdirty entry) else entry
            pte_set mm page_table entry s
          else s
        let s := lego_pte_unlock s
        .ok ⟨0, if mapping_flags then some c.PCACHE_MAPPING_FILE else none, s⟩

/-- Source `do_linear_fault`. Unsigned 64-bit arithmetic. -/
def do_linear_fault (c : Consts) (vma : vm_area_struct) (address flags _page_table pmd orig_pte : Nat)
    (mapping_flags : Bool) (s : State) : Except Oops PteFaultOut :=
  let pgoff := ((((address &&& PAGE_MASK) + U64_MOD - vma.vm_start % U64_MOD) % U64_MOD)
      >>> PAGE_SHIFT) + vma.vm_pgoff
  __do_fault c vma.vm_mm vma address pmd (pgoff % U64_MOD) flags orig_pte mapping_flags s

/-- Source `do_anonymous_page`. -/
def do_anonymous_page (c : Consts) (vma : vm_area_struct) (address _flags _page_table pmd : Nat)
    (mapping_flags : Bool) (s : State) : Except Oops PteFaultOut :=
  let mm := vma.vm_mm
  let a := __get_free_page true s
  let vaddr := a.1
  let s := a.2
  if vaddr = 0 then .ok ⟨c.VM_FAULT_OOM, none, s⟩
  else
    let entry := lego_vfn_pte (sar64 vaddr PAGE_SHIFT) vma.vm_page_prot
    let entry := if vma.vm_flags &&& c.VM_WRITE ≠ 0 then pte_mkwrite (pte_mkdirty entry) else entry
    let l := lego_pte_offset_lock mm pmd address s
    let page_table := l.1
    let s := l.2
    let s := if !pte_none (s.pte_at mm page_table) then s else pte_set mm page_table entry s
    let s := lego_pte_unlock s
    .ok ⟨0, if mapping_flags then some c.PCACHE_MAPPING_ANON else none, s⟩

/-- Source `handle_pte_fault`. -/
def handle_pte_fault (c : Consts) (vma : vm_area_struct) (address flags pte pmd : Nat)
    (mapping_flags : Bool) (s : State) : Except Oops PteFaultOut :=
  let mm := vma.vm_mm
  let entry := s.pte_at mm pte
  if !pte_present entry then
    if pte_none entry then
      match vma.vm_ops with
      | some ops =>
        if ops.fault.isSome then do_linear_fault c vma address flags pte pmd entry mapping_flags s
        else do_anonymous_page c vma address flags pte pmd mapping_flags s
      | none => do_anonymous_page c vma address flags pte pmd mapping_flags s
    else do_swap_page
  else
    let s := spin_lock_pte mm pte s
    if !pte_same (s.pte_at mm pte) entry then .ok ⟨0, none, lego_pte_unlock s⟩
    else if flags &&& c.FAULT_FLAG_WRITE ≠ 0 then
      if !pte_write entry then do_wp_page
      else
        let entry := pte_mkdirty entry
        let s := if !pte_same (s.pte_at mm pte) entry then s.set_pte mm pte entry else s
        .ok ⟨0, none, lego_pte_unlock s⟩
    else .ok ⟨0, none, lego_pte_unlock s⟩

/-- Result of `handle_lego_mm_fault`: the returned flags, the values written
through `ret_va` and `mapping_flags` (if written) and the state. -/
structure FaultOut where
  ret : Nat
  ret_va : Option Nat
  mapping_flags : Option Nat
  st : State

/-- Source `handle_lego_mm_fault`. -/
def handle_lego_mm_fault (c : Consts) (vma : vm_area_struct) (address flags : Nat)
    (mapping_flags : Bool) (s : State) : Except Oops FaultOut :=
  let mm := vma.vm_mm
  let s := s.emit (.mm_fault vma.vm_start address flags)
  let pgd := lego_pgd_offset mm address
  let r1 := lego_pud_alloc mm pgd address s
  match r1.1 with
  | none => .ok ⟨c.VM_FAULT_OOM, none, none, r1.2⟩
  | some pud =>
    let r2 := lego_pmd_alloc mm pud address r1.2
    match r2.1 with
    | none => .ok ⟨c.VM_FAULT_OOM, none, none, r2.2⟩
    | some pmd =>
      let r3 := lego_pte_alloc mm pmd address r2.2
      match r3.1 with
      | none => .ok ⟨c.VM_FAULT_OOM, none, none, r3.2⟩
      | some pte =>
        match handle_pte_fault c vma address flags pte pmd mapping_flags r3.2 with
        | .error e => .error e
        | .ok out =>
          if out.ret ≠ 0 then .ok ⟨out.ret, none, out.mapping_flags, out.st⟩
          else
            .ok ⟨0, some (pte_val (out.st.pte_at mm pte) &&& PTE_VFN_MASK), out.mapping_flags, out.st⟩

/-- Modelled from the spec: `__get_free_pages` belongs to the external page
allocator; it hands out `2 ^ order` contiguous pages, the next answer of the
allocator being the address of the first (`0` or an exhausted pool: failure).
The extent of the buffer, `2 ^ order` pages from the returned address, is
recorded with the action; `buffer_page` and `inside_buffer` read it. -/
def __get_free_pages (order : Nat) (s : State) : Nat × State :=
  match s.pool with
  | [] => (0, s)
  | a :: rest =>
    if a = 0 then (0, { s with pool := rest })
    else (a, { s with pool := rest, trace := s.trace ++ [Event.get_free_pages order a] })

/-- The address of page `i` of the buffer of `2 ^ order` contiguous pages that
`__get_free_pages(gfp, order)` returned at `buf`; the buffer has no page `i`
from `2 ^ order` on. -/
def buffer_page (order buf i : Nat) : Option Nat :=
  if i < 2 ^ order then some (buf + i * PAGE_SIZE) else none

/-- Every byte of the range `[addr, addr + size)` lies inside the buffer of
`2 ^ order` contiguous pages that `__get_free_pages(gfp, order)` returned at
`buf`. -/
def inside_buffer (order buf addr size : Nat) : Prop :=
  buf ≤ addr ∧ addr + size ≤ buf + 2 ^ order * PAGE_SIZE

instance (order buf addr size : Nat) : Decidable (inside_buffer order buf addr size) := by
  unfold inside_buffer
  infer_instance

/-- The macro `round_down(x, y)` for a power of two `y` on 64-bit words:
`x & ~(y - 1)`. -/
def round_down (x y : Nat) : Nat := x &&& (U64_MOD - y)

/-- Source `__do_prefetch_fault`. -/
def __do_prefetch_fault (c : Consts) (mm : Nat) (vma : vm_area_struct)
    (address pmd pgoff flags orig_pte page : Nat) (s : State) : Nat × State :=
  let vmf : vm_fault :=
    { virtual_address := address &&& PAGE_MASK, pgoff := pgoff, flags := flags, page := page }
  let ret := 0
  if ret &&& c.VM_FAULT_ERROR ≠ 0 then (ret, s)
  else
    let l := lego_pte_offset_lock mm pmd address s
    let page_table := l.1
    let s := l.2
    let s :=
      if pte_same (s.pte_at mm page_table) orig_pte then
        let entry := lego_vfn_pte (sar64 vmf.page PAGE_SHIFT) vma.vm_page_prot
        let entry := if vma.vm_flags &&& c.VM_WRITE ≠ 0 then pte_mkwrite (pte_mkdirty entry) else entry
        pte_set mm page_table entry s
      else s
    let s := lego_pte_unlock s
    (0, s)

/-- Source `do_linear_prefetch_fault`. Unsigned 64-bit arithmetic. -/
def do_linear_prefetch_fault (c : Consts) (vma : vm_area_struct)
    (address flags _page_table pmd orig_pte page : Nat) (s : State) : Nat × State :=
  let pgoff := ((((address &&& PAGE_MASK) + U64_MOD - vma.vm_start % U64_MOD) % U64_MOD)
      >>> PAGE_SHIFT) + vma.vm_pgoff
  __do_prefetch_fault c vma.vm_mm vma address pmd (pgoff % U64_MOD) flags orig_pte page s

/-- Source `handle_prefetch_pte_fault`. -/
def handle_prefetch_pte_fault (c : Consts) (vma : vm_area_struct) (address flags pte pmd page : Nat)
    (s : State) : Nat × State :=
  let entry := s.pte_at vma.vm_mm pte
  do_linear_prefetch_fault c vma address flags pte pmd entry page s

/-- The `for` loop of `handle_lego_mmap_faults`; the first argument is the number
of iterations still to run, `nr_pages - i`. -/
def mmap_faults_loop (c : Consts) (vma : vm_area_struct) (flags : Nat) :
    Nat → Nat → Nat → State → Nat × State
  | 0, _, _, s => (0, s)
  | n + 1, cur_addr, cur_page_addr, s =>
    let mm := vma.vm_mm
    let pgd := lego_pgd_offset mm cur_addr
    let r1 := lego_pud_alloc mm pgd cur_addr s
    match r1.1 with
    | none => (c.VM_FAULT_OOM, r1.2)
    | some pud =>
      let r2 := lego_pmd_alloc mm pud cur_addr r1.2
      match r2.1 with
      | none => (c.VM_FAULT_OOM, r2.2)
      | some pmd =>
        let r3 := lego_pte_alloc mm pmd cur_addr r2.2
        match r3.1 with
        | none => (c.VM_FAULT_OOM, r3.2)
        | some pte =>
          let s :=
            if !pte_none (r3.2.pte_at mm pte) then r3.2
            else (handle_prefetch_pte_fault c vma cur_addr flags pte pmd cur_page_addr r3.2).2
          mmap_faults_loop c vma flags n ((cur_addr + PAGE_SIZE) % U64_MOD)
            ((cur_page_addr + PAGE_SIZE) % U64_MOD) s

/-- Source `handle_lego_mmap_faults`. The task handed to `storage_read` is the
owner of the address space and is not recorded. -/
def handle_lego_mmap_faults (c : Consts) (vma : vm_area_struct) (address flags nr_pages : Nat)
    (s : State) : Nat × State :=
  let cur_addr := round_down address PAGE_SIZE
  let a := __get_free_pages c.PREFETCH_ORDER s
  let pages := a.1
  let s := a.2
  if pages = 0 then (c.VM_FAULT_OOM, s)
  else
    let pgoff := (((((address &&& PAGE_MASK) + U64_MOD - vma.vm_start % U64_MOD) % U64_MOD)
        >>> PAGE_SHIFT) + vma.vm_pgoff) % U64_MOD
    let file := vma.vm_file
    let count := (nr_pages * PAGE_SIZE) % U64_MOD
    let pos := (pgoff <<< PAGE_SHIFT) % U64_MOD
    let s := s.emit (.storage_read file pages count pos)
    let cur_page_addr := pages
    mmap_faults_loop c vma flags nr_pages cur_addr cur_page_addr s

/-! ## managers/memory/handle_pcache.c -/

/-- The fields of the LLC-miss request (`struct p2m_llc_miss_struct`). -/
structure p2m_llc_miss_struct where
  pid : Nat
  flags : Nat
  missing_vaddr : Nat
  offset : Nat
deriving DecidableEq, Repr

/-- The field of the shared envelope (`struct common_header`) that the handlers
read. -/
structure common_header where
  src_nid : Nat
deriving DecidableEq, Repr

/-- Modelled from the spec: `down_read` is missing from the sources; one more read
hold on the address-space semaphore. -/
def down_read (mm : Nat) (s : State) : State :=
  ({ s with mms := Function.update s.mms mm { s.mms mm with mmap_sem := (s.mms mm).mmap_sem + 1 } }).emit
    (.down_read mm)

/-- Modelled from the spec: `up_read` is missing from the sources; one read hold
fewer on the address-space semaphore. -/
def up_read (mm : Nat) (s : State) : State :=
  ({ s with mms := Function.update s.mms mm { s.mms mm with mmap_sem := (s.mms mm).mmap_sem - 1 } }).emit
    (.up_read mm)

/-- Source `llc_miss_error`. The `WARN(1, ..)` line formats `p->node` and
`p->pid`, so it reads both fields of `p` before the reply is sent; with a null
`p` that read stops the kernel. The parameter `retval` is a `u32`. -/
def llc_miss_error (retval desc : Nat) (p : Option lego_task_struct) (_vaddr : Nat) (s : State) :
    Except Oops State :=
  match p with
  | none => .error .null_deref
  | some _ => .ok (s.emit (.reply ((retval % U32_MOD : Nat) : Int) 4 desc))

/-- Source `bad_area`; all its callers pass a valid `p`. -/
def bad_area (c : Consts) (_p : lego_task_struct) (_vaddr _offset desc : Nat) (s : State) : State :=
  s.emit (.reply ((c.RET_ESIGSEGV % U32_MOD : Nat) : Int) 4 desc)

/-- The block of `do_handle_p2m_llc_miss` from the label `good_area` to the end
of the function. The call passes no `mapping_flags` pointer. -/
def good_area (c : Consts) (p : lego_task_struct) (vma : vm_area_struct)
    (vaddr offset flags desc : Nat) (s : State) : Except Oops State :=
  match handle_lego_mm_fault c vma vaddr flags false s with
  | .error e => .error e
  | .ok out =>
    let ret := out.ret
    if ret &&& c.VM_FAULT_ERROR ≠ 0 then
      let ret :=
        if ret &&& c.VM_FAULT_OOM ≠ 0 then c.RET_ENOMEM
        else if ret &&& (c.VM_FAULT_SIGBUS ||| c.VM_FAULT_SIGSEGV) ≠ 0 then c.RET_ESIGSEGV
        else ret
      llc_miss_error ret desc (some p) vaddr out.st
    else
      let s := up_read p.mm out.st
      match out.ret_va with
      | none => .error .uninit
      | some new_page =>
        .ok (s.emit (.reply_mem ((new_page + offset) % U64_MOD)
          (PAGE_SIZE / c.CONFIG_PCACHE_FILL_SPLIT_NR) desc))

/-- Source `do_handle_p2m_llc_miss`. -/
def do_handle_p2m_llc_miss (env : Env) (c : Consts) (p : lego_task_struct)
    (vaddr offset flags desc : Nat) (s : State) : Except Oops State :=
  let mm := p.mm
  let s := down_read mm s
  let s := s.emit (.find_vma mm vaddr)
  match env.find_vma mm vaddr with
  | none => .ok (bad_area c p vaddr offset desc s)
  | some vma =>
    if vma.vm_start ≤ vaddr then good_area c p vma vaddr offset flags desc s
    else if vma.vm_flags &&& c.VM_GROWSDOWN = 0 then .ok (bad_area c p vaddr offset desc s)
    else
      let s := s.emit (.expand_stack vma.vm_start vaddr)
      let r := env.expand_stack vma vaddr
      if r.1 ≠ 0 then .ok (bad_area c p vaddr offset desc s)
      else good_area c p r.2 vaddr offset flags desc s

/-- Source `fault_in_kernel_space`. -/
def fault_in_kernel_space (c : Consts) (address : Nat) : Bool :=
  decide (address ≥ c.TASK_SIZE_MAX)

/-- Source `handle_p2m_llc_miss`; the returned integer is always `0`. -/
def handle_p2m_llc_miss (env : Env) (c : Consts) (payload : p2m_llc_miss_struct) (desc : Nat)
    (hdr : common_header) (s : State) : Except Oops (Int × State) :=
  let flags := payload.flags
  let vaddr := payload.missing_vaddr
  let offset := payload.offset
  let s := s.emit (.find_task hdr.src_nid payload.pid)
  let p := env.find_lego_task_by_pid hdr.src_nid payload.pid
  match p with
  | none =>
    match llc_miss_error c.RET_ESRCH desc p vaddr s with
    | .error e => .error e
    | .ok s => .ok (0, s)
  | some t =>
    if fault_in_kernel_space c vaddr then
      match llc_miss_error c.RET_EFAULT desc p vaddr s with
      | .error e => .error e
      | .ok s => .ok (0, s)
    else
      match do_handle_p2m_llc_miss env c t vaddr offset flags desc s with
      | .error e => .error e
      | .ok s => .ok (0, s)

/-! ## managers/memory/pcache/clflush.c -/

/-- The fields of the flush request (`struct p2m_flush_payload`). -/
structure p2m_flush_payload where
  pid : Nat
  user_va : Nat
  pcacheline : List Nat
deriving DecidableEq, Repr

/-- The block of `handle_p2m_flush_one` from the label `out_reply` on: the reply
is an `int`, so `sizeof(reply)` is 4. -/
def out_reply (reply : Int) (desc : Nat) (s : State) : Int × State :=
  (0, s.emit (.reply reply 4 desc))

/-- Source `handle_p2m_flush_one`. -/
def handle_p2m_flush_one (env : Env) (c : Consts) (payload : p2m_flush_payload) (desc : Nat)
    (hdr : common_header) (s : State) : Int × State :=
  let pid := payload.pid
  let user_va := payload.user_va
  if offset_in_page user_va ≠ 0 then out_reply (-(c.EINVAL : Int)) desc s
  else
    let s := s.emit (.find_task hdr.src_nid pid)
    match env.find_lego_task_by_pid hdr.src_nid pid with
    | none => out_reply (-(c.ESRCH : Int)) desc s
    | some tsk =>
      let s := s.emit (.copy_to_user tsk.pid user_va c.PCACHE_LINE_SIZE)
      if env.lego_copy_to_user tsk user_va payload.pcacheline c.PCACHE_LINE_SIZE = 0 then
        out_reply (-(c.EFAULT : Int)) desc s
      else out_reply 0 desc s

/-! ## Trace queries and concrete scenarios -/

/-- Is the action a reply to the requester? -/
def Event.is_reply : Event → Bool
  | .reply _ _ _ => true
  | .reply_mem _ _ _ => true
  | _ => false

/-- Is the action a call of `handle_lego_mm_fault`? -/
def Event.is_mm_fault : Event → Bool
  | .mm_fault _ _ _ => true
  | _ => false

/-- Is the action a call of `find_vma`? -/
def Event.is_find_vma : Event → Bool
  | .find_vma _ _ => true
  | _ => false

/-- Is the action a call of `lego_copy_to_user`? -/
def Event.is_copy_to_user : Event → Bool
  | .copy_to_user _ _ _ => true
  | _ => false

/-- Is the action a call of `find_lego_task_by_pid`? -/
def Event.is_find_task : Event → Bool
  | .find_task _ _ => true
  | _ => false

/-- A page table with nothing populated. -/
def empty_pgd : PageTable :=
  { pgd := fun _ => false, pud := fun _ => false, pmd := fun _ => false, pte := fun _ => 0 }

/-- A state in which every address space is empty and unlocked, with the given
allocator answers and no concurrent walker. -/
def init_state (pool : List Nat) : State :=
  { mms := fun _ => { pgd := empty_pgd, mmap_sem := 0 }, pool := pool, racer := none, trace := [] }

/-- The anonymous writable VMA `[0x1000,0x2000)` of the scenario, in address
space 0, with a read-only user protection template. -/
def anon_vma : vm_area_struct :=
  { vm_start := 0x1000, vm_end := 0x2000, vm_mm := 0, vm_page_prot := 0x25, vm_flags := 0x3,
    vm_ops := none, vm_pgoff := 0 }

/-- A directory with the single task `(node 1, pid 42)` on address space 0, a
VMA index holding `anon_vma` only, a stack expansion that always fails and a
user copy that always succeeds. -/
def demo_env : Env :=
  { find_lego_task_by_pid := fun nid pid =>
      if nid = 1 ∧ pid = 42 then some { node := 1, pid := 42, mm := 0 } else none
    find_vma := fun _ addr => if addr < anon_vma.vm_end then some anon_vma else none
    expand_stack := fun vma _ => (1, vma)
    lego_copy_to_user := fun _ _ _ n => n }

/-- The trace of a run of `handle_p2m_llc_miss` that returned. -/
def llc_trace : Except Oops (Int × State) → Option (List Event)
  | .ok r => some r.2.trace
  | .error _ => none

/-- The leaf entry of slot `slot` of address space `mm` after a run of
`handle_p2m_llc_miss` that returned. -/
def llc_pte_at (mm slot : Nat) : Except Oops (Int × State) → Option Nat
  | .ok r => some (r.2.pte_at mm slot)
  | .error _ => none

/-- Every byte of the range `[addr, addr + size)` lies inside the page that
starts at `page`. -/
def reply_inside_page (page addr size : Nat) : Prop :=
  size = 0 ∨ (page ≤ addr ∧ addr + size ≤ page + PAGE_SIZE)

instance (page addr size : Nat) : Decidable (reply_inside_page page addr size) := by
  unfold reply_inside_page
  infer_instance

/-- A file-backed VMA `[0x4000,0x6000)` in address space 0 whose fault capability
reports a poisoned page (`VM_FAULT_HWPOISON = 0x10`). -/
def poison_vma : vm_area_struct :=
  { vm_start := 0x4000, vm_end := 0x6000, vm_mm := 0, vm_page_prot := 0x25, vm_flags := 0x1,
    vm_ops := some { fault := some (fun vmf => (0x10, vmf)) }, vm_pgoff := 0 }

/-- The environment `demo_env` with `poison_vma` as the only VMA. -/
def poison_env : Env :=
  { demo_env with find_vma := fun _ addr => if addr < poison_vma.vm_end then some poison_vma else none }

/-- Four kernel pages that the allocator hands out in the scenarios. -/
def demo_pool : List Nat :=
  [0xffff880000101000, 0xffff880000102000, 0xffff880000103000, 0xffff880000200000]

/-- A grows-down stack VMA `[0x7000,0x8000)` in address space 0. -/
def stack_vma : vm_area_struct :=
  { vm_start := 0x7000, vm_end := 0x8000, vm_mm := 0, vm_page_prot := 0x25, vm_flags := 0x103,
    vm_ops := none, vm_pgoff := 0 }

/-- The environment `demo_env` with `stack_vma` as the only VMA and a stack
expansion that succeeds, lowering the start of the VMA to the page of the
address. -/
def stack_env : Env :=
  { demo_env with
    find_vma := fun _ addr => if addr < stack_vma.vm_end then some stack_vma else none
    expand_stack := fun vma addr => (0, { vma with vm_start := addr &&& PAGE_MASK }) }

/-- The leaf entry of slot `slot` of address space `mm` after a run of
`handle_lego_mm_fault` that returned. -/
def fault_pte_at (mm slot : Nat) : Except Oops FaultOut → Option Nat
  | .ok out => some (out.st.pte_at mm slot)
  | .error _ => none

/-- Is the action a successful `__get_free_page`? -/
def Event.is_get_free_page : Event → Bool
  | .get_free_page _ _ => true
  | _ => false

/-- A read-only file-backed VMA `[0x4000,0x6000)` in address space 0 (`vm_flags`
is `VM_READ` alone, the template has neither the write nor the dirty bit) whose
fault capability supplies the kernel page `0xffff880000300000`. -/
def ro_file_vma : vm_area_struct :=
  { vm_start := 0x4000, vm_end := 0x6000, vm_mm := 0, vm_page_prot := 0x25, vm_flags := 0x1,
    vm_ops := some { fault := some (fun vmf => (0, { vmf with page := 0xffff880000300000 })) },
    vm_pgoff := 0 }

/-- Is the action a call of a VMA's fault capability? -/
def Event.is_vm_fault : Event → Bool
  | .vm_fault _ _ _ => true
  | _ => false

/-- Is the action the allocation of a page-table page of a level at or below
`level` in the tree (level numbers grow downwards: 1 = pud table, 2 = pmd
table, 3 = pte table)? -/
def Event.is_pgtable_alloc_from (level : Nat) : Event → Bool
  | .pgtable_alloc l _ => decide (level ≤ l)
  | _ => false

/-- The state of a walker that loses the race for the page of `0x1500` in
address space 0: empty page table, its own four allocator answers, and a
concurrent walker that stores the entry `0xffff880000200067` before this walker
takes the page-table lock. -/
def racing_state : State :=
  { init_state [0xffff880000111000, 0xffff880000112000, 0xffff880000113000, 0xffff880000400000] with
    racer := some 0xffff880000200067 }

/-- Is the action a call of `storage_read`? -/
def Event.is_storage_read : Event → Bool
  | .storage_read _ _ _ _ => true
  | _ => false

/-- The leaf entry that the prefetch path builds for the kernel page `page` in
`vma`: the template entry, with the write and dirty bits when the VMA is
writable. -/
def prefetch_entry (c : Consts) (vma : vm_area_struct) (page : Nat) : Nat :=
  if vma.vm_flags &&& c.VM_WRITE ≠ 0 then
    pte_mkwrite (pte_mkdirty (lego_vfn_pte (sar64 page PAGE_SHIFT) vma.vm_page_prot))
  else lego_vfn_pte (sar64 page PAGE_SHIFT) vma.vm_page_prot

/-- Is the action a successful `__get_free_pages`? -/
def Event.is_get_free_pages : Event → Bool
  | .get_free_pages _ _ => true
  | _ => false

/-- The file-backed VMA `[0x4000,0x6000)` of the scenario, in address space 0, at
file offset 0 of file 7, read-only, whose fault capability supplies the kernel
page `0xffff880000300000`. -/
def file_vma : vm_area_struct :=
  { ro_file_vma with vm_file := some 7 }

/-- A state for the prefetch scenario: address space 0 has the tables of its
first 2 MiB populated (top-level slot 0, pud slot 0, pmd slot 0) and already
maps the page of `0x5000` (slot 5) to the entry `0xffff880000700025`; the
allocator has a buffer at `0xffff880000800000` and six more pages. -/
def prefetch_state : State :=
  ((init_state [0xffff880000800000, 0xffff880000101000, 0xffff880000102000, 0xffff880000103000,
    0xffff880000104000, 0xffff880000105000, 0xffff880000106000]).set_pgd 0
      { pgd := fun i => decide (i = 0), pud := fun i => decide (i = 0),
        pmd := fun i => decide (i = 0), pte := fun _ => 0 }).set_pte 0 5 0xffff880000700025

/-- A file-backed VMA `[0x4000,0x10000)` of twelve pages in address space 0, at
file offset 0 of file 7, read-only. -/
def wide_file_vma : vm_area_struct :=
  { file_vma with vm_end := 0x10000 }

/-- A state for the oversized prefetch: empty address space 0; the allocator has
a buffer at `0xffff880000800000` and three pages for the page tables. -/
def oversized_prefetch_state : State :=
  init_state [0xffff880000800000, 0xffff880000101000, 0xffff880000102000, 0xffff880000103000]

/-- The task `(node 1, pid 42)` of `demo_env`, on address space 0. -/
def demo_task : lego_task_struct := { node := 1, pid := 42, mm := 0 }

/-- The number of read holds on `mmap_sem` of address space `mm` and the replies
sent, after a run of `do_handle_p2m_llc_miss` that returned. -/
def llc_sem_and_replies (mm : Nat) : Except Oops State → Option (Nat × List Event)
  | .ok s => some ((s.mms mm).mmap_sem, s.trace.filter Event.is_reply)
  | .error _ => none

/-! ## kernel/sched/core.c: run-queues, wakeup and the core scheduling step -/

/-- Constants of the scheduler headers (`lego/sched.h`, `kernel/sched/sched.h`),
which the sources use but do not define; every scheduler function of the
embedding takes them as a parameter. `RETRY_TASK` is the marker pointer a class
returns to restart the scan of `pick_next_task`. -/
structure SchedConsts where
  NR_CPUS : Nat
  TASK_RUNNING : Nat
  TASK_INTERRUPTIBLE : Nat
  TASK_UNINTERRUPTIBLE : Nat
  TASK_DEAD : Nat
  TASK_WAKING : Nat
  TASK_NORMAL : Nat
  TASK_ON_RQ_QUEUED : Nat
  TASK_ON_RQ_MIGRATING : Nat
  RQCF_ACT_SKIP : Nat
  DEQUEUE_SLEEP : Nat
  SD_BALANCE_WAKE : Nat
  RETRY_TASK : Nat
  RQCF_REQ_SKIP : Nat
  DEQUEUE_SAVE : Nat
  ENQUEUE_RESTORE : Nat
  PF_NO_SETAFFINITY : Nat
  EINVAL : Nat
  ESRCH : Nat

/-- One concrete choice of the scheduler constants, used to evaluate the code on
concrete inputs: the usual Linux encodings (`TASK_RUNNING = 0`, the sleep states
bits 0 and 1, `TASK_NORMAL` their union, `RETRY_TASK = (void *)-1UL`) on a
machine with four CPUs. -/
def linux_sched_consts : SchedConsts where
  NR_CPUS := 4
  TASK_RUNNING := 0
  TASK_INTERRUPTIBLE := 1
  TASK_UNINTERRUPTIBLE := 2
  TASK_DEAD := 64
  TASK_WAKING := 256
  TASK_NORMAL := 3
  TASK_ON_RQ_QUEUED := 1
  TASK_ON_RQ_MIGRATING := 2
  RQCF_ACT_SKIP := 2
  DEQUEUE_SLEEP := 1
  SD_BALANCE_WAKE := 16
  RETRY_TASK := 2 ^ 64 - 1
  RQCF_REQ_SKIP := 1
  DEQUEUE_SAVE := 2
  ENQUEUE_RESTORE := 2
  PF_NO_SETAFFINITY := 0x04000000
  EINVAL := 22
  ESRCH := 3

/-- Modelled from the spec: the scheduling classes are the fixed variants
real-time, fair-share and idle; the class objects themselves (`rt.c`, `fair.c`,
`idle.c`) are not part of the sources at hand. -/
inductive sched_class
  | rt
  | fair
  | idle
  deriving DecidableEq, Repr

/-- Modelled from the spec: `for_each_class` walks the classes in the fixed
priority order real-time, fair-share, idle. -/
def for_each_class : List sched_class := [sched_class.rt, sched_class.fair, sched_class.idle]

/-- The fields of `struct task_struct` that `core.c` reads or writes on the paths
embedded here. A task pointer is an index (`Nat`), 0 being the null pointer.
`cpu` is `task_thread_info(p)->cpu`, `need_resched` the `TIF_NEED_RESCHED`
flag, `cpus_allowed` a bit mask (bit `i` is CPU `i`). -/
structure task_struct where
  state : Nat := 0
  flags : Nat := 0
  on_cpu : Nat := 0
  on_rq : Nat := 0
  cpu : Nat := 0
  wake_cpu : Nat := 0
  need_resched : Bool := false
  nr_cpus_allowed : Nat := 1
  cpus_allowed : Nat := 1
  in_iowait : Nat := 0
  sched_class : LegoOS.sched_class := LegoOS.sched_class.fair
  deriving DecidableEq

/-- The fields of `struct rq` used by `core.c`. A run-queue pointer is the index
of its CPU in the per-CPU array `runqueues`; `cpu` is the field `rq->cpu` read
by `cpu_of`. Modelled from the spec: `queue` stands for the per-class
sub-queues, the tasks that the class operations have enqueued and not yet
dequeued, in order of arrival. -/
structure rq where
  nr_switches : Nat := 0
  nr_uninterruptible : Nat := 0
  nr_iowait : Nat := 0
  curr : Nat := 0
  idle : Nat := 0
  clock : Nat := 0
  clock_task : Nat := 0
  clock_skip_update : Nat := 0
  cpu : Nat := 0
  queue : List Nat := []
  deriving DecidableEq

/-- Calls into collaborators outside `core.c` (lock operations, class
operations, warnings, the register switch), in program order. -/
inductive SchedEvent
  | spin_lock (cpu : Nat)
  | spin_unlock (cpu : Nat)
  | enqueue_task (cls : sched_class) (cpu p flags : Nat)
  | dequeue_task (cls : sched_class) (cpu p flags : Nat)
  | pick_next_task (cls : sched_class) (cpu prev : Nat)
  | select_task_rq (cls : sched_class) (p cpu sd_flags wake_flags : Nat)
  | warn_select_fallback_rq (cpu p : Nat)
  | warn_set_task_cpu (p : Nat)
  | switch_to (prev next : Nat)
  | put_task_struct (p : Nat)
  | get_task_struct (p : Nat)
  | find_task_by_pid (pid : Nat)
  | smp_send_reschedule (cpu : Nat)
  | put_prev_task (cls : sched_class) (cpu p : Nat)
  | set_curr_task (cls : sched_class) (cpu : Nat)
  | set_cpus_allowed (cls : sched_class) (p new_mask : Nat)
  | check_preempt_curr (cls : sched_class) (cpu p flags : Nat)
  deriving DecidableEq, Repr

/-- Ways in which a scheduler path does not return: `BUG()`, `panic()`, taking a
run-queue lock that the executing context already holds, busy-waiting on a
condition that only another context could change (the embedding runs one
context), for the restart loop of `pick_next_task` only, exhausting the
iteration bound of the embedding, and reading through the null pointer that
`rq->curr` holds on a run-queue without a current task. -/
inductive SchedStop
  | bug
  | deadlock
  | livelock
  | out_of_fuel
  | panic
  | null_deref
  deriving DecidableEq, Repr

/-- The scheduler state seen by one executing context: the tasks, the per-CPU
run-queues, the online mask, the CPU the context runs on (`smp_processor_id`),
the value `sched_clock()` returns (a weak symbol that the architecture may
override), the once-flag of the warning in `set_task_cpu`, the run-queue locks
the context holds, the private state of the class objects, and the log of
calls. Interrupt enabling and disabling is not represented. -/
structure Sched where
  tasks : Nat → task_struct
  runqueues : Nat → rq
  cpu_online_mask : Nat
  this_cpu : Nat
  sched_clock : Nat
  set_task_cpu_warned : Bool
  held : List Nat
  priv : Nat
  log : List SchedEvent

/-- The operations outside `core.c` whose results it consumes, as functions of
the state at the call. `pick_next_task cls s rq prev` gives the returned pointer
(0 for none, `RETRY_TASK`, or a task) and the new private state of the classes;
`select_task_rq cls s p cpu sd_flags wake_flags` gives the CPU the class
proposes; `check_preempt_curr cls s rq p flags` tells whether the class marks
the current task of the run-queue for rescheduling; `find_task_by_pid s pid`
is the task with that pid (0 for none). -/
structure SchedOps where
  pick_next_task : sched_class → Sched → Nat → Nat → Nat × Nat
  select_task_rq : sched_class → Sched → Nat → Nat → Nat → Nat → Nat
  check_preempt_curr : sched_class → Sched → Nat → Nat → Nat → Bool
  find_task_by_pid : Sched → Nat → Nat

/-- Append a call to the log. -/
def Sched.emit (s : Sched) (e : SchedEvent) : Sched :=
  { s with log := s.log ++ [e] }

/-- Store a task. -/
def Sched.set_task (s : Sched) (p : Nat) (t : task_struct) : Sched :=
  { s with tasks := fun q => if q = p then t else s.tasks q }

/-- Store a run-queue. -/
def Sched.set_rq (s : Sched) (c : Nat) (r : rq) : Sched :=
  { s with runqueues := fun d => if d = c then r else s.runqueues d }

/-- Modelled from the spec: `cpumask_test_cpu(cpu, mask)`. -/
def cpumask_test_cpu (cpu mask : Nat) : Bool := mask.testBit cpu

/-- Modelled from the spec: `cpumask_any(mask)` is the first CPU of the mask,
`NR_CPUS` when the mask is empty. -/
def cpumask_any (k : SchedConsts) (mask : Nat) : Nat :=
  ((List.range k.NR_CPUS).find? (fun i => mask.testBit i)).getD k.NR_CPUS

/-- Modelled from the spec: `cpu_online(cpu)` tests the CPU in `cpu_online_mask`. -/
def cpu_online (s : Sched) (cpu : Nat) : Bool := cpumask_test_cpu cpu s.cpu_online_mask

/-- Modelled from the spec: `task_cpu(p)` reads `task_thread_info(p)->cpu`. -/
def task_cpu (s : Sched) (p : Nat) : Nat := (s.tasks p).cpu

/-- Modelled from the spec: `task_on_rq_queued(p)` is `p->on_rq == TASK_ON_RQ_QUEUED`. -/
def task_on_rq_queued (k : SchedConsts) (s : Sched) (p : Nat) : Bool :=
  (s.tasks p).on_rq == k.TASK_ON_RQ_QUEUED

/-- Modelled from the spec: `task_on_rq_migrating(p)` is
`p->on_rq == TASK_ON_RQ_MIGRATING`. -/
def task_on_rq_migrating (k : SchedConsts) (s : Sched) (p : Nat) : Bool :=
  (s.tasks p).on_rq == k.TASK_ON_RQ_MIGRATING

/-- Modelled from the spec: `spin_lock(&rq->lock)` on the run-queue of CPU `c`.
A context that already holds the lock spins on it forever. -/
def spin_lock (c : Nat) (s : Sched) : Except SchedStop Sched :=
  if c ∈ s.held then Except.error SchedStop.deadlock
  else Except.ok (Sched.emit { s with held := c :: s.held } (SchedEvent.spin_lock c))

/-- Modelled from the spec: `spin_unlock(&rq->lock)` on the run-queue of CPU `c`. -/
def spin_unlock (c : Nat) (s : Sched) : Sched :=
  Sched.emit { s with held := s.held.erase c } (SchedEvent.spin_unlock c)

/-- The value of `sched_clock_cpu(cpu)`: the reading of `sched_clock()`, as a `u64`. -/
def sched_clock_cpu (_cpu : Nat) (s : Sched) : Nat := s.sched_clock % U64_MOD

/-- The function `update_rq_clock`, where `delta` is the `u64` difference read as `s64`. -/
def update_rq_clock (k : SchedConsts) (c : Nat) (s : Sched) : Sched :=
  let r := s.runqueues c
  if r.clock_skip_update &&& k.RQCF_ACT_SKIP ≠ 0 then s
  else
    let delta := (sched_clock_cpu r.cpu s + U64_MOD - r.clock % U64_MOD) % U64_MOD
    if 2 ^ 63 ≤ delta then s
    else s.set_rq c { r with clock := (r.clock + delta) % U64_MOD,
                             clock_task := (r.clock_task + delta) % U64_MOD }

/-- Modelled from the spec: the class operation `enqueue_task` puts the task at
the tail of the run-queue's queue. -/
def class_enqueue_task (cls : sched_class) (c p flags : Nat) (s : Sched) : Sched :=
  let r := s.runqueues c
  (s.set_rq c { r with queue := r.queue ++ [p] }).emit (SchedEvent.enqueue_task cls c p flags)

/-- Modelled from the spec: the class operation `dequeue_task` takes the task off
the run-queue's queue. -/
def class_dequeue_task (cls : sched_class) (c p flags : Nat) (s : Sched) : Sched :=
  let r := s.runqueues c
  (s.set_rq c { r with queue := r.queue.erase p }).emit (SchedEvent.dequeue_task cls c p flags)

/-- The function `enqueue_task`. -/
def enqueue_task (k : SchedConsts) (c p flags : Nat) (s : Sched) : Sched :=
  let s1 := update_rq_clock k c s
  class_enqueue_task (s1.tasks p).sched_class c p flags s1

/-- The function `dequeue_task`. -/
def dequeue_task (k : SchedConsts) (c p flags : Nat) (s : Sched) : Sched :=
  let s1 := update_rq_clock k c s
  class_dequeue_task (s1.tasks p).sched_class c p flags s1

/-- The function `activate_task`; `nr_uninterruptible` is an `unsigned long`. -/
def activate_task (k : SchedConsts) (c p flags : Nat) (s : Sched) : Sched :=
  let s1 :=
    if (s.tasks p).state &&& k.TASK_UNINTERRUPTIBLE ≠ 0 then
      s.set_rq c { s.runqueues c with
        nr_uninterruptible := ((s.runqueues c).nr_uninterruptible + U64_MOD - 1) % U64_MOD }
    else s
  enqueue_task k c p flags s1

/-- The function `deactivate_task`. -/
def deactivate_task (k : SchedConsts) (c p flags : Nat) (s : Sched) : Sched :=
  let s1 :=
    if (s.tasks p).state &&& k.TASK_UNINTERRUPTIBLE ≠ 0 then
      s.set_rq c { s.runqueues c with
        nr_uninterruptible := ((s.runqueues c).nr_uninterruptible + 1) % U64_MOD }
    else s
  dequeue_task k c p flags s1

/-- The function `__task_rq_lock`; the result is the locked run-queue. With one
executing context `task_rq(p)` cannot change under the lock, so the retry
branch is taken only for a migrating task, and then the wait for the end of the
migration never ends. -/
def __task_rq_lock (k : SchedConsts) (p : Nat) (s : Sched) : Except SchedStop (Nat × Sched) :=
  let c := task_cpu s p
  match spin_lock c s with
  | Except.error e => Except.error e
  | Except.ok s1 =>
    if c = task_cpu s1 p ∧ task_on_rq_migrating k s1 p = false then Except.ok (c, s1)
    else Except.error SchedStop.livelock

/-- The function `__task_rq_unlock`. -/
def __task_rq_unlock (c : Nat) (s : Sched) : Sched := spin_unlock c s

/-- The function `__set_task_cpu` (with `CONFIG_SMP`). -/
def __set_task_cpu (p cpu : Nat) (s : Sched) : Sched :=
  s.set_task p { s.tasks p with cpu := cpu, wake_cpu := cpu }

/-- The function `set_task_cpu`: the once-only warning, then `__set_task_cpu`. -/
def set_task_cpu (k : SchedConsts) (p new_cpu : Nat) (s : Sched) : Sched :=
  let s1 :=
    if ((s.tasks p).state ≠ k.TASK_RUNNING ∧ (s.tasks p).on_rq = 0) ∧ s.set_task_cpu_warned = false
    then Sched.emit { s with set_task_cpu_warned := true } (SchedEvent.warn_set_task_cpu p)
    else s
  __set_task_cpu p new_cpu s1

/-- One pass of the loop `for_each_class` of `pick_next_task` over the classes
`classes`: the first non-null pointer a class returns (a task or `RETRY_TASK`),
or 0 when the loop runs to its end. -/
def pick_next_task_scan (ops : SchedOps) (c prev : Nat) : List sched_class → Sched → Nat × Sched
  | [], s => (0, s)
  | cls :: rest, s =>
    let a := ops.pick_next_task cls s c prev
    let s1 := Sched.emit { s with priv := a.2 } (SchedEvent.pick_next_task cls c prev)
    if a.1 ≠ 0 then (a.1, s1)
    else pick_next_task_scan ops c prev rest s1

/-- The function `pick_next_task`. `fuel` bounds the number of passes (the number
of `goto again` plus one); falling out of the loop is `BUG()`. -/
def pick_next_task (k : SchedConsts) (ops : SchedOps) (c prev : Nat) :
    Nat → Sched → Except SchedStop (Nat × Sched)
  | 0, _ => Except.error SchedStop.out_of_fuel
  | fuel + 1, s =>
    let a := pick_next_task_scan ops c prev for_each_class s
    if a.1 ≠ 0 then
      if a.1 = k.RETRY_TASK then pick_next_task k ops c prev fuel a.2
      else Except.ok a
    else Except.error SchedStop.bug

/-- The function `finish_task_switch` (with `CONFIG_SMP`, without
`CONFIG_PREEMPT`); the result is `this_rq()`. -/
def finish_task_switch (k : SchedConsts) (prev : Nat) (s : Sched) : Nat × Sched :=
  let c := s.this_cpu
  let s1 := s.set_task prev { s.tasks prev with on_cpu := 0 }
  let s2 := spin_unlock c s1
  let s3 := if (s2.tasks prev).state = k.TASK_DEAD then s2.emit (SchedEvent.put_task_struct prev)
    else s2
  (c, s3)

/-- The function `context_switch`; the switch of the address space and of the
register state is one logged call. -/
def context_switch (k : SchedConsts) (_c prev next : Nat) (s : Sched) : Nat × Sched :=
  let s1 := s.set_task next { s.tasks next with on_cpu := 1 }
  let s2 := s1.emit (SchedEvent.switch_to prev next)
  finish_task_switch k prev s2

/-- Modelled from the spec: `clear_tsk_need_resched(p)` clears `TIF_NEED_RESCHED`. -/
def clear_tsk_need_resched (p : Nat) (s : Sched) : Sched :=
  s.set_task p { s.tasks p with need_resched := false }

/-- The block `if (!preempt && prev->state) { ... }` of `__schedule`: on a
voluntary call by a task whose state is not 0, deactivate it, clear its `on_rq`
and count it in `nr_iowait` (an `atomic_t`) when it waits for I/O. -/
def schedule_deactivate_prev (k : SchedConsts) (cpu prev : Nat) (preempt : Bool) (s : Sched) :
    Sched :=
  if preempt = false ∧ (s.tasks prev).state ≠ 0 then
    let a := deactivate_task k cpu prev k.DEQUEUE_SLEEP s
    let b := a.set_task prev { a.tasks prev with on_rq := 0 }
    if (b.tasks prev).in_iowait ≠ 0 then
      b.set_rq cpu { b.runqueues cpu with
        nr_iowait := ((b.runqueues cpu).nr_iowait + 1) % U32_MOD }
    else b
  else s

/-- The end of `__schedule`, from `clear_tsk_need_resched(prev)` on, once
`pick_next_task` has returned `next`; `nr_switches` is a `u64`. -/
def schedule_switch_to_next (k : SchedConsts) (cpu prev next : Nat) (s : Sched) : Sched :=
  let s5 := clear_tsk_need_resched prev s
  let s6 := s5.set_rq cpu { s5.runqueues cpu with clock_skip_update := 0 }
  if prev ≠ next then
    let s7 := s6.set_rq cpu { s6.runqueues cpu with
      nr_switches := ((s6.runqueues cpu).nr_switches + 1) % U64_MOD, curr := next }
    (context_switch k cpu prev next s7).2
  else spin_unlock cpu s6

/-- The function `__schedule`, its conditional block and its end being
`schedule_deactivate_prev` and `schedule_switch_to_next`. -/
def __schedule (k : SchedConsts) (ops : SchedOps) (fuel : Nat) (preempt : Bool) (s : Sched) :
    Except SchedStop Sched :=
  let cpu := s.this_cpu
  let prev := (s.runqueues cpu).curr
  match spin_lock cpu s with
  | Except.error e => Except.error e
  | Except.ok s1 =>
    let s2 := schedule_deactivate_prev k cpu prev preempt s1
    let s3 := if task_on_rq_queued k s2 prev then update_rq_clock k cpu s2 else s2
    match pick_next_task k ops cpu prev fuel s3 with
    | Except.error e => Except.error e
    | Except.ok (next, s4) => Except.ok (schedule_switch_to_next k cpu prev next s4)

/-- The function `ttwu_do_wakeup`. -/
def ttwu_do_wakeup (k : SchedConsts) (_c p _wake_flags : Nat) (s : Sched) : Sched :=
  s.set_task p { s.tasks p with state := k.TASK_RUNNING }

/-- The function `ttwu_remote`. -/
def ttwu_remote (k : SchedConsts) (p wake_flags : Nat) (s : Sched) :
    Except SchedStop (Nat × Sched) :=
  match __task_rq_lock k p s with
  | Except.error e => Except.error e
  | Except.ok (c, s1) =>
    if task_on_rq_queued k s1 p then
      Except.ok (1, __task_rq_unlock c (ttwu_do_wakeup k c p wake_flags s1))
    else Except.ok (0, __task_rq_unlock c s1)

/-- The function `ttwu_do_activate`. -/
def ttwu_do_activate (k : SchedConsts) (c p wake_flags : Nat) (s : Sched) : Sched :=
  let s1 := enqueue_task k c p 0 s
  let s2 := s1.set_task p { s1.tasks p with on_rq := k.TASK_ON_RQ_QUEUED }
  ttwu_do_wakeup k c p wake_flags s2

/-- The function `ttwu_queue`. -/
def ttwu_queue (k : SchedConsts) (p cpu wake_flags : Nat) (s : Sched) : Except SchedStop Sched :=
  match spin_lock cpu s with
  | Except.error e => Except.error e
  | Except.ok s1 => Except.ok (spin_unlock cpu (ttwu_do_activate k cpu p wake_flags s1))

/-- The function `select_fallback_rq`: a warning, then the CPU it was given. -/
def select_fallback_rq (cpu p : Nat) (s : Sched) : Nat × Sched :=
  (cpu, s.emit (SchedEvent.warn_select_fallback_rq cpu p))

/-- The function `select_task_rq`. -/
def select_task_rq (k : SchedConsts) (ops : SchedOps) (p cpu sd_flags wake_flags : Nat)
    (s : Sched) : Nat × Sched :=
  let a : Nat × Sched :=
    if 1 < (s.tasks p).nr_cpus_allowed then
      (ops.select_task_rq (s.tasks p).sched_class s p cpu sd_flags wake_flags,
        s.emit (SchedEvent.select_task_rq (s.tasks p).sched_class p cpu sd_flags wake_flags))
    else (cpumask_any k (s.tasks p).cpus_allowed, s)
  if cpumask_test_cpu a.1 (a.2.tasks p).cpus_allowed = false ∨ cpu_online a.2 a.1 = false then
    select_fallback_rq (task_cpu a.2 p) p a.2
  else a

/-- The function `try_to_wake_up` (with `CONFIG_SMP`). The wait for `p->on_cpu`
to clear never ends when no other context runs. -/
def try_to_wake_up (k : SchedConsts) (ops : SchedOps) (p state wake_flags : Nat) (s : Sched) :
    Except SchedStop (Nat × Sched) :=
  if (s.tasks p).state &&& state = 0 then Except.ok (0, s)
  else
    let remote : Except SchedStop (Nat × Sched) :=
      if (s.tasks p).on_rq ≠ 0 then ttwu_remote k p wake_flags s else Except.ok (0, s)
    match remote with
    | Except.error e => Except.error e
    | Except.ok (r, s1) =>
      if r ≠ 0 then Except.ok (1, s1)
      else if (s1.tasks p).on_cpu ≠ 0 then Except.error SchedStop.livelock
      else
        let s2 := s1.set_task p { s1.tasks p with state := k.TASK_WAKING }
        let a := select_task_rq k ops p (s2.tasks p).wake_cpu k.SD_BALANCE_WAKE wake_flags s2
        let s4 := if task_cpu a.2 p ≠ a.1 then set_task_cpu k p a.1 a.2 else a.2
        match ttwu_queue k p a.1 wake_flags s4 with
        | Except.error e => Except.error e
        | Except.ok s5 => Except.ok (1, s5)

/-- The function `wake_up_process`. -/
def wake_up_process (k : SchedConsts) (ops : SchedOps) (p : Nat) (s : Sched) :
    Except SchedStop (Nat × Sched) :=
  try_to_wake_up k ops p k.TASK_NORMAL 0 s

/-- Is the call a class `enqueue_task`? -/
def SchedEvent.is_enqueue_task : SchedEvent → Bool
  | .enqueue_task _ _ _ _ => true
  | _ => false

/-- Is the call a class `dequeue_task`? -/
def SchedEvent.is_dequeue_task : SchedEvent → Bool
  | .dequeue_task _ _ _ _ => true
  | _ => false

/-- Is the call a class `pick_next_task`? -/
def SchedEvent.is_pick_next_task : SchedEvent → Bool
  | .pick_next_task _ _ _ => true
  | _ => false

/-- Class operations for the scenarios: the real-time and fair classes offer no
task, the idle class offers the idle task 9; `select_task_rq` keeps the CPU it
is given; no class asks for a reschedule; the task with pid `n` is task `n`. -/
def demo_ops : SchedOps where
  pick_next_task := fun cls s _ _ =>
    match cls with
    | sched_class.idle => (9, s.priv)
    | _ => (0, s.priv)
  select_task_rq := fun _ _ _ cpu _ _ => cpu
  check_preempt_curr := fun _ _ _ _ _ => false
  find_task_by_pid := fun _ pid => pid

/-- Scenario: CPUs 0 and 1 are online; CPU 0 runs task 1 (fair class, allowed on
CPU 0 only), which has just set its state to `TASK_UNINTERRUPTIBLE` and calls
the scheduler; task 9 is the idle task of CPU 0; no run-queue lock is held and
the uninterruptible count of every run-queue is 0. -/
def sleeper_state : Sched where
  tasks := fun q =>
    if q = 1 then { state := 2, on_cpu := 1, on_rq := 1, cpu := 0, wake_cpu := 0 }
    else if q = 9 then { on_rq := 1, cpu := 0, wake_cpu := 0,
                         sched_class := sched_class.idle }
    else {}
  runqueues := fun c => if c = 0 then { curr := 1, idle := 9, cpu := 0, queue := [1] }
    else { cpu := c }
  cpu_online_mask := 3
  this_cpu := 0
  sched_clock := 1000
  set_task_cpu_warned := false
  held := []
  priv := 0
  log := []

/-- The state after task 1 of `sleeper_state` has blocked through `__schedule(false)`. -/
def blocked_state : Sched :=
  match __schedule linux_sched_consts demo_ops 1 false sleeper_state with
  | Except.ok s => s
  | Except.error _ => sleeper_state

/-- The state after task 1 of `blocked_state` has been woken by `wake_up_process`. -/
def woken_state : Sched :=
  match wake_up_process linux_sched_consts demo_ops 1 blocked_state with
  | Except.ok a => a.2
  | Except.error _ => blocked_state

/-- Scenario: task 1 may run on CPUs 1 and 2 and last ran on CPU 2, which has
since gone offline; CPUs 0 and 1 are online. -/
def unplugged_state : Sched where
  tasks := fun q =>
    if q = 1 then { state := 1, cpu := 2, wake_cpu := 2, nr_cpus_allowed := 2, cpus_allowed := 6 }
    else {}
  runqueues := fun c => { cpu := c }
  cpu_online_mask := 3
  this_cpu := 0
  sched_clock := 1000
  set_task_cpu_warned := false
  held := []
  priv := 0
  log := []

/-- Class operations for the restart scenario: while its private counter is
positive the real-time class counts it down and asks for a restart of the scan;
otherwise it and the fair class offer nothing and the idle class offers task 9. -/
def retrying_ops : SchedOps where
  pick_next_task := fun cls s _ _ =>
    match cls with
    | sched_class.rt => if 0 < s.priv then (linux_sched_consts.RETRY_TASK, s.priv - 1) else (0, s.priv)
    | sched_class.fair => (0, s.priv)
    | sched_class.idle => (9, s.priv)
  select_task_rq := fun _ _ _ cpu _ _ => cpu
  check_preempt_curr := fun _ _ _ _ _ => false
  find_task_by_pid := fun _ pid => pid

/-- Scenario of `sleeper_state` in which the real-time class will ask twice for a
restart of the scan. -/
def retry_state : Sched := { sleeper_state with priv := 2 }

/-- Do the first `n` passes of the class loop of `pick_next_task` from state `s`
each end with a class returning `RETRY_TASK` (the `goto again`)? -/
def passes_retry (k : SchedConsts) (ops : SchedOps) (c prev : Nat) : Nat → Sched → Bool
  | 0, _ => true
  | n + 1, s =>
    (pick_next_task_scan ops c prev for_each_class s).1 != 0 &&
      ((pick_next_task_scan ops c prev for_each_class s).1 == k.RETRY_TASK &&
        passes_retry k ops c prev n (pick_next_task_scan ops c prev for_each_class s).2)

/-- The state in which pass `n` (counted from 0) of the class loop of
`pick_next_task` starts, the passes before it having ended in `goto again`. -/
def pass_state (ops : SchedOps) (c prev : Nat) : Nat → Sched → Sched
  | 0, s => s
  | n + 1, s => pass_state ops c prev n (pick_next_task_scan ops c prev for_each_class s).2

/-- Class operations in which the real-time class asks for a restart of the scan
at every call; the fair class offers nothing and the idle class offers the
idle task 9. -/
def stubborn_ops : SchedOps :=
  { demo_ops with
    pick_next_task := fun cls s _ _ =>
      match cls with
      | sched_class.rt => (linux_sched_consts.RETRY_TASK, s.priv)
      | sched_class.fair => (0, s.priv)
      | sched_class.idle => (9, s.priv) }

/-- The state after task 1 of `sleeper_state` has been preempted, that is after
`__schedule(true)`. -/
def preempted_state : Sched :=
  match __schedule linux_sched_consts demo_ops 1 true sleeper_state with
  | Except.ok s => s
  | Except.error _ => sleeper_state

/-! ## kernel/sched/core.c: affinity, migration and preemption requests -/

/-- Modelled from the spec: `cpumask_equal` compares the bits of the `NR_CPUS`
CPUs of the machine. -/
def cpumask_equal (k : SchedConsts) (a b : Nat) : Bool :=
  a % 2 ^ k.NR_CPUS == b % 2 ^ k.NR_CPUS

/-- Modelled from the spec: `cpumask_intersects` tests whether the two masks share
one of the `NR_CPUS` CPUs of the machine. -/
def cpumask_intersects (k : SchedConsts) (a b : Nat) : Bool :=
  (a &&& b) % 2 ^ k.NR_CPUS != 0

/-- Modelled from the spec: `cpumask_any_and(a, b)` is the first CPU in both
masks, `NR_CPUS` when there is none. -/
def cpumask_any_and (k : SchedConsts) (a b : Nat) : Nat := cpumask_any k (a &&& b)

/-- Modelled from the spec: `cpumask_weight` counts the CPUs of the mask. -/
def cpumask_weight (k : SchedConsts) (mask : Nat) : Nat :=
  (List.range k.NR_CPUS).countP (fun i => mask.testBit i)

/-- Modelled from the spec: `test_tsk_need_resched(p)` reads `TIF_NEED_RESCHED`. -/
def test_tsk_need_resched (s : Sched) (p : Nat) : Bool := (s.tasks p).need_resched

/-- Modelled from the spec: `set_tsk_need_resched(p)` sets `TIF_NEED_RESCHED`. -/
def set_tsk_need_resched (p : Nat) (s : Sched) : Sched :=
  s.set_task p { s.tasks p with need_resched := true }

/-- The function `task_rq_lock`; saving and restoring the interrupt flags is not
represented, the rest is `__task_rq_lock`. -/
def task_rq_lock (k : SchedConsts) (p : Nat) (s : Sched) : Except SchedStop (Nat × Sched) :=
  let c := task_cpu s p
  match spin_lock c s with
  | Except.error e => Except.error e
  | Except.ok s1 =>
    if c = task_cpu s1 p ∧ task_on_rq_migrating k s1 p = false then Except.ok (c, s1)
    else Except.error SchedStop.livelock

/-- The function `task_rq_unlock`. -/
def task_rq_unlock (c : Nat) (_p : Nat) (s : Sched) : Sched := spin_unlock c s

/-- The function `move_queued_task`; the result is the new (locked) run-queue. -/
def move_queued_task (k : SchedConsts) (c p new_cpu : Nat) (s : Sched) :
    Except SchedStop (Nat × Sched) :=
  let s1 := s.set_task p { s.tasks p with on_rq := k.TASK_ON_RQ_MIGRATING }
  let s2 := dequeue_task k c p 0 s1
  let s3 := set_task_cpu k p new_cpu s2
  let s4 := spin_unlock c s3
  match spin_lock new_cpu s4 with
  | Except.error e => Except.error e
  | Except.ok s5 =>
    if task_cpu s5 p ≠ new_cpu then Except.error SchedStop.bug
    else
      let s6 := enqueue_task k new_cpu p 0 s5
      Except.ok (new_cpu, s6.set_task p { s6.tasks p with on_rq := k.TASK_ON_RQ_QUEUED })

/-- The function `set_cpus_allowed_common`. -/
def set_cpus_allowed_common (k : SchedConsts) (p new_mask : Nat) (s : Sched) : Sched :=
  s.set_task p { s.tasks p with cpus_allowed := new_mask,
                                nr_cpus_allowed := cpumask_weight k new_mask }

/-- The function `stop_one_cpu`: it panics. -/
def stop_one_cpu (_cpu : Nat) (_s : Sched) : Except SchedStop (Int × Sched) :=
  Except.error SchedStop.panic

/-- Modelled from the spec: the class operation `set_cpus_allowed` of every class
is `set_cpus_allowed_common`, the function `core.c` provides for it. -/
def class_set_cpus_allowed (k : SchedConsts) (p new_mask : Nat) (s : Sched) : Sched :=
  (set_cpus_allowed_common k p new_mask s).emit
    (SchedEvent.set_cpus_allowed (s.tasks p).sched_class p new_mask)

/-- The function `do_set_cpus_allowed`; `put_prev_task` and `set_curr_task` are
class operations, logged as calls. -/
def do_set_cpus_allowed (k : SchedConsts) (p new_mask : Nat) (s : Sched) : Sched :=
  let c := task_cpu s p
  let queued := task_on_rq_queued k s p
  let running := decide ((s.runqueues c).curr = p)
  let s1 := if queued = true then dequeue_task k c p k.DEQUEUE_SAVE s else s
  let s2 := if running = true then s1.emit (SchedEvent.put_prev_task (s1.tasks p).sched_class c p)
    else s1
  let s3 := class_set_cpus_allowed k p new_mask s2
  let s4 := if running = true then s3.emit (SchedEvent.set_curr_task (s3.tasks p).sched_class c)
    else s3
  if queued = true then enqueue_task k c p k.ENQUEUE_RESTORE s4 else s4

/-- The function `__set_cpus_allowed_ptr` (with `CONFIG_SMP`); the result is the
returned `int`. `task_running(rq, p)` is `p->on_cpu`. -/
def __set_cpus_allowed_ptr (k : SchedConsts) (p new_mask : Nat) (check : Bool) (s : Sched) :
    Except SchedStop (Int × Sched) :=
  match task_rq_lock k p s with
  | Except.error e => Except.error e
  | Except.ok (c, s1) =>
    if check = true ∧ (s1.tasks p).flags &&& k.PF_NO_SETAFFINITY ≠ 0 then
      Except.ok (-(k.EINVAL : Int), task_rq_unlock c p s1)
    else if cpumask_equal k (s1.tasks p).cpus_allowed new_mask = true then
      Except.ok (0, task_rq_unlock c p s1)
    else if cpumask_intersects k new_mask s1.cpu_online_mask = false then
      Except.ok (-(k.EINVAL : Int), task_rq_unlock c p s1)
    else
      let s2 := do_set_cpus_allowed k p new_mask s1
      if cpumask_test_cpu (task_cpu s2 p) new_mask = true then
        Except.ok (0, task_rq_unlock c p s2)
      else
        let dest_cpu := cpumask_any_and k s2.cpu_online_mask new_mask
        if (s2.tasks p).on_cpu ≠ 0 ∨ (s2.tasks p).state = k.TASK_WAKING then
          stop_one_cpu (s2.runqueues c).cpu (task_rq_unlock c p s2)
        else if task_on_rq_queued k s2 p = true then
          match move_queued_task k c p dest_cpu s2 with
          | Except.error e => Except.error e
          | Except.ok (c2, s3) => Except.ok (0, task_rq_unlock c2 p s3)
        else Except.ok (0, task_rq_unlock c p s2)

/-- The function `set_cpus_allowed_ptr`. -/
def set_cpus_allowed_ptr (k : SchedConsts) (p new_mask : Nat) (s : Sched) :
    Except SchedStop (Int × Sched) :=
  __set_cpus_allowed_ptr k p new_mask false s

/-- The function `sched_setaffinity`; the result is the returned `long`. -/
def sched_setaffinity (k : SchedConsts) (ops : SchedOps) (pid new_mask : Nat) (s : Sched) :
    Except SchedStop (Int × Sched) :=
  let p := ops.find_task_by_pid s pid
  let s0 := s.emit (SchedEvent.find_task_by_pid pid)
  if p = 0 then Except.ok (-(k.ESRCH : Int), s0)
  else
    let s1 := s0.emit (SchedEvent.get_task_struct p)
    if (s1.tasks p).flags &&& k.PF_NO_SETAFFINITY ≠ 0 then
      Except.ok (-(k.EINVAL : Int), s1.emit (SchedEvent.put_task_struct p))
    else
      match set_cpus_allowed_ptr k p new_mask s1 with
      | Except.error e => Except.error e
      | Except.ok (ret, s2) => Except.ok (ret, s2.emit (SchedEvent.put_task_struct p))

/-- The function `resched_curr`; `cpu_of(rq)` is `rq->cpu`. The flag test reads
through `rq->curr`, so a run-queue whose `curr` is the null pointer stops the
kernel. -/
def resched_curr (c : Nat) (s : Sched) : Except SchedStop Sched :=
  let curr := (s.runqueues c).curr
  if curr = 0 then Except.error SchedStop.null_deref
  else if test_tsk_need_resched s curr = true then Except.ok s
  else
    let cpu := (s.runqueues c).cpu
    if cpu = s.this_cpu then Except.ok (set_tsk_need_resched curr s)
    else Except.ok ((set_tsk_need_resched curr s).emit (SchedEvent.smp_send_reschedule cpu))

/-- Modelled from the spec: `rq_clock_skip_update(rq, skip)` sets or clears
`RQCF_REQ_SKIP` in `rq->clock_skip_update`, an `unsigned int`. -/
def rq_clock_skip_update (k : SchedConsts) (c : Nat) (skip : Bool) (s : Sched) : Sched :=
  let r := s.runqueues c
  if skip = true then
    s.set_rq c { r with clock_skip_update := r.clock_skip_update ||| k.RQCF_REQ_SKIP }
  else
    s.set_rq c { r with clock_skip_update :=
      r.clock_skip_update &&& ((U32_MOD - 1) ^^^ (k.RQCF_REQ_SKIP % U32_MOD)) }

/-- Modelled from the spec: the class operation `check_preempt_curr` makes the
intra-class comparison and, when the waking task wins, marks the current task
through `resched_curr`. -/
def class_check_preempt_curr (ops : SchedOps) (cls : sched_class) (c p flags : Nat)
    (s : Sched) : Except SchedStop Sched :=
  let s1 := s.emit (SchedEvent.check_preempt_curr cls c p flags)
  if ops.check_preempt_curr cls s c p flags = true then resched_curr c s1 else Except.ok s1

/-- The loop `for_each_class` of `check_preempt_curr` over the classes `classes`. -/
def check_preempt_curr_scan (curr_class p_class : sched_class) (c : Nat) :
    List sched_class → Sched → Except SchedStop Sched
  | [], s => Except.ok s
  | cls :: rest, s =>
    if cls = curr_class then Except.ok s
    else if cls = p_class then resched_curr c s
    else check_preempt_curr_scan curr_class p_class c rest s

/-- The last statement of `check_preempt_curr`: when the current task is queued
and marked, the next clock update of the run-queue is to be skipped. -/
def check_preempt_curr_skip (k : SchedConsts) (c : Nat) (s : Sched) : Sched :=
  if task_on_rq_queued k s (s.runqueues c).curr = true ∧
      test_tsk_need_resched s (s.runqueues c).curr = true then
    rq_clock_skip_update k c true s
  else s

/-- The function `check_preempt_curr`. Its first test reads `p->sched_class` and
`rq->curr->sched_class`, so a null `p` or a run-queue whose `curr` is the null
pointer stops the kernel. -/
def check_preempt_curr (k : SchedConsts) (ops : SchedOps) (c p flags : Nat) (s : Sched) :
    Except SchedStop Sched :=
  let curr := (s.runqueues c).curr
  if p = 0 ∨ curr = 0 then Except.error SchedStop.null_deref
  else
    let r :=
      if (s.tasks p).sched_class = (s.tasks curr).sched_class then
        class_check_preempt_curr ops (s.tasks curr).sched_class c p flags s
      else
        check_preempt_curr_scan (s.tasks curr).sched_class (s.tasks p).sched_class c
          for_each_class s
    match r with
    | Except.error e => Except.error e
    | Except.ok s1 => Except.ok (check_preempt_curr_skip k c s1)

/-- Does class `a` come strictly before class `b` in the order of `for_each_class`? -/
def class_before (a b : sched_class) : Bool :=
  decide (for_each_class.indexOf a < for_each_class.indexOf b)

/-- Is the call a class `check_preempt_curr`? -/
def SchedEvent.is_check_preempt_curr : SchedEvent → Bool
  | .check_preempt_curr _ _ _ _ => true
  | _ => false

/-- Is the call an inter-processor reschedule signal? -/
def SchedEvent.is_smp_send_reschedule : SchedEvent → Bool
  | .smp_send_reschedule _ => true
  | _ => false

/-- Scenario of `sleeper_state` with the clock of run-queue 0 ahead of the clock
reading (5000 against 1000). -/
def clock_ahead_state : Sched :=
  sleeper_state.set_rq 0 { sleeper_state.runqueues 0 with clock := 5000, clock_task := 4000 }

/-- Scenario of `sleeper_state` with `RQCF_ACT_SKIP` set on run-queue 0. -/
def clock_skip_state : Sched :=
  sleeper_state.set_rq 0 { sleeper_state.runqueues 0 with clock_skip_update := 2 }

/-- Scenario of `sleeper_state` (CPU 0 runs the fair task 1, task 9 is of the idle
class) with a real-time task 2 and a further fair task 3. -/
def rt_waker_state : Sched :=
  sleeper_state.set_task 2 { sched_class := sched_class.rt }

/-- The state after the classes of the list have been asked in turn by
`pick_next_task` for run-queue `c` and previous task `prev`, starting from `s`. -/
def asked_state (ops : SchedOps) (c prev : Nat) : List sched_class → Sched → Sched
  | [], s => s
  | cls :: rest, s =>
    asked_state ops c prev rest
      (Sched.emit { s with priv := (ops.pick_next_task cls s c prev).2 }
        (SchedEvent.pick_next_task cls c prev))

/-- Does every class of the list, asked in turn from state `s`, return the null
pointer? -/
def all_declined (ops : SchedOps) (c prev : Nat) : List sched_class → Sched → Bool
  | [], _ => true
  | cls :: rest, s =>
    (ops.pick_next_task cls s c prev).1 == 0 &&
      all_declined ops c prev rest (asked_state ops c prev [cls] s)

/-- Class operations for the order scenario: the real-time class offers task 2,
the fair class task 3, the idle class task 9. -/
def rt_ready_ops : SchedOps :=
  { demo_ops with
    pick_next_task := fun cls s _ _ =>
      match cls with
      | sched_class.rt => (2, s.priv)
      | sched_class.fair => (3, s.priv)
      | sched_class.idle => (9, s.priv) }

/-- Scenario: CPUs 0 and 1 are online; the sleeping task 1 last ran on CPU 2 and
is allowed on CPU 2 only; task 2 is a bound kernel helper (`PF_NO_SETAFFINITY`)
allowed on CPU 0. -/
def stranded_state : Sched where
  tasks := fun q =>
    if q = 1 then { state := 1, cpu := 2, wake_cpu := 2, nr_cpus_allowed := 1, cpus_allowed := 4 }
    else if q = 2 then { state := 1, flags := 0x04000000, cpus_allowed := 1 }
    else {}
  runqueues := fun c => { cpu := c }
  cpu_online_mask := 3
  this_cpu := 0
  sched_clock := 1000
  set_task_cpu_warned := false
  held := []
  priv := 0
  log := []

/-- Scenario of `sleeper_state` in which CPU 1 runs its idle task 8. -/
def remote_curr_state : Sched :=
  (sleeper_state.set_task 8 { on_cpu := 1, on_rq := 1, cpu := 1, wake_cpu := 1, cpus_allowed := 2,
                              sched_class := sched_class.idle }).set_rq 1
    { curr := 8, idle := 8, cpu := 1 }

/-- Scenario of `sleeper_state` with the clock of run-queue 0 at the top of the
64-bit range and a clock reading of 5, taken just after the counter wrapped. -/
def clock_wrap_state : Sched :=
  { sleeper_state.set_rq 0
      { sleeper_state.runqueues 0 with clock := 2 ^ 64 - 1, clock_task := 2 ^ 64 - 1 } with
    sched_clock := 5 }

/-- The state reached from `blocked_state` (task 1 asleep, last on CPU 0) when
the sleeping task is first given the mask `{1,2}` by `set_cpus_allowed_ptr` and
then woken by `wake_up_process`: the class proposes the previous CPU 0, which
is no longer allowed, and `select_fallback_rq` hands CPU 0 back. -/
def drifted_state : Sched :=
  match set_cpus_allowed_ptr linux_sched_consts 1 6 blocked_state with
  | Except.error _ => blocked_state
  | Except.ok a =>
    match wake_up_process linux_sched_consts demo_ops 1 a.2 with
    | Except.ok b => b.2
    | Except.error _ => a.2

/-- The state reached from `unplugged_state` (task 1 asleep, allowed on CPUs 1
and 2, last on CPU 2, which has gone offline) when the task is woken by
`wake_up_process`: `select_task_rq` hands the offline CPU 2 back and the task
is queued there. -/
def offline_queued_state : Sched :=
  match wake_up_process linux_sched_consts demo_ops 1 unplugged_state with
  | Except.ok a => a.2
  | Except.error _ => unplugged_state

/-- Scenario: CPUs 0 and 1 are online; task 1 is queued on run-queue 0, not
executing (the idle task 9 runs there), and allowed on CPU 0 only. -/
def queued_state : Sched where
  tasks := fun q =>
    if q = 1 then { on_rq := 1, cpu := 0, wake_cpu := 0, nr_cpus_allowed := 1, cpus_allowed := 1 }
    else if q = 9 then { on_rq := 1, on_cpu := 1, sched_class := sched_class.idle }
    else {}
  runqueues := fun c => if c = 0 then { curr := 9, idle := 9, cpu := 0, queue := [1] }
    else { cpu := c }
  cpu_online_mask := 3
  this_cpu := 0
  sched_clock := 1000
  set_task_cpu_warned := false
  held := []
  priv := 0
  log := []

/-! ## kernel/resource.c: the resource tree -/

/-- The fields of `struct resource` that the functions under study touch. A
resource pointer is an index (`Nat`), 0 being the null pointer; `end_` is the
field `end` (a keyword of Lean); `start` and `end_` are `resource_size_t`. -/
structure resource where
  start : Nat := 0
  end_ : Nat := 0
  parent : Nat := 0
  sibling : Nat := 0
  child : Nat := 0
  deriving DecidableEq

/-- The location a `struct resource **` points to: the `child` field or the
`sibling` field of a resource. -/
inductive resource_slot
  | child (r : Nat)
  | sibling (r : Nat)
  deriving DecidableEq

/-- The read `*p` through a `struct resource **`. -/
def resource_slot.load (h : Nat → resource) : resource_slot → Nat
  | resource_slot.child r => (h r).child
  | resource_slot.sibling r => (h r).sibling

/-- The store `*p = v` through a `struct resource **`. -/
def resource_slot.store (h : Nat → resource) (v : Nat) : resource_slot → Nat → resource
  | resource_slot.child r => Function.update h r { h r with child := v }
  | resource_slot.sibling r => Function.update h r { h r with sibling := v }

/-- The loop `for (;;)` of `__request_resource`, with `p` the current slot. `fuel`
bounds the number of iterations; `none` is an exhausted bound. The result is
the conflicting resource (0 for none) and the memory. -/
def request_resource_walk (root new start end_ : Nat) :
    Nat → resource_slot → (Nat → resource) → Option (Nat × (Nat → resource))
  | 0, _, _ => none
  | fuel + 1, p, h =>
    let tmp := p.load h
    if tmp = 0 ∨ (h tmp).start > end_ then
      let h1 := Function.update h new { h new with sibling := tmp }
      let h2 := p.store h1 new
      let h3 := Function.update h2 new { h2 new with parent := root }
      some (0, h3)
    else if (h tmp).end_ < start then
      request_resource_walk root new start end_ fuel (resource_slot.sibling tmp) h
    else some (tmp, h)

/-- The function `__request_resource`: the conflicting resource (0 for none) and
the memory. -/
def __request_resource (fuel : Nat) (root new : Nat) (h : Nat → resource) :
    Option (Nat × (Nat → resource)) :=
  let start := (h new).start
  let end_ := (h new).end_
  if end_ < start then some (root, h)
  else if start < (h root).start then some (root, h)
  else if end_ > (h root).end_ then some (root, h)
  else request_resource_walk root new start end_ fuel (resource_slot.child root) h

/-- The function `request_resource_conflict`; taking and releasing
`resource_lock` is not represented. -/
def request_resource_conflict (fuel : Nat) (root new : Nat) (h : Nat → resource) :
    Option (Nat × (Nat → resource)) :=
  __request_resource fuel root new h

/-- The function `request_resource`; `EBUSY` is not defined in the sources and is
a parameter. -/
def request_resource (EBUSY : Nat) (fuel : Nat) (root new : Nat) (h : Nat → resource) :
    Option (Int × (Nat → resource)) :=
  match request_resource_conflict fuel root new h with
  | none => none
  | some (conflict, h1) => some (if conflict ≠ 0 then -(EBUSY : Int) else 0, h1)

/-- The loop of `lookup_resource`, with `res` the current resource. -/
def lookup_resource_walk (start : Nat) : Nat → Nat → (Nat → resource) → Option Nat
  | 0, _, _ => none
  | fuel + 1, res, h =>
    if res = 0 then some 0
    else if (h res).start = start then some res
    else lookup_resource_walk start fuel (h res).sibling h

/-- The function `lookup_resource`; taking and releasing `resource_lock` is not
represented. -/
def lookup_resource (fuel : Nat) (root start : Nat) (h : Nat → resource) : Option Nat :=
  lookup_resource_walk start fuel (h root).child h

/-- The sibling list that starts at pointer `p` consists of the resources `l`, in
order, and ends with the null pointer. -/
def sibling_chain (h : Nat → resource) : Nat → List Nat → Prop
  | p, [] => p = 0
  | p, x :: xs => p = x ∧ x ≠ 0 ∧ sibling_chain h (h x).sibling xs

/-- The ranges of the resources `l` are non-inverted, and each ends before the
start of every later one: the list is sorted by start address and its ranges
are pairwise disjoint. -/
def ranges_sorted (h : Nat → resource) (l : List Nat) : Prop :=
  l.Pairwise (fun a b => (h a).end_ < (h b).start) ∧ ∀ x ∈ l, (h x).start ≤ (h x).end_

/-- The range of resource `y` overlaps the range `[start, end_]`. -/
def range_overlaps (h : Nat → resource) (start end_ y : Nat) : Prop :=
  (h y).start ≤ end_ ∧ start ≤ (h y).end_

/-- Scenario: the root resource 1 spans `[0, 0xffff]` and has the children 2
(`[0x100, 0x1ff]`) and 3 (`[0x400, 0x4ff]`); the resources 4 (`[0x200, 0x2ff]`)
and 5 (`[0x1f0, 0x20f]`) are not yet part of the tree. -/
def demo_resources : Nat → resource := fun r =>
  if r = 1 then { start := 0, end_ := 0xffff, child := 2 }
  else if r = 2 then { start := 0x100, end_ := 0x1ff, parent := 1, sibling := 3 }
  else if r = 3 then { start := 0x400, end_ := 0x4ff, parent := 1 }
  else if r = 4 then { start := 0x200, end_ := 0x2ff }
  else if r = 5 then { start := 0x1f0, end_ := 0x20f }
  else {}

/-! ## Theorems: the LLC-miss and flush handlers -/

/-- With a task that the directory does not know, `handle_p2m_llc_miss` hands the
null task pointer to `llc_miss_error`, whose first statement reads the task's
fields: the handler stops there and no reply is sent. -/
theorem handle_p2m_llc_miss_unknown_task (env : Env) (c : Consts) (payload : p2m_llc_miss_struct)
    (desc : Nat) (hdr : common_header) (s : State)
    (h : env.find_lego_task_by_pid hdr.src_nid payload.pid = none) :
    handle_p2m_llc_miss env c payload desc hdr s = .error .null_deref := by
  simp [handle_p2m_llc_miss, h, llc_miss_error]

/-- C1 (evaluated at the failing input): an LLC-miss request for pid 7 of node 1,
unknown to the directory, does not produce the `RET_ESRCH` reply; the handler
dereferences the absent task and stops. -/
theorem C1_llc_miss_unknown_pid_dereferences_null :
    demo_env.find_lego_task_by_pid 1 7 = none ∧
    handle_p2m_llc_miss demo_env x86_consts
      { pid := 7, flags := 0, missing_vaddr := 0x1500, offset := 0 } 9 { src_nid := 1 }
      (init_state []) = .error .null_deref :=
  ⟨by decide, handle_p2m_llc_miss_unknown_task _ _ _ _ _ _ (by decide)⟩

/-- C2: for a request of a known task, an address at or above `TASK_SIZE_MAX` is
answered by the single 4-byte reply `RET_EFAULT`, with no `find_vma` call, no
fault resolution and no change of the address spaces; an address below the
ceiling is never answered on this ground: the handler's outcome is then that of
`do_handle_p2m_llc_miss`. -/
theorem C2_kernel_ceiling_replies_efault (env : Env) (c : Consts) (payload : p2m_llc_miss_struct)
    (desc : Nat) (hdr : common_header) (s : State) (t : lego_task_struct)
    (ht : env.find_lego_task_by_pid hdr.src_nid payload.pid = some t) :
    (c.TASK_SIZE_MAX ≤ payload.missing_vaddr →
      ∃ s', handle_p2m_llc_miss env c payload desc hdr s = .ok (0, s') ∧
        s'.trace = s.trace ++ [Event.find_task hdr.src_nid payload.pid,
          Event.reply ((c.RET_EFAULT % U32_MOD : Nat) : Int) 4 desc] ∧
        s'.trace.filter Event.is_find_vma = s.trace.filter Event.is_find_vma ∧
        s'.trace.filter Event.is_mm_fault = s.trace.filter Event.is_mm_fault ∧
        s'.mms = s.mms ∧ s'.pool = s.pool) ∧
    (payload.missing_vaddr < c.TASK_SIZE_MAX →
      handle_p2m_llc_miss env c payload desc hdr s =
        match do_handle_p2m_llc_miss env c t payload.missing_vaddr payload.offset payload.flags desc
            (s.emit (Event.find_task hdr.src_nid payload.pid)) with
        | .error e => .error e
        | .ok s' => .ok (0, s')) := by
  constructor
  · intro hge
    refine ⟨(s.emit (Event.find_task hdr.src_nid payload.pid)).emit
      (Event.reply ((c.RET_EFAULT % U32_MOD : Nat) : Int) 4 desc), ?_, ?_, ?_, ?_, rfl, rfl⟩
    · simp [handle_p2m_llc_miss, ht, fault_in_kernel_space, hge, llc_miss_error]
    · simp [State.emit]
    · simp [State.emit, Event.is_find_vma]
    · simp [State.emit, Event.is_mm_fault]
  · intro hlt
    have hnot : ¬ c.TASK_SIZE_MAX ≤ payload.missing_vaddr := by omega
    simp [handle_p2m_llc_miss, ht, fault_in_kernel_space, hnot]

/-- Witness of C2: task `(1, 42)` faulting at `2^47` (at or above the ceiling)
gets the `RET_EFAULT` reply, and faulting at `0x1500` (below it) is passed on to
`do_handle_p2m_llc_miss`. -/
theorem C2_kernel_ceiling_replies_efault_witness :
    (∃ s', handle_p2m_llc_miss demo_env x86_consts
          { pid := 42, flags := 0, missing_vaddr := 2 ^ 47, offset := 0 } 9 { src_nid := 1 }
          (init_state []) = .ok (0, s') ∧
        s'.trace = (init_state []).trace ++ [Event.find_task 1 42,
          Event.reply ((x86_consts.RET_EFAULT % U32_MOD : Nat) : Int) 4 9] ∧
        s'.trace.filter Event.is_find_vma = (init_state []).trace.filter Event.is_find_vma ∧
        s'.trace.filter Event.is_mm_fault = (init_state []).trace.filter Event.is_mm_fault ∧
        s'.mms = (init_state []).mms ∧ s'.pool = (init_state []).pool) ∧
    (handle_p2m_llc_miss demo_env x86_consts
          { pid := 42, flags := 0, missing_vaddr := 0x1500, offset := 0 } 9 { src_nid := 1 }
          (init_state []) =
        match do_handle_p2m_llc_miss demo_env x86_consts { node := 1, pid := 42, mm := 0 } 0x1500 0 0 9
            ((init_state []).emit (Event.find_task 1 42)) with
        | .error e => .error e
        | .ok s' => .ok (0, s')) :=
  ⟨(C2_kernel_ceiling_replies_efault demo_env x86_consts
      { pid := 42, flags := 0, missing_vaddr := 2 ^ 47, offset := 0 } 9 { src_nid := 1 }
      (init_state []) { node := 1, pid := 42, mm := 0 } (by decide)).1 (by decide),
   (C2_kernel_ceiling_replies_efault demo_env x86_consts
      { pid := 42, flags := 0, missing_vaddr := 0x1500, offset := 0 } 9 { src_nid := 1 }
      (init_state []) { node := 1, pid := 42, mm := 0 } (by decide)).2 (by decide)⟩

/-- C6: a flush request whose `user_va` is not page-aligned is answered by the
single 4-byte reply `-EINVAL`; nothing else happens (no directory lookup, no
`lego_copy_to_user`, no state change), whatever the directory holds. -/
theorem C6_flush_misaligned_replies_einval (env : Env) (c : Consts) (payload : p2m_flush_payload)
    (desc : Nat) (hdr : common_header) (s : State)
    (h : offset_in_page payload.user_va ≠ 0) :
    ∃ s', handle_p2m_flush_one env c payload desc hdr s = (0, s') ∧
      s'.trace = s.trace ++ [Event.reply (-(c.EINVAL : Int)) 4 desc] ∧
      s'.trace.filter Event.is_copy_to_user = s.trace.filter Event.is_copy_to_user ∧
      s'.trace.filter Event.is_find_task = s.trace.filter Event.is_find_task ∧
      s'.mms = s.mms ∧ s'.pool = s.pool := by
  refine ⟨s.emit (Event.reply (-(c.EINVAL : Int)) 4 desc), ?_, rfl, ?_, ?_, rfl, rfl⟩
  · simp [handle_p2m_flush_one, h, out_reply]
  · simp [State.emit, Event.is_copy_to_user]
  · simp [State.emit, Event.is_find_task]

/-- Witness of C6 at `user_va = 0x3001`, for a task the directory knows. -/
theorem C6_flush_misaligned_replies_einval_witness :
    offset_in_page 0x3001 ≠ 0 ∧
    ∃ s', handle_p2m_flush_one demo_env x86_consts
        { pid := 42, user_va := 0x3001, pcacheline := [] } 9 { src_nid := 1 } (init_state []) = (0, s') ∧
      s'.trace = (init_state []).trace ++ [Event.reply (-(x86_consts.EINVAL : Int)) 4 9] ∧
      s'.trace.filter Event.is_copy_to_user = (init_state []).trace.filter Event.is_copy_to_user ∧
      s'.trace.filter Event.is_find_task = (init_state []).trace.filter Event.is_find_task ∧
      s'.mms = (init_state []).mms ∧ s'.pool = (init_state []).pool :=
  ⟨by decide, C6_flush_misaligned_replies_einval demo_env x86_consts
    { pid := 42, user_va := 0x3001, pcacheline := [] } 9 { src_nid := 1 } (init_state [])
    (by decide)⟩

/-- C7: a flush request with a page-aligned `user_va` gets exactly one 4-byte
reply: `-ESRCH` with no copy when the directory has no task for
`(source node, pid)`; otherwise `-EFAULT` when `lego_copy_to_user` of the
`PCACHE_LINE_SIZE`-byte line returns 0; otherwise `0`. The reply is one of
`0, -EINVAL, -ESRCH, -EFAULT`, and (the error numbers being non-zero) it is `0`
only when the copy was made and succeeded. -/
theorem C7_flush_aligned_reply (env : Env) (c : Consts) (payload : p2m_flush_payload)
    (desc : Nat) (hdr : common_header) (s : State)
    (h : offset_in_page payload.user_va = 0) (hsrch : c.ESRCH ≠ 0) (hfault : c.EFAULT ≠ 0) :
    (env.find_lego_task_by_pid hdr.src_nid payload.pid = none →
      handle_p2m_flush_one env c payload desc hdr s =
        (0, { s with trace := s.trace ++ [Event.find_task hdr.src_nid payload.pid,
          Event.reply (-(c.ESRCH : Int)) 4 desc] })) ∧
    (∀ tsk, env.find_lego_task_by_pid hdr.src_nid payload.pid = some tsk →
      env.lego_copy_to_user tsk payload.user_va payload.pcacheline c.PCACHE_LINE_SIZE = 0 →
      handle_p2m_flush_one env c payload desc hdr s =
        (0, { s with trace := s.trace ++ [Event.find_task hdr.src_nid payload.pid,
          Event.copy_to_user tsk.pid payload.user_va c.PCACHE_LINE_SIZE,
          Event.reply (-(c.EFAULT : Int)) 4 desc] })) ∧
    (∀ tsk, env.find_lego_task_by_pid hdr.src_nid payload.pid = some tsk →
      env.lego_copy_to_user tsk payload.user_va payload.pcacheline c.PCACHE_LINE_SIZE ≠ 0 →
      handle_p2m_flush_one env c payload desc hdr s =
        (0, { s with trace := s.trace ++ [Event.find_task hdr.src_nid payload.pid,
          Event.copy_to_user tsk.pid payload.user_va c.PCACHE_LINE_SIZE,
          Event.reply 0 4 desc] })) ∧
    (∃ v pre, (handle_p2m_flush_one env c payload desc hdr s).2.trace
        = s.trace ++ pre ++ [Event.reply v 4 desc] ∧
      pre.filter Event.is_reply = [] ∧
      (v = 0 ∨ v = -(c.EINVAL : Int) ∨ v = -(c.ESRCH : Int) ∨ v = -(c.EFAULT : Int)) ∧
      (v = 0 → ∃ tsk, env.find_lego_task_by_pid hdr.src_nid payload.pid = some tsk ∧
        env.lego_copy_to_user tsk payload.user_va payload.pcacheline c.PCACHE_LINE_SIZE ≠ 0 ∧
        Event.copy_to_user tsk.pid payload.user_va c.PCACHE_LINE_SIZE ∈ pre)) := by
  refine ⟨?_, ?_, ?_, ?_⟩
  · intro hn
    simp [handle_p2m_flush_one, h, hn, out_reply, State.emit]
  · intro tsk ht hc
    simp [handle_p2m_flush_one, h, ht, hc, out_reply, State.emit]
  · intro tsk ht hc
    simp [handle_p2m_flush_one, h, ht, hc, out_reply, State.emit]
  · cases ht : env.find_lego_task_by_pid hdr.src_nid payload.pid with
    | none =>
      refine ⟨-(c.ESRCH : Int), [Event.find_task hdr.src_nid payload.pid], ?_, ?_, ?_, ?_⟩
      · simp [handle_p2m_flush_one, h, ht, out_reply, State.emit]
      · simp [Event.is_reply]
      · simp
      · intro hv
        exfalso
        apply hsrch
        omega
    | some tsk =>
      by_cases hc : env.lego_copy_to_user tsk payload.user_va payload.pcacheline c.PCACHE_LINE_SIZE = 0
      · refine ⟨-(c.EFAULT : Int), [Event.find_task hdr.src_nid payload.pid,
          Event.copy_to_user tsk.pid payload.user_va c.PCACHE_LINE_SIZE], ?_, ?_, ?_, ?_⟩
        · simp [handle_p2m_flush_one, h, ht, hc, out_reply, State.emit]
        · simp [Event.is_reply]
        · simp
        · intro hv
          exfalso
          apply hfault
          omega
      · refine ⟨0, [Event.find_task hdr.src_nid payload.pid,
          Event.copy_to_user tsk.pid payload.user_va c.PCACHE_LINE_SIZE], ?_, ?_, ?_, ?_⟩
        · simp [handle_p2m_flush_one, h, ht, hc, out_reply, State.emit]
        · simp [Event.is_reply]
        · simp
        · intro _
          exact ⟨tsk, rfl, hc, by simp⟩

/-- Witness of C7: the task `(1, 42)` flushing a line to `0x3000` gets the reply
`0` after one copy. -/
theorem C7_flush_aligned_reply_witness :
    offset_in_page 0x3000 = 0 ∧ x86_consts.ESRCH ≠ 0 ∧ x86_consts.EFAULT ≠ 0 ∧
    handle_p2m_flush_one demo_env x86_consts
        { pid := 42, user_va := 0x3000, pcacheline := [] } 9 { src_nid := 1 } (init_state []) =
      (0, { init_state [] with trace := (init_state []).trace ++ [Event.find_task 1 42,
          Event.copy_to_user 42 0x3000 x86_consts.PCACHE_LINE_SIZE, Event.reply 0 4 9] }) :=
  ⟨by decide, by decide, by decide,
    (C7_flush_aligned_reply demo_env x86_consts
      { pid := 42, user_va := 0x3000, pcacheline := [] } 9 { src_nid := 1 } (init_state [])
      (by decide) (by decide) (by decide)).2.2.1 { node := 1, pid := 42, mm := 0 }
      (by decide) (by decide)⟩

/-! ## Theorems: every routine only appends to the trace -/

@[simp] theorem set_pgd_trace (s : State) (mm : Nat) (pt : PageTable) :
    (s.set_pgd mm pt).trace = s.trace := rfl

@[simp] theorem set_pte_trace (s : State) (mm slot e : Nat) :
    (s.set_pte mm slot e).trace = s.trace := rfl

@[simp] theorem emit_trace (s : State) (e : Event) : (s.emit e).trace = s.trace ++ [e] := rfl

@[simp] theorem spin_lock_pte_trace (mm slot : Nat) (s : State) :
    (spin_lock_pte mm slot s).trace = s.trace := by
  unfold spin_lock_pte
  cases s.racer <;> rfl

theorem pgtable_page_alloc_trace (level : Nat) (s : State) :
    ∃ l, (pgtable_page_alloc level s).2.trace = s.trace ++ l := by
  unfold pgtable_page_alloc
  cases hp : s.pool with
  | nil => exact ⟨[], by simp⟩
  | cons a rest =>
    by_cases ha : a = 0
    · exact ⟨[], by simp [ha]⟩
    · exact ⟨[Event.pgtable_alloc level a], by simp [ha]⟩

theorem get_free_page_trace (z : Bool) (s : State) :
    ∃ l, (__get_free_page z s).2.trace = s.trace ++ l := by
  unfold __get_free_page
  cases hp : s.pool with
  | nil => exact ⟨[], by simp⟩
  | cons a rest =>
    by_cases ha : a = 0
    · exact ⟨[], by simp [ha]⟩
    · exact ⟨[Event.get_free_page z a], by simp [ha]⟩

theorem lego_pud_alloc_trace (mm pgd address : Nat) (s : State) :
    ∃ l, (lego_pud_alloc mm pgd address s).2.trace = s.trace ++ l := by
  unfold lego_pud_alloc
  obtain ⟨l, hl⟩ := pgtable_page_alloc_trace 1 s
  by_cases h1 : (s.mms mm).pgd.pgd pgd = true
  · exact ⟨[], by simp [h1]⟩
  · by_cases h2 : (pgtable_page_alloc 1 s).1 = 0
    · exact ⟨l, by simp [h1, h2, hl]⟩
    · exact ⟨l, by simp [h1, h2, hl]⟩

theorem lego_pmd_alloc_trace (mm pud address : Nat) (s : State) :
    ∃ l, (lego_pmd_alloc mm pud address s).2.trace = s.trace ++ l := by
  unfold lego_pmd_alloc
  obtain ⟨l, hl⟩ := pgtable_page_alloc_trace 2 s
  by_cases h1 : (s.mms mm).pgd.pud pud = true
  · exact ⟨[], by simp [h1]⟩
  · by_cases h2 : (pgtable_page_alloc 2 s).1 = 0
    · exact ⟨l, by simp [h1, h2, hl]⟩
    · exact ⟨l, by simp [h1, h2, hl]⟩

theorem lego_pte_alloc_trace (mm pmd address : Nat) (s : State) :
    ∃ l, (lego_pte_alloc mm pmd address s).2.trace = s.trace ++ l := by
  unfold lego_pte_alloc
  obtain ⟨l, hl⟩ := pgtable_page_alloc_trace 3 s
  by_cases h1 : (s.mms mm).pgd.pmd pmd = true
  · exact ⟨[], by simp [h1]⟩
  · by_cases h2 : (pgtable_page_alloc 3 s).1 = 0
    · exact ⟨l, by simp [h1, h2, hl]⟩
    · exact ⟨l, by simp [h1, h2, hl]⟩

theorem do_fault_trace (c : Consts) (mm : Nat) (vma : vm_area_struct)
    (address pmd pgoff flags orig_pte : Nat) (mf : Bool) (s : State) (out : PteFaultOut)
    (h : __do_fault c mm vma address pmd pgoff flags orig_pte mf s = .ok out) :
    ∃ l, out.st.trace = s.trace ++ l := by
  unfold __do_fault at h
  cases hops : vma.vm_ops with
  | none => simp [hops] at h
  | some ops =>
    cases hf : ops.fault with
    | none => simp [hops, hf] at h
    | some f =>
      simp only [hops, hf] at h
      by_cases he : (f ⟨address &&& PAGE_MASK, pgoff, flags, 0⟩).1 &&& c.VM_FAULT_ERROR = 0
      · simp only [he, ne_eq, not_true_eq_false, if_false, Except.ok.injEq] at h
        subst h
        refine ⟨[Event.vm_fault (address &&& PAGE_MASK) pgoff flags], ?_⟩
        simp only [lego_pte_unlock, lego_pte_offset_lock, pte_set]
        split <;> simp
      · simp only [he, ne_eq, not_false_eq_true, if_true, Except.ok.injEq] at h
        subst h
        exact ⟨[Event.vm_fault (address &&& PAGE_MASK) pgoff flags], by simp⟩

theorem do_anonymous_page_trace (c : Consts) (vma : vm_area_struct)
    (address flags page_table pmd : Nat) (mf : Bool) (s : State) (out : PteFaultOut)
    (h : do_anonymous_page c vma address flags page_table pmd mf s = .ok out) :
    ∃ l, out.st.trace = s.trace ++ l := by
  unfold do_anonymous_page at h
  obtain ⟨l, hl⟩ := get_free_page_trace true s
  by_cases h0 : (__get_free_page true s).1 = 0
  · simp only [h0, if_true, Except.ok.injEq] at h
    subst h
    exact ⟨l, hl⟩
  · simp only [h0, if_false, Except.ok.injEq] at h
    subst h
    refine ⟨l, ?_⟩
    simp only [lego_pte_unlock, lego_pte_offset_lock, pte_set]
    split <;> simp [hl]

theorem handle_pte_fault_trace (c : Consts) (vma : vm_area_struct)
    (address flags pte pmd : Nat) (mf : Bool) (s : State) (out : PteFaultOut)
    (h : handle_pte_fault c vma address flags pte pmd mf s = .ok out) :
    ∃ l, out.st.trace = s.trace ++ l := by
  unfold handle_pte_fault at h
  dsimp only at h
  by_cases hp : pte_present (s.pte_at vma.vm_mm pte) = true
  · by_cases hsame : pte_same ((spin_lock_pte vma.vm_mm pte s).pte_at vma.vm_mm pte)
        (s.pte_at vma.vm_mm pte) = true
    · by_cases hw : flags &&& c.FAULT_FLAG_WRITE = 0
      · simp [hp, hsame, hw, lego_pte_unlock] at h
        subst h
        exact ⟨[], by simp⟩
      · by_cases hpw : pte_write (s.pte_at vma.vm_mm pte) = true
        · simp [hp, hsame, hw, hpw, lego_pte_unlock] at h
          subst h
          refine ⟨[], ?_⟩
          dsimp only
          split <;> simp
        · simp [hp, hsame, hw, hpw, do_wp_page] at h
    · simp [hp, hsame, lego_pte_unlock] at h
      subst h
      exact ⟨[], by simp⟩
  · by_cases hn : pte_none (s.pte_at vma.vm_mm pte) = true
    · cases hops : vma.vm_ops with
      | none =>
        simp [hp, hn, hops] at h
        exact do_anonymous_page_trace _ _ _ _ _ _ _ _ _ h
      | some ops =>
        by_cases hf : ops.fault.isSome = true
        · simp [hp, hn, hops, hf, do_linear_fault] at h
          exact do_fault_trace _ _ _ _ _ _ _ _ _ _ _ h
        · simp [hp, hn, hops, hf] at h
          exact do_anonymous_page_trace _ _ _ _ _ _ _ _ _ h
    · simp [hp, hn, do_swap_page] at h

theorem handle_lego_mm_fault_trace (c : Consts) (vma : vm_area_struct) (address flags : Nat)
    (mf : Bool) (s : State) (out : FaultOut)
    (h : handle_lego_mm_fault c vma address flags mf s = .ok out) :
    ∃ l, out.st.trace = s.trace ++ Event.mm_fault vma.vm_start address flags :: l := by
  unfold handle_lego_mm_fault at h
  obtain ⟨l1, h1⟩ := lego_pud_alloc_trace vma.vm_mm (lego_pgd_offset vma.vm_mm address) address
    (s.emit (Event.mm_fault vma.vm_start address flags))
  simp only [emit_trace] at h1
  dsimp only at h
  split at h
  · cases h
    exact ⟨l1, by simp [h1]⟩
  · rename_i pud hpud
    obtain ⟨l2, h2⟩ := lego_pmd_alloc_trace vma.vm_mm pud address
      (lego_pud_alloc vma.vm_mm (lego_pgd_offset vma.vm_mm address) address
        (s.emit (Event.mm_fault vma.vm_start address flags))).2
    split at h
    · cases h
      exact ⟨l1 ++ l2, by simp [h1, h2]⟩
    · rename_i pmd hpmd
      obtain ⟨l3, h3⟩ := lego_pte_alloc_trace vma.vm_mm pmd address
        (lego_pmd_alloc vma.vm_mm pud address
          (lego_pud_alloc vma.vm_mm (lego_pgd_offset vma.vm_mm address) address
            (s.emit (Event.mm_fault vma.vm_start address flags))).2).2
      split at h
      · cases h
        exact ⟨l1 ++ l2 ++ l3, by simp [h1, h2, h3]⟩
      · rename_i pte hpte
        split at h
        · cases h
        · rename_i o ho
          obtain ⟨l4, h4⟩ := handle_pte_fault_trace _ _ _ _ _ _ _ _ _ ho
          split at h
          · cases h
            exact ⟨l1 ++ l2 ++ l3 ++ l4, by simp [h1, h2, h3, h4]⟩
          · cases h
            exact ⟨l1 ++ l2 ++ l3 ++ l4, by simp [h1, h2, h3, h4]⟩

theorem good_area_trace (c : Consts) (p : lego_task_struct) (vma : vm_area_struct)
    (vaddr offset flags desc : Nat) (s s' : State)
    (h : good_area c p vma vaddr offset flags desc s = .ok s') :
    ∃ l, s'.trace = s.trace ++ Event.mm_fault vma.vm_start vaddr flags :: l := by
  unfold good_area at h
  cases hf : handle_lego_mm_fault c vma vaddr flags false s with
  | error e => simp [hf] at h
  | ok out =>
    obtain ⟨l, hl⟩ := handle_lego_mm_fault_trace _ _ _ _ _ _ _ hf
    simp only [hf] at h
    by_cases he : out.ret &&& c.VM_FAULT_ERROR = 0
    · cases hva : out.ret_va with
      | none => simp [he, hva] at h
      | some pg =>
        simp [he, hva] at h
        subst h
        exact ⟨l ++ [Event.up_read p.mm, Event.reply_mem ((pg + offset) % U64_MOD)
          (PAGE_SIZE / c.CONFIG_PCACHE_FILL_SPLIT_NR) desc], by simp [up_read, hl]⟩
    · simp [he, llc_miss_error] at h
      subst h
      exact ⟨l ++ [_], by simp [hl]; rfl⟩

/-! ## Theorems: resolution failures and addressing errors (LLC miss) -/

/-- The reply that `do_handle_p2m_llc_miss` sends when resolution reports an
error: `RET_ENOMEM` for the out-of-memory bit, `RET_ESIGSEGV` for the bus-error
and segmentation bits, and otherwise the fault-result flags themselves. -/
theorem good_area_error_reply (c : Consts) (p : lego_task_struct) (vma : vm_area_struct)
    (vaddr offset flags desc : Nat) (s : State) (out : FaultOut)
    (hf : handle_lego_mm_fault c vma vaddr flags false s = .ok out)
    (he : out.ret &&& c.VM_FAULT_ERROR ≠ 0) :
    good_area c p vma vaddr offset flags desc s =
      .ok (out.st.emit (Event.reply
        (((if out.ret &&& c.VM_FAULT_OOM ≠ 0 then c.RET_ENOMEM
          else if out.ret &&& (c.VM_FAULT_SIGBUS ||| c.VM_FAULT_SIGSEGV) ≠ 0 then c.RET_ESIGSEGV
          else out.ret) % U32_MOD : Nat) : Int) 4 desc)) := by
  unfold good_area
  simp only [hf]
  simp [he, llc_miss_error]

/-- C3 (evaluated at the failing input): an LLC miss of task `(1, 42)` at `0x4010`,
inside a file-backed VMA whose fault capability reports `VM_FAULT_HWPOISON`
(`0x10`, a `VM_FAULT_ERROR` bit), is answered with the raw flags `0x10`, which
is none of `RET_ESRCH`, `RET_EFAULT`, `RET_ENOMEM`, `RET_ESIGSEGV`. -/
theorem C3_poisoned_fault_replies_raw_flags :
    0x10 &&& x86_consts.VM_FAULT_ERROR ≠ 0 ∧
    llc_trace (handle_p2m_llc_miss poison_env x86_consts
        { pid := 42, flags := 0, missing_vaddr := 0x4010, offset := 0 } 9 { src_nid := 1 }
        (init_state demo_pool)) =
      some [Event.find_task 1 42, Event.down_read 0, Event.find_vma 0 0x4010,
        Event.mm_fault 0x4000 0x4010 0,
        Event.pgtable_alloc 1 0xffff880000101000, Event.pgtable_alloc 2 0xffff880000102000,
        Event.pgtable_alloc 3 0xffff880000103000,
        Event.vm_fault 0x4000 0 0, Event.reply 0x10 4 9] ∧
    (0x10 : Int) ≠ x86_consts.RET_ESRCH ∧ (0x10 : Int) ≠ x86_consts.RET_EFAULT ∧
    (0x10 : Int) ≠ x86_consts.RET_ENOMEM ∧ (0x10 : Int) ≠ x86_consts.RET_ESIGSEGV := by
  refine ⟨by decide, ?_, by decide, by decide, by decide, by decide⟩
  rfl

/-- C4: `do_handle_p2m_llc_miss` answers `RET_ESIGSEGV` without any fault
resolution exactly when `find_vma` finds nothing, or the VMA found starts above
the address and either lacks `VM_GROWSDOWN` or `expand_stack` fails on it; in
that case the `RET_ESIGSEGV` reply is the only reply. When the VMA found starts
above the address, has `VM_GROWSDOWN` and `expand_stack` succeeds, the handler
continues at `good_area` with the expanded VMA. -/
theorem C4_bad_area_exactly_when_no_vma (env : Env) (c : Consts) (p : lego_task_struct)
    (vaddr offset flags desc : Nat) (s : State) :
    ((∃ s', do_handle_p2m_llc_miss env c p vaddr offset flags desc s = .ok s' ∧
        (s'.trace.drop s.trace.length).filter Event.is_mm_fault = [] ∧
        (s'.trace.drop s.trace.length).filter Event.is_reply =
          [Event.reply ((c.RET_ESIGSEGV % U32_MOD : Nat) : Int) 4 desc])
      ↔ (env.find_vma p.mm vaddr = none ∨
          ∃ vma, env.find_vma p.mm vaddr = some vma ∧ vaddr < vma.vm_start ∧
            (vma.vm_flags &&& c.VM_GROWSDOWN = 0 ∨ (env.expand_stack vma vaddr).1 ≠ 0))) ∧
    (∀ vma, env.find_vma p.mm vaddr = some vma → vaddr < vma.vm_start →
        vma.vm_flags &&& c.VM_GROWSDOWN ≠ 0 → (env.expand_stack vma vaddr).1 = 0 →
        do_handle_p2m_llc_miss env c p vaddr offset flags desc s =
          good_area c p (env.expand_stack vma vaddr).2 vaddr offset flags desc
            (((down_read p.mm s).emit (Event.find_vma p.mm vaddr)).emit
              (Event.expand_stack vma.vm_start vaddr))) := by
  constructor
  · unfold do_handle_p2m_llc_miss
    dsimp only
    cases hv : env.find_vma p.mm vaddr with
    | none =>
      simp [bad_area, down_read, Event.is_mm_fault, Event.is_reply]
    | some vma =>
      by_cases hs : vma.vm_start ≤ vaddr
      · simp only [hs, if_true]
        constructor
        · rintro ⟨s', hg, hnf, _⟩
          obtain ⟨l, hl⟩ := good_area_trace _ _ _ _ _ _ _ _ _ hg
          simp [hl, down_read, Event.is_mm_fault] at hnf
        · rintro (h | ⟨vma', hv', hlt, _⟩)
          · cases h
          · cases hv'
            omega
      · simp only [hs, if_false]
        have hlt : vaddr < vma.vm_start := by omega
        by_cases hg : vma.vm_flags &&& c.VM_GROWSDOWN = 0
        · simp [hg, hlt, bad_area, down_read, Event.is_mm_fault, Event.is_reply]
        · by_cases hx : (env.expand_stack vma vaddr).1 = 0
          · simp only [hg, if_false, hx, ne_eq, not_true_eq_false]
            constructor
            · rintro ⟨s', hga, hnf, _⟩
              obtain ⟨l, hl⟩ := good_area_trace _ _ _ _ _ _ _ _ _ hga
              simp [hl, down_read, Event.is_mm_fault] at hnf
            · rintro (h | ⟨vma', hv', _, h | h⟩)
              · cases h
              · cases hv'
                exact absurd h hg
              · cases hv'
                exact absurd hx h
          · simp [hg, hx, hlt, bad_area, down_read, Event.is_mm_fault, Event.is_reply]
  · intro vma hv hlt hg hx
    have hs : ¬ vma.vm_start ≤ vaddr := by omega
    unfold do_handle_p2m_llc_miss
    simp [hv, hs, hg, hx]

/-- Witness of C4: a fault at `0x6ff8`, just below the grows-down stack VMA
`[0x7000,0x8000)`, continues at `good_area` with the VMA expanded to start at
`0x6000`. -/
theorem C4_bad_area_exactly_when_no_vma_witness :
    do_handle_p2m_llc_miss stack_env x86_consts { node := 1, pid := 42, mm := 0 } 0x6ff8 0 0 9
        (init_state demo_pool) =
      good_area x86_consts { node := 1, pid := 42, mm := 0 } (stack_env.expand_stack stack_vma 0x6ff8).2
        0x6ff8 0 0 9
        (((down_read 0 (init_state demo_pool)).emit (Event.find_vma 0 0x6ff8)).emit
          (Event.expand_stack stack_vma.vm_start 0x6ff8)) ∧
    (stack_env.expand_stack stack_vma 0x6ff8).2.vm_start = 0x6000 :=
  ⟨(C4_bad_area_exactly_when_no_vma stack_env x86_consts { node := 1, pid := 42, mm := 0 }
      0x6ff8 0 0 9 (init_state demo_pool)).2 stack_vma rfl (by decide) (by decide) rfl, by decide⟩

/-! ## Theorems: the success reply of an LLC miss -/

/-- The address that `handle_lego_mm_fault` stores through `ret_va` is the frame
field of a leaf entry, and it is stored only when the call returns 0. -/
theorem handle_lego_mm_fault_ret_va (c : Consts) (vma : vm_area_struct) (address flags : Nat)
    (mf : Bool) (s : State) (out : FaultOut) (pg : Nat)
    (h : handle_lego_mm_fault c vma address flags mf s = .ok out)
    (hva : out.ret_va = some pg) :
    pg ≤ PAGE_MASK ∧ out.ret = 0 := by
  unfold handle_lego_mm_fault at h
  dsimp only at h
  split at h
  · cases h
    simp at hva
  · split at h
    · cases h
      simp at hva
    · split at h
      · cases h
        simp at hva
      · split at h
        · cases h
        · split at h
          · cases h
            simp at hva
          · cases h
            simp only [Option.some.injEq] at hva
            subst hva
            exact ⟨Nat.and_le_right, rfl⟩

/-- C5 (as amended): when resolution succeeds with resolved page `pg`, the handler
releases the read lock and sends one reply of `PAGE_SIZE /
CONFIG_PCACHE_FILL_SPLIT_NR` bytes of kernel memory starting at `pg + offset`
(64-bit addition). These bytes lie inside the resolved page whenever the
request's offset leaves room for them, `offset + PAGE_SIZE /
CONFIG_PCACHE_FILL_SPLIT_NR ≤ PAGE_SIZE`; and for an offset that fits the 64-bit
field of the request and a reply of at least one byte they lie inside the
resolved page in no other case. -/
theorem C5_success_reply_is_page_slice (c : Consts) (p : lego_task_struct) (vma : vm_area_struct)
    (vaddr offset flags desc : Nat) (s : State) (out : FaultOut) (pg : Nat)
    (hf : handle_lego_mm_fault c vma vaddr flags false s = .ok out)
    (hok : out.ret &&& c.VM_FAULT_ERROR = 0)
    (hva : out.ret_va = some pg) :
    good_area c p vma vaddr offset flags desc s =
      .ok ((up_read p.mm out.st).emit (Event.reply_mem ((pg + offset) % U64_MOD)
        (PAGE_SIZE / c.CONFIG_PCACHE_FILL_SPLIT_NR) desc)) ∧
    (offset + PAGE_SIZE / c.CONFIG_PCACHE_FILL_SPLIT_NR ≤ PAGE_SIZE →
      reply_inside_page pg ((pg + offset) % U64_MOD) (PAGE_SIZE / c.CONFIG_PCACHE_FILL_SPLIT_NR)) ∧
    (offset < U64_MOD → 0 < PAGE_SIZE / c.CONFIG_PCACHE_FILL_SPLIT_NR →
      (reply_inside_page pg ((pg + offset) % U64_MOD) (PAGE_SIZE / c.CONFIG_PCACHE_FILL_SPLIT_NR) ↔
        offset + PAGE_SIZE / c.CONFIG_PCACHE_FILL_SPLIT_NR ≤ PAGE_SIZE)) := by
  have hpg := (handle_lego_mm_fault_ret_va _ _ _ _ _ _ _ _ hf hva).1
  have h1 : PAGE_MASK = 2 ^ 64 - 4096 := by decide
  have h2 : PAGE_SIZE = 4096 := by decide
  have h3 : U64_MOD = 2 ^ 64 := by decide
  rw [h1] at hpg
  refine ⟨?_, ?_, ?_⟩
  · unfold good_area
    simp only [hf]
    simp [hok, hva]
  · intro hroom
    unfold reply_inside_page
    rw [h2] at hroom ⊢
    rw [h3]
    generalize 4096 / c.CONFIG_PCACHE_FILL_SPLIT_NR = len at hroom ⊢
    omega
  · intro hoff hlen
    unfold reply_inside_page
    rw [h2] at hlen ⊢
    rw [h3] at hoff ⊢
    generalize 4096 / c.CONFIG_PCACHE_FILL_SPLIT_NR = len at hlen ⊢
    omega

/-- Witness of C5: the task `(1, 42)` missing at `0x1500` with offset 0 in the
anonymous VMA gets the whole fresh page `0xffff880000200000`, which is inside
the page; with offset 4096 the reply would not be. -/
theorem C5_success_reply_is_page_slice_witness :
    ∃ out, handle_lego_mm_fault x86_consts anon_vma 0x1500 1 false (init_state demo_pool) = .ok out ∧
      out.ret &&& x86_consts.VM_FAULT_ERROR = 0 ∧
      out.ret_va = some 0xffff880000200000 ∧
      good_area x86_consts { node := 1, pid := 42, mm := 0 } anon_vma 0x1500 0 1 9
          (init_state demo_pool) =
        .ok ((up_read 0 out.st).emit (Event.reply_mem ((0xffff880000200000 + 0) % U64_MOD)
          (PAGE_SIZE / x86_consts.CONFIG_PCACHE_FILL_SPLIT_NR) 9)) ∧
      reply_inside_page 0xffff880000200000 ((0xffff880000200000 + 0) % U64_MOD)
        (PAGE_SIZE / x86_consts.CONFIG_PCACHE_FILL_SPLIT_NR) ∧
      ¬ reply_inside_page 0xffff880000200000 ((0xffff880000200000 + 4096) % U64_MOD)
        (PAGE_SIZE / x86_consts.CONFIG_PCACHE_FILL_SPLIT_NR) :=
  ⟨_, rfl, by decide, rfl,
    (C5_success_reply_is_page_slice x86_consts { node := 1, pid := 42, mm := 0 } anon_vma 0x1500 0 1 9
      (init_state demo_pool) _ 0xffff880000200000 rfl (by decide) rfl).1,
    (C5_success_reply_is_page_slice x86_consts { node := 1, pid := 42, mm := 0 } anon_vma 0x1500 0 1 9
      (init_state demo_pool) _ 0xffff880000200000 rfl (by decide) rfl).2.1 (by decide),
    fun h => absurd
      (((C5_success_reply_is_page_slice x86_consts { node := 1, pid := 42, mm := 0 } anon_vma 0x1500
        4096 1 9 (init_state demo_pool) _ 0xffff880000200000 rfl (by decide) rfl).2.2
          (by decide) (by decide)).1 h) (by decide)⟩

/-- C5 (counterexample): the request of task `(1, 42)` for `0x1500` with
`offset = 4096` resolves successfully (fresh page `0xffff880000200000`
installed for the faulting page), and the reply is the 4096 bytes starting at
`0xffff880000201000`, none of which lies inside the resolved page. -/
theorem C5_offset_beyond_page_is_replied :
    llc_trace (handle_p2m_llc_miss demo_env x86_consts
        { pid := 42, flags := 1, missing_vaddr := 0x1500, offset := 4096 } 9 { src_nid := 1 }
        (init_state demo_pool)) =
      some [Event.find_task 1 42, Event.down_read 0, Event.find_vma 0 0x1500,
        Event.mm_fault 0x1000 0x1500 1,
        Event.pgtable_alloc 1 0xffff880000101000, Event.pgtable_alloc 2 0xffff880000102000,
        Event.pgtable_alloc 3 0xffff880000103000,
        Event.get_free_page true 0xffff880000200000, Event.up_read 0,
        Event.reply_mem 0xffff880000201000 4096 9] ∧
    (llc_pte_at 0 1 (handle_p2m_llc_miss demo_env x86_consts
        { pid := 42, flags := 1, missing_vaddr := 0x1500, offset := 4096 } 9 { src_nid := 1 }
        (init_state demo_pool))).map (fun e => e &&& PTE_VFN_MASK) = some 0xffff880000200000 ∧
    ¬ reply_inside_page 0xffff880000200000 0xffff880000201000 4096 := by
  refine ⟨rfl, rfl, by decide⟩

/-! ## Theorems: bit-level facts about leaf entries -/

theorem PAGE_MASK_eq_shift : PAGE_MASK = (2 ^ 52 - 1) <<< 12 := by decide

theorem testBit_PAGE_MASK (j : Nat) :
    PAGE_MASK.testBit j = (decide (12 ≤ j) && decide (j < 64)) := by
  rw [PAGE_MASK_eq_shift, Nat.testBit_shiftLeft, Nat.testBit_two_pow_sub_one]
  by_cases h : 12 ≤ j
  · simp [h]
    omega
  · simp [h]

theorem testBit_of_lt_U64 (x j : Nat) (hx : x < U64_MOD) (hj : ¬ j < 64) : x.testBit j = false := by
  apply Nat.testBit_eq_false_of_lt
  have h64 : U64_MOD = 2 ^ 64 := rfl
  calc x < 2 ^ 64 := by rw [← h64]; exact hx
    _ ≤ 2 ^ j := Nat.pow_le_pow_right (by norm_num) (by omega)

theorem sign_fill_eq : U64_MOD - 2 ^ (64 - 12) = (2 ^ 12 - 1) <<< 52 := by decide

/-- Building an entry from the sign-extending shift of a 64-bit address keeps the
frame field of the address and adds the template. -/
theorem lego_vfn_pte_sar64 (x prot : Nat) (hx : x < U64_MOD) :
    lego_vfn_pte (sar64 x PAGE_SHIFT) prot = (x &&& PAGE_MASK) ||| prot := by
  unfold lego_vfn_pte
  congr 1
  apply Nat.eq_of_testBit_eq
  intro j
  have hU : U64_MOD = 2 ^ 64 := rfl
  have hS : PAGE_SHIFT = 12 := rfl
  rw [hU, Nat.testBit_mod_two_pow, Nat.testBit_shiftLeft, Nat.testBit_and, testBit_PAGE_MASK, hS]
  unfold sar64
  by_cases h12 : 12 ≤ j
  · by_cases h64 : j < 64
    · have hj : 12 + (j - 12) = j := by omega
      split
      · simp [h12, h64, Nat.testBit_shiftRight, hj]
      · rw [Nat.testBit_or, sign_fill_eq, Nat.testBit_shiftLeft]
        have hlow : ¬ (j - 12 ≥ 52) := by omega
        simp [h12, h64, Nat.testBit_shiftRight, hj, hlow]
    · simp [h64, testBit_of_lt_U64 x j hx h64]
  · simp [h12]

/-- A page-aligned 64-bit address is its own frame field. -/
theorem and_PAGE_MASK_of_aligned (x : Nat) (hx : x < U64_MOD) (ha : x % PAGE_SIZE = 0) :
    x &&& PAGE_MASK = x := by
  apply Nat.eq_of_testBit_eq
  intro j
  rw [Nat.testBit_and, testBit_PAGE_MASK]
  by_cases h12 : 12 ≤ j
  · by_cases h64 : j < 64
    · simp [h12, h64]
    · simp [h64, testBit_of_lt_U64 x j hx h64]
  · have hlow : x.testBit j = false := by
      have h1 : (x % 2 ^ 12).testBit j = false := by
        have h0 : x % 2 ^ 12 = 0 := ha
        rw [h0]
        simp
      rw [Nat.testBit_mod_two_pow] at h1
      have hj : j < 12 := by omega
      simpa [hj] using h1
    simp [hlow]

theorem ne_zero_of_testBit (x k : Nat) (h : x.testBit k = true) : x ≠ 0 := by
  rintro rfl
  simp at h

theorem pte_write_mkwrite (e : Nat) : pte_write (pte_mkwrite e) = true := by
  unfold pte_write pte_mkwrite _PAGE_RW
  have h : ((e ||| 2) &&& 2).testBit 1 = true := by
    rw [Nat.testBit_and, Nat.testBit_or]
    have h2 : Nat.testBit 2 1 = true := by decide
    simp [h2]
  simpa using ne_zero_of_testBit _ _ h

theorem pte_dirty_mkwrite_mkdirty (e : Nat) : pte_dirty (pte_mkwrite (pte_mkdirty e)) = true := by
  unfold pte_dirty pte_mkwrite pte_mkdirty _PAGE_RW _PAGE_DIRTY
  have h : ((e ||| 64 ||| 2) &&& 64).testBit 6 = true := by
    rw [Nat.testBit_and, Nat.testBit_or, Nat.testBit_or]
    have h2 : Nat.testBit 64 6 = true := by decide
    simp [h2]
  simpa using ne_zero_of_testBit _ _ h

/-- An entry built from a 64-bit page address and a template carries exactly the
write and dirty bits of the template. -/
theorem lego_vfn_pte_low_bits (x prot : Nat) (hx : x < U64_MOD) :
    pte_write (lego_vfn_pte (sar64 x PAGE_SHIFT) prot) = pte_write prot ∧
    pte_dirty (lego_vfn_pte (sar64 x PAGE_SHIFT) prot) = pte_dirty prot := by
  rw [lego_vfn_pte_sar64 x prot hx]
  have hw : PAGE_MASK &&& _PAGE_RW = 0 := by decide
  have hd : PAGE_MASK &&& _PAGE_DIRTY = 0 := by decide
  unfold pte_write pte_dirty
  rw [Nat.and_distrib_right, Nat.and_distrib_right, Nat.and_assoc, Nat.and_assoc, hw, hd]
  simp

/-- The frame field of an entry built for a page-aligned 64-bit page address is
that address, with or without the write and dirty bits, provided the template
bits that fall into the frame field are bits of the address. -/
theorem entry_frame_field (pg prot : Nat) (hx : pg < U64_MOD) (ha : pg % PAGE_SIZE = 0)
    (hprot : (prot &&& PTE_VFN_MASK) ||| pg = pg) :
    lego_vfn_pte (sar64 pg PAGE_SHIFT) prot &&& PTE_VFN_MASK = pg ∧
    pte_mkwrite (pte_mkdirty (lego_vfn_pte (sar64 pg PAGE_SHIFT) prot)) &&& PTE_VFN_MASK = pg := by
  have hw : _PAGE_RW &&& PTE_VFN_MASK = 0 := by decide
  have hd : _PAGE_DIRTY &&& PTE_VFN_MASK = 0 := by decide
  have hM : PTE_VFN_MASK = PAGE_MASK := rfl
  have hpg : pg &&& PTE_VFN_MASK = pg := by
    rw [hM]
    exact and_PAGE_MASK_of_aligned pg hx ha
  have hbase : lego_vfn_pte (sar64 pg PAGE_SHIFT) prot &&& PTE_VFN_MASK = pg := by
    rw [lego_vfn_pte_sar64 pg prot hx, and_PAGE_MASK_of_aligned pg hx ha, Nat.and_distrib_right, hpg,
      Nat.or_comm]
    exact hprot
  refine ⟨hbase, ?_⟩
  unfold pte_mkwrite pte_mkdirty
  rw [Nat.and_distrib_right, Nat.and_distrib_right, hbase, hw, hd]
  simp

/-! ## Theorems: installing a leaf entry -/

@[simp] theorem pte_at_set_pte (s : State) (mm slot e : Nat) :
    (s.set_pte mm slot e).pte_at mm slot = e := by
  simp [State.set_pte, State.set_pgd, State.pte_at]

@[simp] theorem set_pte_pool (s : State) (mm slot e : Nat) : (s.set_pte mm slot e).pool = s.pool := rfl

@[simp] theorem set_pte_racer (s : State) (mm slot e : Nat) :
    (s.set_pte mm slot e).racer = s.racer := rfl

/-- The anonymous path, run without a concurrent walker on an absent leaf entry
with the allocator answering `pg`: the exact outcome. -/
theorem do_anonymous_page_eq (c : Consts) (vma : vm_area_struct)
    (address flags page_table pmd : Nat) (mf : Bool) (s : State) (pg : Nat) (rest : List Nat)
    (hpool : s.pool = pg :: rest) (hpg : pg ≠ 0) (hrace : s.racer = none)
    (hnone : s.pte_at vma.vm_mm (address >>> PAGE_SHIFT) = 0) :
    do_anonymous_page c vma address flags page_table pmd mf s =
      .ok ⟨0, if mf then some c.PCACHE_MAPPING_ANON else none,
        ({ s with pool := rest, trace := s.trace ++ [Event.get_free_page true pg] }).set_pte
          vma.vm_mm (address >>> PAGE_SHIFT)
          (if vma.vm_flags &&& c.VM_WRITE ≠ 0 then
            pte_mkwrite (pte_mkdirty (lego_vfn_pte (sar64 pg PAGE_SHIFT) vma.vm_page_prot))
          else lego_vfn_pte (sar64 pg PAGE_SHIFT) vma.vm_page_prot)⟩ := by
  have hnone' : (s.mms vma.vm_mm).pgd.pte (address >>> PAGE_SHIFT) = 0 := hnone
  unfold do_anonymous_page __get_free_page
  simp [hpool, hpg, lego_pte_offset_lock, spin_lock_pte, hrace, pte_none, State.pte_at, hnone',
    pte_set, lego_pte_unlock]

/-- The file-backed path, run without a concurrent walker on a leaf entry that
still holds what the walker first read, with a capability that reports no
error: the exact outcome. -/
theorem do_fault_eq (c : Consts) (mm : Nat) (vma : vm_area_struct)
    (address pmd pgoff flags orig_pte : Nat) (mf : Bool) (s : State)
    (ops : vm_operations_struct) (f : vm_fault → Nat × vm_fault)
    (hops : vma.vm_ops = some ops) (hf : ops.fault = some f)
    (hok : (f ⟨address &&& PAGE_MASK, pgoff, flags, 0⟩).1 &&& c.VM_FAULT_ERROR = 0)
    (hrace : s.racer = none)
    (hsame : s.pte_at mm (address >>> PAGE_SHIFT) = orig_pte) :
    __do_fault c mm vma address pmd pgoff flags orig_pte mf s =
      .ok ⟨0, if mf then some c.PCACHE_MAPPING_FILE else none,
        (s.emit (Event.vm_fault (address &&& PAGE_MASK) pgoff flags)).set_pte mm (address >>> PAGE_SHIFT)
          (if flags &&& c.FAULT_FLAG_WRITE ≠ 0 then
            pte_mkwrite (pte_mkdirty (lego_vfn_pte
              (sar64 (f ⟨address &&& PAGE_MASK, pgoff, flags, 0⟩).2.page PAGE_SHIFT) vma.vm_page_prot))
          else lego_vfn_pte
              (sar64 (f ⟨address &&& PAGE_MASK, pgoff, flags, 0⟩).2.page PAGE_SHIFT) vma.vm_page_prot)⟩ := by
  have hsame' : (s.mms mm).pgd.pte (address >>> PAGE_SHIFT) = orig_pte := hsame
  unfold __do_fault
  simp [hops, hf, hok, lego_pte_offset_lock, spin_lock_pte, hrace, pte_same, State.pte_at,
    State.emit, hsame', pte_set, lego_pte_unlock]

@[simp] theorem set_pgd_pool (s : State) (mm : Nat) (pt : PageTable) :
    (s.set_pgd mm pt).pool = s.pool := rfl

@[simp] theorem set_pgd_racer (s : State) (mm : Nat) (pt : PageTable) :
    (s.set_pgd mm pt).racer = s.racer := rfl

theorem lego_pud_alloc_ok (mm pgd address : Nat) (s : State) (n : Nat)
    (hlen : n + 1 ≤ s.pool.length) (hnz : ∀ z ∈ s.pool.take (n + 1), z ≠ 0) :
    (lego_pud_alloc mm pgd address s).1 = some (address >>> 30) ∧
    (lego_pud_alloc mm pgd address s).2.racer = s.racer ∧
    (∀ m sl, (lego_pud_alloc mm pgd address s).2.pte_at m sl = s.pte_at m sl) ∧
    n ≤ (lego_pud_alloc mm pgd address s).2.pool.length ∧
    (∀ z ∈ (lego_pud_alloc mm pgd address s).2.pool.take n, z ∈ s.pool.take (n + 1)) ∧
    ∃ l, (lego_pud_alloc mm pgd address s).2.trace = s.trace ++ l ∧
      l.filter Event.is_get_free_page = [] := by
  by_cases h1 : (s.mms mm).pgd.pgd pgd = true
  · have heq : lego_pud_alloc mm pgd address s = (some (address >>> 30), s) := by
      unfold lego_pud_alloc
      simp [h1]
    rw [heq]
    refine ⟨rfl, rfl, fun _ _ => rfl, by show n ≤ s.pool.length; omega, ?_, [], by simp, rfl⟩
    intro z hz
    have hz' : z ∈ (s.pool.take (n + 1)).take n := by
      rw [List.take_take]
      simpa using hz
    exact List.mem_of_mem_take hz'
  · cases hp : s.pool with
    | nil => simp [hp] at hlen
    | cons x xs =>
      have hx : x ≠ 0 := hnz x (by simp [hp])
      have hlen' : n ≤ xs.length := by
        rw [hp] at hlen
        simpa using hlen
      have heq : lego_pud_alloc mm pgd address s = (some (address >>> 30),
          ({ s with pool := xs, trace := s.trace ++ [Event.pgtable_alloc 1 x] } : State).set_pgd mm
            { (s.mms mm).pgd with pgd := Function.update (s.mms mm).pgd.pgd pgd true }) := by
        unfold lego_pud_alloc
        simp [h1, pgtable_page_alloc, hp, hx]
      rw [heq]
      refine ⟨rfl, rfl, ?_, hlen', ?_, [Event.pgtable_alloc 1 x], rfl, rfl⟩
      · intro m sl
        by_cases hm : m = mm
        · subst hm
          simp [State.pte_at, State.set_pgd]
        · simp [State.pte_at, State.set_pgd, Function.update_noteq hm]
      · intro z hz
        have hz2 : z ∈ xs.take n := hz
        simp [List.take_succ_cons, hz2]

theorem lego_pmd_alloc_ok (mm pud address : Nat) (s : State) (n : Nat)
    (hlen : n + 1 ≤ s.pool.length) (hnz : ∀ z ∈ s.pool.take (n + 1), z ≠ 0) :
    (lego_pmd_alloc mm pud address s).1 = some (address >>> 21) ∧
    (lego_pmd_alloc mm pud address s).2.racer = s.racer ∧
    (∀ m sl, (lego_pmd_alloc mm pud address s).2.pte_at m sl = s.pte_at m sl) ∧
    n ≤ (lego_pmd_alloc mm pud address s).2.pool.length ∧
    (∀ z ∈ (lego_pmd_alloc mm pud address s).2.pool.take n, z ∈ s.pool.take (n + 1)) ∧
    ∃ l, (lego_pmd_alloc mm pud address s).2.trace = s.trace ++ l ∧
      l.filter Event.is_get_free_page = [] := by
  by_cases h1 : (s.mms mm).pgd.pud pud = true
  · have heq : lego_pmd_alloc mm pud address s = (some (address >>> 21), s) := by
      unfold lego_pmd_alloc
      simp [h1]
    rw [heq]
    refine ⟨rfl, rfl, fun _ _ => rfl, by show n ≤ s.pool.length; omega, ?_, [], by simp, rfl⟩
    intro z hz
    have hz' : z ∈ (s.pool.take (n + 1)).take n := by
      rw [List.take_take]
      simpa using hz
    exact List.mem_of_mem_take hz'
  · cases hp : s.pool with
    | nil => simp [hp] at hlen
    | cons x xs =>
      have hx : x ≠ 0 := hnz x (by simp [hp])
      have hlen' : n ≤ xs.length := by
        rw [hp] at hlen
        simpa using hlen
      have heq : lego_pmd_alloc mm pud address s = (some (address >>> 21),
          ({ s with pool := xs, trace := s.trace ++ [Event.pgtable_alloc 2 x] } : State).set_pgd mm
            { (s.mms mm).pgd with pud := Function.update (s.mms mm).pgd.pud pud true }) := by
        unfold lego_pmd_alloc
        simp [h1, pgtable_page_alloc, hp, hx]
      rw [heq]
      refine ⟨rfl, rfl, ?_, hlen', ?_, [Event.pgtable_alloc 2 x], rfl, rfl⟩
      · intro m sl
        by_cases hm : m = mm
        · subst hm
          simp [State.pte_at, State.set_pgd]
        · simp [State.pte_at, State.set_pgd, Function.update_noteq hm]
      · intro z hz
        have hz2 : z ∈ xs.take n := hz
        simp [List.take_succ_cons, hz2]

theorem lego_pte_alloc_ok (mm pmd address : Nat) (s : State) (n : Nat)
    (hlen : n + 1 ≤ s.pool.length) (hnz : ∀ z ∈ s.pool.take (n + 1), z ≠ 0) :
    (lego_pte_alloc mm pmd address s).1 = some (address >>> PAGE_SHIFT) ∧
    (lego_pte_alloc mm pmd address s).2.racer = s.racer ∧
    (∀ m sl, (lego_pte_alloc mm pmd address s).2.pte_at m sl = s.pte_at m sl) ∧
    n ≤ (lego_pte_alloc mm pmd address s).2.pool.length ∧
    (∀ z ∈ (lego_pte_alloc mm pmd address s).2.pool.take n, z ∈ s.pool.take (n + 1)) ∧
    ∃ l, (lego_pte_alloc mm pmd address s).2.trace = s.trace ++ l ∧
      l.filter Event.is_get_free_page = [] := by
  by_cases h1 : (s.mms mm).pgd.pmd pmd = true
  · have heq : lego_pte_alloc mm pmd address s = (some (address >>> PAGE_SHIFT), s) := by
      unfold lego_pte_alloc
      simp [h1]
    rw [heq]
    refine ⟨rfl, rfl, fun _ _ => rfl, by show n ≤ s.pool.length; omega, ?_, [], by simp, rfl⟩
    intro z hz
    have hz' : z ∈ (s.pool.take (n + 1)).take n := by
      rw [List.take_take]
      simpa using hz
    exact List.mem_of_mem_take hz'
  · cases hp : s.pool with
    | nil => simp [hp] at hlen
    | cons x xs =>
      have hx : x ≠ 0 := hnz x (by simp [hp])
      have hlen' : n ≤ xs.length := by
        rw [hp] at hlen
        simpa using hlen
      have heq : lego_pte_alloc mm pmd address s = (some (address >>> PAGE_SHIFT),
          ({ s with pool := xs, trace := s.trace ++ [Event.pgtable_alloc 3 x] } : State).set_pgd mm
            { (s.mms mm).pgd with pmd := Function.update (s.mms mm).pgd.pmd pmd true }) := by
        unfold lego_pte_alloc
        simp [h1, pgtable_page_alloc, hp, hx]
      rw [heq]
      refine ⟨rfl, rfl, ?_, hlen', ?_, [Event.pgtable_alloc 3 x], rfl, rfl⟩
      · intro m sl
        by_cases hm : m = mm
        · subst hm
          simp [State.pte_at, State.set_pgd]
        · simp [State.pte_at, State.set_pgd, Function.update_noteq hm]
      · intro z hz
        have hz2 : z ∈ xs.take n := hz
        simp [List.take_succ_cons, hz2]

theorem or_and_self_right (a p : Nat) : (a ||| p) &&& p = p := by
  apply Nat.eq_of_testBit_eq
  intro j
  rw [Nat.testBit_and, Nat.testBit_or]
  cases a.testBit j <;> cases p.testBit j <;> rfl

theorem or_or_or_and_self (a p b d : Nat) : (a ||| p ||| b ||| d) &&& p = p := by
  apply Nat.eq_of_testBit_eq
  intro j
  rw [Nat.testBit_and, Nat.testBit_or, Nat.testBit_or, Nat.testBit_or]
  cases a.testBit j <;> cases p.testBit j <;> cases b.testBit j <;> cases d.testBit j <;> rfl

/-- An absent entry is neither present nor anything but none. -/
theorem pte_present_zero : pte_present 0 = false := by decide

theorem pte_none_zero : pte_none 0 = true := by decide

/-- On an absent leaf entry of a VMA without a fault capability
`handle_pte_fault` takes the anonymous path. -/
theorem handle_pte_fault_anon (c : Consts) (vma : vm_area_struct) (address flags pte pmd : Nat)
    (mf : Bool) (s : State)
    (hanon : ∀ ops, vma.vm_ops = some ops → ops.fault = none)
    (hnone : s.pte_at vma.vm_mm pte = 0) :
    handle_pte_fault c vma address flags pte pmd mf s =
      do_anonymous_page c vma address flags pte pmd mf s := by
  unfold handle_pte_fault
  simp only [hnone, pte_present_zero, pte_none_zero]
  cases hops : vma.vm_ops with
  | none => simp
  | some ops => simp [hanon ops hops]

/-- C8: on an absent leaf entry of a VMA without a fault capability, with no
concurrent walker and an allocator whose next four answers are page-aligned
non-null 64-bit addresses (so every allocation of the call succeeds),
`handle_lego_mm_fault` returns 0, takes exactly one zeroed page `pg` from the
allocator, installs for the faulting page the entry built from `pg` and the
VMA's protection template (with the write and dirty bits when the VMA is
writable), and stores `pg` through `ret_va`: the frame field of the installed
entry. The template bits that fall into the frame field must be bits of the
page address (on x86-64: the no-execute bit, set in every kernel address). -/
theorem C8_anonymous_fault_installs_fresh_page (c : Consts) (vma : vm_area_struct)
    (address flags : Nat) (mf : Bool) (s : State)
    (hanon : ∀ ops, vma.vm_ops = some ops → ops.fault = none)
    (hnone : s.pte_at vma.vm_mm (address >>> PAGE_SHIFT) = 0)
    (hrace : s.racer = none)
    (hlen : 4 ≤ s.pool.length)
    (hgood : ∀ x ∈ s.pool.take 4, x ≠ 0 ∧ x % PAGE_SIZE = 0 ∧ x < U64_MOD ∧
      (vma.vm_page_prot &&& PTE_VFN_MASK) ||| x = x) :
    ∃ out pg, handle_lego_mm_fault c vma address flags mf s = .ok out ∧
      out.ret = 0 ∧
      pg ∈ s.pool.take 4 ∧
      (out.st.trace.drop s.trace.length).filter Event.is_get_free_page
        = [Event.get_free_page true pg] ∧
      out.st.pte_at vma.vm_mm (address >>> PAGE_SHIFT) =
        (if vma.vm_flags &&& c.VM_WRITE ≠ 0 then
          pte_mkwrite (pte_mkdirty (lego_vfn_pte (sar64 pg PAGE_SHIFT) vma.vm_page_prot))
        else lego_vfn_pte (sar64 pg PAGE_SHIFT) vma.vm_page_prot) ∧
      out.st.pte_at vma.vm_mm (address >>> PAGE_SHIFT) &&& PTE_VFN_MASK = pg ∧
      out.st.pte_at vma.vm_mm (address >>> PAGE_SHIFT) &&& vma.vm_page_prot = vma.vm_page_prot ∧
      out.ret_va = some pg := by
  have hnz : ∀ z ∈ (s.emit (Event.mm_fault vma.vm_start address flags)).pool.take (3 + 1), z ≠ 0 :=
    fun z hz => (hgood z hz).1
  obtain ⟨e1, r1, p1, len1, sub1, l1, t1, f1⟩ := lego_pud_alloc_ok vma.vm_mm
    (lego_pgd_offset vma.vm_mm address) address
    (s.emit (Event.mm_fault vma.vm_start address flags)) 3 hlen hnz
  unfold handle_lego_mm_fault
  dsimp only
  simp only [e1]
  generalize (lego_pud_alloc vma.vm_mm (lego_pgd_offset vma.vm_mm address) address
    (s.emit (Event.mm_fault vma.vm_start address flags))).2 = S1 at *
  have hnz1 : ∀ z ∈ S1.pool.take (2 + 1), z ≠ 0 := fun z hz => hnz z (sub1 z hz)
  obtain ⟨e2, r2, p2, len2, sub2, l2, t2, f2⟩ := lego_pmd_alloc_ok vma.vm_mm
    (address >>> 30) address S1 2 len1 hnz1
  simp only [e2]
  generalize (lego_pmd_alloc vma.vm_mm (address >>> 30) address S1).2 = S2 at *
  have hnz2 : ∀ z ∈ S2.pool.take (1 + 1), z ≠ 0 := fun z hz => hnz1 z (sub2 z hz)
  obtain ⟨e3, r3, p3, len3, sub3, l3, t3, f3⟩ := lego_pte_alloc_ok vma.vm_mm
    (address >>> 21) address S2 1 len2 hnz2
  simp only [e3]
  generalize (lego_pte_alloc vma.vm_mm (address >>> 21) address S2).2 = S3 at *
  have hnone3 : S3.pte_at vma.vm_mm (address >>> PAGE_SHIFT) = 0 := by
    rw [p3, p2, p1]
    exact hnone
  have hrace3 : S3.racer = none := by
    rw [r3, r2, r1]
    exact hrace
  cases hp3 : S3.pool with
  | nil => simp [hp3] at len3
  | cons pg rest =>
    have hpg4 : pg ∈ s.pool.take 4 := by
      have h3 : pg ∈ S3.pool.take 1 := by simp [hp3]
      exact sub1 pg (sub2 pg (sub3 pg h3))
    obtain ⟨hpg0, hpga, hpgl, hpgp⟩ := hgood pg hpg4
    rw [handle_pte_fault_anon c vma address flags _ _ mf S3 hanon hnone3,
      do_anonymous_page_eq c vma address flags _ _ mf S3 pg rest hp3 hpg0 hrace3 hnone3]
    obtain ⟨hfr1, hfr2⟩ := entry_frame_field pg vma.vm_page_prot hpgl hpga hpgp
    have htr : S3.trace = s.trace ++ ([Event.mm_fault vma.vm_start address flags] ++ l1 ++ l2 ++ l3) := by
      rw [t3, t2, t1]
      simp
    refine ⟨_, pg, rfl, rfl, hpg4, ?_, ?_, ?_, ?_, ?_⟩
    · simp [htr, f1, f2, f3, Event.is_get_free_page]
    · simp
    · simp only [pte_at_set_pte]
      split
      · exact hfr2
      · exact hfr1
    · simp only [pte_at_set_pte]
      rw [lego_vfn_pte_sar64 pg _ hpgl]
      split
      · unfold pte_mkwrite pte_mkdirty
        exact or_or_or_and_self _ _ _ _
      · exact or_and_self_right _ _
    · simp only [pte_at_set_pte, pte_val]
      split
      · rw [hfr2]
      · rw [hfr1]

/-- Witness of C8: the anonymous writable VMA `[0x1000,0x2000)`, fault at `0x1500`
with the write flag, on an empty address space. -/
theorem C8_anonymous_fault_installs_fresh_page_witness :
    (init_state demo_pool).pte_at anon_vma.vm_mm (0x1500 >>> PAGE_SHIFT) = 0 ∧
    ∃ out pg, handle_lego_mm_fault x86_consts anon_vma 0x1500 1 false (init_state demo_pool) = .ok out ∧
      out.ret = 0 ∧
      pg ∈ (init_state demo_pool).pool.take 4 ∧
      (out.st.trace.drop (init_state demo_pool).trace.length).filter Event.is_get_free_page
        = [Event.get_free_page true pg] ∧
      out.st.pte_at anon_vma.vm_mm (0x1500 >>> PAGE_SHIFT) =
        (if anon_vma.vm_flags &&& x86_consts.VM_WRITE ≠ 0 then
          pte_mkwrite (pte_mkdirty (lego_vfn_pte (sar64 pg PAGE_SHIFT) anon_vma.vm_page_prot))
        else lego_vfn_pte (sar64 pg PAGE_SHIFT) anon_vma.vm_page_prot) ∧
      out.st.pte_at anon_vma.vm_mm (0x1500 >>> PAGE_SHIFT) &&& PTE_VFN_MASK = pg ∧
      out.st.pte_at anon_vma.vm_mm (0x1500 >>> PAGE_SHIFT) &&& anon_vma.vm_page_prot
        = anon_vma.vm_page_prot ∧
      out.ret_va = some pg :=
  ⟨by decide,
    C8_anonymous_fault_installs_fresh_page x86_consts anon_vma 0x1500 1 false (init_state demo_pool)
      (by intro ops h; cases h) (by decide) rfl (by decide) (by decide)⟩

/-- The concrete run behind the witness of C8: the fresh page is
`0xffff880000200000`, the installed entry is that address with the template
`0x25` and the write and dirty bits. -/
theorem anon_fault_scenario :
    fault_pte_at 0 1 (handle_lego_mm_fault x86_consts anon_vma 0x1500 1 false (init_state demo_pool))
      = some 0xffff880000200067 := by
  rfl

/-! ## Theorems: the write/dirty policy of the two install paths -/

/-- C9 (counterexample): a write request (`FAULT_FLAG_WRITE`) at `0x4010` in the
read-only file-backed VMA `[0x4000,0x6000)` (no `VM_WRITE`, template without
write and dirty bits) installs, on an absent entry, an entry with the write and
dirty bits set. -/
theorem C9_write_fault_on_readonly_file_vma_installs_writable :
    (init_state demo_pool).pte_at 0 4 = 0 ∧
    ro_file_vma.vm_flags &&& x86_consts.VM_WRITE = 0 ∧
    pte_write ro_file_vma.vm_page_prot = false ∧
    (1 : Nat) &&& x86_consts.FAULT_FLAG_WRITE ≠ 0 ∧
    fault_pte_at 0 4 (handle_lego_mm_fault x86_consts ro_file_vma 0x4010 1 false (init_state demo_pool))
      = some 0xffff880000300067 ∧
    pte_write 0xffff880000300067 = true ∧ pte_dirty 0xffff880000300067 = true := by
  refine ⟨by decide, by decide, by decide, by decide, rfl, by decide, by decide⟩

/-- C9 (as amended): when `__do_fault` installs a new entry (capability without
error, no concurrent walker, slot still holding what the walker first read),
the entry is the one built from the page supplied by the capability and the
VMA's protection template, with the write and dirty bits added exactly when the
request carries `FAULT_FLAG_WRITE`; `VM_WRITE` is not consulted. So a write
request always yields the write and dirty bits, and any other request yields
just the write and dirty bits of the template. -/
theorem C9_file_fault_write_bits_follow_request (c : Consts) (mm : Nat) (vma : vm_area_struct)
    (address pmd pgoff flags orig_pte : Nat) (mf : Bool) (s : State)
    (ops : vm_operations_struct) (f : vm_fault → Nat × vm_fault)
    (hops : vma.vm_ops = some ops) (hf : ops.fault = some f)
    (hok : (f ⟨address &&& PAGE_MASK, pgoff, flags, 0⟩).1 &&& c.VM_FAULT_ERROR = 0)
    (hrace : s.racer = none)
    (hsame : s.pte_at mm (address >>> PAGE_SHIFT) = orig_pte) :
    ∃ out, __do_fault c mm vma address pmd pgoff flags orig_pte mf s = .ok out ∧
      out.ret = 0 ∧
      out.st.pte_at mm (address >>> PAGE_SHIFT) =
        (if flags &&& c.FAULT_FLAG_WRITE ≠ 0 then
          pte_mkwrite (pte_mkdirty (lego_vfn_pte
            (sar64 (f ⟨address &&& PAGE_MASK, pgoff, flags, 0⟩).2.page PAGE_SHIFT) vma.vm_page_prot))
        else lego_vfn_pte
            (sar64 (f ⟨address &&& PAGE_MASK, pgoff, flags, 0⟩).2.page PAGE_SHIFT) vma.vm_page_prot) ∧
      (flags &&& c.FAULT_FLAG_WRITE ≠ 0 →
        pte_write (out.st.pte_at mm (address >>> PAGE_SHIFT)) = true ∧
        pte_dirty (out.st.pte_at mm (address >>> PAGE_SHIFT)) = true) ∧
      (flags &&& c.FAULT_FLAG_WRITE = 0 →
        (f ⟨address &&& PAGE_MASK, pgoff, flags, 0⟩).2.page < U64_MOD →
        pte_write (out.st.pte_at mm (address >>> PAGE_SHIFT)) = pte_write vma.vm_page_prot ∧
        pte_dirty (out.st.pte_at mm (address >>> PAGE_SHIFT)) = pte_dirty vma.vm_page_prot) := by
  refine ⟨_, do_fault_eq c mm vma address pmd pgoff flags orig_pte mf s ops f hops hf hok hrace hsame,
    rfl, by simp, ?_, ?_⟩
  · intro hw
    simp only [pte_at_set_pte]
    rw [if_pos hw]
    exact ⟨pte_write_mkwrite _, pte_dirty_mkwrite_mkdirty _⟩
  · intro hw hlt
    simp only [pte_at_set_pte]
    rw [if_neg (by simp [hw])]
    exact lego_vfn_pte_low_bits _ _ hlt

/-- Witness of C9: the write request at `0x4010` in the read-only file-backed VMA. -/
theorem C9_file_fault_write_bits_follow_request_witness :
    ∃ out, __do_fault x86_consts 0 ro_file_vma 0x4010 (0x4010 >>> 21) 0 1 0 false (init_state []) = .ok out ∧
      pte_write (out.st.pte_at 0 (0x4010 >>> PAGE_SHIFT)) = true ∧
      pte_dirty (out.st.pte_at 0 (0x4010 >>> PAGE_SHIFT)) = true :=
  let ⟨out, h1, _, _, h4, _⟩ :=
    C9_file_fault_write_bits_follow_request x86_consts 0 ro_file_vma 0x4010 (0x4010 >>> 21) 0 1 0 false
      (init_state []) _ _ rfl rfl (by decide) rfl (by decide)
  ⟨out, h1, (h4 (by decide)).1, (h4 (by decide)).2⟩

/-- C10 (counterexample): a read request (no `FAULT_FLAG_WRITE`) at `0x1500` in the
writable anonymous VMA `[0x1000,0x2000)` installs, on an absent entry, an entry
with the write and dirty bits set. -/
theorem C10_read_fault_on_writable_anon_vma_installs_writable :
    (init_state demo_pool).pte_at 0 1 = 0 ∧
    anon_vma.vm_flags &&& x86_consts.VM_WRITE ≠ 0 ∧
    (0 : Nat) &&& x86_consts.FAULT_FLAG_WRITE = 0 ∧
    fault_pte_at 0 1 (handle_lego_mm_fault x86_consts anon_vma 0x1500 0 false (init_state demo_pool))
      = some 0xffff880000200067 ∧
    pte_write 0xffff880000200067 = true ∧ pte_dirty 0xffff880000200067 = true := by
  refine ⟨by decide, by decide, by decide, rfl, by decide, by decide⟩

/-- C10 (as amended): when `do_anonymous_page` installs a new entry (allocation
succeeds, no concurrent walker, slot absent), the entry is the one built from
the fresh page and the VMA's protection template, with the write and dirty bits
added exactly when the region is writable (`VM_WRITE`), whatever the request
flags: the request's `FAULT_FLAG_WRITE` is not consulted, unlike on the
file-backed path. -/
theorem C10_anonymous_write_bits_follow_region (c : Consts) (vma : vm_area_struct)
    (address flags page_table pmd : Nat) (mf : Bool) (s : State) (pg : Nat) (rest : List Nat)
    (hpool : s.pool = pg :: rest) (hpg : pg ≠ 0) (hrace : s.racer = none)
    (hnone : s.pte_at vma.vm_mm (address >>> PAGE_SHIFT) = 0) :
    ∃ out, do_anonymous_page c vma address flags page_table pmd mf s = .ok out ∧
      out.ret = 0 ∧
      out.st.pte_at vma.vm_mm (address >>> PAGE_SHIFT) =
        (if vma.vm_flags &&& c.VM_WRITE ≠ 0 then
          pte_mkwrite (pte_mkdirty (lego_vfn_pte (sar64 pg PAGE_SHIFT) vma.vm_page_prot))
        else lego_vfn_pte (sar64 pg PAGE_SHIFT) vma.vm_page_prot) ∧
      (vma.vm_flags &&& c.VM_WRITE ≠ 0 →
        pte_write (out.st.pte_at vma.vm_mm (address >>> PAGE_SHIFT)) = true ∧
        pte_dirty (out.st.pte_at vma.vm_mm (address >>> PAGE_SHIFT)) = true) ∧
      (vma.vm_flags &&& c.VM_WRITE = 0 → pg < U64_MOD →
        pte_write (out.st.pte_at vma.vm_mm (address >>> PAGE_SHIFT)) = pte_write vma.vm_page_prot ∧
        pte_dirty (out.st.pte_at vma.vm_mm (address >>> PAGE_SHIFT)) = pte_dirty vma.vm_page_prot) := by
  refine ⟨_, do_anonymous_page_eq c vma address flags page_table pmd mf s pg rest hpool hpg hrace hnone,
    rfl, by simp, ?_, ?_⟩
  · intro hw
    simp only [pte_at_set_pte]
    rw [if_pos hw]
    exact ⟨pte_write_mkwrite _, pte_dirty_mkwrite_mkdirty _⟩
  · intro hw hlt
    simp only [pte_at_set_pte]
    rw [if_neg (by simp [hw])]
    exact lego_vfn_pte_low_bits _ _ hlt

/-- Witness of C10: the read request at `0x1500` in the writable anonymous VMA. -/
theorem C10_anonymous_write_bits_follow_region_witness :
    ∃ out, do_anonymous_page x86_consts anon_vma 0x1500 0 (0x1500 >>> PAGE_SHIFT) (0x1500 >>> 21) false
        (init_state [0xffff880000200000]) = .ok out ∧
      pte_write (out.st.pte_at 0 (0x1500 >>> PAGE_SHIFT)) = true ∧
      pte_dirty (out.st.pte_at 0 (0x1500 >>> PAGE_SHIFT)) = true :=
  let ⟨out, h1, _, _, h4, _⟩ :=
    C10_anonymous_write_bits_follow_region x86_consts anon_vma 0x1500 0 (0x1500 >>> PAGE_SHIFT)
      (0x1500 >>> 21) false (init_state [0xffff880000200000]) 0xffff880000200000 [] rfl (by decide) rfl
      (by decide)
  ⟨out, h1, (h4 (by decide)).1, (h4 (by decide)).2⟩

/-! ## Theorems: the page-table walk in general -/

theorem pgtable_page_alloc_frame (level : Nat) (s : State) :
    (pgtable_page_alloc level s).2.racer = s.racer ∧
    (pgtable_page_alloc level s).2.mms = s.mms ∧
    ∃ l, (pgtable_page_alloc level s).2.trace = s.trace ++ l ∧
      (∀ e ∈ l, ∃ a, e = Event.pgtable_alloc level a) ∧
      ((pgtable_page_alloc level s).1 = 0 → l = []) := by
  cases hp : s.pool with
  | nil =>
    have heq : pgtable_page_alloc level s = (0, s) := by simp [pgtable_page_alloc, hp]
    rw [heq]
    exact ⟨rfl, rfl, [], by simp, by simp, fun _ => rfl⟩
  | cons a rest =>
    by_cases ha : a = 0
    · have heq : pgtable_page_alloc level s = (0, { s with pool := rest }) := by
        simp [pgtable_page_alloc, hp, ha]
      rw [heq]
      exact ⟨rfl, rfl, [], by simp, by simp, fun _ => rfl⟩
    · have heq : pgtable_page_alloc level s =
          (a, { s with pool := rest, trace := s.trace ++ [Event.pgtable_alloc level a] }) := by
        simp [pgtable_page_alloc, hp, ha]
      rw [heq]
      exact ⟨rfl, rfl, [Event.pgtable_alloc level a], rfl, by simp, fun h => absurd h ha⟩

theorem lego_pud_alloc_frame (mm pgd address : Nat) (s : State) :
    (lego_pud_alloc mm pgd address s).2.racer = s.racer ∧
    (∀ m sl, (lego_pud_alloc mm pgd address s).2.pte_at m sl = s.pte_at m sl) ∧
    (∀ x, (lego_pud_alloc mm pgd address s).1 = some x → x = address >>> 30) ∧
    ∃ l, (lego_pud_alloc mm pgd address s).2.trace = s.trace ++ l ∧
      (∀ e ∈ l, ∃ a, e = Event.pgtable_alloc 1 a) ∧
      ((lego_pud_alloc mm pgd address s).1 = none → l = []) := by
  obtain ⟨hr, hm, l, hl, hev, hnil⟩ := pgtable_page_alloc_frame 1 s
  by_cases h1 : (s.mms mm).pgd.pgd pgd = true
  · have heq : lego_pud_alloc mm pgd address s = (some (address >>> 30), s) := by
      unfold lego_pud_alloc
      simp [h1]
    rw [heq]
    refine ⟨rfl, fun _ _ => rfl, ?_, [], by simp, by simp, fun _ => rfl⟩
    intro x hx
    simp only [Option.some.injEq] at hx
    exact hx.symm
  · by_cases h2 : (pgtable_page_alloc 1 s).1 = 0
    · have heq : lego_pud_alloc mm pgd address s = (none, (pgtable_page_alloc 1 s).2) := by
        unfold lego_pud_alloc
        simp [h1, h2]
      rw [heq]
      refine ⟨hr, ?_, ?_, l, hl, hev, fun _ => hnil h2⟩
      · intro m sl
        simp only [State.pte_at]
        rw [hm]
      · intro x hx
        cases hx
    · have heq : lego_pud_alloc mm pgd address s = (some (address >>> 30),
          (pgtable_page_alloc 1 s).2.set_pgd mm
            { ((pgtable_page_alloc 1 s).2.mms mm).pgd with
              pgd := Function.update ((pgtable_page_alloc 1 s).2.mms mm).pgd.pgd pgd true }) := by
        unfold lego_pud_alloc
        simp [h1, h2]
      rw [heq]
      refine ⟨hr, ?_, ?_, l, hl, hev, fun h => by cases h⟩
      · intro m sl
        by_cases hmm : m = mm
        · subst hmm
          simp [State.pte_at, State.set_pgd, hm]
        · simp [State.pte_at, State.set_pgd, Function.update_noteq hmm, hm]
      · intro x hx
        simp only [Option.some.injEq] at hx
        exact hx.symm

theorem lego_pmd_alloc_frame (mm pud address : Nat) (s : State) :
    (lego_pmd_alloc mm pud address s).2.racer = s.racer ∧
    (∀ m sl, (lego_pmd_alloc mm pud address s).2.pte_at m sl = s.pte_at m sl) ∧
    (∀ x, (lego_pmd_alloc mm pud address s).1 = some x → x = address >>> 21) ∧
    ∃ l, (lego_pmd_alloc mm pud address s).2.trace = s.trace ++ l ∧
      (∀ e ∈ l, ∃ a, e = Event.pgtable_alloc 2 a) ∧
      ((lego_pmd_alloc mm pud address s).1 = none → l = []) := by
  obtain ⟨hr, hm, l, hl, hev, hnil⟩ := pgtable_page_alloc_frame 2 s
  by_cases h1 : (s.mms mm).pgd.pud pud = true
  · have heq : lego_pmd_alloc mm pud address s = (some (address >>> 21), s) := by
      unfold lego_pmd_alloc
      simp [h1]
    rw [heq]
    refine ⟨rfl, fun _ _ => rfl, ?_, [], by simp, by simp, fun _ => rfl⟩
    intro x hx
    simp only [Option.some.injEq] at hx
    exact hx.symm
  · by_cases h2 : (pgtable_page_alloc 2 s).1 = 0
    · have heq : lego_pmd_alloc mm pud address s = (none, (pgtable_page_alloc 2 s).2) := by
        unfold lego_pmd_alloc
        simp [h1, h2]
      rw [heq]
      refine ⟨hr, ?_, ?_, l, hl, hev, fun _ => hnil h2⟩
      · intro m sl
        simp only [State.pte_at]
        rw [hm]
      · intro x hx
        cases hx
    · have heq : lego_pmd_alloc mm pud address s = (some (address >>> 21),
          (pgtable_page_alloc 2 s).2.set_pgd mm
            { ((pgtable_page_alloc 2 s).2.mms mm).pgd with
              pud := Function.update ((pgtable_page_alloc 2 s).2.mms mm).pgd.pud pud true }) := by
        unfold lego_pmd_alloc
        simp [h1, h2]
      rw [heq]
      refine ⟨hr, ?_, ?_, l, hl, hev, fun h => by cases h⟩
      · intro m sl
        by_cases hmm : m = mm
        · subst hmm
          simp [State.pte_at, State.set_pgd, hm]
        · simp [State.pte_at, State.set_pgd, Function.update_noteq hmm, hm]
      · intro x hx
        simp only [Option.some.injEq] at hx
        exact hx.symm

theorem lego_pte_alloc_frame (mm pmd address : Nat) (s : State) :
    (lego_pte_alloc mm pmd address s).2.racer = s.racer ∧
    (∀ m sl, (lego_pte_alloc mm pmd address s).2.pte_at m sl = s.pte_at m sl) ∧
    (∀ x, (lego_pte_alloc mm pmd address s).1 = some x → x = address >>> PAGE_SHIFT) ∧
    ∃ l, (lego_pte_alloc mm pmd address s).2.trace = s.trace ++ l ∧
      (∀ e ∈ l, ∃ a, e = Event.pgtable_alloc 3 a) ∧
      ((lego_pte_alloc mm pmd address s).1 = none → l = []) := by
  obtain ⟨hr, hm, l, hl, hev, hnil⟩ := pgtable_page_alloc_frame 3 s
  by_cases h1 : (s.mms mm).pgd.pmd pmd = true
  · have heq : lego_pte_alloc mm pmd address s = (some (address >>> PAGE_SHIFT), s) := by
      unfold lego_pte_alloc
      simp [h1]
    rw [heq]
    refine ⟨rfl, fun _ _ => rfl, ?_, [], by simp, by simp, fun _ => rfl⟩
    intro x hx
    simp only [Option.some.injEq] at hx
    exact hx.symm
  · by_cases h2 : (pgtable_page_alloc 3 s).1 = 0
    · have heq : lego_pte_alloc mm pmd address s = (none, (pgtable_page_alloc 3 s).2) := by
        unfold lego_pte_alloc
        simp [h1, h2]
      rw [heq]
      refine ⟨hr, ?_, ?_, l, hl, hev, fun _ => hnil h2⟩
      · intro m sl
        simp only [State.pte_at]
        rw [hm]
      · intro x hx
        cases hx
    · have heq : lego_pte_alloc mm pmd address s = (some (address >>> PAGE_SHIFT),
          (pgtable_page_alloc 3 s).2.set_pgd mm
            { ((pgtable_page_alloc 3 s).2.mms mm).pgd with
              pmd := Function.update ((pgtable_page_alloc 3 s).2.mms mm).pgd.pmd pmd true }) := by
        unfold lego_pte_alloc
        simp [h1, h2]
      rw [heq]
      refine ⟨hr, ?_, ?_, l, hl, hev, fun h => by cases h⟩
      · intro m sl
        by_cases hmm : m = mm
        · subst hmm
          simp [State.pte_at, State.set_pgd, hm]
        · simp [State.pte_at, State.set_pgd, Function.update_noteq hmm, hm]
      · intro x hx
        simp only [Option.some.injEq] at hx
        exact hx.symm

/-! ## Theorems: the file-backed path -/

/-- On an absent leaf entry of a VMA with a fault capability `handle_pte_fault`
takes the file-backed path, handing over the absent entry it read. -/
theorem handle_pte_fault_file (c : Consts) (vma : vm_area_struct) (address flags pte pmd : Nat)
    (mf : Bool) (s : State) (ops : vm_operations_struct) (f : vm_fault → Nat × vm_fault)
    (hops : vma.vm_ops = some ops) (hf : ops.fault = some f)
    (hnone : s.pte_at vma.vm_mm pte = 0) :
    handle_pte_fault c vma address flags pte pmd mf s =
      do_linear_fault c vma address flags pte pmd 0 mf s := by
  unfold handle_pte_fault
  simp only [hnone, pte_present_zero, pte_none_zero]
  simp [hops, hf]

/-- The file offset computed by `do_linear_fault`, when the VMA starts at or below
the page of the address and the sum does not overflow. -/
theorem linear_pgoff_eq (address vm_start vm_pgoff : Nat)
    (hstart : vm_start ≤ address &&& PAGE_MASK)
    (hoff : (((address &&& PAGE_MASK) - vm_start) >>> PAGE_SHIFT) + vm_pgoff < U64_MOD) :
    (((((address &&& PAGE_MASK) + U64_MOD - vm_start % U64_MOD) % U64_MOD) >>> PAGE_SHIFT)
      + vm_pgoff) % U64_MOD
      = (((address &&& PAGE_MASK) - vm_start) >>> PAGE_SHIFT) + vm_pgoff := by
  have hM : PAGE_MASK = 2 ^ 64 - 4096 := by decide
  have hle : address &&& PAGE_MASK ≤ 2 ^ 64 - 4096 := le_trans Nat.and_le_right (le_of_eq hM)
  have hU : U64_MOD = 2 ^ 64 := rfl
  have hin : ((address &&& PAGE_MASK) + U64_MOD - vm_start % U64_MOD) % U64_MOD
      = (address &&& PAGE_MASK) - vm_start := by
    rw [hU]
    clear hoff
    generalize address &&& PAGE_MASK = x at hstart hle ⊢
    omega
  rw [hin, Nat.mod_eq_of_lt hoff]

/-- The file-backed path always invokes the capability exactly once, with the
page of the address, the given offset and the request flags, and returns the
capability's flags when they carry an error bit and 0 otherwise. -/
theorem do_fault_ret_trace (c : Consts) (mm : Nat) (vma : vm_area_struct)
    (address pmd pgoff flags orig_pte : Nat) (mf : Bool) (s : State)
    (ops : vm_operations_struct) (f : vm_fault → Nat × vm_fault)
    (hops : vma.vm_ops = some ops) (hf : ops.fault = some f) :
    ∃ out, __do_fault c mm vma address pmd pgoff flags orig_pte mf s = .ok out ∧
      out.st.trace = s.trace ++ [Event.vm_fault (address &&& PAGE_MASK) pgoff flags] ∧
      out.ret = (if (f ⟨address &&& PAGE_MASK, pgoff, flags, 0⟩).1 &&& c.VM_FAULT_ERROR ≠ 0
        then (f ⟨address &&& PAGE_MASK, pgoff, flags, 0⟩).1 else 0) := by
  unfold __do_fault
  simp only [hops, hf]
  by_cases he : (f ⟨address &&& PAGE_MASK, pgoff, flags, 0⟩).1 &&& c.VM_FAULT_ERROR = 0
  · simp only [he, ne_eq, not_true_eq_false, if_false]
    refine ⟨_, rfl, ?_, rfl⟩
    simp only [lego_pte_unlock, lego_pte_offset_lock, pte_set]
    split <;> simp
  · simp only [he, ne_eq, not_false_eq_true, if_true]
    exact ⟨_, rfl, by simp, rfl⟩

/-- A list of page-table allocations holds no action of a kind that
page-table allocations do not belong to. -/
theorem filter_pgtable_events (P : Event → Bool) (k : Nat) (l : List Event)
    (hP : ∀ a, P (Event.pgtable_alloc k a) = false)
    (hl : ∀ e ∈ l, ∃ a, e = Event.pgtable_alloc k a) : l.filter P = [] := by
  rw [List.filter_eq_nil_iff]
  intro e he
  obtain ⟨a, rfl⟩ := hl e he
  simp [hP a]

/-- C11: a fault on an absent leaf entry of a VMA with a fault capability, the
page-table walk reaching the leaf (the allocator's next three answers are
non-null), invokes the capability exactly once, with the page-aligned
faulting address, the request flags and the page offset
`(((address & PAGE_MASK) - vm_start) >> PAGE_SHIFT) + vm_pgoff`; the anonymous
path allocates no page, and the call returns the capability's flags when they
carry an error bit and 0 otherwise. -/
theorem C11_file_fault_invokes_capability_once (c : Consts) (vma : vm_area_struct)
    (address flags : Nat) (mf : Bool) (s : State)
    (ops : vm_operations_struct) (f : vm_fault → Nat × vm_fault)
    (hops : vma.vm_ops = some ops) (hf : ops.fault = some f)
    (hnone : s.pte_at vma.vm_mm (address >>> PAGE_SHIFT) = 0)
    (hlen : 3 ≤ s.pool.length) (hnz : ∀ x ∈ s.pool.take 3, x ≠ 0)
    (hstart : vma.vm_start ≤ address &&& PAGE_MASK)
    (hoff : (((address &&& PAGE_MASK) - vma.vm_start) >>> PAGE_SHIFT) + vma.vm_pgoff < U64_MOD) :
    ∃ out, handle_lego_mm_fault c vma address flags mf s = .ok out ∧
      (out.st.trace.drop s.trace.length).filter Event.is_vm_fault =
        [Event.vm_fault (address &&& PAGE_MASK)
          ((((address &&& PAGE_MASK) - vma.vm_start) >>> PAGE_SHIFT) + vma.vm_pgoff) flags] ∧
      (out.st.trace.drop s.trace.length).filter Event.is_get_free_page = [] ∧
      out.ret =
        (if (f ⟨address &&& PAGE_MASK,
              (((address &&& PAGE_MASK) - vma.vm_start) >>> PAGE_SHIFT) + vma.vm_pgoff,
              flags, 0⟩).1 &&& c.VM_FAULT_ERROR ≠ 0
          then (f ⟨address &&& PAGE_MASK,
              (((address &&& PAGE_MASK) - vma.vm_start) >>> PAGE_SHIFT) + vma.vm_pgoff,
              flags, 0⟩).1
          else 0) := by
  have hnz0 : ∀ z ∈ (s.emit (Event.mm_fault vma.vm_start address flags)).pool.take (2 + 1), z ≠ 0 :=
    hnz
  obtain ⟨e1, -, p1, len1, sub1, -⟩ := lego_pud_alloc_ok vma.vm_mm
    (lego_pgd_offset vma.vm_mm address) address
    (s.emit (Event.mm_fault vma.vm_start address flags)) 2 hlen hnz0
  obtain ⟨-, -, -, l1, t1, v1, -⟩ := lego_pud_alloc_frame vma.vm_mm
    (lego_pgd_offset vma.vm_mm address) address
    (s.emit (Event.mm_fault vma.vm_start address flags))
  unfold handle_lego_mm_fault
  dsimp only
  simp only [e1]
  generalize (lego_pud_alloc vma.vm_mm (lego_pgd_offset vma.vm_mm address) address
    (s.emit (Event.mm_fault vma.vm_start address flags))).2 = S1 at *
  have hnz1 : ∀ z ∈ S1.pool.take (1 + 1), z ≠ 0 := fun z hz => hnz0 z (sub1 z hz)
  obtain ⟨e2, -, p2, len2, sub2, -⟩ := lego_pmd_alloc_ok vma.vm_mm
    (address >>> 30) address S1 1 len1 hnz1
  obtain ⟨-, -, -, l2, t2, v2, -⟩ := lego_pmd_alloc_frame vma.vm_mm (address >>> 30) address S1
  simp only [e2]
  generalize (lego_pmd_alloc vma.vm_mm (address >>> 30) address S1).2 = S2 at *
  have hnz2 : ∀ z ∈ S2.pool.take (0 + 1), z ≠ 0 := fun z hz => hnz1 z (sub2 z hz)
  obtain ⟨e3, -, p3, -⟩ := lego_pte_alloc_ok vma.vm_mm
    (address >>> 21) address S2 0 len2 hnz2
  obtain ⟨-, -, -, l3, t3, v3, -⟩ := lego_pte_alloc_frame vma.vm_mm (address >>> 21) address S2
  simp only [e3]
  generalize (lego_pte_alloc vma.vm_mm (address >>> 21) address S2).2 = S3 at *
  have hnone3 : S3.pte_at vma.vm_mm (address >>> PAGE_SHIFT) = 0 := by
    rw [p3, p2, p1]
    exact hnone
  have htr : S3.trace = s.trace ++ ([Event.mm_fault vma.vm_start address flags] ++ l1 ++ l2 ++ l3) := by
    rw [t3, t2, t1]
    simp
  have g1 := filter_pgtable_events Event.is_get_free_page 1 l1 (fun _ => rfl) v1
  have g2 := filter_pgtable_events Event.is_get_free_page 2 l2 (fun _ => rfl) v2
  have g3 := filter_pgtable_events Event.is_get_free_page 3 l3 (fun _ => rfl) v3
  have w1 := filter_pgtable_events Event.is_vm_fault 1 l1 (fun _ => rfl) v1
  have w2 := filter_pgtable_events Event.is_vm_fault 2 l2 (fun _ => rfl) v2
  have w3 := filter_pgtable_events Event.is_vm_fault 3 l3 (fun _ => rfl) v3
  rw [handle_pte_fault_file c vma address flags _ _ mf S3 ops f hops hf hnone3]
  unfold do_linear_fault
  dsimp only
  rw [linear_pgoff_eq address vma.vm_start vma.vm_pgoff hstart hoff]
  obtain ⟨out, ho, hot, hor⟩ := do_fault_ret_trace c vma.vm_mm vma address (address >>> 21)
    ((((address &&& PAGE_MASK) - vma.vm_start) >>> PAGE_SHIFT) + vma.vm_pgoff) flags 0 mf S3 ops f
    hops hf
  rw [ho]
  dsimp only
  by_cases hret : out.ret = 0
  · rw [if_neg (by simp [hret])]
    refine ⟨_, rfl, ?_, ?_, ?_⟩
    · simp [hot, htr, w1, w2, w3, Event.is_vm_fault]
    · simp [hot, htr, g1, g2, g3, Event.is_get_free_page]
    · rw [← hor]
      exact hret.symm
  · rw [if_pos hret]
    refine ⟨_, rfl, ?_, ?_, ?_⟩
    · simp [hot, htr, w1, w2, w3, Event.is_vm_fault]
    · simp [hot, htr, g1, g2, g3, Event.is_get_free_page]
    · exact hor

/-- Witness of C11: the file-backed VMA `[0x4000,0x6000)` at file offset 0, fault at
`0x4010` on an empty address space: the capability is asked once for page offset
0 (the file page holding byte `0x10`) at virtual address `0x4000`. -/
theorem C11_file_fault_invokes_capability_once_witness :
    ∃ out, handle_lego_mm_fault x86_consts ro_file_vma 0x4010 0 false (init_state demo_pool) = .ok out ∧
      (out.st.trace.drop (init_state demo_pool).trace.length).filter Event.is_vm_fault =
        [Event.vm_fault 0x4000 0 0] ∧
      (out.st.trace.drop (init_state demo_pool).trace.length).filter Event.is_get_free_page = [] ∧
      out.ret = 0 :=
  C11_file_fault_invokes_capability_once x86_consts ro_file_vma 0x4010 0 false (init_state demo_pool)
    _ _ rfl rfl (by decide) (by decide) (by decide) (by decide) (by decide)

/-! ## Theorems: allocation failures -/

theorem get_free_page_frame (z : Bool) (s : State) :
    (__get_free_page z s).2.mms = s.mms ∧ (__get_free_page z s).2.racer = s.racer ∧
    ((__get_free_page z s).1 = 0 → (__get_free_page z s).2.trace = s.trace) := by
  cases hp : s.pool with
  | nil =>
    have heq : __get_free_page z s = (0, s) := by simp [__get_free_page, hp]
    rw [heq]
    exact ⟨rfl, rfl, fun _ => rfl⟩
  | cons a rest =>
    by_cases ha : a = 0
    · have heq : __get_free_page z s = (0, { s with pool := rest }) := by
        simp [__get_free_page, hp, ha]
      rw [heq]
      exact ⟨rfl, rfl, fun _ => rfl⟩
    · have heq : __get_free_page z s =
          (a, { s with pool := rest, trace := s.trace ++ [Event.get_free_page z a] }) := by
        simp [__get_free_page, hp, ha]
      rw [heq]
      exact ⟨rfl, rfl, fun h => absurd h ha⟩

/-- The anonymous path when the allocator has no page: out-of-memory, nothing else
done. -/
theorem do_anonymous_page_oom (c : Consts) (vma : vm_area_struct)
    (address flags page_table pmd : Nat) (mf : Bool) (s : State)
    (hfail : (__get_free_page true s).1 = 0) :
    do_anonymous_page c vma address flags page_table pmd mf s =
      .ok ⟨c.VM_FAULT_OOM, none, (__get_free_page true s).2⟩ := by
  unfold do_anonymous_page
  simp [hfail]

/-- C12: when the allocation of a page-table level (pud table, pmd table, pte
table, in this order) or of the fresh anonymous page fails,
`handle_lego_mm_fault` returns `VM_FAULT_OOM`, writes nothing through `ret_va`
and leaves every leaf entry as it was; after a failed level no page-table page
of that level or of a lower one has been allocated, and when the anonymous page
fails no page has been obtained. (For the anonymous page the returned flags are
tested for non-zero, so `VM_FAULT_OOM` must be a non-zero flag.) -/
theorem C12_allocation_failure_reports_oom (c : Consts) (vma : vm_area_struct)
    (address flags : Nat) (mf : Bool) (s : State) :
    ((lego_pud_alloc vma.vm_mm (lego_pgd_offset vma.vm_mm address) address
        (s.emit (Event.mm_fault vma.vm_start address flags))).1 = none →
      ∃ out, handle_lego_mm_fault c vma address flags mf s = .ok out ∧
        out.ret = c.VM_FAULT_OOM ∧ out.ret_va = none ∧
        (∀ m sl, out.st.pte_at m sl = s.pte_at m sl) ∧
        (out.st.trace.drop s.trace.length).filter (Event.is_pgtable_alloc_from 1) = []) ∧
    (∀ pud, (lego_pud_alloc vma.vm_mm (lego_pgd_offset vma.vm_mm address) address
        (s.emit (Event.mm_fault vma.vm_start address flags))).1 = some pud →
      (lego_pmd_alloc vma.vm_mm pud address
        (lego_pud_alloc vma.vm_mm (lego_pgd_offset vma.vm_mm address) address
          (s.emit (Event.mm_fault vma.vm_start address flags))).2).1 = none →
      ∃ out, handle_lego_mm_fault c vma address flags mf s = .ok out ∧
        out.ret = c.VM_FAULT_OOM ∧ out.ret_va = none ∧
        (∀ m sl, out.st.pte_at m sl = s.pte_at m sl) ∧
        (out.st.trace.drop s.trace.length).filter (Event.is_pgtable_alloc_from 2) = []) ∧
    (∀ pud pmd, (lego_pud_alloc vma.vm_mm (lego_pgd_offset vma.vm_mm address) address
        (s.emit (Event.mm_fault vma.vm_start address flags))).1 = some pud →
      (lego_pmd_alloc vma.vm_mm pud address
        (lego_pud_alloc vma.vm_mm (lego_pgd_offset vma.vm_mm address) address
          (s.emit (Event.mm_fault vma.vm_start address flags))).2).1 = some pmd →
      (lego_pte_alloc vma.vm_mm pmd address
        (lego_pmd_alloc vma.vm_mm pud address
          (lego_pud_alloc vma.vm_mm (lego_pgd_offset vma.vm_mm address) address
            (s.emit (Event.mm_fault vma.vm_start address flags))).2).2).1 = none →
      ∃ out, handle_lego_mm_fault c vma address flags mf s = .ok out ∧
        out.ret = c.VM_FAULT_OOM ∧ out.ret_va = none ∧
        (∀ m sl, out.st.pte_at m sl = s.pte_at m sl) ∧
        (out.st.trace.drop s.trace.length).filter (Event.is_pgtable_alloc_from 3) = []) ∧
    (∀ pud pmd pte, (lego_pud_alloc vma.vm_mm (lego_pgd_offset vma.vm_mm address) address
        (s.emit (Event.mm_fault vma.vm_start address flags))).1 = some pud →
      (lego_pmd_alloc vma.vm_mm pud address
        (lego_pud_alloc vma.vm_mm (lego_pgd_offset vma.vm_mm address) address
          (s.emit (Event.mm_fault vma.vm_start address flags))).2).1 = some pmd →
      (lego_pte_alloc vma.vm_mm pmd address
        (lego_pmd_alloc vma.vm_mm pud address
          (lego_pud_alloc vma.vm_mm (lego_pgd_offset vma.vm_mm address) address
            (s.emit (Event.mm_fault vma.vm_start address flags))).2).2).1 = some pte →
      (∀ ops, vma.vm_ops = some ops → ops.fault = none) →
      s.pte_at vma.vm_mm (address >>> PAGE_SHIFT) = 0 →
      (__get_free_page true (lego_pte_alloc vma.vm_mm pmd address
        (lego_pmd_alloc vma.vm_mm pud address
          (lego_pud_alloc vma.vm_mm (lego_pgd_offset vma.vm_mm address) address
            (s.emit (Event.mm_fault vma.vm_start address flags))).2).2).2).1 = 0 →
      c.VM_FAULT_OOM ≠ 0 →
      ∃ out, handle_lego_mm_fault c vma address flags mf s = .ok out ∧
        out.ret = c.VM_FAULT_OOM ∧ out.ret_va = none ∧
        (∀ m sl, out.st.pte_at m sl = s.pte_at m sl) ∧
        (out.st.trace.drop s.trace.length).filter Event.is_get_free_page = []) := by
  obtain ⟨-, p1, x1, l1, t1, v1, n1⟩ := lego_pud_alloc_frame vma.vm_mm
    (lego_pgd_offset vma.vm_mm address) address
    (s.emit (Event.mm_fault vma.vm_start address flags))
  generalize hS1 : lego_pud_alloc vma.vm_mm (lego_pgd_offset vma.vm_mm address) address
    (s.emit (Event.mm_fault vma.vm_start address flags)) = R1 at *
  have hunf : handle_lego_mm_fault c vma address flags mf s =
      (match R1.1 with
      | none => .ok ⟨c.VM_FAULT_OOM, none, none, R1.2⟩
      | some pud =>
        match (lego_pmd_alloc vma.vm_mm pud address R1.2).1 with
        | none => .ok ⟨c.VM_FAULT_OOM, none, none, (lego_pmd_alloc vma.vm_mm pud address R1.2).2⟩
        | some pmd =>
          match (lego_pte_alloc vma.vm_mm pmd address (lego_pmd_alloc vma.vm_mm pud address R1.2).2).1 with
          | none => .ok ⟨c.VM_FAULT_OOM, none, none,
              (lego_pte_alloc vma.vm_mm pmd address (lego_pmd_alloc vma.vm_mm pud address R1.2).2).2⟩
          | some pte =>
            match handle_pte_fault c vma address flags pte pmd mf
                (lego_pte_alloc vma.vm_mm pmd address (lego_pmd_alloc vma.vm_mm pud address R1.2).2).2 with
            | .error e => .error e
            | .ok out =>
              if out.ret ≠ 0 then .ok ⟨out.ret, none, out.mapping_flags, out.st⟩
              else .ok ⟨0, some (pte_val (out.st.pte_at vma.vm_mm pte) &&& PTE_VFN_MASK),
                out.mapping_flags, out.st⟩) := by
    unfold handle_lego_mm_fault
    rw [← hS1]
  refine ⟨?_, ?_, ?_, ?_⟩
  · intro h1
    rw [hunf]
    simp only [h1]
    refine ⟨_, rfl, rfl, rfl, ?_, ?_⟩
    · intro m sl
      rw [p1]
      rfl
    · simp [t1, n1 h1, Event.is_pgtable_alloc_from]
  · intro pud h1 h2
    obtain ⟨-, p2, -, l2, t2, v2, n2⟩ := lego_pmd_alloc_frame vma.vm_mm pud address R1.2
    rw [hunf]
    simp only [h1, h2]
    refine ⟨_, rfl, rfl, rfl, ?_, ?_⟩
    · intro m sl
      rw [p2, p1]
      rfl
    · have g1 := filter_pgtable_events (Event.is_pgtable_alloc_from 2) 1 l1 (fun _ => rfl) v1
      simp [t2, t1, n2 h2, g1, Event.is_pgtable_alloc_from]
  · intro pud pmd h1 h2 h3
    obtain ⟨-, p2, -, l2, t2, v2, -⟩ := lego_pmd_alloc_frame vma.vm_mm pud address R1.2
    obtain ⟨-, p3, -, l3, t3, v3, n3⟩ := lego_pte_alloc_frame vma.vm_mm pmd address
      (lego_pmd_alloc vma.vm_mm pud address R1.2).2
    rw [hunf]
    simp only [h1, h2, h3]
    refine ⟨_, rfl, rfl, rfl, ?_, ?_⟩
    · intro m sl
      rw [p3, p2, p1]
      rfl
    · have g1 := filter_pgtable_events (Event.is_pgtable_alloc_from 3) 1 l1 (fun _ => rfl) v1
      have g2 := filter_pgtable_events (Event.is_pgtable_alloc_from 3) 2 l2 (fun _ => rfl) v2
      simp [t3, t2, t1, n3 h3, g1, g2, Event.is_pgtable_alloc_from]
  · intro pud pmd pte h1 h2 h3 hanon hnone hfail hoom
    obtain ⟨-, p2, -, l2, t2, v2, -⟩ := lego_pmd_alloc_frame vma.vm_mm pud address R1.2
    obtain ⟨-, p3, x3, l3, t3, v3, -⟩ := lego_pte_alloc_frame vma.vm_mm pmd address
      (lego_pmd_alloc vma.vm_mm pud address R1.2).2
    obtain ⟨gm, -, gt⟩ := get_free_page_frame true
      (lego_pte_alloc vma.vm_mm pmd address (lego_pmd_alloc vma.vm_mm pud address R1.2).2).2
    have hpte : pte = address >>> PAGE_SHIFT := x3 pte h3
    subst hpte
    have hnone3 : (lego_pte_alloc vma.vm_mm pmd address
        (lego_pmd_alloc vma.vm_mm pud address R1.2).2).2.pte_at vma.vm_mm (address >>> PAGE_SHIFT) = 0 := by
      rw [p3, p2, p1]
      exact hnone
    rw [hunf]
    simp only [h1, h2, h3]
    rw [handle_pte_fault_anon c vma address flags _ _ mf _ hanon hnone3,
      do_anonymous_page_oom c vma address flags _ _ mf _ hfail]
    dsimp only
    rw [if_pos hoom]
    refine ⟨_, rfl, rfl, rfl, ?_, ?_⟩
    · intro m sl
      show (__get_free_page true _).2.pte_at m sl = _
      simp only [State.pte_at]
      rw [gm]
      have h3' := p3 m sl
      have h2' := p2 m sl
      have h1' := p1 m sl
      simp only [State.pte_at] at h3' h2' h1'
      rw [h3', h2', h1']
      rfl
    · have g1 := filter_pgtable_events Event.is_get_free_page 1 l1 (fun _ => rfl) v1
      have g2 := filter_pgtable_events Event.is_get_free_page 2 l2 (fun _ => rfl) v2
      have g3 := filter_pgtable_events Event.is_get_free_page 3 l3 (fun _ => rfl) v3
      show ((__get_free_page true _).2.trace.drop s.trace.length).filter _ = []
      rw [gt hfail, t3, t2, t1]
      simp [g1, g2, g3, Event.is_get_free_page]

/-- Witness of C12: the fault at `0x1500` in the anonymous VMA on an empty address
space, with an allocator that fails at once, after one, after two and after
three pages. -/
theorem C12_allocation_failure_reports_oom_witness :
    (∃ out, handle_lego_mm_fault x86_consts anon_vma 0x1500 1 false (init_state []) = .ok out ∧
        out.ret = x86_consts.VM_FAULT_OOM ∧ out.ret_va = none ∧
        (∀ m sl, out.st.pte_at m sl = (init_state []).pte_at m sl) ∧
        (out.st.trace.drop (init_state []).trace.length).filter (Event.is_pgtable_alloc_from 1) = []) ∧
    (∃ out, handle_lego_mm_fault x86_consts anon_vma 0x1500 1 false
          (init_state [0xffff880000101000]) = .ok out ∧
        out.ret = x86_consts.VM_FAULT_OOM ∧ out.ret_va = none ∧
        (∀ m sl, out.st.pte_at m sl = (init_state [0xffff880000101000]).pte_at m sl) ∧
        (out.st.trace.drop (init_state [0xffff880000101000]).trace.length).filter
          (Event.is_pgtable_alloc_from 2) = []) ∧
    (∃ out, handle_lego_mm_fault x86_consts anon_vma 0x1500 1 false
          (init_state [0xffff880000101000, 0xffff880000102000]) = .ok out ∧
        out.ret = x86_consts.VM_FAULT_OOM ∧ out.ret_va = none ∧
        (∀ m sl, out.st.pte_at m sl
          = (init_state [0xffff880000101000, 0xffff880000102000]).pte_at m sl) ∧
        (out.st.trace.drop
          (init_state [0xffff880000101000, 0xffff880000102000]).trace.length).filter
          (Event.is_pgtable_alloc_from 3) = []) ∧
    (∃ out, handle_lego_mm_fault x86_consts anon_vma 0x1500 1 false
          (init_state [0xffff880000101000, 0xffff880000102000, 0xffff880000103000]) = .ok out ∧
        out.ret = x86_consts.VM_FAULT_OOM ∧ out.ret_va = none ∧
        (∀ m sl, out.st.pte_at m sl
          = (init_state [0xffff880000101000, 0xffff880000102000, 0xffff880000103000]).pte_at m sl) ∧
        (out.st.trace.drop
          (init_state [0xffff880000101000, 0xffff880000102000,
            0xffff880000103000]).trace.length).filter Event.is_get_free_page = []) :=
  ⟨(C12_allocation_failure_reports_oom x86_consts anon_vma 0x1500 1 false (init_state [])).1 rfl,
   (C12_allocation_failure_reports_oom x86_consts anon_vma 0x1500 1 false
      (init_state [0xffff880000101000])).2.1 _ rfl rfl,
   (C12_allocation_failure_reports_oom x86_consts anon_vma 0x1500 1 false
      (init_state [0xffff880000101000, 0xffff880000102000])).2.2.1 _ _ rfl rfl rfl,
   (C12_allocation_failure_reports_oom x86_consts anon_vma 0x1500 1 false
      (init_state [0xffff880000101000, 0xffff880000102000, 0xffff880000103000])).2.2.2 _ _ _
      rfl rfl rfl (by intro ops h; cases h) (by decide) rfl (by decide)⟩

/-! ## Theorems: losing the race for a leaf entry -/

@[simp] theorem spin_lock_pte_racer (mm slot : Nat) (s : State) :
    (spin_lock_pte mm slot s).racer = none := by
  unfold spin_lock_pte
  cases h : s.racer <;> simp [h]

theorem spin_lock_pte_some (mm slot e : Nat) (s : State) (h : s.racer = some e) :
    (spin_lock_pte mm slot s).pte_at mm slot = e := by
  unfold spin_lock_pte
  simp [h]

/-- The anonymous path when a concurrent walker has stored a non-absent entry
before the lock is taken: the entry stays, the call reports success. -/
theorem do_anonymous_page_lost_race (c : Consts) (vma : vm_area_struct)
    (address flags page_table pmd : Nat) (mf : Bool) (s : State) (e : Nat)
    (hlen : 1 ≤ s.pool.length) (hnz : ∀ z ∈ s.pool.take 1, z ≠ 0)
    (hrace : s.racer = some e) (he : e ≠ 0) :
    ∃ out, do_anonymous_page c vma address flags page_table pmd mf s = .ok out ∧ out.ret = 0 ∧
      out.st.pte_at vma.vm_mm (address >>> PAGE_SHIFT) = e ∧ out.st.racer = none := by
  cases hp : s.pool with
  | nil => simp [hp] at hlen
  | cons pg rest =>
    have hpg : pg ≠ 0 := hnz pg (by simp [hp])
    have hgfp : __get_free_page true s =
        (pg, { s with pool := rest, trace := s.trace ++ [Event.get_free_page true pg] }) := by
      simp [__get_free_page, hp, hpg]
    have hlock : (spin_lock_pte vma.vm_mm (address >>> PAGE_SHIFT)
        { s with pool := rest, trace := s.trace ++ [Event.get_free_page true pg] }).pte_at
          vma.vm_mm (address >>> PAGE_SHIFT) = e :=
      spin_lock_pte_some _ _ e _ hrace
    have hnn : pte_none e = false := by simp [pte_none, he]
    unfold do_anonymous_page
    simp only [hgfp, hpg, if_false, lego_pte_offset_lock, hlock, hnn, Bool.not_false, if_true,
      lego_pte_unlock]
    exact ⟨_, rfl, rfl, hlock, spin_lock_pte_racer _ _ _⟩

/-- The file-backed path when a concurrent walker has stored a non-absent entry
before the lock is taken: the entry stays, the call reports success. -/
theorem do_fault_lost_race (c : Consts) (mm : Nat) (vma : vm_area_struct)
    (address pmd pgoff flags : Nat) (mf : Bool) (s : State) (e : Nat)
    (ops : vm_operations_struct) (f : vm_fault → Nat × vm_fault)
    (hops : vma.vm_ops = some ops) (hf : ops.fault = some f)
    (hok : ∀ v, (f v).1 &&& c.VM_FAULT_ERROR = 0)
    (hrace : s.racer = some e) (he : e ≠ 0) :
    ∃ out, __do_fault c mm vma address pmd pgoff flags 0 mf s = .ok out ∧ out.ret = 0 ∧
      out.st.pte_at mm (address >>> PAGE_SHIFT) = e ∧ out.st.racer = none := by
  have hlock : (spin_lock_pte mm (address >>> PAGE_SHIFT)
      (s.emit (Event.vm_fault (address &&& PAGE_MASK) pgoff flags))).pte_at mm
        (address >>> PAGE_SHIFT) = e :=
    spin_lock_pte_some _ _ e _ hrace
  have hns : pte_same e 0 = false := by simp [pte_same, he]
  unfold __do_fault
  simp only [hops, hf, hok, ne_eq, not_true_eq_false, if_false, lego_pte_offset_lock, hlock, hns,
    Bool.false_eq_true, lego_pte_unlock]
  exact ⟨_, rfl, rfl, hlock, spin_lock_pte_racer _ _ _⟩

/-- A call of `handle_lego_mm_fault` that returns 0 stores the frame field of the
leaf entry of the faulting page through `ret_va`. -/
theorem handle_lego_mm_fault_ret_va_eq (c : Consts) (vma : vm_area_struct) (address flags : Nat)
    (mf : Bool) (s : State) (out : FaultOut)
    (h : handle_lego_mm_fault c vma address flags mf s = .ok out)
    (hret : out.ret = 0) (hoom : c.VM_FAULT_OOM ≠ 0) :
    out.ret_va = some (out.st.pte_at vma.vm_mm (address >>> PAGE_SHIFT) &&& PTE_VFN_MASK) := by
  unfold handle_lego_mm_fault at h
  dsimp only at h
  split at h
  · cases h
    exact absurd hret hoom
  · split at h
    · cases h
      exact absurd hret hoom
    · split at h
      · cases h
        exact absurd hret hoom
      · rename_i pte hpte
        have hx := (lego_pte_alloc_frame vma.vm_mm _ address _).2.2.1 pte hpte
        subst hx
        split at h
        · cases h
        · split at h
          · rename_i hne
            cases h
            exact absurd hret hne
          · cases h
            rfl

/-- C13: on both install paths, when a concurrent walker has stored a non-absent
entry `e` into the faulting slot between this walker's first read (absent) and
its re-check under the page-table lock, the entry `e` is left as it is, the
late walker's page is not installed, and `handle_lego_mm_fault` returns 0 with
`*ret_va` the frame field of `e`. Hence the late walker and any successful
walker whose run ended with `e` in the slot return the same address for the
same single mapping. The allocator's next four answers are non-null (all
allocations of the call succeed); on the file-backed path the capability
reports no error. -/
theorem C13_late_walker_keeps_existing_entry (c : Consts) (vma : vm_area_struct)
    (address flags : Nat) (mf : Bool) (s : State) (e : Nat)
    (hpath : (∀ ops, vma.vm_ops = some ops → ops.fault = none) ∨
      (∃ ops f, vma.vm_ops = some ops ∧ ops.fault = some f ∧
        ∀ v, (f v).1 &&& c.VM_FAULT_ERROR = 0))
    (hnone : s.pte_at vma.vm_mm (address >>> PAGE_SHIFT) = 0)
    (hrace : s.racer = some e) (he : e ≠ 0)
    (hlen : 4 ≤ s.pool.length) (hnz : ∀ x ∈ s.pool.take 4, x ≠ 0) :
    ∃ out, handle_lego_mm_fault c vma address flags mf s = .ok out ∧
      out.ret = 0 ∧
      out.st.pte_at vma.vm_mm (address >>> PAGE_SHIFT) = e ∧
      out.ret_va = some (e &&& PTE_VFN_MASK) ∧
      (∀ sB outB, handle_lego_mm_fault c vma address flags mf sB = .ok outB →
        outB.ret = 0 → c.VM_FAULT_OOM ≠ 0 →
        outB.st.pte_at vma.vm_mm (address >>> PAGE_SHIFT) = e →
        outB.ret_va = out.ret_va ∧
        outB.st.pte_at vma.vm_mm (address >>> PAGE_SHIFT)
          = out.st.pte_at vma.vm_mm (address >>> PAGE_SHIFT)) := by
  have hnz0 : ∀ z ∈ (s.emit (Event.mm_fault vma.vm_start address flags)).pool.take (3 + 1), z ≠ 0 :=
    hnz
  have key : ∃ out, handle_lego_mm_fault c vma address flags mf s = .ok out ∧
      out.ret = 0 ∧ out.st.pte_at vma.vm_mm (address >>> PAGE_SHIFT) = e ∧
      out.ret_va = some (e &&& PTE_VFN_MASK) := by
    obtain ⟨e1, r1, p1, len1, sub1, -⟩ := lego_pud_alloc_ok vma.vm_mm
      (lego_pgd_offset vma.vm_mm address) address
      (s.emit (Event.mm_fault vma.vm_start address flags)) 3 hlen hnz0
    unfold handle_lego_mm_fault
    dsimp only
    simp only [e1]
    generalize (lego_pud_alloc vma.vm_mm (lego_pgd_offset vma.vm_mm address) address
      (s.emit (Event.mm_fault vma.vm_start address flags))).2 = S1 at *
    have hnz1 : ∀ z ∈ S1.pool.take (2 + 1), z ≠ 0 := fun z hz => hnz0 z (sub1 z hz)
    obtain ⟨e2, r2, p2, len2, sub2, -⟩ := lego_pmd_alloc_ok vma.vm_mm
      (address >>> 30) address S1 2 len1 hnz1
    simp only [e2]
    generalize (lego_pmd_alloc vma.vm_mm (address >>> 30) address S1).2 = S2 at *
    have hnz2 : ∀ z ∈ S2.pool.take (1 + 1), z ≠ 0 := fun z hz => hnz1 z (sub2 z hz)
    obtain ⟨e3, r3, p3, len3, sub3, -⟩ := lego_pte_alloc_ok vma.vm_mm
      (address >>> 21) address S2 1 len2 hnz2
    simp only [e3]
    generalize (lego_pte_alloc vma.vm_mm (address >>> 21) address S2).2 = S3 at *
    have hnz3 : ∀ z ∈ S3.pool.take 1, z ≠ 0 := fun z hz => hnz2 z (sub3 z hz)
    have hnone3 : S3.pte_at vma.vm_mm (address >>> PAGE_SHIFT) = 0 := by
      rw [p3, p2, p1]
      exact hnone
    have hrace3 : S3.racer = some e := by
      rw [r3, r2, r1]
      exact hrace
    rcases hpath with hanon | ⟨ops, f, hops, hf, hok⟩
    · rw [handle_pte_fault_anon c vma address flags _ _ mf S3 hanon hnone3]
      obtain ⟨o, ho, hor, hop, -⟩ := do_anonymous_page_lost_race c vma address flags
        (address >>> PAGE_SHIFT) (address >>> 21) mf S3 e len3 hnz3 hrace3 he
      rw [ho]
      dsimp only
      rw [if_neg (by simp [hor])]
      exact ⟨_, rfl, rfl, hop, by simp [pte_val, hop]⟩
    · rw [handle_pte_fault_file c vma address flags _ _ mf S3 ops f hops hf hnone3]
      unfold do_linear_fault
      dsimp only
      obtain ⟨o, ho, hor, hop, -⟩ := do_fault_lost_race c vma.vm_mm vma address (address >>> 21)
        ((((((address &&& PAGE_MASK) + U64_MOD - vma.vm_start % U64_MOD) % U64_MOD) >>> PAGE_SHIFT)
          + vma.vm_pgoff) % U64_MOD) flags mf S3 e ops f hops hf hok hrace3 he
      rw [ho]
      dsimp only
      rw [if_neg (by simp [hor])]
      exact ⟨_, rfl, rfl, hop, by simp [pte_val, hop]⟩
  obtain ⟨out, h1, h2, h3, h4⟩ := key
  refine ⟨out, h1, h2, h3, h4, ?_⟩
  intro sB outB hB hBret hoom hBe
  have hBva := handle_lego_mm_fault_ret_va_eq c vma address flags mf sB outB hB hBret hoom
  rw [hBva, hBe, h4, h3]
  exact ⟨rfl, rfl⟩

/-- Witness of C13: two walkers fault `0x1500` in the anonymous VMA on an empty
address space. The first installs the entry `0xffff880000200067`; the second,
which also read the slot as absent, finds that entry under the lock: both
return the page `0xffff880000200000` and the slot holds the first walker's
entry. -/
theorem C13_late_walker_keeps_existing_entry_witness :
    ∃ outA outB,
      handle_lego_mm_fault x86_consts anon_vma 0x1500 1 false racing_state = .ok outA ∧
      handle_lego_mm_fault x86_consts anon_vma 0x1500 1 false (init_state demo_pool) = .ok outB ∧
      outA.ret = 0 ∧ outB.ret = 0 ∧
      outA.st.pte_at 0 1 = 0xffff880000200067 ∧ outB.st.pte_at 0 1 = 0xffff880000200067 ∧
      outB.ret_va = outA.ret_va ∧ outA.ret_va = some 0xffff880000200000 :=
  let ⟨outA, hA, hret, hpte, hva, hsame⟩ :=
    C13_late_walker_keeps_existing_entry x86_consts anon_vma 0x1500 1 false racing_state
      0xffff880000200067 (Or.inl (by intro ops h; cases h)) (by decide) rfl (by decide)
      (by decide) (by decide)
  ⟨outA, _, hA, rfl, hret, rfl, hpte, rfl,
    (hsame (init_state demo_pool) _ rfl rfl (by decide) rfl).1, hva⟩

/-! ## Theorems: the prefetch path -/

theorem pte_at_set_pte_ite (s : State) (mm slot e m sl : Nat) :
    (s.set_pte mm slot e).pte_at m sl = if m = mm ∧ sl = slot then e else s.pte_at m sl := by
  by_cases hm : m = mm
  · subst hm
    by_cases hs : sl = slot
    · subst hs
      simp
    · simp [State.set_pte, State.set_pgd, State.pte_at, Function.update_noteq hs, hs]
  · simp [State.set_pte, State.set_pgd, State.pte_at, Function.update_noteq hm, hm]

/-- Without a concurrent walker the prefetch install stores the entry built for
the given page into the slot it was called for. -/
theorem handle_prefetch_pte_fault_eq (c : Consts) (vma : vm_area_struct)
    (address flags pmd page : Nat) (s : State) (hrace : s.racer = none) :
    handle_prefetch_pte_fault c vma address flags (address >>> PAGE_SHIFT) pmd page s =
      (0, s.set_pte vma.vm_mm (address >>> PAGE_SHIFT) (prefetch_entry c vma page)) := by
  unfold handle_prefetch_pte_fault do_linear_prefetch_fault __do_prefetch_fault
  simp [lego_pte_offset_lock, spin_lock_pte, hrace, pte_same, pte_set, lego_pte_unlock,
    prefetch_entry]

/-- One iteration of the prefetch loop when the allocator's next three answers
are non-null and no walker interferes. -/
theorem mmap_faults_loop_step (c : Consts) (vma : vm_area_struct) (flags n cur pg : Nat)
    (s : State) (hrace : s.racer = none)
    (hlen : 3 * (n + 1) ≤ s.pool.length) (hnz : ∀ z ∈ s.pool.take (3 * (n + 1)), z ≠ 0) :
    ∃ s1, mmap_faults_loop c vma flags (n + 1) cur pg s =
        mmap_faults_loop c vma flags n ((cur + PAGE_SIZE) % U64_MOD) ((pg + PAGE_SIZE) % U64_MOD) s1 ∧
      s1.racer = none ∧ 3 * n ≤ s1.pool.length ∧ (∀ z ∈ s1.pool.take (3 * n), z ≠ 0) ∧
      (∃ l, s1.trace = s.trace ++ l ∧ ∀ e ∈ l, ∃ k a, e = Event.pgtable_alloc k a) ∧
      (∀ m sl, s1.pte_at m sl =
        if m = vma.vm_mm ∧ sl = cur >>> PAGE_SHIFT ∧ s.pte_at m sl = 0 then prefetch_entry c vma pg
        else s.pte_at m sl) := by
  have h3 : 3 * (n + 1) = (3 * n + 2) + 1 := by omega
  rw [h3] at hlen hnz
  obtain ⟨e1, r1, p1, len1, sub1, -⟩ := lego_pud_alloc_ok vma.vm_mm
    (lego_pgd_offset vma.vm_mm cur) cur s (3 * n + 2) hlen hnz
  obtain ⟨-, -, -, l1, t1, v1, -⟩ := lego_pud_alloc_frame vma.vm_mm
    (lego_pgd_offset vma.vm_mm cur) cur s
  rw [mmap_faults_loop]
  dsimp only
  simp only [e1]
  generalize (lego_pud_alloc vma.vm_mm (lego_pgd_offset vma.vm_mm cur) cur s).2 = S1 at *
  have hnz1 : ∀ z ∈ S1.pool.take ((3 * n + 1) + 1), z ≠ 0 := fun z hz => hnz z (sub1 z hz)
  obtain ⟨e2, r2, p2, len2, sub2, -⟩ := lego_pmd_alloc_ok vma.vm_mm
    (cur >>> 30) cur S1 (3 * n + 1) len1 hnz1
  obtain ⟨-, -, -, l2, t2, v2, -⟩ := lego_pmd_alloc_frame vma.vm_mm (cur >>> 30) cur S1
  simp only [e2]
  generalize (lego_pmd_alloc vma.vm_mm (cur >>> 30) cur S1).2 = S2 at *
  have hnz2 : ∀ z ∈ S2.pool.take (3 * n + 1), z ≠ 0 := fun z hz => hnz1 z (sub2 z hz)
  obtain ⟨e3, r3, p3, len3, sub3, -⟩ := lego_pte_alloc_ok vma.vm_mm
    (cur >>> 21) cur S2 (3 * n) len2 hnz2
  obtain ⟨-, -, -, l3, t3, v3, -⟩ := lego_pte_alloc_frame vma.vm_mm (cur >>> 21) cur S2
  simp only [e3]
  generalize (lego_pte_alloc vma.vm_mm (cur >>> 21) cur S2).2 = S3 at *
  have hnz3 : ∀ z ∈ S3.pool.take (3 * n), z ≠ 0 := fun z hz => hnz2 z (sub3 z hz)
  have hrace3 : S3.racer = none := by
    rw [r3, r2, r1]
    exact hrace
  have hpte3 : ∀ m sl, S3.pte_at m sl = s.pte_at m sl := by
    intro m sl
    rw [p3, p2, p1]
  have htr : S3.trace = s.trace ++ (l1 ++ l2 ++ l3) := by
    rw [t3, t2, t1]
    simp
  have hfil : ∀ e ∈ l1 ++ l2 ++ l3, ∃ k a, e = Event.pgtable_alloc k a := by
    intro e he
    simp only [List.mem_append] at he
    rcases he with (he | he) | he
    · obtain ⟨a, ha⟩ := v1 e he
      exact ⟨1, a, ha⟩
    · obtain ⟨a, ha⟩ := v2 e he
      exact ⟨2, a, ha⟩
    · obtain ⟨a, ha⟩ := v3 e he
      exact ⟨3, a, ha⟩
  by_cases h0 : s.pte_at vma.vm_mm (cur >>> PAGE_SHIFT) = 0
  · have hn : pte_none (S3.pte_at vma.vm_mm (cur >>> PAGE_SHIFT)) = true := by
      rw [hpte3, h0]
      rfl
    simp only [hn, Bool.not_true, Bool.false_eq_true, if_false]
    rw [handle_prefetch_pte_fault_eq c vma cur flags (cur >>> 21) pg S3 hrace3]
    refine ⟨_, rfl, ?_, ?_, ?_, ⟨l1 ++ l2 ++ l3, ?_, hfil⟩, ?_⟩
    · simpa using hrace3
    · simpa using len3
    · simpa using hnz3
    · simpa using htr
    · intro m sl
      dsimp only
      rw [pte_at_set_pte_ite, hpte3]
      by_cases hc : m = vma.vm_mm ∧ sl = cur >>> PAGE_SHIFT
      · obtain ⟨hm, hs⟩ := hc
        subst hm
        subst hs
        simp [h0]
      · rw [if_neg hc, if_neg]
        intro hc'
        exact hc ⟨hc'.1, hc'.2.1⟩
  · have hn : pte_none (S3.pte_at vma.vm_mm (cur >>> PAGE_SHIFT)) = false := by
      rw [hpte3]
      simp [pte_none, h0]
    simp only [hn, Bool.not_false, if_true]
    refine ⟨S3, rfl, hrace3, len3, hnz3, ⟨l1 ++ l2 ++ l3, htr, hfil⟩, ?_⟩
    intro m sl
    rw [hpte3, if_neg]
    rintro ⟨hm, hs, hz⟩
    subst hm
    subst hs
    exact h0 hz

/-- The prefetch loop over `n` pages starting at page number `q` with buffer
pages starting at `pg`: with enough allocator answers and no interfering
walker it returns 0 and fills exactly the absent slots among `q .. q + n - 1`,
slot `q + j` with the entry built for buffer page `pg + j * PAGE_SIZE`. -/
theorem mmap_faults_loop_spec (c : Consts) (vma : vm_area_struct) (flags : Nat) :
    ∀ (n q cur pgcur pg : Nat) (s : State), s.racer = none →
      3 * n ≤ s.pool.length → (∀ z ∈ s.pool.take (3 * n), z ≠ 0) →
      (n ≠ 0 → cur = q * PAGE_SIZE) → (q + n) * PAGE_SIZE ≤ U64_MOD →
      (n ≠ 0 → pgcur = pg) → pg + n * PAGE_SIZE ≤ U64_MOD →
      ∃ s', mmap_faults_loop c vma flags n cur pgcur s = (0, s') ∧
        (∃ l, s'.trace = s.trace ++ l ∧ ∀ e ∈ l, ∃ k a, e = Event.pgtable_alloc k a) ∧
        (∀ m sl, s'.pte_at m sl =
          if m = vma.vm_mm ∧ q ≤ sl ∧ sl < q + n ∧ s.pte_at m sl = 0 then
            prefetch_entry c vma (pg + (sl - q) * PAGE_SIZE)
          else s.pte_at m sl) := by
  have hP : PAGE_SIZE = 4096 := by decide
  have hU : U64_MOD = 2 ^ 64 := rfl
  have hS : PAGE_SHIFT = 12 := rfl
  intro n
  induction n with
  | zero =>
    intro q cur pgcur pg s _ _ _ _ _ _ _
    refine ⟨s, by simp [mmap_faults_loop], ⟨[], by simp, by simp⟩, ?_⟩
    intro m sl
    rw [if_neg]
    rintro ⟨_, h1, h2, _⟩
    omega
  | succ n ih =>
    intro q cur pgcur pg s hrace hlen hnz hcur hq hpgc hpg
    have hcur' : cur = q * PAGE_SIZE := hcur (by omega)
    have hpgc' : pgcur = pg := hpgc (by omega)
    subst hpgc'
    obtain ⟨s1, hstep, hr1, hl1, hz1, ⟨l1, ht1, hf1⟩, hp1⟩ :=
      mmap_faults_loop_step c vma flags n cur pgcur s hrace hlen hnz
    have hslot : cur >>> PAGE_SHIFT = q := by
      rw [hcur', hP, hS, Nat.shiftRight_eq_div_pow]
      omega
    rw [hP, hU] at hq hpg
    obtain ⟨s', hloop, ⟨l2, ht2, hf2⟩, hp2⟩ := ih (q + 1) ((cur + PAGE_SIZE) % U64_MOD)
      ((pgcur + PAGE_SIZE) % U64_MOD) (pgcur + PAGE_SIZE) s1 hr1 hl1 hz1
      (by
        intro hn
        rw [hcur', hP, hU]
        omega)
      (by
        rw [hP, hU]
        omega)
      (by
        intro hn
        rw [hP, hU]
        omega)
      (by
        rw [hP, hU]
        omega)
    refine ⟨s', by rw [hstep, hloop], ⟨l1 ++ l2, by rw [ht2, ht1, List.append_assoc], by
      intro e he
      rcases List.mem_append.mp he with he | he
      · exact hf1 e he
      · exact hf2 e he⟩, ?_⟩
    intro m sl
    rw [hp2, hp1, hslot]
    by_cases hm : m = vma.vm_mm
    · by_cases hsq : sl = q
      · subst hsq
        by_cases h0 : s.pte_at m sl = 0
        · rw [if_neg (by omega), if_pos ⟨hm, rfl, h0⟩, if_pos ⟨hm, by omega, by omega, h0⟩]
          simp
        · rw [if_neg (by omega), if_neg (fun h => h0 h.2.2), if_neg (fun h => h0 h.2.2.2)]
      · rw [if_neg (fun h : m = vma.vm_mm ∧ sl = q ∧ s.pte_at m sl = 0 => hsq h.2.1)]
        by_cases hin : q + 1 ≤ sl ∧ sl < q + 1 + n ∧ s.pte_at m sl = 0
        · rw [if_pos ⟨hm, hin⟩, if_pos ⟨hm, by omega, by omega, hin.2.2⟩]
          congr 1
          rw [hP]
          omega
        · rw [if_neg (fun h => hin h.2), if_neg]
          rintro ⟨_, h1, h2, h3⟩
          exact hin ⟨by omega, by omega, h3⟩
    · rw [if_neg (fun h => hm h.1), if_neg (fun h => hm h.1), if_neg (fun h => hm h.1)]

theorem filter_pgtable_events_any (P : Event → Bool) (l : List Event)
    (hP : ∀ k a, P (Event.pgtable_alloc k a) = false)
    (hl : ∀ e ∈ l, ∃ k a, e = Event.pgtable_alloc k a) : l.filter P = [] := by
  rw [List.filter_eq_nil_iff]
  intro e he
  obtain ⟨k, a, rfl⟩ := hl e he
  simp [hP k a]

/-- The frame field keeps nothing of the byte offset within the page. -/
theorem and_PAGE_MASK_mod (x : Nat) : (x &&& PAGE_MASK) % PAGE_SIZE = 0 := by
  have hP : PAGE_SIZE = 2 ^ 12 := by decide
  have hz : PAGE_MASK &&& (2 ^ 12 - 1) = 0 := by decide
  rw [hP, ← Nat.and_pow_two_sub_one_eq_mod, Nat.and_assoc, hz]
  simp

/-- A call `handle_lego_mmap_faults(vma, address, flags, N)` in which every
allocation succeeds (the allocator answers with a page-aligned buffer and `3 N`
more non-null pages) and no walker interferes obtains one buffer, issues
exactly one storage read, for `N * PAGE_SIZE` bytes at file position
`((((address & PAGE_MASK) - vm_start) >> PAGE_SHIFT) + vm_pgoff) << PAGE_SHIFT`
into that buffer, and returns 0; afterwards, for every `i < N`, the page at
`round_down(address) + i * PAGE_SIZE` holds the entry built for buffer page `i`
(frame field `buf + i * PAGE_SIZE`) when its leaf entry was absent before the
call, and its old entry otherwise. The addresses involved do not wrap around
and the template bits inside the frame field are bits of the buffer pages. -/
theorem handle_lego_mmap_faults_spec (c : Consts) (vma : vm_area_struct)
    (address flags N : Nat) (s : State) (buf : Nat) (rest : List Nat)
    (hrace : s.racer = none)
    (hpool : s.pool = buf :: rest) (hbuf0 : buf ≠ 0)
    (hlen : 3 * N ≤ rest.length) (hnz : ∀ z ∈ rest.take (3 * N), z ≠ 0)
    (hbufa : buf % PAGE_SIZE = 0) (hbufN : buf + N * PAGE_SIZE ≤ U64_MOD)
    (haddr : (address &&& PAGE_MASK) + N * PAGE_SIZE ≤ U64_MOD)
    (hstart : vma.vm_start ≤ address &&& PAGE_MASK)
    (hoff : ((((address &&& PAGE_MASK) - vma.vm_start) >>> PAGE_SHIFT) + vma.vm_pgoff)
      <<< PAGE_SHIFT < U64_MOD)
    (hprot : ∀ i < N, (vma.vm_page_prot &&& PTE_VFN_MASK) ||| (buf + i * PAGE_SIZE)
      = buf + i * PAGE_SIZE) :
    ∃ s', handle_lego_mmap_faults c vma address flags N s = (0, s') ∧
      (s'.trace.drop s.trace.length).filter Event.is_get_free_pages
        = [Event.get_free_pages c.PREFETCH_ORDER buf] ∧
      (s'.trace.drop s.trace.length).filter Event.is_storage_read
        = [Event.storage_read vma.vm_file buf (N * PAGE_SIZE)
            (((((address &&& PAGE_MASK) - vma.vm_start) >>> PAGE_SHIFT) + vma.vm_pgoff)
              <<< PAGE_SHIFT)] ∧
      ∀ i < N,
        (s.pte_at vma.vm_mm ((round_down address PAGE_SIZE + i * PAGE_SIZE) >>> PAGE_SHIFT) = 0 →
          s'.pte_at vma.vm_mm ((round_down address PAGE_SIZE + i * PAGE_SIZE) >>> PAGE_SHIFT)
            = prefetch_entry c vma (buf + i * PAGE_SIZE) ∧
          prefetch_entry c vma (buf + i * PAGE_SIZE) &&& PTE_VFN_MASK = buf + i * PAGE_SIZE) ∧
        (s.pte_at vma.vm_mm ((round_down address PAGE_SIZE + i * PAGE_SIZE) >>> PAGE_SHIFT) ≠ 0 →
          s'.pte_at vma.vm_mm ((round_down address PAGE_SIZE + i * PAGE_SIZE) >>> PAGE_SHIFT)
            = s.pte_at vma.vm_mm ((round_down address PAGE_SIZE + i * PAGE_SIZE) >>> PAGE_SHIFT)) := by
  have hP : PAGE_SIZE = 4096 := by decide
  have hU : U64_MOD = 2 ^ 64 := rfl
  have hS : PAGE_SHIFT = 12 := rfl
  have hrd : round_down address PAGE_SIZE = address &&& PAGE_MASK := rfl
  have hal := and_PAGE_MASK_mod address
  -- the page number of the first page
  obtain ⟨q, hq⟩ : ∃ q, address &&& PAGE_MASK = q * PAGE_SIZE :=
    ⟨(address &&& PAGE_MASK) / PAGE_SIZE, by
      rw [hP] at hal ⊢
      omega⟩
  have hpgoff : ((((address &&& PAGE_MASK) - vma.vm_start) >>> PAGE_SHIFT) + vma.vm_pgoff) < U64_MOD := by
    have h := hoff
    have h2 : 2 ^ PAGE_SHIFT = 4096 := by decide
    rw [Nat.shiftLeft_eq, h2, hU] at h
    rw [hU]
    generalize (((address &&& PAGE_MASK) - vma.vm_start) >>> PAGE_SHIFT) + vma.vm_pgoff = x at h ⊢
    omega
  have hgfp1 : (__get_free_pages c.PREFETCH_ORDER s).1 = buf := by
    simp [__get_free_pages, hpool, hbuf0]
  have hgfpr : (__get_free_pages c.PREFETCH_ORDER s).2.racer = none := by
    simp [__get_free_pages, hpool, hbuf0, hrace]
  have hgfpp : (__get_free_pages c.PREFETCH_ORDER s).2.pool = rest := by
    simp [__get_free_pages, hpool, hbuf0]
  have hgfpt : (__get_free_pages c.PREFETCH_ORDER s).2.trace =
      s.trace ++ [Event.get_free_pages c.PREFETCH_ORDER buf] := by
    simp [__get_free_pages, hpool, hbuf0]
  have hgfpm : (__get_free_pages c.PREFETCH_ORDER s).2.mms = s.mms := by
    simp [__get_free_pages, hpool, hbuf0]
  generalize hG : (__get_free_pages c.PREFETCH_ORDER s).2 = G at hgfpr hgfpp hgfpt hgfpm
  have hcount' : (N * PAGE_SIZE) % U64_MOD = N * PAGE_SIZE := by
    have hb : 0 < buf := Nat.pos_of_ne_zero hbuf0
    rw [hP, hU] at hbufN ⊢
    omega
  obtain ⟨s', hloop, ⟨l, htr, hev⟩, hpte⟩ := mmap_faults_loop_spec c vma flags N q
    (round_down address PAGE_SIZE) buf buf
    (G.emit (Event.storage_read vma.vm_file buf (N * PAGE_SIZE)
        (((((address &&& PAGE_MASK) - vma.vm_start) >>> PAGE_SHIFT) + vma.vm_pgoff) <<< PAGE_SHIFT)))
    hgfpr (by rw [show (G.emit _).pool = G.pool from rfl, hgfpp]; exact hlen)
    (by rw [show (G.emit _).pool = G.pool from rfl, hgfpp]; exact hnz)
    (fun _ => by rw [hrd, hq])
    (by
      rw [hq] at haddr
      rw [hP, hU] at haddr ⊢
      omega)
    (fun _ => rfl) hbufN
  have hl1 := filter_pgtable_events_any Event.is_get_free_pages l (fun _ _ => rfl) hev
  have hl2 := filter_pgtable_events_any Event.is_storage_read l (fun _ _ => rfl) hev
  have htr' : s'.trace = s.trace ++ ([Event.get_free_pages c.PREFETCH_ORDER buf,
      Event.storage_read vma.vm_file buf (N * PAGE_SIZE)
        (((((address &&& PAGE_MASK) - vma.vm_start) >>> PAGE_SHIFT) + vma.vm_pgoff) <<< PAGE_SHIFT)]
      ++ l) := by
    rw [htr, emit_trace, hgfpt]
    simp
  refine ⟨s', ?_, ?_, ?_, ?_⟩
  · unfold handle_lego_mmap_faults
    dsimp only
    rw [hgfp1, if_neg hbuf0, linear_pgoff_eq address vma.vm_start vma.vm_pgoff hstart hpgoff,
      Nat.mod_eq_of_lt hoff, hcount', hG]
    exact hloop
  · simp [htr', hl1, Event.is_get_free_pages]
  · simp [htr', hl2, Event.is_storage_read]
  · intro i hi
    have hslot : (round_down address PAGE_SIZE + i * PAGE_SIZE) >>> PAGE_SHIFT = q + i := by
      rw [hrd, hq, hP, hS, Nat.shiftRight_eq_div_pow]
      omega
    rw [hslot]
    have hp := hpte vma.vm_mm (q + i)
    have hs0 : (G.emit (Event.storage_read vma.vm_file buf (N * PAGE_SIZE)
        (((((address &&& PAGE_MASK) - vma.vm_start) >>> PAGE_SHIFT) + vma.vm_pgoff)
          <<< PAGE_SHIFT))).pte_at vma.vm_mm (q + i) = s.pte_at vma.vm_mm (q + i) := by
      show (G.mms vma.vm_mm).pgd.pte (q + i) = (s.mms vma.vm_mm).pgd.pte (q + i)
      rw [hgfpm]
    rw [hs0] at hp
    have hsub : q + i - q = i := by omega
    constructor
    · intro h0
      rw [hp, if_pos ⟨rfl, by omega, by omega, h0⟩, hsub]
      refine ⟨rfl, ?_⟩
      have hlt : buf + i * PAGE_SIZE < U64_MOD := by
        rw [hP, hU] at hbufN ⊢
        omega
      have hali : (buf + i * PAGE_SIZE) % PAGE_SIZE = 0 := by
        rw [hP] at hbufa ⊢
        omega
      obtain ⟨h1, h2⟩ := entry_frame_field (buf + i * PAGE_SIZE) vma.vm_page_prot hlt hali (hprot i hi)
      unfold prefetch_entry
      split
      · exact h2
      · exact h1
    · intro h0
      rw [hp, if_neg (fun h => h0 h.2.2.2)]

/-- C14 (counterexample): a prefetch of nine pages at `0x4010` of the twelve-page
file VMA, every allocation succeeding. The buffer from
`__get_free_pages(PREFETCH_ORDER)` has `2^3 = 8` pages, yet the one storage read
is for `9 * PAGE_SIZE = 36864` bytes into it, which is not inside the buffer,
and the ninth page (slot 12, absent before) is mapped to the address
`buf + 8 * PAGE_SIZE`, while the buffer has no page 8; the call returns 0. -/
theorem C14_oversized_prefetch_overruns_buffer :
    x86_consts.PREFETCH_ORDER = 3 ∧
    (handle_lego_mmap_faults x86_consts wide_file_vma 0x4010 0 9 oversized_prefetch_state).1 = 0 ∧
    (handle_lego_mmap_faults x86_consts wide_file_vma 0x4010 0 9
        oversized_prefetch_state).2.trace.filter Event.is_get_free_pages
      = [Event.get_free_pages 3 0xffff880000800000] ∧
    (handle_lego_mmap_faults x86_consts wide_file_vma 0x4010 0 9
        oversized_prefetch_state).2.trace.filter Event.is_storage_read
      = [Event.storage_read (some 7) 0xffff880000800000 36864 0] ∧
    ¬ inside_buffer 3 0xffff880000800000 0xffff880000800000 36864 ∧
    oversized_prefetch_state.pte_at 0 12 = 0 ∧
    (handle_lego_mmap_faults x86_consts wide_file_vma 0x4010 0 9
        oversized_prefetch_state).2.pte_at 0 12 &&& PTE_VFN_MASK = 0xffff880000808000 ∧
    buffer_page 3 0xffff880000800000 8 = none ∧
    buffer_page 3 0xffff880000800000 7 = some 0xffff880000807000 := by
  refine ⟨rfl, by decide, by decide, by decide, by decide, by decide, by decide, by decide,
    by decide⟩

/-- C14 (amended): a call `handle_lego_mmap_faults(vma, address, flags, N)` with
`N` at most the `2 ^ PREFETCH_ORDER` pages of the prefetch buffer, in which
every allocation succeeds (the allocator answers with a page-aligned buffer and
`3 N` more non-null pages) and no walker interferes, obtains one buffer, issues
exactly one storage read, for `N * PAGE_SIZE` bytes at file position
`((((address & PAGE_MASK) - vm_start) >> PAGE_SHIFT) + vm_pgoff) << PAGE_SHIFT`
into that buffer and inside it, and returns 0; afterwards, for every `i < N`,
the buffer has a page `i`, and the page at `round_down(address) + i * PAGE_SIZE`
holds the entry built for that buffer page (its frame field is the address of
the buffer page) when its leaf entry was absent before the call, and its old
entry otherwise. The addresses involved do not wrap around and the template
bits inside the frame field are bits of the buffer pages. -/
theorem C14_prefetch_reads_once_and_fills_absent (c : Consts) (vma : vm_area_struct)
    (address flags N : Nat) (s : State) (buf : Nat) (rest : List Nat)
    (hrace : s.racer = none)
    (hpool : s.pool = buf :: rest) (hbuf0 : buf ≠ 0)
    (hlen : 3 * N ≤ rest.length) (hnz : ∀ z ∈ rest.take (3 * N), z ≠ 0)
    (hN : N ≤ 2 ^ c.PREFETCH_ORDER)
    (hbufa : buf % PAGE_SIZE = 0) (hbufN : buf + 2 ^ c.PREFETCH_ORDER * PAGE_SIZE ≤ U64_MOD)
    (haddr : (address &&& PAGE_MASK) + N * PAGE_SIZE ≤ U64_MOD)
    (hstart : vma.vm_start ≤ address &&& PAGE_MASK)
    (hoff : ((((address &&& PAGE_MASK) - vma.vm_start) >>> PAGE_SHIFT) + vma.vm_pgoff)
      <<< PAGE_SHIFT < U64_MOD)
    (hprot : ∀ i < N, (vma.vm_page_prot &&& PTE_VFN_MASK) ||| (buf + i * PAGE_SIZE)
      = buf + i * PAGE_SIZE) :
    ∃ s', handle_lego_mmap_faults c vma address flags N s = (0, s') ∧
      (s'.trace.drop s.trace.length).filter Event.is_get_free_pages
        = [Event.get_free_pages c.PREFETCH_ORDER buf] ∧
      (s'.trace.drop s.trace.length).filter Event.is_storage_read
        = [Event.storage_read vma.vm_file buf (N * PAGE_SIZE)
            (((((address &&& PAGE_MASK) - vma.vm_start) >>> PAGE_SHIFT) + vma.vm_pgoff)
              <<< PAGE_SHIFT)] ∧
      inside_buffer c.PREFETCH_ORDER buf buf (N * PAGE_SIZE) ∧
      ∀ i < N, ∃ pg, buffer_page c.PREFETCH_ORDER buf i = some pg ∧
        (s.pte_at vma.vm_mm ((round_down address PAGE_SIZE + i * PAGE_SIZE) >>> PAGE_SHIFT) = 0 →
          s'.pte_at vma.vm_mm ((round_down address PAGE_SIZE + i * PAGE_SIZE) >>> PAGE_SHIFT)
            = prefetch_entry c vma pg ∧
          prefetch_entry c vma pg &&& PTE_VFN_MASK = pg) ∧
        (s.pte_at vma.vm_mm ((round_down address PAGE_SIZE + i * PAGE_SIZE) >>> PAGE_SHIFT) ≠ 0 →
          s'.pte_at vma.vm_mm ((round_down address PAGE_SIZE + i * PAGE_SIZE) >>> PAGE_SHIFT)
            = s.pte_at vma.vm_mm ((round_down address PAGE_SIZE + i * PAGE_SIZE) >>> PAGE_SHIFT)) := by
  have hmul : N * PAGE_SIZE ≤ 2 ^ c.PREFETCH_ORDER * PAGE_SIZE := Nat.mul_le_mul_right _ hN
  obtain ⟨s', h1, h2, h3, h4⟩ := handle_lego_mmap_faults_spec c vma address flags N s buf rest
    hrace hpool hbuf0 hlen hnz hbufa (le_trans (Nat.add_le_add_left hmul buf) hbufN) haddr hstart
    hoff hprot
  refine ⟨s', h1, h2, h3, ⟨le_refl _, Nat.add_le_add_left hmul buf⟩, ?_⟩
  intro i hi
  refine ⟨buf + i * PAGE_SIZE, ?_, h4 i hi⟩
  unfold buffer_page
  rw [if_pos (lt_of_lt_of_le hi hN)]

/-- Witness of C14 (amended): prefetching two pages at `0x4010` of the file-backed
VMA `[0x4000,0x6000)` when the page of `0x5000` is already mapped in the
populated leaf table: one read of 8192 bytes at file position 0 into the
eight-page buffer `0xffff880000800000`; the page of `0x4000` gets buffer page
0, the page of `0x5000` keeps its entry. -/
theorem C14_prefetch_reads_once_and_fills_absent_witness :
    prefetch_state.pte_at 0 4 = 0 ∧ prefetch_state.pte_at 0 5 = 0xffff880000700025 ∧
    (prefetch_state.mms 0).pgd.pmd (0x5000 >>> 21) = true ∧
    ∃ s', handle_lego_mmap_faults x86_consts file_vma 0x4010 0 2 prefetch_state = (0, s') ∧
      (s'.trace.drop prefetch_state.trace.length).filter Event.is_storage_read
        = [Event.storage_read (some 7) 0xffff880000800000 8192 0] ∧
      inside_buffer 3 0xffff880000800000 0xffff880000800000 8192 ∧
      s'.pte_at 0 4 = 0xffff880000800025 ∧
      s'.pte_at 0 4 &&& PTE_VFN_MASK = 0xffff880000800000 ∧
      s'.pte_at 0 5 = 0xffff880000700025 := by
  obtain ⟨s', h1, _, h3, h5, h4⟩ :=
    C14_prefetch_reads_once_and_fills_absent x86_consts file_vma 0x4010 0 2 prefetch_state
      0xffff880000800000
      [0xffff880000101000, 0xffff880000102000, 0xffff880000103000,
        0xffff880000104000, 0xffff880000105000, 0xffff880000106000]
      rfl rfl (by decide) (by decide) (by decide) (by decide) (by decide) (by decide) (by decide)
      (by decide) (by decide) (by decide)
  obtain ⟨pg0, hb0, ha0, _⟩ := h4 0 (by decide)
  obtain ⟨pg1, _, _, hp1⟩ := h4 1 (by decide)
  have hpg0 : pg0 = 0xffff880000800000 := by
    have : buffer_page x86_consts.PREFETCH_ORDER 0xffff880000800000 0
        = some 0xffff880000800000 := by decide
    rw [this] at hb0
    injection hb0 with hb0
    exact hb0.symm
  subst hpg0
  obtain ⟨e1, e2⟩ := ha0 (by decide)
  refine ⟨by decide, by decide, by decide, s', h1, h3, h5, ?_, ?_, hp1 (by decide)⟩
  · exact e1
  · exact (congrArg (fun x => x &&& PTE_VFN_MASK) e1).trans e2

/-! ## Theorems: the scheduler core -/

@[simp] theorem sched_emit_tasks (s : Sched) (e : SchedEvent) : (s.emit e).tasks = s.tasks := rfl
@[simp] theorem sched_emit_runqueues (s : Sched) (e : SchedEvent) :
    (s.emit e).runqueues = s.runqueues := rfl
@[simp] theorem sched_emit_held (s : Sched) (e : SchedEvent) : (s.emit e).held = s.held := rfl
@[simp] theorem sched_emit_priv (s : Sched) (e : SchedEvent) : (s.emit e).priv = s.priv := rfl
@[simp] theorem sched_emit_online (s : Sched) (e : SchedEvent) :
    (s.emit e).cpu_online_mask = s.cpu_online_mask := rfl
@[simp] theorem sched_emit_this_cpu (s : Sched) (e : SchedEvent) :
    (s.emit e).this_cpu = s.this_cpu := rfl
@[simp] theorem sched_emit_log (s : Sched) (e : SchedEvent) : (s.emit e).log = s.log ++ [e] := rfl

@[simp] theorem sched_set_task_tasks (s : Sched) (p : Nat) (t : task_struct) (q : Nat) :
    (s.set_task p t).tasks q = if q = p then t else s.tasks q := rfl
@[simp] theorem sched_set_task_runqueues (s : Sched) (p : Nat) (t : task_struct) :
    (s.set_task p t).runqueues = s.runqueues := rfl
@[simp] theorem sched_set_task_held (s : Sched) (p : Nat) (t : task_struct) :
    (s.set_task p t).held = s.held := rfl
@[simp] theorem sched_set_task_priv (s : Sched) (p : Nat) (t : task_struct) :
    (s.set_task p t).priv = s.priv := rfl
@[simp] theorem sched_set_task_online (s : Sched) (p : Nat) (t : task_struct) :
    (s.set_task p t).cpu_online_mask = s.cpu_online_mask := rfl
@[simp] theorem sched_set_task_this_cpu (s : Sched) (p : Nat) (t : task_struct) :
    (s.set_task p t).this_cpu = s.this_cpu := rfl
@[simp] theorem sched_set_task_log (s : Sched) (p : Nat) (t : task_struct) :
    (s.set_task p t).log = s.log := rfl

@[simp] theorem sched_set_rq_tasks (s : Sched) (c : Nat) (r : rq) :
    (s.set_rq c r).tasks = s.tasks := rfl
@[simp] theorem sched_set_rq_runqueues (s : Sched) (c : Nat) (r : rq) (d : Nat) :
    (s.set_rq c r).runqueues d = if d = c then r else s.runqueues d := rfl
@[simp] theorem sched_set_rq_held (s : Sched) (c : Nat) (r : rq) :
    (s.set_rq c r).held = s.held := rfl
@[simp] theorem sched_set_rq_priv (s : Sched) (c : Nat) (r : rq) :
    (s.set_rq c r).priv = s.priv := rfl
@[simp] theorem sched_set_rq_online (s : Sched) (c : Nat) (r : rq) :
    (s.set_rq c r).cpu_online_mask = s.cpu_online_mask := rfl
@[simp] theorem sched_set_rq_this_cpu (s : Sched) (c : Nat) (r : rq) :
    (s.set_rq c r).this_cpu = s.this_cpu := rfl
@[simp] theorem sched_set_rq_log (s : Sched) (c : Nat) (r : rq) :
    (s.set_rq c r).log = s.log := rfl

/-- The clock update touches nothing but `clock` and `clock_task` of its run-queue. -/
theorem update_rq_clock_frame (k : SchedConsts) (c : Nat) (s : Sched) :
    (update_rq_clock k c s).tasks = s.tasks ∧ (update_rq_clock k c s).held = s.held ∧
    (update_rq_clock k c s).priv = s.priv ∧ (update_rq_clock k c s).log = s.log ∧
    (update_rq_clock k c s).this_cpu = s.this_cpu ∧
    (update_rq_clock k c s).cpu_online_mask = s.cpu_online_mask ∧
    ∀ d, ((update_rq_clock k c s).runqueues d).queue = (s.runqueues d).queue ∧
      ((update_rq_clock k c s).runqueues d).nr_uninterruptible
        = (s.runqueues d).nr_uninterruptible ∧
      ((update_rq_clock k c s).runqueues d).nr_iowait = (s.runqueues d).nr_iowait ∧
      ((update_rq_clock k c s).runqueues d).curr = (s.runqueues d).curr := by
  unfold update_rq_clock
  dsimp only
  split
  · simp
  · split
    · simp
    · refine ⟨rfl, rfl, rfl, rfl, rfl, rfl, fun d => ?_⟩
      by_cases hd : d = c
      · subst hd; simp
      · simp [hd]

@[simp] theorem update_rq_clock_tasks (k : SchedConsts) (c : Nat) (s : Sched) :
    (update_rq_clock k c s).tasks = s.tasks := (update_rq_clock_frame k c s).1
@[simp] theorem update_rq_clock_held (k : SchedConsts) (c : Nat) (s : Sched) :
    (update_rq_clock k c s).held = s.held := (update_rq_clock_frame k c s).2.1
@[simp] theorem update_rq_clock_priv (k : SchedConsts) (c : Nat) (s : Sched) :
    (update_rq_clock k c s).priv = s.priv := (update_rq_clock_frame k c s).2.2.1
@[simp] theorem update_rq_clock_log (k : SchedConsts) (c : Nat) (s : Sched) :
    (update_rq_clock k c s).log = s.log := (update_rq_clock_frame k c s).2.2.2.1
@[simp] theorem update_rq_clock_this_cpu (k : SchedConsts) (c : Nat) (s : Sched) :
    (update_rq_clock k c s).this_cpu = s.this_cpu := (update_rq_clock_frame k c s).2.2.2.2.1
@[simp] theorem update_rq_clock_online (k : SchedConsts) (c : Nat) (s : Sched) :
    (update_rq_clock k c s).cpu_online_mask = s.cpu_online_mask :=
  (update_rq_clock_frame k c s).2.2.2.2.2.1
@[simp] theorem update_rq_clock_queue (k : SchedConsts) (c : Nat) (s : Sched) (d : Nat) :
    ((update_rq_clock k c s).runqueues d).queue = (s.runqueues d).queue :=
  ((update_rq_clock_frame k c s).2.2.2.2.2.2 d).1
@[simp] theorem update_rq_clock_nr_uninterruptible (k : SchedConsts) (c : Nat) (s : Sched)
    (d : Nat) : ((update_rq_clock k c s).runqueues d).nr_uninterruptible
      = (s.runqueues d).nr_uninterruptible :=
  ((update_rq_clock_frame k c s).2.2.2.2.2.2 d).2.1
@[simp] theorem update_rq_clock_nr_iowait (k : SchedConsts) (c : Nat) (s : Sched) (d : Nat) :
    ((update_rq_clock k c s).runqueues d).nr_iowait = (s.runqueues d).nr_iowait :=
  ((update_rq_clock_frame k c s).2.2.2.2.2.2 d).2.2.1
@[simp] theorem update_rq_clock_curr (k : SchedConsts) (c : Nat) (s : Sched) (d : Nat) :
    ((update_rq_clock k c s).runqueues d).curr = (s.runqueues d).curr :=
  ((update_rq_clock_frame k c s).2.2.2.2.2.2 d).2.2.2

/-- What `enqueue_task` changes: the clock, the queue of its run-queue, and the log. -/
theorem enqueue_task_frame (k : SchedConsts) (c p flags : Nat) (s : Sched) :
    (enqueue_task k c p flags s).tasks = s.tasks ∧ (enqueue_task k c p flags s).held = s.held ∧
    (enqueue_task k c p flags s).priv = s.priv ∧
    (enqueue_task k c p flags s).log
      = s.log ++ [SchedEvent.enqueue_task (s.tasks p).sched_class c p flags] ∧
    (enqueue_task k c p flags s).this_cpu = s.this_cpu ∧
    (enqueue_task k c p flags s).cpu_online_mask = s.cpu_online_mask ∧
    ∀ d, ((enqueue_task k c p flags s).runqueues d).queue
        = (if d = c then (s.runqueues d).queue ++ [p] else (s.runqueues d).queue) ∧
      ((enqueue_task k c p flags s).runqueues d).nr_uninterruptible
        = (s.runqueues d).nr_uninterruptible ∧
      ((enqueue_task k c p flags s).runqueues d).nr_iowait = (s.runqueues d).nr_iowait ∧
      ((enqueue_task k c p flags s).runqueues d).curr = (s.runqueues d).curr := by
  refine ⟨by simp [enqueue_task, class_enqueue_task], by simp [enqueue_task, class_enqueue_task],
    by simp [enqueue_task, class_enqueue_task], by simp [enqueue_task, class_enqueue_task],
    by simp [enqueue_task, class_enqueue_task], by simp [enqueue_task, class_enqueue_task],
    fun d => ?_⟩
  by_cases hd : d = c
  · subst hd; simp [enqueue_task, class_enqueue_task]
  · simp [enqueue_task, class_enqueue_task, hd]

/-- What `dequeue_task` changes: the clock, the queue of its run-queue, and the log. -/
theorem dequeue_task_frame (k : SchedConsts) (c p flags : Nat) (s : Sched) :
    (dequeue_task k c p flags s).tasks = s.tasks ∧ (dequeue_task k c p flags s).held = s.held ∧
    (dequeue_task k c p flags s).priv = s.priv ∧
    (dequeue_task k c p flags s).log
      = s.log ++ [SchedEvent.dequeue_task (s.tasks p).sched_class c p flags] ∧
    (dequeue_task k c p flags s).this_cpu = s.this_cpu ∧
    (dequeue_task k c p flags s).cpu_online_mask = s.cpu_online_mask ∧
    ∀ d, ((dequeue_task k c p flags s).runqueues d).queue
        = (if d = c then (s.runqueues d).queue.erase p else (s.runqueues d).queue) ∧
      ((dequeue_task k c p flags s).runqueues d).nr_uninterruptible
        = (s.runqueues d).nr_uninterruptible ∧
      ((dequeue_task k c p flags s).runqueues d).nr_iowait = (s.runqueues d).nr_iowait ∧
      ((dequeue_task k c p flags s).runqueues d).curr = (s.runqueues d).curr := by
  refine ⟨by simp [dequeue_task, class_dequeue_task], by simp [dequeue_task, class_dequeue_task],
    by simp [dequeue_task, class_dequeue_task], by simp [dequeue_task, class_dequeue_task],
    by simp [dequeue_task, class_dequeue_task], by simp [dequeue_task, class_dequeue_task],
    fun d => ?_⟩
  by_cases hd : d = c
  · subst hd; simp [dequeue_task, class_dequeue_task]
  · simp [dequeue_task, class_dequeue_task, hd]

/-- A successful `spin_lock` adds the lock to the held set and one call to the log. -/
theorem spin_lock_ok (c : Nat) (s : Sched) (h : c ∉ s.held) :
    spin_lock c s
      = Except.ok (Sched.emit ⟨s.tasks, s.runqueues, s.cpu_online_mask, s.this_cpu,
          s.sched_clock, s.set_task_cpu_warned, c :: s.held, s.priv, s.log⟩
          (SchedEvent.spin_lock c)) := by
  simp [spin_lock, h]

/-- The outcome of `spin_lock`: a deadlock or the state with the lock taken. -/
theorem spin_lock_cases (c : Nat) (s s1 : Sched) (h : spin_lock c s = Except.ok s1) :
    c ∉ s.held ∧ s1.tasks = s.tasks ∧ s1.runqueues = s.runqueues ∧ s1.held = c :: s.held ∧
    s1.priv = s.priv ∧ s1.log = s.log ++ [SchedEvent.spin_lock c] ∧ s1.this_cpu = s.this_cpu ∧
    s1.cpu_online_mask = s.cpu_online_mask ∧ s1.set_task_cpu_warned = s.set_task_cpu_warned := by
  unfold spin_lock at h
  by_cases hc : c ∈ s.held
  · simp [hc] at h
  · simp only [hc, if_false] at h
    injection h with h
    subst h
    exact ⟨hc, rfl, rfl, rfl, rfl, rfl, rfl, rfl, rfl⟩

/-- The outcome of `ttwu_remote`: 1 with the task marked running, or 0 with the
tasks untouched; run-queues are never changed. -/
theorem ttwu_remote_cases (k : SchedConsts) (p wake_flags : Nat) (s : Sched) (r : Nat)
    (s1 : Sched) (h : ttwu_remote k p wake_flags s = Except.ok (r, s1)) :
    s1.runqueues = s.runqueues ∧
    ((r = 1 ∧ (s1.tasks p).state = k.TASK_RUNNING) ∨ (r = 0 ∧ s1.tasks = s.tasks)) := by
  unfold ttwu_remote __task_rq_lock at h
  cases hl : spin_lock (task_cpu s p) s with
  | error e => simp [hl] at h
  | ok s2 =>
    obtain ⟨_, ht, hr, _, _, _, _, _, _⟩ := spin_lock_cases _ _ _ hl
    simp only [hl] at h
    by_cases hm : task_cpu s p = task_cpu s2 p ∧ task_on_rq_migrating k s2 p = false
    · simp only [hm, and_self, if_true] at h
      by_cases hq : task_on_rq_queued k s2 p = true
      · simp only [hq, if_true] at h
        injection h with h
        injection h with h1 h2
        subst h1 h2
        refine ⟨?_, Or.inl ⟨rfl, ?_⟩⟩
        · simp [__task_rq_unlock, spin_unlock, ttwu_do_wakeup, hr]
        · simp [__task_rq_unlock, spin_unlock, ttwu_do_wakeup]
      · simp only [hq] at h
        injection h with h
        injection h with h1 h2
        subst h1 h2
        refine ⟨?_, Or.inr ⟨rfl, ?_⟩⟩
        · simp [__task_rq_unlock, spin_unlock, hr]
        · simp [__task_rq_unlock, spin_unlock, ht]
    · simp [hm] at h

/-- The outcome of the `on_rq` test at the head of `try_to_wake_up`. -/
theorem ttwu_remote_guard_cases (k : SchedConsts) (p wake_flags : Nat) (s : Sched) (r : Nat)
    (s1 : Sched)
    (h : (if (s.tasks p).on_rq ≠ 0 then ttwu_remote k p wake_flags s else Except.ok (0, s))
      = Except.ok (r, s1)) :
    s1.runqueues = s.runqueues ∧
    ((r = 1 ∧ (s1.tasks p).state = k.TASK_RUNNING) ∨ (r = 0 ∧ s1.tasks = s.tasks)) := by
  by_cases hq : (s.tasks p).on_rq ≠ 0
  · rw [if_pos hq] at h
    exact ttwu_remote_cases k p wake_flags s r s1 h
  · rw [if_neg hq] at h
    injection h with h
    injection h with h1 h2
    subst h1 h2
    exact ⟨rfl, Or.inr ⟨rfl, rfl⟩⟩

/-- The task fields after `ttwu_queue`: running and queued, everything else kept. -/
theorem ttwu_queue_ok (k : SchedConsts) (p cpu wake_flags : Nat) (s s1 : Sched)
    (h : ttwu_queue k p cpu wake_flags s = Except.ok s1) :
    cpu ∉ s.held ∧
    s1.tasks p = { s.tasks p with state := k.TASK_RUNNING, on_rq := k.TASK_ON_RQ_QUEUED } ∧
    (∀ q, q ≠ p → s1.tasks q = s.tasks q) ∧
    s1.log = s.log ++ [SchedEvent.spin_lock cpu,
      SchedEvent.enqueue_task (s.tasks p).sched_class cpu p 0, SchedEvent.spin_unlock cpu] ∧
    s1.held = s.held ∧ s1.priv = s.priv ∧
    ∀ d, (s1.runqueues d).queue
        = (if d = cpu then (s.runqueues d).queue ++ [p] else (s.runqueues d).queue) ∧
      (s1.runqueues d).nr_uninterruptible = (s.runqueues d).nr_uninterruptible ∧
      (s1.runqueues d).nr_iowait = (s.runqueues d).nr_iowait ∧
      (s1.runqueues d).curr = (s.runqueues d).curr := by
  unfold ttwu_queue at h
  cases hl : spin_lock cpu s with
  | error e => simp [hl] at h
  | ok s2 =>
    obtain ⟨hc, ht, hr, hh, hp, hlog, _, _, _⟩ := spin_lock_cases _ _ _ hl
    simp only [hl] at h
    injection h with h
    subst h
    obtain ⟨et, eh, ep, el, _, _, eq⟩ := enqueue_task_frame k cpu p 0 s2
    refine ⟨hc, ?_, ?_, ?_, ?_, ?_, ?_⟩
    · simp [spin_unlock, ttwu_do_activate, ttwu_do_wakeup, et, ht]
    · intro q hq
      simp [spin_unlock, ttwu_do_activate, ttwu_do_wakeup, et, ht, hq]
    · simp [spin_unlock, ttwu_do_activate, ttwu_do_wakeup, el, hlog, ht]
    · simp [spin_unlock, ttwu_do_activate, ttwu_do_wakeup, eh, hh]
    · simp [spin_unlock, ttwu_do_activate, ttwu_do_wakeup, ep, hp]
    · intro d
      have := eq d
      simp only [hr] at this
      simpa [spin_unlock, ttwu_do_activate, ttwu_do_wakeup] using this

/-- A wakeup that reports success leaves the task in state `TASK_RUNNING`. -/
theorem try_to_wake_up_success_state (k : SchedConsts) (ops : SchedOps)
    (p state wake_flags : Nat) (s s1 : Sched) (r : Nat)
    (h : try_to_wake_up k ops p state wake_flags s = Except.ok (r, s1)) (hr : r ≠ 0) :
    (s1.tasks p).state = k.TASK_RUNNING := by
  unfold try_to_wake_up at h
  by_cases h0 : (s.tasks p).state &&& state = 0
  · simp [h0] at h
    exact absurd h.1.symm hr
  · simp only [h0, if_false] at h
    generalize hrem : (if (s.tasks p).on_rq ≠ 0 then ttwu_remote k p wake_flags s
      else Except.ok (0, s)) = rem at h
    cases rem with
    | error e => simp at h
    | ok a =>
      obtain ⟨r2, s2⟩ := a
      obtain ⟨_, hcase⟩ := ttwu_remote_guard_cases k p wake_flags s r2 s2 hrem
      simp only at h
      by_cases hr2 : r2 ≠ 0
      · rw [if_pos hr2] at h
        injection h with h
        injection h with h1 h2
        subst h2
        rcases hcase with ⟨_, hst⟩ | ⟨h0, _⟩
        · exact hst
        · exact absurd h0 hr2
      · rw [if_neg hr2] at h
        by_cases hcpu : (s2.tasks p).on_cpu ≠ 0
        · rw [if_pos hcpu] at h
          simp at h
        · rw [if_neg hcpu] at h
          generalize hsel : select_task_rq k ops p _ k.SD_BALANCE_WAKE wake_flags _ = a at h
          generalize hs4 : (if task_cpu a.2 p ≠ a.1 then set_task_cpu k p a.1 a.2 else a.2)
            = s4 at h
          cases hq : ttwu_queue k p a.1 wake_flags s4 with
          | error e => simp [hq] at h
          | ok s5 =>
            simp only [hq] at h
            injection h with h
            injection h with h1 h2
            subst h2
            rw [(ttwu_queue_ok k p a.1 wake_flags s4 s5 hq).2.1]

/-- C15: when the task's state does not intersect the mask, `try_to_wake_up`
returns 0 and the whole scheduler state (the task's state, `on_rq` and CPU,
every run-queue, the log of calls) is unchanged; with `TASK_RUNNING = 0` this
covers a task in state `TASK_RUNNING` for every mask, and a `wake_up_process`
that follows a successful `wake_up_process` returns 0 and changes nothing. -/
theorem C15_wakeup_without_matching_state_is_noop (k : SchedConsts) (ops : SchedOps)
    (p mask wake_flags : Nat) (s : Sched) :
    ((s.tasks p).state &&& mask = 0 →
      try_to_wake_up k ops p mask wake_flags s = Except.ok (0, s)) ∧
    (k.TASK_RUNNING = 0 → (s.tasks p).state = k.TASK_RUNNING →
      try_to_wake_up k ops p mask wake_flags s = Except.ok (0, s)) ∧
    (k.TASK_RUNNING = 0 → ∀ s1, wake_up_process k ops p s = Except.ok (1, s1) →
      wake_up_process k ops p s1 = Except.ok (0, s1)) := by
  have h1 : ∀ (m : Nat) (t : Sched), (t.tasks p).state &&& m = 0 →
      try_to_wake_up k ops p m wake_flags t = Except.ok (0, t) := by
    intro m t h
    simp [try_to_wake_up, h]
  refine ⟨h1 mask s, ?_, ?_⟩
  · intro hk hs
    apply h1
    rw [hs, hk]
    exact Nat.zero_and mask
  · intro hk s1 hw
    have hst := try_to_wake_up_success_state k ops p k.TASK_NORMAL 0 s s1 1 hw (by decide)
    unfold wake_up_process
    simp [try_to_wake_up, hst, hk]

/-- Witness of C15: task 1 of `blocked_state` sleeps uninterruptibly, so a wakeup
for interruptible sleepers only leaves the state as it is; after
`wake_up_process` has woken it, a second `wake_up_process` reports 0. -/
theorem C15_wakeup_without_matching_state_is_noop_witness :
    (blocked_state.tasks 1).state = 2 ∧
    try_to_wake_up linux_sched_consts demo_ops 1 1 0 blocked_state
      = Except.ok (0, blocked_state) ∧
    wake_up_process linux_sched_consts demo_ops 1 blocked_state = Except.ok (1, woken_state) ∧
    (woken_state.tasks 1).state = 0 ∧
    wake_up_process linux_sched_consts demo_ops 1 woken_state = Except.ok (0, woken_state) :=
  ⟨rfl,
    (C15_wakeup_without_matching_state_is_noop linux_sched_consts demo_ops 1 1 0
      blocked_state).1 (by decide),
    rfl, rfl,
    (C15_wakeup_without_matching_state_is_noop linux_sched_consts demo_ops 1 1 0
      blocked_state).2.2 rfl woken_state rfl⟩

/-- The CPU selection reads the state only: it may log the class call and the
warning of the fallback, nothing else changes. -/
theorem select_task_rq_frame (k : SchedConsts) (ops : SchedOps) (p cpu sd_flags wake_flags : Nat)
    (s : Sched) :
    (select_task_rq k ops p cpu sd_flags wake_flags s).2.tasks = s.tasks ∧
    (select_task_rq k ops p cpu sd_flags wake_flags s).2.runqueues = s.runqueues ∧
    (select_task_rq k ops p cpu sd_flags wake_flags s).2.held = s.held ∧
    (select_task_rq k ops p cpu sd_flags wake_flags s).2.priv = s.priv ∧
    (select_task_rq k ops p cpu sd_flags wake_flags s).2.set_task_cpu_warned
      = s.set_task_cpu_warned ∧
    ∃ l, (select_task_rq k ops p cpu sd_flags wake_flags s).2.log = s.log ++ l ∧
      ∀ e ∈ l, e.is_enqueue_task = false ∧ e.is_dequeue_task = false := by
  unfold select_task_rq select_fallback_rq
  dsimp only
  by_cases hn : 1 < (s.tasks p).nr_cpus_allowed
  · simp only [hn, if_true]
    split
    · refine ⟨rfl, rfl, rfl, rfl, rfl,
        [SchedEvent.select_task_rq (s.tasks p).sched_class p cpu sd_flags wake_flags,
          SchedEvent.warn_select_fallback_rq (s.tasks p).cpu p], ?_, ?_⟩
      · simp [Sched.emit, task_cpu]
      · intro e he
        simp only [List.mem_cons, List.mem_singleton, List.mem_nil_iff, or_false] at he
        rcases he with rfl | rfl <;> exact ⟨rfl, rfl⟩
    · refine ⟨rfl, rfl, rfl, rfl, rfl, [_], rfl, ?_⟩
      intro e he
      simp only [List.mem_singleton] at he
      subst he
      exact ⟨rfl, rfl⟩
  · simp only [hn, if_false]
    split
    · refine ⟨rfl, rfl, rfl, rfl, rfl, [_], rfl, ?_⟩
      intro e he
      simp only [List.mem_singleton] at he
      subst he
      exact ⟨rfl, rfl⟩
    · exact ⟨rfl, rfl, rfl, rfl, rfl, [], by simp, by simp⟩

/-- What `set_task_cpu` changes: the CPU fields of the task, and possibly the
once-only warning. -/
theorem set_task_cpu_frame (k : SchedConsts) (p new_cpu : Nat) (s : Sched) :
    (set_task_cpu k p new_cpu s).tasks p = { s.tasks p with cpu := new_cpu, wake_cpu := new_cpu } ∧
    (∀ q, q ≠ p → (set_task_cpu k p new_cpu s).tasks q = s.tasks q) ∧
    (set_task_cpu k p new_cpu s).runqueues = s.runqueues ∧
    (set_task_cpu k p new_cpu s).held = s.held ∧
    (set_task_cpu k p new_cpu s).priv = s.priv ∧
    ∃ l, (set_task_cpu k p new_cpu s).log = s.log ++ l ∧
      ∀ e ∈ l, e.is_enqueue_task = false ∧ e.is_dequeue_task = false := by
  unfold set_task_cpu __set_task_cpu
  dsimp only
  split
  · refine ⟨by simp, ?_, rfl, rfl, rfl, [_], rfl, ?_⟩
    · intro q hq
      simp [hq]
    · intro e he
      simp only [List.mem_singleton] at he
      subst he
      exact ⟨rfl, rfl⟩
  · refine ⟨by simp, ?_, rfl, rfl, rfl, [], by simp, by simp⟩
    intro q hq
    simp [hq]

/-- Filtering a list none of whose members passes leaves nothing. -/
theorem filter_none_of_all_false {α : Type} (f : α → Bool) (l : List α)
    (h : ∀ e ∈ l, f e = false) : l.filter f = [] := by
  induction l with
  | nil => rfl
  | cons a t ih =>
    have ha : f a = false := h a (List.mem_cons_self a t)
    have ht : ∀ e ∈ t, f e = false := fun e he => h e (List.mem_cons_of_mem a he)
    simp [List.filter, ha, ih ht]

/-- C16: waking a blocked task (not on a run-queue, not executing on a CPU) whose
state intersects the mask, from a context that does not hold the lock of the
target run-queue: `try_to_wake_up` returns 1; on return the task is in state
`TASK_RUNNING` with `on_rq = TASK_ON_RQ_QUEUED`, `task_cpu` is the CPU that
`select_task_rq` chose (called with `p->wake_cpu` and `SD_BALANCE_WAKE` on the
task in state `TASK_WAKING`), the only class enqueue call of the wakeup is the
one that puts the task on that CPU's run-queue, whose queue gains the task at
its tail while every other queue is unchanged; no other task is touched. -/
theorem C16_wakeup_of_blocked_task_enqueues_once (k : SchedConsts) (ops : SchedOps)
    (p mask wake_flags : Nat) (s : Sched)
    (hmask : (s.tasks p).state &&& mask ≠ 0)
    (hrq : (s.tasks p).on_rq = 0) (hcpu : (s.tasks p).on_cpu = 0)
    (hlock : (select_task_rq k ops p (s.tasks p).wake_cpu k.SD_BALANCE_WAKE wake_flags
      (s.set_task p { s.tasks p with state := k.TASK_WAKING })).1 ∉ s.held) :
    ∃ s1, try_to_wake_up k ops p mask wake_flags s = Except.ok (1, s1) ∧
      (s1.tasks p).state = k.TASK_RUNNING ∧
      (s1.tasks p).on_rq = k.TASK_ON_RQ_QUEUED ∧
      task_cpu s1 p = (select_task_rq k ops p (s.tasks p).wake_cpu k.SD_BALANCE_WAKE wake_flags
        (s.set_task p { s.tasks p with state := k.TASK_WAKING })).1 ∧
      (s1.log.drop s.log.length).filter SchedEvent.is_enqueue_task
        = [SchedEvent.enqueue_task (s.tasks p).sched_class
            (select_task_rq k ops p (s.tasks p).wake_cpu k.SD_BALANCE_WAKE wake_flags
              (s.set_task p { s.tasks p with state := k.TASK_WAKING })).1 p 0] ∧
      (∀ d, (s1.runqueues d).queue
        = if d = (select_task_rq k ops p (s.tasks p).wake_cpu k.SD_BALANCE_WAKE wake_flags
              (s.set_task p { s.tasks p with state := k.TASK_WAKING })).1
          then (s.runqueues d).queue ++ [p] else (s.runqueues d).queue) ∧
      (∀ q, q ≠ p → s1.tasks q = s.tasks q) ∧ s1.held = s.held := by
  have hwc : ((s.set_task p { s.tasks p with state := k.TASK_WAKING }).tasks p).wake_cpu
      = (s.tasks p).wake_cpu := by simp
  generalize hsw : s.set_task p { s.tasks p with state := k.TASK_WAKING } = sw at hlock hwc
  have hswt : sw.tasks p = { s.tasks p with state := k.TASK_WAKING } := by
    rw [← hsw]; simp
  have hswo : ∀ q, q ≠ p → sw.tasks q = s.tasks q := by
    intro q hq; rw [← hsw]; simp [hq]
  have hswr : sw.runqueues = s.runqueues := by rw [← hsw]; rfl
  have hswh : sw.held = s.held := by rw [← hsw]; rfl
  have hswl : sw.log = s.log := by rw [← hsw]; rfl
  obtain ⟨at_, ar, ah, _, _, la, hla, hlan⟩ :=
    select_task_rq_frame k ops p (s.tasks p).wake_cpu k.SD_BALANCE_WAKE wake_flags sw
  generalize ha : select_task_rq k ops p (s.tasks p).wake_cpu k.SD_BALANCE_WAKE wake_flags sw
    = a at hlock at_ ar ah hla
  -- the state handed to ttwu_queue
  obtain ⟨s4, hs4, h4p, h4o, h4r, h4h, l4, hl4, hl4n⟩ : ∃ s4,
      (if task_cpu a.2 p ≠ a.1 then set_task_cpu k p a.1 a.2 else a.2) = s4 ∧
      ((s4.tasks p).cpu = a.1 ∧ (s4.tasks p).state = k.TASK_WAKING ∧
        (s4.tasks p).sched_class = (s.tasks p).sched_class) ∧
      (∀ q, q ≠ p → s4.tasks q = s.tasks q) ∧ s4.runqueues = s.runqueues ∧
      s4.held = s.held ∧ ∃ l, s4.log = s.log ++ l ∧
        ∀ e ∈ l, e.is_enqueue_task = false ∧ e.is_dequeue_task = false := by
    refine ⟨_, rfl, ?_⟩
    by_cases hne : task_cpu a.2 p ≠ a.1
    · rw [if_pos hne]
      obtain ⟨fp, fo, fr, fh, _, l, hl, hln⟩ := set_task_cpu_frame k p a.1 a.2
      refine ⟨?_, ?_, ?_, ?_, la ++ l, ?_, ?_⟩
      · rw [fp, at_, hswt]
        exact ⟨rfl, rfl, rfl⟩
      · intro q hq
        rw [fo q hq, at_, hswo q hq]
      · rw [fr, ar, hswr]
      · rw [fh, ah, hswh]
      · rw [hl, hla, hswl, List.append_assoc]
      · intro e he
        rcases List.mem_append.1 he with h | h
        · exact hlan e h
        · exact hln e h
    · rw [if_neg hne]
      refine ⟨?_, ?_, ?_, ?_, la, ?_, hlan⟩
      · have hc : (a.2.tasks p).cpu = a.1 := not_not.1 hne
        rw [at_, hswt] at hc ⊢
        exact ⟨hc, rfl, rfl⟩
      · intro q hq
        rw [at_, hswo q hq]
      · rw [ar, hswr]
      · rw [ah, hswh]
      · rw [hla, hswl]
  have hlk : a.1 ∉ s4.held := by rw [h4h]; exact hlock
  have hq : ttwu_queue k p a.1 wake_flags s4
      = Except.ok (spin_unlock a.1 (ttwu_do_activate k a.1 p wake_flags
          (Sched.emit ⟨s4.tasks, s4.runqueues, s4.cpu_online_mask, s4.this_cpu,
            s4.sched_clock, s4.set_task_cpu_warned, a.1 :: s4.held, s4.priv, s4.log⟩
            (SchedEvent.spin_lock a.1)))) := by
    unfold ttwu_queue
    rw [spin_lock_ok a.1 s4 hlk]
  generalize hs5 : spin_unlock a.1 (ttwu_do_activate k a.1 p wake_flags
          (Sched.emit ⟨s4.tasks, s4.runqueues, s4.cpu_online_mask, s4.this_cpu,
            s4.sched_clock, s4.set_task_cpu_warned, a.1 :: s4.held, s4.priv, s4.log⟩
            (SchedEvent.spin_lock a.1))) = s5 at hq
  obtain ⟨_, q5p, q5o, q5l, q5h, _, q5q⟩ := ttwu_queue_ok k p a.1 wake_flags s4 s5 hq
  refine ⟨s5, ?_, ?_, ?_, ?_, ?_, ?_, ?_, ?_⟩
  · unfold try_to_wake_up
    rw [if_neg hmask]
    have hrem : (if (s.tasks p).on_rq ≠ 0 then ttwu_remote k p wake_flags s
        else Except.ok (0, s)) = Except.ok (0, s) := by
      rw [if_neg (by simp [hrq])]
    simp only [hrem]
    rw [if_neg (not_not.2 rfl), if_neg (not_not.2 hcpu), hsw, hwc, ha, hs4, hq]
  · rw [q5p]
  · rw [q5p]
  · show (s5.tasks p).cpu = a.1
    rw [q5p]
    exact h4p.1
  · rw [q5l, hl4, List.append_assoc, List.drop_left, List.filter_append,
      filter_none_of_all_false _ l4 (fun e he => (hl4n e he).1), h4p.2.2]
    rfl
  · intro d
    rw [(q5q d).1, h4r]
  · intro q hq
    rw [q5o q hq, h4o q hq]
  · rw [q5h, h4h]

/-- Witness of C16: waking task 1 of `blocked_state` (uninterruptible sleeper,
allowed on CPU 0 only) with the mask `TASK_NORMAL` queues it on CPU 0 only. -/
theorem C16_wakeup_of_blocked_task_enqueues_once_witness :
    (blocked_state.tasks 1).state = 2 ∧ (blocked_state.tasks 1).on_rq = 0 ∧
    (blocked_state.runqueues 0).queue = [] ∧
    ∃ s1, try_to_wake_up linux_sched_consts demo_ops 1 3 0 blocked_state = Except.ok (1, s1) ∧
      (s1.tasks 1).state = 0 ∧ (s1.tasks 1).on_rq = 1 ∧ task_cpu s1 1 = 0 ∧
      (s1.log.drop blocked_state.log.length).filter SchedEvent.is_enqueue_task
        = [SchedEvent.enqueue_task sched_class.fair 0 1 0] ∧
      (s1.runqueues 0).queue = [1] ∧ (s1.runqueues 1).queue = [] :=
  let ⟨s1, h1, h2, h3, h4, h5, h6, _⟩ :=
    C16_wakeup_of_blocked_task_enqueues_once linux_sched_consts demo_ops 1 3 0 blocked_state
      (by decide) rfl rfl (by decide)
  ⟨rfl, rfl, rfl, s1, h1, h2, h3, h4, h5, h6 0, h6 1⟩

/-- The first choice of `select_task_rq` is kept when it is allowed and online;
otherwise the result is `task_cpu(p)`, whatever that CPU is. -/
theorem select_task_rq_value (k : SchedConsts) (ops : SchedOps) (p cpu sd_flags wake_flags : Nat)
    (s : Sched) :
    (select_task_rq k ops p cpu sd_flags wake_flags s).1
      = (if cpumask_test_cpu
            (if 1 < (s.tasks p).nr_cpus_allowed then
              ops.select_task_rq (s.tasks p).sched_class s p cpu sd_flags wake_flags
             else cpumask_any k (s.tasks p).cpus_allowed) (s.tasks p).cpus_allowed = false ∨
          cpu_online s
            (if 1 < (s.tasks p).nr_cpus_allowed then
              ops.select_task_rq (s.tasks p).sched_class s p cpu sd_flags wake_flags
             else cpumask_any k (s.tasks p).cpus_allowed) = false
        then task_cpu s p
        else (if 1 < (s.tasks p).nr_cpus_allowed then
              ops.select_task_rq (s.tasks p).sched_class s p cpu sd_flags wake_flags
             else cpumask_any k (s.tasks p).cpus_allowed)) := by
  have e1 : ∀ (x : Nat) (e : SchedEvent), cpu_online (s.emit e) x = cpu_online s x :=
    fun _ _ => rfl
  have e2 : ∀ (e : SchedEvent), task_cpu (s.emit e) p = task_cpu s p := fun _ => rfl
  unfold select_task_rq select_fallback_rq
  by_cases hn : 1 < (s.tasks p).nr_cpus_allowed
  · simp only [hn, if_true, sched_emit_tasks, e1, e2]
    split <;> rfl
  · simp only [hn, if_false]
    split <;> rfl

/-- C17 (failing input): task 1 may run on CPUs 1 and 2, CPU 1 is online, and the
class proposes the previous CPU 2, which is offline; `select_task_rq` falls
back to `task_cpu(p)`, which is CPU 2 again, and returns this offline CPU. -/
theorem C17_select_task_rq_returns_offline_cpu :
    cpumask_test_cpu 1 (unplugged_state.tasks 1).cpus_allowed = true ∧
    cpu_online unplugged_state 1 = true ∧
    (select_task_rq linux_sched_consts demo_ops 1 (unplugged_state.tasks 1).wake_cpu
      linux_sched_consts.SD_BALANCE_WAKE 0 unplugged_state).1 = 2 ∧
    cpu_online unplugged_state 2 = false := by
  decide

/-- A wakeup never changes the uninterruptible count of any run-queue. -/
theorem try_to_wake_up_nr_uninterruptible (k : SchedConsts) (ops : SchedOps)
    (p state wake_flags : Nat) (s s1 : Sched) (r : Nat)
    (h : try_to_wake_up k ops p state wake_flags s = Except.ok (r, s1)) (d : Nat) :
    (s1.runqueues d).nr_uninterruptible = (s.runqueues d).nr_uninterruptible := by
  unfold try_to_wake_up at h
  by_cases h0 : (s.tasks p).state &&& state = 0
  · simp [h0] at h
    rw [h.2]
  · simp only [h0, if_false] at h
    generalize hrem : (if (s.tasks p).on_rq ≠ 0 then ttwu_remote k p wake_flags s
      else Except.ok (0, s)) = rem at h
    cases rem with
    | error e => simp at h
    | ok a =>
      obtain ⟨r2, s2⟩ := a
      obtain ⟨hrq, _⟩ := ttwu_remote_guard_cases k p wake_flags s r2 s2 hrem
      simp only at h
      by_cases hr2 : r2 ≠ 0
      · rw [if_pos hr2] at h
        injection h with h
        injection h with h1 h2
        subst h2
        rw [hrq]
      · rw [if_neg hr2] at h
        by_cases hcpu : (s2.tasks p).on_cpu ≠ 0
        · rw [if_pos hcpu] at h
          simp at h
        · rw [if_neg hcpu] at h
          obtain ⟨_, ar, _⟩ := select_task_rq_frame k ops p
            ((s2.set_task p { s2.tasks p with state := k.TASK_WAKING }).tasks p).wake_cpu
            k.SD_BALANCE_WAKE wake_flags (s2.set_task p { s2.tasks p with state := k.TASK_WAKING })
          generalize hsel : select_task_rq k ops p _ k.SD_BALANCE_WAKE wake_flags _ = a at h ar
          have h4 : (if task_cpu a.2 p ≠ a.1 then set_task_cpu k p a.1 a.2 else a.2).runqueues
              = s.runqueues := by
            split
            · rw [(set_task_cpu_frame k p a.1 a.2).2.2.1, ar]
              exact hrq
            · rw [ar]
              exact hrq
          generalize hs4 : (if task_cpu a.2 p ≠ a.1 then set_task_cpu k p a.1 a.2 else a.2)
            = s4 at h h4
          cases hq : ttwu_queue k p a.1 wake_flags s4 with
          | error e => simp [hq] at h
          | ok s5 =>
            simp only [hq] at h
            injection h with h
            injection h with h1 h2
            subst h2
            rw [((ttwu_queue_ok k p a.1 wake_flags s4 s5 hq).2.2.2.2.2.2 d).2.1, h4]

/-- C18 (failing input): task 1 blocks in `TASK_UNINTERRUPTIBLE` through
`__schedule(false)` on CPU 0, which raises the uninterruptible count of that
run-queue from 0 to 1; `try_to_wake_up` then wakes it and puts it back on the
same run-queue, and the count is still 1. -/
theorem C18_wakeup_does_not_restore_uninterruptible_count :
    (sleeper_state.runqueues 0).nr_uninterruptible = 0 ∧
    (sleeper_state.tasks 1).state = linux_sched_consts.TASK_UNINTERRUPTIBLE ∧
    __schedule linux_sched_consts demo_ops 1 false sleeper_state = Except.ok blocked_state ∧
    (blocked_state.tasks 1).on_rq = 0 ∧ (blocked_state.runqueues 0).queue = [] ∧
    (blocked_state.runqueues 0).nr_uninterruptible = 1 ∧
    try_to_wake_up linux_sched_consts demo_ops 1 linux_sched_consts.TASK_NORMAL 0 blocked_state
      = Except.ok (1, woken_state) ∧
    (woken_state.tasks 1).state = linux_sched_consts.TASK_RUNNING ∧
    (woken_state.tasks 1).on_rq = linux_sched_consts.TASK_ON_RQ_QUEUED ∧
    (woken_state.runqueues 0).queue = [1] ∧
    (woken_state.runqueues 0).nr_uninterruptible = 1 :=
  ⟨rfl, rfl, rfl, rfl, rfl, rfl, rfl, rfl, rfl, rfl, rfl⟩

/-- One pass over the classes changes only the private class state and the log,
to which it adds class `pick_next_task` calls only. -/
theorem pick_next_task_scan_frame (ops : SchedOps) (c prev : Nat) (l : List sched_class) :
    ∀ s : Sched, (pick_next_task_scan ops c prev l s).2.tasks = s.tasks ∧
      (pick_next_task_scan ops c prev l s).2.runqueues = s.runqueues ∧
      (pick_next_task_scan ops c prev l s).2.held = s.held ∧
      (pick_next_task_scan ops c prev l s).2.this_cpu = s.this_cpu ∧
      ∃ es, (pick_next_task_scan ops c prev l s).2.log = s.log ++ es ∧
        ∀ e ∈ es, e.is_pick_next_task = true := by
  induction l with
  | nil =>
    intro s
    exact ⟨rfl, rfl, rfl, rfl, [], by simp [pick_next_task_scan], by simp⟩
  | cons cls rest ih =>
    intro s
    unfold pick_next_task_scan
    dsimp only
    split
    · refine ⟨rfl, rfl, rfl, rfl, [SchedEvent.pick_next_task cls c prev], rfl, ?_⟩
      intro e he
      simp only [List.mem_singleton] at he
      subst he
      rfl
    · obtain ⟨h1, h2, h3, h4, es, h5, h6⟩ := ih (Sched.emit
        ⟨s.tasks, s.runqueues, s.cpu_online_mask, s.this_cpu, s.sched_clock,
          s.set_task_cpu_warned, s.held, (ops.pick_next_task cls s c prev).2, s.log⟩
        (SchedEvent.pick_next_task cls c prev))
      refine ⟨h1, h2, h3, h4, SchedEvent.pick_next_task cls c prev :: es, ?_, ?_⟩
      · rw [h5]
        simp [Sched.emit]
      · intro e he
        rcases List.mem_cons.1 he with h | h
        · subst h
          rfl
        · exact h6 e h

/-- A pass that ends without a pointer has asked every class of the list and got
the null pointer from each. -/
theorem pick_next_task_scan_zero (ops : SchedOps) (c prev : Nat) (l : List sched_class) :
    ∀ s : Sched, (pick_next_task_scan ops c prev l s).1 = 0 →
      ∀ cls ∈ l, ∃ t : Sched, (ops.pick_next_task cls t c prev).1 = 0 := by
  induction l with
  | nil =>
    intro s _ cls hc
    simp at hc
  | cons cl rest ih =>
    intro s h cls hc
    unfold pick_next_task_scan at h
    dsimp only at h
    by_cases ha : (ops.pick_next_task cl s c prev).1 ≠ 0
    · rw [if_pos ha] at h
      exact absurd h ha
    · rw [if_neg ha] at h
      rcases List.mem_cons.1 hc with hcl | hcl
      · subst hcl
        exact ⟨s, not_not.1 ha⟩
      · exact ih _ h cls hcl

/-- Along one pass a measure of the private class state that no class call
raises does not rise, and it falls when the pass ends with a pointer whose
class call lowers it. -/
theorem pick_next_task_scan_measure (ops : SchedOps) (c prev : Nat) (mu : Nat → Nat) (x : Nat)
    (hmono : ∀ cls t, mu (ops.pick_next_task cls t c prev).2 ≤ mu t.priv)
    (hretry : ∀ cls t, (ops.pick_next_task cls t c prev).1 = x →
      mu (ops.pick_next_task cls t c prev).2 < mu t.priv)
    (l : List sched_class) :
    ∀ s : Sched, mu (pick_next_task_scan ops c prev l s).2.priv ≤ mu s.priv ∧
      ((pick_next_task_scan ops c prev l s).1 ≠ 0 → (pick_next_task_scan ops c prev l s).1 = x →
        mu (pick_next_task_scan ops c prev l s).2.priv < mu s.priv) := by
  induction l with
  | nil =>
    intro s
    exact ⟨le_refl _, fun h => absurd rfl h⟩
  | cons cl rest ih =>
    intro s
    unfold pick_next_task_scan
    dsimp only
    by_cases ha : (ops.pick_next_task cl s c prev).1 ≠ 0
    · rw [if_pos ha]
      exact ⟨hmono cl s, fun _ hx => hretry cl s hx⟩
    · rw [if_neg ha]
      obtain ⟨h1, h2⟩ := ih (Sched.emit
        ⟨s.tasks, s.runqueues, s.cpu_online_mask, s.this_cpu, s.sched_clock,
          s.set_task_cpu_warned, s.held, (ops.pick_next_task cl s c prev).2, s.log⟩
        (SchedEvent.pick_next_task cl c prev))
      have hm : mu (ops.pick_next_task cl s c prev).2 ≤ mu s.priv := hmono cl s
      exact ⟨le_trans h1 hm, fun hn hx => lt_of_lt_of_le (h2 hn hx) hm⟩

/-- Whatever `pick_next_task` returns is neither null nor the restart marker, and
only the private class state and the log have changed. -/
theorem pick_next_task_ok (k : SchedConsts) (ops : SchedOps) (c prev : Nat) (fuel : Nat) :
    ∀ (s : Sched) (p : Nat) (s1 : Sched),
      pick_next_task k ops c prev fuel s = Except.ok (p, s1) →
      (p ≠ 0 ∧ p ≠ k.RETRY_TASK) ∧ s1.tasks = s.tasks ∧ s1.runqueues = s.runqueues ∧
      s1.held = s.held ∧ s1.this_cpu = s.this_cpu ∧
      ∃ es, s1.log = s.log ++ es ∧ ∀ e ∈ es, e.is_pick_next_task = true := by
  induction fuel with
  | zero =>
    intro s p s1 h
    simp [pick_next_task] at h
  | succ n ih =>
    intro s p s1 h
    unfold pick_next_task at h
    dsimp only at h
    obtain ⟨f1, f2, f3, f4, es, f5, f6⟩ := pick_next_task_scan_frame ops c prev for_each_class s
    by_cases ha : (pick_next_task_scan ops c prev for_each_class s).1 ≠ 0
    · rw [if_pos ha] at h
      by_cases hr : (pick_next_task_scan ops c prev for_each_class s).1 = k.RETRY_TASK
      · rw [if_pos hr] at h
        obtain ⟨g0, g1, g2, g3, g4, es2, g5, g6⟩ := ih _ p s1 h
        refine ⟨g0, g1.trans f1, g2.trans f2, g3.trans f3, g4.trans f4, es ++ es2, ?_, ?_⟩
        · rw [g5, f5, List.append_assoc]
        · intro e he
          rcases List.mem_append.1 he with h | h
          · exact f6 e h
          · exact g6 e h
      · rw [if_neg hr] at h
        generalize pick_next_task_scan ops c prev for_each_class s = A at h ha hr f1 f2 f3 f4 f5
        injection h with h
        subst h
        exact ⟨⟨ha, hr⟩, f1, f2, f3, f4, es, f5, f6⟩
    · rw [if_neg ha] at h
      simp at h

/-- Reaching `BUG()` in `pick_next_task` means that in the last pass every class
returned the null pointer. -/
theorem pick_next_task_bug (k : SchedConsts) (ops : SchedOps) (c prev : Nat) (fuel : Nat) :
    ∀ s : Sched, pick_next_task k ops c prev fuel s = Except.error SchedStop.bug →
      ∀ cls, ∃ t : Sched, (ops.pick_next_task cls t c prev).1 = 0 := by
  induction fuel with
  | zero =>
    intro s h
    simp [pick_next_task] at h
  | succ n ih =>
    intro s h
    unfold pick_next_task at h
    dsimp only at h
    by_cases ha : (pick_next_task_scan ops c prev for_each_class s).1 ≠ 0
    · rw [if_pos ha] at h
      by_cases hr : (pick_next_task_scan ops c prev for_each_class s).1 = k.RETRY_TASK
      · rw [if_pos hr] at h
        exact ih _ h
      · rw [if_neg hr] at h
        simp at h
    · rw [if_neg ha] at h
      intro cls
      apply pick_next_task_scan_zero ops c prev for_each_class s (not_not.1 ha) cls
      cases cls <;> simp [for_each_class]

/-- With an idle class that always offers a pointer and a measure of the private
class state that every restart lowers, `pick_next_task` returns once the
iteration bound exceeds the measure. -/
theorem pick_next_task_returns (k : SchedConsts) (ops : SchedOps) (c prev : Nat)
    (mu : Nat → Nat)
    (hidle : ∀ t : Sched, (ops.pick_next_task sched_class.idle t c prev).1 ≠ 0)
    (hmono : ∀ cls t, mu (ops.pick_next_task cls t c prev).2 ≤ mu t.priv)
    (hretry : ∀ cls t, (ops.pick_next_task cls t c prev).1 = k.RETRY_TASK →
      mu (ops.pick_next_task cls t c prev).2 < mu t.priv) (fuel : Nat) :
    ∀ s : Sched, mu s.priv < fuel →
      ∃ p s1, pick_next_task k ops c prev fuel s = Except.ok (p, s1) := by
  induction fuel with
  | zero =>
    intro s h
    exact absurd h (Nat.not_lt_zero _)
  | succ n ih =>
    intro s h
    unfold pick_next_task
    dsimp only
    obtain ⟨m1, m2⟩ := pick_next_task_scan_measure ops c prev mu k.RETRY_TASK hmono hretry
      for_each_class s
    by_cases ha : (pick_next_task_scan ops c prev for_each_class s).1 ≠ 0
    · rw [if_pos ha]
      by_cases hr : (pick_next_task_scan ops c prev for_each_class s).1 = k.RETRY_TASK
      · rw [if_pos hr]
        exact ih _ (by have := m2 ha hr; omega)
      · rw [if_neg hr]
        exact ⟨_, _, rfl⟩
    · exfalso
      obtain ⟨t, ht⟩ := pick_next_task_scan_zero ops c prev for_each_class s (not_not.1 ha)
        sched_class.idle (by simp [for_each_class])
      exact hidle t ht

/-- One pass of the class loop ends without a pointer exactly when every class,
asked in turn, returned the null pointer. -/
theorem pick_next_task_scan_zero_iff (ops : SchedOps) (c prev : Nat) (l : List sched_class) :
    ∀ s : Sched, (pick_next_task_scan ops c prev l s).1 = 0 ↔
      all_declined ops c prev l s = true := by
  induction l with
  | nil =>
    intro s
    simp [pick_next_task_scan, all_declined]
  | cons cl rest ih =>
    intro s
    unfold pick_next_task_scan all_declined
    dsimp only
    by_cases ha : (ops.pick_next_task cl s c prev).1 ≠ 0
    · rw [if_pos ha]
      simp [ha]
    · rw [if_neg ha]
      have h0 : (ops.pick_next_task cl s c prev).1 = 0 := not_not.1 ha
      rw [ih]
      simp [h0, asked_state]

/-- What `pick_next_task` does within `fuel` passes: while every pass ends in a
restart request nothing is returned; otherwise the first pass `n` that does not
end in a restart request either finds every class declining (`BUG()`) or
returns the pointer and state of that pass. -/
theorem pick_next_task_passes (k : SchedConsts) (ops : SchedOps) (c prev : Nat) (fuel : Nat) :
    ∀ s : Sched,
      (passes_retry k ops c prev fuel s = true →
        pick_next_task k ops c prev fuel s = Except.error SchedStop.out_of_fuel) ∧
      (passes_retry k ops c prev fuel s = false →
        ∃ n, n < fuel ∧ passes_retry k ops c prev n s = true ∧
          ((all_declined ops c prev for_each_class (pass_state ops c prev n s) = true ∧
              pick_next_task k ops c prev fuel s = Except.error SchedStop.bug) ∨
            ((pick_next_task_scan ops c prev for_each_class (pass_state ops c prev n s)).1 ≠ 0 ∧
              (pick_next_task_scan ops c prev for_each_class (pass_state ops c prev n s)).1
                ≠ k.RETRY_TASK ∧
              pick_next_task k ops c prev fuel s
                = Except.ok (pick_next_task_scan ops c prev for_each_class
                    (pass_state ops c prev n s))))) := by
  induction fuel with
  | zero =>
    intro s
    constructor
    · intro _
      rfl
    · intro h
      simp [passes_retry] at h
  | succ m ih =>
    intro s
    unfold pick_next_task
    dsimp only
    by_cases ha : (pick_next_task_scan ops c prev for_each_class s).1 ≠ 0
    · rw [if_pos ha]
      by_cases hr : (pick_next_task_scan ops c prev for_each_class s).1 = k.RETRY_TASK
      · rw [if_pos hr]
        have hr0 : ¬ k.RETRY_TASK = 0 := by
          rw [← hr]
          exact ha
        have hp : passes_retry k ops c prev (m + 1) s
            = passes_retry k ops c prev m (pick_next_task_scan ops c prev for_each_class s).2 := by
          rw [passes_retry]
          simp [hr, hr0]
        obtain ⟨i1, i2⟩ := ih (pick_next_task_scan ops c prev for_each_class s).2
        constructor
        · intro h
          rw [hp] at h
          exact i1 h
        · intro h
          rw [hp] at h
          obtain ⟨n, hn, hpr, hcase⟩ := i2 h
          refine ⟨n + 1, by omega, ?_, ?_⟩
          · rw [passes_retry]
            simp [hr, hr0, hpr]
          · exact hcase
      · rw [if_neg hr]
        have hp : passes_retry k ops c prev (m + 1) s = false := by
          rw [passes_retry]
          simp [hr]
        constructor
        · intro h
          rw [hp] at h
          exact Bool.noConfusion h
        · intro _
          exact ⟨0, by omega, rfl, Or.inr ⟨ha, hr, rfl⟩⟩
    · rw [if_neg ha]
      have h0 : (pick_next_task_scan ops c prev for_each_class s).1 = 0 := not_not.1 ha
      have hp : passes_retry k ops c prev (m + 1) s = false := by
        rw [passes_retry]
        simp [h0]
      constructor
      · intro h
        rw [hp] at h
        exact Bool.noConfusion h
      · intro _
        exact ⟨0, by omega, rfl,
          Or.inl ⟨(pick_next_task_scan_zero_iff ops c prev for_each_class s).1 h0, rfl⟩⟩

/-- Passes that all end in a restart request: so do the first of them. -/
theorem passes_retry_mono (k : SchedConsts) (ops : SchedOps) (c prev : Nat) (n : Nat) :
    ∀ (m : Nat) (s : Sched), n ≤ m → passes_retry k ops c prev m s = true →
      passes_retry k ops c prev n s = true := by
  induction n with
  | zero =>
    intro m s _ _
    rfl
  | succ n ih =>
    intro m s hnm h
    cases m with
    | zero => omega
    | succ m =>
      rw [passes_retry] at h ⊢
      simp only [Bool.and_eq_true] at h ⊢
      exact ⟨h.1, h.2.1, ih m _ (by omega) h.2.2⟩

/-- When the idle class always offers a pointer, no pass finds every class
declining. -/
theorem all_declined_idle (ops : SchedOps) (c prev : Nat)
    (hidle : ∀ t : Sched, (ops.pick_next_task sched_class.idle t c prev).1 ≠ 0) (s : Sched) :
    all_declined ops c prev for_each_class s = false := by
  cases h : all_declined ops c prev for_each_class s
  · rfl
  · exfalso
    obtain ⟨t, ht⟩ := pick_next_task_scan_zero ops c prev for_each_class s
      ((pick_next_task_scan_zero_iff ops c prev for_each_class s).2 h)
      sched_class.idle (by simp [for_each_class])
    exact hidle t ht

/-- With a real-time class that asks for a restart at every call,
`pick_next_task` returns nothing, whatever the number of passes. -/
theorem pick_next_task_stubborn (c prev fuel : Nat) :
    ∀ s : Sched, pick_next_task linux_sched_consts stubborn_ops c prev fuel s
      = Except.error SchedStop.out_of_fuel := by
  induction fuel with
  | zero =>
    intro s
    rfl
  | succ m ih =>
    intro s
    unfold pick_next_task
    dsimp only
    have h1 : (pick_next_task_scan stubborn_ops c prev for_each_class s).1
        = linux_sched_consts.RETRY_TASK := rfl
    rw [if_pos (by rw [h1]; decide), if_pos h1]
    exact ih _

/-- C20 (counterexample): the idle class offers task 9 at every call, but the
real-time class asks for a restart of the scan at every call: the class loop
of `pick_next_task` is restarted before the idle class is reached, in every
pass, so the function returns no task however many passes it is given. -/
theorem C20_restarting_class_never_returns :
    (∀ t : Sched, (stubborn_ops.pick_next_task sched_class.idle t 0 1).1 = 9) ∧
    (∀ fuel : Nat, pick_next_task linux_sched_consts stubborn_ops 0 1 fuel sleeper_state
      = Except.error SchedStop.out_of_fuel) ∧
    (pick_next_task_scan stubborn_ops 0 1 for_each_class sleeper_state).1
      = linux_sched_consts.RETRY_TASK :=
  ⟨fun _ => rfl, fun fuel => pick_next_task_stubborn 0 1 fuel sleeper_state, rfl⟩

/-- C20 (amended): whatever `pick_next_task` returns is a real task pointer,
neither null nor `RETRY_TASK`. When the idle class always offers a pointer the
`BUG()` after the class loop is not reached, and the function returns a real
task as soon as one of its passes over the classes does not end in a restart
request (`fuel` bounds the number of passes: if one of the first `n` passes
does not end in a restart request, every bound from `n` on gives the task);
while every pass ends in a restart request it returns nothing. `BUG()` is reached only in a pass in which
every class, asked in turn and idle included, returned the null pointer, and
it is reached in the first pass when they all do. -/
theorem C20_pick_next_task_total_coverage (k : SchedConsts) (ops : SchedOps)
    (c prev fuel : Nat) (s : Sched) :
    (∀ p s1, pick_next_task k ops c prev fuel s = Except.ok (p, s1) →
      p ≠ 0 ∧ p ≠ k.RETRY_TASK) ∧
    ((∀ t : Sched, (ops.pick_next_task sched_class.idle t c prev).1 ≠ 0) →
      pick_next_task k ops c prev fuel s ≠ Except.error SchedStop.bug ∧
      (∀ n, n ≤ fuel → passes_retry k ops c prev n s = false →
        ∃ p s1, pick_next_task k ops c prev fuel s = Except.ok (p, s1) ∧
          p ≠ 0 ∧ p ≠ k.RETRY_TASK)) ∧
    (passes_retry k ops c prev fuel s = true →
      pick_next_task k ops c prev fuel s = Except.error SchedStop.out_of_fuel) ∧
    (pick_next_task k ops c prev fuel s = Except.error SchedStop.bug →
      ∃ n, n < fuel ∧ passes_retry k ops c prev n s = true ∧
        all_declined ops c prev for_each_class (pass_state ops c prev n s) = true) ∧
    (all_declined ops c prev for_each_class s = true →
      pick_next_task k ops c prev (fuel + 1) s = Except.error SchedStop.bug) := by
  obtain ⟨q1, q2⟩ := pick_next_task_passes k ops c prev fuel s
  refine ⟨fun p s1 h => (pick_next_task_ok k ops c prev fuel s p s1 h).1, ?_, q1, ?_, ?_⟩
  · intro hidle
    constructor
    · intro hbug
      obtain ⟨t, ht⟩ := pick_next_task_bug k ops c prev fuel s hbug sched_class.idle
      exact hidle t ht
    · intro n0 hn0 hp0
      have hp : passes_retry k ops c prev fuel s = false := by
        cases hc : passes_retry k ops c prev fuel s
        · rfl
        · rw [passes_retry_mono k ops c prev n0 fuel s hn0 hc] at hp0
          exact Bool.noConfusion hp0
      obtain ⟨n, _, _, hcase⟩ := q2 hp
      rcases hcase with ⟨hd, _⟩ | ⟨h1, h2, h3⟩
      · rw [all_declined_idle ops c prev hidle] at hd
        exact Bool.noConfusion hd
      · exact ⟨_, _, h3, h1, h2⟩
  · intro hbug
    cases hp : passes_retry k ops c prev fuel s
    · obtain ⟨n, hn, hpr, hcase⟩ := q2 hp
      rcases hcase with ⟨hd, _⟩ | ⟨_, _, h3⟩
      · exact ⟨n, hn, hpr, hd⟩
      · rw [h3] at hbug
        exact Except.noConfusion hbug
    · rw [q1 hp] at hbug
      injection hbug with hbug
      exact SchedStop.noConfusion hbug
  · intro hd
    unfold pick_next_task
    dsimp only
    rw [if_neg (not_not.2 ((pick_next_task_scan_zero_iff ops c prev for_each_class s).2 hd))]

/-- Witness of C20 (amended): with a real-time class that asks twice for a
restart and an idle class that offers task 9, the third pass does not end in a
restart request, and `pick_next_task` returns task 9 within three passes; two
passes are not enough. -/
theorem C20_pick_next_task_total_coverage_witness :
    passes_retry linux_sched_consts retrying_ops 0 1 3 retry_state = false ∧
    (∃ p s1, pick_next_task linux_sched_consts retrying_ops 0 1 3 retry_state = Except.ok (p, s1) ∧
      p ≠ 0 ∧ p ≠ linux_sched_consts.RETRY_TASK) ∧
    pick_next_task linux_sched_consts retrying_ops 0 1 3 retry_state
      ≠ Except.error SchedStop.bug ∧
    (pick_next_task linux_sched_consts retrying_ops 0 1 3 retry_state).map Prod.fst
      = Except.ok 9 ∧
    pick_next_task linux_sched_consts retrying_ops 0 1 2 retry_state
      = Except.error SchedStop.out_of_fuel :=
  ⟨rfl,
    ((C20_pick_next_task_total_coverage linux_sched_consts retrying_ops 0 1 3 retry_state).2.1
      (fun _ => by simp [retrying_ops])).2 3 (le_refl 3) rfl,
    ((C20_pick_next_task_total_coverage linux_sched_consts retrying_ops 0 1 3 retry_state).2.1
      (fun _ => by simp [retrying_ops])).1,
    rfl,
    (C20_pick_next_task_total_coverage linux_sched_consts retrying_ops 0 1 2 retry_state).2.2.1
      rfl⟩

/-- The conditional clock update of `__schedule` touches nothing but the clock. -/
theorem ite_update_rq_clock_frame (k : SchedConsts) (c : Nat) (b : Bool) (s : Sched) :
    (if b = true then update_rq_clock k c s else s).tasks = s.tasks ∧
    (if b = true then update_rq_clock k c s else s).held = s.held ∧
    (if b = true then update_rq_clock k c s else s).log = s.log ∧
    (if b = true then update_rq_clock k c s else s).this_cpu = s.this_cpu ∧
    (if b = true then update_rq_clock k c s else s).priv = s.priv ∧
    ∀ d, ((if b = true then update_rq_clock k c s else s).runqueues d).queue
        = (s.runqueues d).queue ∧
      ((if b = true then update_rq_clock k c s else s).runqueues d).nr_uninterruptible
        = (s.runqueues d).nr_uninterruptible ∧
      ((if b = true then update_rq_clock k c s else s).runqueues d).nr_iowait
        = (s.runqueues d).nr_iowait ∧
      ((if b = true then update_rq_clock k c s else s).runqueues d).curr
        = (s.runqueues d).curr := by
  cases b <;> simp

/-- What `deactivate_task` changes: the uninterruptible count and the queue of
its run-queue, the clock, and the log. -/
theorem deactivate_task_frame (k : SchedConsts) (c p flags : Nat) (s : Sched) :
    (deactivate_task k c p flags s).tasks = s.tasks ∧
    (deactivate_task k c p flags s).held = s.held ∧
    (deactivate_task k c p flags s).log
      = s.log ++ [SchedEvent.dequeue_task (s.tasks p).sched_class c p flags] ∧
    (deactivate_task k c p flags s).this_cpu = s.this_cpu ∧
    (deactivate_task k c p flags s).priv = s.priv ∧
    ∀ d, ((deactivate_task k c p flags s).runqueues d).queue
        = (if d = c then (s.runqueues d).queue.erase p else (s.runqueues d).queue) ∧
      ((deactivate_task k c p flags s).runqueues d).nr_uninterruptible
        = (if d = c ∧ (s.tasks p).state &&& k.TASK_UNINTERRUPTIBLE ≠ 0
           then ((s.runqueues d).nr_uninterruptible + 1) % U64_MOD
           else (s.runqueues d).nr_uninterruptible) ∧
      ((deactivate_task k c p flags s).runqueues d).nr_iowait = (s.runqueues d).nr_iowait ∧
      ((deactivate_task k c p flags s).runqueues d).curr = (s.runqueues d).curr := by
  unfold deactivate_task
  dsimp only
  by_cases hu : (s.tasks p).state &&& k.TASK_UNINTERRUPTIBLE ≠ 0
  · rw [if_pos hu]
    obtain ⟨h1, h2, h3, h4, h5, _, h7⟩ := dequeue_task_frame k c p flags
      (s.set_rq c { s.runqueues c with
        nr_uninterruptible := ((s.runqueues c).nr_uninterruptible + 1) % U64_MOD })
    refine ⟨h1, h2, h4, h5, h3, fun d => ?_⟩
    obtain ⟨q1, q2, q3, q4⟩ := h7 d
    rw [q1, q2, q3, q4]
    by_cases hd : d = c
    · subst hd
      simp [hu]
    · simp [hd]
  · rw [if_neg hu]
    obtain ⟨h1, h2, h3, h4, h5, _, h7⟩ := dequeue_task_frame k c p flags s
    refine ⟨h1, h2, h4, h5, h3, fun d => ?_⟩
    obtain ⟨q1, q2, q3, q4⟩ := h7 d
    rw [q1, q2, q3, q4]
    simp [hu]

/-- The conditional block of `__schedule` on a preempting call, or for a task in
state 0: nothing happens. -/
theorem schedule_deactivate_prev_skip (k : SchedConsts) (cpu prev : Nat) (preempt : Bool)
    (s : Sched) (h : preempt = true ∨ (s.tasks prev).state = 0) :
    schedule_deactivate_prev k cpu prev preempt s = s := by
  unfold schedule_deactivate_prev
  rw [if_neg]
  rintro ⟨h1, h2⟩
  rcases h with h | h
  · rw [h] at h1
    exact Bool.noConfusion h1
  · exact h2 h

/-- The conditional block of `__schedule` on a voluntary call by a task whose
state is not 0: one class dequeue, `on_rq` cleared, the counters raised. -/
theorem schedule_deactivate_prev_sleep (k : SchedConsts) (cpu prev : Nat) (s : Sched)
    (h : (s.tasks prev).state ≠ 0) :
    (∀ q, ((schedule_deactivate_prev k cpu prev false s).tasks q).state = (s.tasks q).state) ∧
    (∀ q, ((schedule_deactivate_prev k cpu prev false s).tasks q).on_rq
      = if q = prev then 0 else (s.tasks q).on_rq) ∧
    (schedule_deactivate_prev k cpu prev false s).held = s.held ∧
    (schedule_deactivate_prev k cpu prev false s).log
      = s.log ++ [SchedEvent.dequeue_task (s.tasks prev).sched_class cpu prev k.DEQUEUE_SLEEP] ∧
    (schedule_deactivate_prev k cpu prev false s).this_cpu = s.this_cpu ∧
    (schedule_deactivate_prev k cpu prev false s).priv = s.priv ∧
    ∀ d, ((schedule_deactivate_prev k cpu prev false s).runqueues d).queue
        = (if d = cpu then (s.runqueues d).queue.erase prev else (s.runqueues d).queue) ∧
      ((schedule_deactivate_prev k cpu prev false s).runqueues d).nr_uninterruptible
        = (if d = cpu ∧ (s.tasks prev).state &&& k.TASK_UNINTERRUPTIBLE ≠ 0
           then ((s.runqueues d).nr_uninterruptible + 1) % U64_MOD
           else (s.runqueues d).nr_uninterruptible) ∧
      ((schedule_deactivate_prev k cpu prev false s).runqueues d).nr_iowait
        = (if d = cpu ∧ (s.tasks prev).in_iowait ≠ 0
           then ((s.runqueues d).nr_iowait + 1) % U32_MOD
           else (s.runqueues d).nr_iowait) := by
  obtain ⟨h1, h2, h3, h4, h5, h6⟩ := deactivate_task_frame k cpu prev k.DEQUEUE_SLEEP s
  unfold schedule_deactivate_prev
  rw [if_pos ⟨rfl, h⟩]
  dsimp only
  generalize deactivate_task k cpu prev k.DEQUEUE_SLEEP s = a at h1 h2 h3 h4 h5 h6
  by_cases hio : (s.tasks prev).in_iowait ≠ 0
  · rw [if_pos (by simpa [h1] using hio)]
    refine ⟨?_, ?_, h2, h3, h4, h5, fun d => ?_⟩
    · intro q
      by_cases hq : q = prev
      · subst hq; simp [h1]
      · simp [hq, h1]
    · intro q
      by_cases hq : q = prev
      · subst hq; simp
      · simp [hq, h1]
    · obtain ⟨q1, q2, q3, _⟩ := h6 d
      by_cases hd : d = cpu
      · subst hd
        simp only [sched_set_rq_runqueues, sched_set_task_runqueues, if_true, true_and]
        simp only [if_true, true_and] at q1 q2 q3
        rw [q1, q2, q3, if_pos hio]
        exact ⟨rfl, rfl, rfl⟩
      · simp only [sched_set_rq_runqueues, sched_set_task_runqueues, hd, if_false, false_and]
        simp only [hd, if_false, false_and] at q1 q2 q3
        exact ⟨q1, q2, q3⟩
  · rw [if_neg (by simpa [h1] using hio)]
    refine ⟨?_, ?_, h2, h3, h4, h5, fun d => ?_⟩
    · intro q
      by_cases hq : q = prev
      · subst hq; simp [h1]
      · simp [hq, h1]
    · intro q
      by_cases hq : q = prev
      · subst hq; simp
      · simp [hq, h1]
    · obtain ⟨q1, q2, q3, _⟩ := h6 d
      refine ⟨q1, q2, ?_⟩
      rw [if_neg (fun hh => hio hh.2)]
      exact q3

/-- The conditional block of `__schedule` keeps the private class state. -/
theorem schedule_deactivate_prev_priv (k : SchedConsts) (cpu prev : Nat) (preempt : Bool)
    (s : Sched) : (schedule_deactivate_prev k cpu prev preempt s).priv = s.priv := by
  by_cases h : preempt = true ∨ (s.tasks prev).state = 0
  · rw [schedule_deactivate_prev_skip k cpu prev preempt s h]
  · have hp : preempt = false := by
      cases preempt
      · rfl
      · exact absurd (Or.inl rfl) h
    subst hp
    exact (schedule_deactivate_prev_sleep k cpu prev s (fun h0 => h (Or.inr h0))).2.2.2.2.2.1

/-- The end of `__schedule` changes no task's state or `on_rq`, no queue and no
sleeper count, and calls no class queue operation. -/
theorem schedule_switch_to_next_frame (k : SchedConsts) (cpu prev next : Nat) (s : Sched) :
    (∀ q, ((schedule_switch_to_next k cpu prev next s).tasks q).state = (s.tasks q).state ∧
      ((schedule_switch_to_next k cpu prev next s).tasks q).on_rq = (s.tasks q).on_rq) ∧
    (∀ d, ((schedule_switch_to_next k cpu prev next s).runqueues d).queue
        = (s.runqueues d).queue ∧
      ((schedule_switch_to_next k cpu prev next s).runqueues d).nr_uninterruptible
        = (s.runqueues d).nr_uninterruptible ∧
      ((schedule_switch_to_next k cpu prev next s).runqueues d).nr_iowait
        = (s.runqueues d).nr_iowait) ∧
    ∃ l, (schedule_switch_to_next k cpu prev next s).log = s.log ++ l ∧
      ∀ e ∈ l, e.is_dequeue_task = false ∧ e.is_enqueue_task = false := by
  unfold schedule_switch_to_next
  dsimp only
  by_cases hne : prev ≠ next
  · rw [if_pos hne]
    unfold context_switch finish_task_switch
    dsimp only
    split
    · refine ⟨fun q => ?_, fun d => ?_, [SchedEvent.switch_to prev next,
        SchedEvent.spin_unlock s.this_cpu, SchedEvent.put_task_struct prev], ?_, ?_⟩
      · by_cases h1 : q = prev <;> by_cases h2 : q = next <;>
          simp [spin_unlock, clear_tsk_need_resched, h1, h2, hne, Ne.symm hne]
      · by_cases hd : d = cpu
        · subst hd; simp [spin_unlock, clear_tsk_need_resched]
        · simp [spin_unlock, clear_tsk_need_resched, hd]
      · simp [spin_unlock, clear_tsk_need_resched]
      · intro e he
        simp only [List.mem_cons, List.mem_singleton, List.mem_nil_iff, or_false] at he
        rcases he with rfl | rfl | rfl <;> exact ⟨rfl, rfl⟩
    · refine ⟨fun q => ?_, fun d => ?_, [SchedEvent.switch_to prev next,
        SchedEvent.spin_unlock s.this_cpu], ?_, ?_⟩
      · by_cases h1 : q = prev <;> by_cases h2 : q = next <;>
          simp [spin_unlock, clear_tsk_need_resched, h1, h2, hne, Ne.symm hne]
      · by_cases hd : d = cpu
        · subst hd; simp [spin_unlock, clear_tsk_need_resched]
        · simp [spin_unlock, clear_tsk_need_resched, hd]
      · simp [spin_unlock, clear_tsk_need_resched]
      · intro e he
        simp only [List.mem_cons, List.mem_singleton, List.mem_nil_iff, or_false] at he
        rcases he with rfl | rfl <;> exact ⟨rfl, rfl⟩
  · rw [if_neg hne]
    refine ⟨fun q => ?_, fun d => ?_, [SchedEvent.spin_unlock cpu], ?_, ?_⟩
    · by_cases h1 : q = prev <;> simp [spin_unlock, clear_tsk_need_resched, h1]
    · by_cases hd : d = cpu
      · subst hd; simp [spin_unlock, clear_tsk_need_resched]
      · simp [spin_unlock, clear_tsk_need_resched, hd]
    · simp [spin_unlock, clear_tsk_need_resched]
    · intro e he
      simp only [List.mem_singleton] at he
      subst he
      exact ⟨rfl, rfl⟩

/-- A class `pick_next_task` call is no class `dequeue_task` call. -/
theorem pick_event_is_no_dequeue (e : SchedEvent) (h : e.is_pick_next_task = true) :
    e.is_dequeue_task = false := by
  cases e <;> first | rfl | exact Bool.noConfusion h

/-- The shape of a returning `__schedule`: the lock, the conditional block, the
conditional clock update, a returning `pick_next_task`, and the end. -/
theorem schedule_ok_shape (k : SchedConsts) (ops : SchedOps) (fuel : Nat) (preempt : Bool)
    (s s1 : Sched) (h : __schedule k ops fuel preempt s = Except.ok s1) :
    ∃ sl s3 s4 next, spin_lock s.this_cpu s = Except.ok sl ∧
      s3 = (if task_on_rq_queued k
              (schedule_deactivate_prev k s.this_cpu (s.runqueues s.this_cpu).curr preempt sl)
              (s.runqueues s.this_cpu).curr = true
            then update_rq_clock k s.this_cpu
              (schedule_deactivate_prev k s.this_cpu (s.runqueues s.this_cpu).curr preempt sl)
            else schedule_deactivate_prev k s.this_cpu (s.runqueues s.this_cpu).curr preempt sl) ∧
      pick_next_task k ops s.this_cpu (s.runqueues s.this_cpu).curr fuel s3
        = Except.ok (next, s4) ∧
      s1 = schedule_switch_to_next k s.this_cpu (s.runqueues s.this_cpu).curr next s4 := by
  unfold __schedule at h
  cases hl : spin_lock s.this_cpu s with
  | error e => simp [hl] at h
  | ok sl =>
    simp only [hl] at h
    generalize hp : pick_next_task k ops _ _ fuel _ = pr at h
    cases pr with
    | error e => simp at h
    | ok a =>
      obtain ⟨next, s4⟩ := a
      simp only at h
      injection h with h
      exact ⟨sl, _, s4, next, rfl, rfl, hp, h.symm⟩

/-- C19: `__schedule(true)` never deactivates the current task: on return the
state and `on_rq` of every task, and the queue, the uninterruptible count and
the I/O-wait count of every run-queue, are as before, and no class dequeue was
called. `__schedule(false)` for a current task whose state is not
`TASK_RUNNING` (which is 0) calls the class dequeue once, for that task with
`DEQUEUE_SLEEP`, takes it off the queue, leaves its state, clears its `on_rq`,
and raises the uninterruptible count by one exactly when the state has the
`TASK_UNINTERRUPTIBLE` bit; other run-queues are untouched. Both calls return
when the run-queue lock is free and `pick_next_task` returns (an idle class
that always offers a pointer, restart requests lowering a measure of the
private class state, and an iteration bound above that measure). -/
theorem C19_preemption_never_deactivates (k : SchedConsts) (ops : SchedOps) (fuel : Nat)
    (s s1 : Sched) :
    (__schedule k ops fuel true s = Except.ok s1 →
      (∀ q, (s1.tasks q).state = (s.tasks q).state ∧ (s1.tasks q).on_rq = (s.tasks q).on_rq) ∧
      (∀ d, (s1.runqueues d).queue = (s.runqueues d).queue ∧
        (s1.runqueues d).nr_uninterruptible = (s.runqueues d).nr_uninterruptible ∧
        (s1.runqueues d).nr_iowait = (s.runqueues d).nr_iowait) ∧
      (s1.log.drop s.log.length).filter SchedEvent.is_dequeue_task = []) ∧
    (k.TASK_RUNNING = 0 → (s.tasks (s.runqueues s.this_cpu).curr).state ≠ k.TASK_RUNNING →
      __schedule k ops fuel false s = Except.ok s1 →
      (s1.tasks (s.runqueues s.this_cpu).curr).on_rq = 0 ∧
      (s1.tasks (s.runqueues s.this_cpu).curr).state
        = (s.tasks (s.runqueues s.this_cpu).curr).state ∧
      (s1.log.drop s.log.length).filter SchedEvent.is_dequeue_task
        = [SchedEvent.dequeue_task (s.tasks (s.runqueues s.this_cpu).curr).sched_class
            s.this_cpu (s.runqueues s.this_cpu).curr k.DEQUEUE_SLEEP] ∧
      (s1.runqueues s.this_cpu).queue
        = (s.runqueues s.this_cpu).queue.erase (s.runqueues s.this_cpu).curr ∧
      (s1.runqueues s.this_cpu).nr_uninterruptible
        = (if (s.tasks (s.runqueues s.this_cpu).curr).state &&& k.TASK_UNINTERRUPTIBLE ≠ 0
           then ((s.runqueues s.this_cpu).nr_uninterruptible + 1) % U64_MOD
           else (s.runqueues s.this_cpu).nr_uninterruptible) ∧
      (∀ d, d ≠ s.this_cpu → (s1.runqueues d).queue = (s.runqueues d).queue ∧
        (s1.runqueues d).nr_uninterruptible = (s.runqueues d).nr_uninterruptible)) ∧
    (s.this_cpu ∉ s.held →
      ∀ mu : Nat → Nat,
      (∀ t : Sched, (ops.pick_next_task sched_class.idle t s.this_cpu
        (s.runqueues s.this_cpu).curr).1 ≠ 0) →
      (∀ cls t, mu (ops.pick_next_task cls t s.this_cpu (s.runqueues s.this_cpu).curr).2
        ≤ mu t.priv) →
      (∀ cls t, (ops.pick_next_task cls t s.this_cpu (s.runqueues s.this_cpu).curr).1
        = k.RETRY_TASK →
        mu (ops.pick_next_task cls t s.this_cpu (s.runqueues s.this_cpu).curr).2 < mu t.priv) →
      mu s.priv < fuel →
      ∀ preempt, ∃ s2, __schedule k ops fuel preempt s = Except.ok s2) := by
  refine ⟨?_, ?_, ?_⟩
  · intro h
    obtain ⟨sl, s3, s4, next, hl, hs3, hp, hs1⟩ := schedule_ok_shape k ops fuel true s s1 h
    obtain ⟨_, lt, lr, _, _, ll, _, _, _⟩ := spin_lock_cases _ _ _ hl
    rw [schedule_deactivate_prev_skip k _ _ true sl (Or.inl rfl)] at hs3
    obtain ⟨c1, _, c3, _, _, c5⟩ := ite_update_rq_clock_frame k s.this_cpu
      (task_on_rq_queued k sl (s.runqueues s.this_cpu).curr) sl
    rw [← hs3] at c1 c3 c5
    obtain ⟨_, pt, prq, _, _, es, pl, pe⟩ := pick_next_task_ok _ _ _ _ _ _ _ _ hp
    obtain ⟨w1, w2, l, wl, we⟩ :=
      schedule_switch_to_next_frame k s.this_cpu (s.runqueues s.this_cpu).curr next s4
    rw [← hs1] at w1 w2 wl
    refine ⟨fun q => ?_, fun d => ?_, ?_⟩
    · rw [(w1 q).1, (w1 q).2, pt, c1, lt]
      exact ⟨rfl, rfl⟩
    · rw [(w2 d).1, (w2 d).2.1, (w2 d).2.2, prq, (c5 d).1, (c5 d).2.1, (c5 d).2.2.1, lr]
      exact ⟨rfl, rfl, rfl⟩
    · rw [wl, pl, c3, ll, List.append_assoc, List.append_assoc, List.drop_left]
      apply filter_none_of_all_false
      intro e he
      simp only [List.mem_append, List.mem_singleton, List.singleton_append,
        List.mem_cons] at he
      rcases he with rfl | he | he
      · rfl
      · exact pick_event_is_no_dequeue e (pe e he)
      · exact (we e he).1
  · intro hk hst h
    rw [hk] at hst
    obtain ⟨sl, s3, s4, next, hl, hs3, hp, hs1⟩ := schedule_ok_shape k ops fuel false s s1 h
    obtain ⟨_, lt, lr, _, _, ll, _, _, _⟩ := spin_lock_cases _ _ _ hl
    obtain ⟨d1, d2, _, d4, _, _, d7⟩ := schedule_deactivate_prev_sleep k s.this_cpu
      (s.runqueues s.this_cpu).curr sl (by rw [lt]; exact hst)
    obtain ⟨c1, _, c3, _, _, c5⟩ := ite_update_rq_clock_frame k s.this_cpu
      (task_on_rq_queued k
        (schedule_deactivate_prev k s.this_cpu (s.runqueues s.this_cpu).curr false sl)
        (s.runqueues s.this_cpu).curr)
      (schedule_deactivate_prev k s.this_cpu (s.runqueues s.this_cpu).curr false sl)
    rw [← hs3] at c1 c3 c5
    obtain ⟨_, pt, prq, _, _, es, pl, pe⟩ := pick_next_task_ok _ _ _ _ _ _ _ _ hp
    obtain ⟨w1, w2, l, wl, we⟩ :=
      schedule_switch_to_next_frame k s.this_cpu (s.runqueues s.this_cpu).curr next s4
    rw [← hs1] at w1 w2 wl
    refine ⟨?_, ?_, ?_, ?_, ?_, ?_⟩
    · rw [(w1 _).2, pt, c1, d2, if_pos rfl]
    · rw [(w1 _).1, pt, c1, d1, lt]
    · rw [wl, pl, c3, d4, ll, List.append_assoc, List.append_assoc, List.append_assoc,
        List.drop_left, lt]
      simp only [List.singleton_append, List.filter_cons, SchedEvent.is_dequeue_task,
        Bool.false_eq_true, if_false, if_true, List.filter_append]
      rw [filter_none_of_all_false _ es, filter_none_of_all_false _ l (fun e he => (we e he).1)]
      · rfl
      · intro e he
        exact pick_event_is_no_dequeue e (pe e he)
    · rw [(w2 _).1, prq, (c5 _).1, (d7 _).1, if_pos rfl, lr]
    · rw [(w2 _).2.1, prq, (c5 _).2.1, (d7 _).2.1, lr, lt]
      by_cases hu : (s.tasks (s.runqueues s.this_cpu).curr).state &&& k.TASK_UNINTERRUPTIBLE ≠ 0
      · rw [if_pos ⟨rfl, hu⟩, if_pos hu]
      · rw [if_neg (fun hh => hu hh.2), if_neg hu]
    · intro d hd
      rw [(w2 d).1, (w2 d).2.1, prq, (c5 d).1, (c5 d).2.1, (d7 d).1, (d7 d).2.1, if_neg hd,
        if_neg (fun hh => hd hh.1), lr]
      exact ⟨rfl, rfl⟩
  · intro hfree mu hidle hmono hretry hfuel preempt
    unfold __schedule
    dsimp only
    rw [spin_lock_ok s.this_cpu s hfree]
    dsimp only
    generalize hs3 : (if task_on_rq_queued k _ _ = true then update_rq_clock k _ _ else _) = s3
    have hpriv : s3.priv = s.priv := by
      rw [← hs3, (ite_update_rq_clock_frame k _ _ _).2.2.2.2.1, schedule_deactivate_prev_priv]
      rfl
    obtain ⟨p, s4, hp⟩ := pick_next_task_returns k ops s.this_cpu (s.runqueues s.this_cpu).curr
      mu hidle hmono hretry fuel s3 (by rw [hpriv]; exact hfuel)
    rw [hp]
    exact ⟨_, rfl⟩

/-- Witness of C19: task 1, current on CPU 0 and in state `TASK_UNINTERRUPTIBLE`:
after `__schedule(true)` it is still queued and the uninterruptible count is
still 0; after `__schedule(false)` it is off the queue with `on_rq = 0` and the
count is 1. -/
theorem C19_preemption_never_deactivates_witness :
    (sleeper_state.runqueues 0).curr = 1 ∧ (sleeper_state.tasks 1).state = 2 ∧
    (__schedule linux_sched_consts demo_ops 1 true sleeper_state = Except.ok preempted_state ∧
      (preempted_state.tasks 1).state = 2 ∧ (preempted_state.tasks 1).on_rq = 1 ∧
      (preempted_state.runqueues 0).queue = [1] ∧
      (preempted_state.runqueues 0).nr_uninterruptible = 0) ∧
    (__schedule linux_sched_consts demo_ops 1 false sleeper_state = Except.ok blocked_state ∧
      (blocked_state.tasks 1).on_rq = 0 ∧ (blocked_state.tasks 1).state = 2 ∧
      (blocked_state.runqueues 0).queue = [] ∧
      (blocked_state.runqueues 0).nr_uninterruptible = 1) ∧
    (∃ s2, __schedule linux_sched_consts demo_ops 1 true sleeper_state = Except.ok s2) :=
  ⟨rfl, rfl,
    ⟨rfl,
      (((C19_preemption_never_deactivates linux_sched_consts demo_ops 1 sleeper_state
        preempted_state).1 rfl).1 1).1,
      (((C19_preemption_never_deactivates linux_sched_consts demo_ops 1 sleeper_state
        preempted_state).1 rfl).1 1).2,
      (((C19_preemption_never_deactivates linux_sched_consts demo_ops 1 sleeper_state
        preempted_state).1 rfl).2.1 0).1,
      (((C19_preemption_never_deactivates linux_sched_consts demo_ops 1 sleeper_state
        preempted_state).1 rfl).2.1 0).2.1⟩,
    ⟨rfl,
      ((C19_preemption_never_deactivates linux_sched_consts demo_ops 1 sleeper_state
        blocked_state).2.1 rfl (by decide) rfl).1,
      ((C19_preemption_never_deactivates linux_sched_consts demo_ops 1 sleeper_state
        blocked_state).2.1 rfl (by decide) rfl).2.1,
      ((C19_preemption_never_deactivates linux_sched_consts demo_ops 1 sleeper_state
        blocked_state).2.1 rfl (by decide) rfl).2.2.2.1,
      ((C19_preemption_never_deactivates linux_sched_consts demo_ops 1 sleeper_state
        blocked_state).2.1 rfl (by decide) rfl).2.2.2.2.1⟩,
    (C19_preemption_never_deactivates linux_sched_consts demo_ops 1 sleeper_state
      sleeper_state).2.2 (by decide) (fun _ => 0)
      (fun _ => by simp [demo_ops])
      (fun _ _ => Nat.le_refl _)
      (fun cls _ h => by
        cases cls
        · exact absurd h (show (0 : Nat) ≠ linux_sched_consts.RETRY_TASK by decide)
        · exact absurd h (show (0 : Nat) ≠ linux_sched_consts.RETRY_TASK by decide)
        · exact absurd h (show (9 : Nat) ≠ linux_sched_consts.RETRY_TASK by decide))
      (by decide) true⟩

/-! ## Theorems: the run-queue clock -/

/-- C28 (counterexample): the clock of run-queue 0 stands at `2^64 - 1`, the skip
flag is clear and the clock reading is 5. The reading is numerically behind the
stored clock, yet `update_rq_clock` applies it: the difference is `+6` as a
signed 64-bit number, the addition wraps, and `rq->clock` drops from `2^64 - 1`
to 5, `rq->clock_task` changing with it. -/
theorem C28_wrapped_reading_lowers_the_clock :
    (clock_wrap_state.runqueues 0).clock_skip_update &&& linux_sched_consts.RQCF_ACT_SKIP = 0 ∧
    (clock_wrap_state.runqueues 0).clock = 2 ^ 64 - 1 ∧
    (clock_wrap_state.runqueues 0).clock_task = 2 ^ 64 - 1 ∧
    sched_clock_cpu (clock_wrap_state.runqueues 0).cpu clock_wrap_state = 5 ∧
    ((update_rq_clock linux_sched_consts 0 clock_wrap_state).runqueues 0).clock = 5 ∧
    ((update_rq_clock linux_sched_consts 0 clock_wrap_state).runqueues 0).clock_task = 5 ∧
    ((update_rq_clock linux_sched_consts 0 clock_wrap_state).runqueues 0).clock
      < (clock_wrap_state.runqueues 0).clock := by
  refine ⟨by decide, rfl, rfl, by decide, by decide, by decide, by decide⟩

/-- C28 (amended): `update_rq_clock` with `delta` the `u64` difference of the clock
reading and `rq->clock`, read as `s64`: with `RQCF_ACT_SKIP` set, or `delta`
negative, nothing changes; otherwise `rq->clock` becomes the reading and
`rq->clock_task` advances by `delta` (both modulo `2^64`), and no other
run-queue changes. The clock never moves backwards as a 64-bit serial number
(the signed difference of new and old value is not negative); its numeric
value decreases exactly when the skip flag is clear and the stored clock lies
more than `2^63` above the reading, the case in which `delta` is positive as
`s64` although the reading is behind, and the addition wraps. -/
theorem C28_rq_clock_advances_monotonically (k : SchedConsts) (c : Nat) (s : Sched) :
    (((s.runqueues c).clock_skip_update &&& k.RQCF_ACT_SKIP ≠ 0 ∨
        2 ^ 63 ≤ (sched_clock_cpu (s.runqueues c).cpu s + U64_MOD
          - (s.runqueues c).clock % U64_MOD) % U64_MOD) →
      update_rq_clock k c s = s) ∧
    ((s.runqueues c).clock_skip_update &&& k.RQCF_ACT_SKIP = 0 →
      (sched_clock_cpu (s.runqueues c).cpu s + U64_MOD
        - (s.runqueues c).clock % U64_MOD) % U64_MOD < 2 ^ 63 →
      ((update_rq_clock k c s).runqueues c).clock = s.sched_clock % U64_MOD ∧
      ((update_rq_clock k c s).runqueues c).clock_task
        = ((s.runqueues c).clock_task + (sched_clock_cpu (s.runqueues c).cpu s + U64_MOD
            - (s.runqueues c).clock % U64_MOD) % U64_MOD) % U64_MOD ∧
      (∀ d, d ≠ c → (update_rq_clock k c s).runqueues d = s.runqueues d)) ∧
    ((((update_rq_clock k c s).runqueues c).clock % U64_MOD + U64_MOD
        - (s.runqueues c).clock % U64_MOD) % U64_MOD < 2 ^ 63) ∧
    ((s.runqueues c).clock < U64_MOD →
      (((update_rq_clock k c s).runqueues c).clock < (s.runqueues c).clock ↔
        ((s.runqueues c).clock_skip_update &&& k.RQCF_ACT_SKIP = 0 ∧
          s.sched_clock % U64_MOD + 2 ^ 63 < (s.runqueues c).clock))) := by
  have hU : U64_MOD = 2 ^ 64 := rfl
  have hr : s.sched_clock % U64_MOD < U64_MOD := Nat.mod_lt _ (by decide)
  have hc : (s.runqueues c).clock % U64_MOD < U64_MOD := Nat.mod_lt _ (by decide)
  unfold update_rq_clock sched_clock_cpu
  dsimp only
  generalize hR : s.sched_clock % U64_MOD = R at hr
  generalize hclk : (s.runqueues c).clock = clk at hc
  generalize hC : clk % U64_MOD = C at hc
  refine ⟨?_, ?_, ?_, ?_⟩
  · rintro (h | h)
    · rw [if_pos h]
    · by_cases h1 : (s.runqueues c).clock_skip_update &&& k.RQCF_ACT_SKIP ≠ 0
      · rw [if_pos h1]
      · rw [if_neg h1, if_pos h]
  · intro h1 h2
    rw [if_neg (not_not.2 h1), if_neg (not_le.2 h2)]
    refine ⟨?_, ?_, ?_⟩
    · simp only [sched_set_rq_runqueues, if_true]
      rw [hU] at *
      omega
    · simp only [sched_set_rq_runqueues, if_true]
    · intro d hd
      simp only [sched_set_rq_runqueues, hd, if_false]
  · by_cases h1 : (s.runqueues c).clock_skip_update &&& k.RQCF_ACT_SKIP ≠ 0
    · rw [if_pos h1, hclk, hC]
      rw [hU] at *
      omega
    · rw [if_neg h1]
      by_cases h2 : 2 ^ 63 ≤ (R + U64_MOD - C) % U64_MOD
      · rw [if_pos h2, hclk, hC]
        rw [hU] at *
        omega
      · rw [if_neg h2]
        simp only [sched_set_rq_runqueues, if_true]
        rw [hU] at *
        omega
  · intro hlt
    have hCc : C = clk := by
      rw [← hC]
      exact Nat.mod_eq_of_lt hlt
    by_cases h1 : (s.runqueues c).clock_skip_update &&& k.RQCF_ACT_SKIP ≠ 0
    · rw [if_pos h1, hclk]
      constructor
      · intro h
        exact absurd h (Nat.lt_irrefl _)
      · intro h
        exact absurd h.1 h1
    · rw [if_neg h1]
      have h1' : (s.runqueues c).clock_skip_update &&& k.RQCF_ACT_SKIP = 0 := not_not.1 h1
      by_cases h2 : 2 ^ 63 ≤ (R + U64_MOD - C) % U64_MOD
      · rw [if_pos h2, hclk]
        constructor
        · intro h
          exact absurd h (Nat.lt_irrefl _)
        · intro h
          exfalso
          have := h.2
          rw [hU] at *
          omega
      · rw [if_neg h2]
        simp only [sched_set_rq_runqueues, if_true]
        constructor
        · intro h
          refine ⟨h1', ?_⟩
          rw [hU] at *
          omega
        · intro h
          have := h.2
          rw [hU] at *
          omega

/-- Witness of C28: with the reading 1000, a run-queue clock of 0 advances to 1000
together with `clock_task`; a clock of 5000, or a set skip flag, leaves the
state as it is; in neither case does the clock decrease, whereas from
`2^64 - 1` with the reading 5 it does. -/
theorem C28_rq_clock_advances_monotonically_witness :
    (((update_rq_clock linux_sched_consts 0 sleeper_state).runqueues 0).clock = 1000 ∧
      ((update_rq_clock linux_sched_consts 0 sleeper_state).runqueues 0).clock_task = 1000) ∧
    update_rq_clock linux_sched_consts 0 clock_ahead_state = clock_ahead_state ∧
    update_rq_clock linux_sched_consts 0 clock_skip_state = clock_skip_state ∧
    ¬ ((update_rq_clock linux_sched_consts 0 sleeper_state).runqueues 0).clock
      < (sleeper_state.runqueues 0).clock ∧
    ((update_rq_clock linux_sched_consts 0 clock_wrap_state).runqueues 0).clock
      < (clock_wrap_state.runqueues 0).clock :=
  ⟨⟨((C28_rq_clock_advances_monotonically linux_sched_consts 0 sleeper_state).2.1
        (by decide) (by decide)).1,
      ((C28_rq_clock_advances_monotonically linux_sched_consts 0 sleeper_state).2.1
        (by decide) (by decide)).2.1⟩,
    (C28_rq_clock_advances_monotonically linux_sched_consts 0 clock_ahead_state).1
      (Or.inr (by decide)),
    (C28_rq_clock_advances_monotonically linux_sched_consts 0 clock_skip_state).1
      (Or.inl (by decide)),
    fun h => absurd (((C28_rq_clock_advances_monotonically linux_sched_consts 0
      sleeper_state).2.2.2 (by decide)).1 h).2 (by decide),
    ((C28_rq_clock_advances_monotonically linux_sched_consts 0 clock_wrap_state).2.2.2
      (by decide)).2 ⟨by decide, by decide⟩⟩

/-! ## Theorems: preemption requests -/

/-- On a run-queue without a current task `resched_curr` reads through the null
pointer. -/
theorem resched_curr_null (c : Nat) (s : Sched) (h : (s.runqueues c).curr = 0) :
    resched_curr c s = Except.error SchedStop.null_deref := by
  unfold resched_curr
  dsimp only
  rw [if_pos h]

/-- On a run-queue with a current task `resched_curr` returns; it changes no
run-queue and logs no class call, and afterwards the current task is marked. -/
theorem resched_curr_ok (c : Nat) (s : Sched) (hcurr : (s.runqueues c).curr ≠ 0) :
    ∃ s1, resched_curr c s = Except.ok s1 ∧ s1.runqueues = s.runqueues ∧
      s1.this_cpu = s.this_cpu ∧
      test_tsk_need_resched s1 (s.runqueues c).curr = true ∧
      s1.log.filter SchedEvent.is_check_preempt_curr
        = s.log.filter SchedEvent.is_check_preempt_curr := by
  unfold resched_curr
  dsimp only
  rw [if_neg hcurr]
  by_cases hn : test_tsk_need_resched s (s.runqueues c).curr = true
  · rw [if_pos hn]
    exact ⟨s, rfl, rfl, rfl, hn, rfl⟩
  · rw [if_neg hn]
    by_cases hc : (s.runqueues c).cpu = s.this_cpu
    · rw [if_pos hc]
      exact ⟨_, rfl, rfl, rfl, by simp [test_tsk_need_resched, set_tsk_need_resched], rfl⟩
    · rw [if_neg hc]
      refine ⟨_, rfl, rfl, rfl, by simp [test_tsk_need_resched, set_tsk_need_resched], ?_⟩
      simp [set_tsk_need_resched, SchedEvent.is_check_preempt_curr]

/-- C24: on a run-queue that has a current task (`rq->curr` is not null)
`resched_curr` returns and is idempotent: a second call returns the very state
of the first, log of calls included, so it sends no further inter-processor
signal. A call on a run-queue whose current task is not marked sets its
need-resched flag, changes no other task and no run-queue, and logs one
`smp_send_reschedule` for the CPU of the run-queue exactly when that CPU is not
the calling CPU; a call on a marked task returns the state unchanged. -/
theorem C24_resched_curr_idempotent (c : Nat) (s : Sched)
    (hcurr : (s.runqueues c).curr ≠ 0) :
    ∃ s1, resched_curr c s = Except.ok s1 ∧
      resched_curr c s1 = Except.ok s1 ∧
      (test_tsk_need_resched s (s.runqueues c).curr = false →
        s1.tasks (s.runqueues c).curr
          = { s.tasks (s.runqueues c).curr with need_resched := true } ∧
        (∀ q, q ≠ (s.runqueues c).curr → s1.tasks q = s.tasks q) ∧
        s1.runqueues = s.runqueues ∧
        s1.log
          = s.log ++ (if (s.runqueues c).cpu = s.this_cpu then []
              else [SchedEvent.smp_send_reschedule (s.runqueues c).cpu])) ∧
      (test_tsk_need_resched s (s.runqueues c).curr = true → s1 = s) := by
  obtain ⟨s1, h1, hrq, _, hmark, _⟩ := resched_curr_ok c s hcurr
  refine ⟨s1, h1, ?_, ?_, ?_⟩
  · unfold resched_curr
    dsimp only
    rw [hrq, if_neg hcurr, if_pos hmark]
  · intro hn
    have hn2 : ¬ test_tsk_need_resched s (s.runqueues c).curr = true := by
      rw [hn]; exact Bool.noConfusion
    unfold resched_curr at h1
    dsimp only at h1
    rw [if_neg hcurr, if_neg hn2] at h1
    by_cases hc : (s.runqueues c).cpu = s.this_cpu
    · rw [if_pos hc] at h1
      injection h1 with h1
      subst h1
      rw [if_pos hc]
      refine ⟨by simp [set_tsk_need_resched], ?_, rfl, by simp [set_tsk_need_resched]⟩
      intro q hq
      simp [set_tsk_need_resched, hq]
    · rw [if_neg hc] at h1
      injection h1 with h1
      subst h1
      rw [if_neg hc]
      refine ⟨by simp [set_tsk_need_resched], ?_, rfl, by simp [set_tsk_need_resched]⟩
      intro q hq
      simp [set_tsk_need_resched, hq]
  · intro hn
    unfold resched_curr at h1
    dsimp only at h1
    rw [if_neg hcurr, if_pos hn] at h1
    injection h1 with h1
    exact h1.symm

/-- Witness of C24: from CPU 0, marking the idle task 8 that runs on CPU 1 sets
its flag and sends one signal to CPU 1, and a second call changes nothing more;
marking the current task 1 of the own run-queue 0 sends no signal. -/
theorem C24_resched_curr_idempotent_witness :
    (remote_curr_state.runqueues 1).curr = 8 ∧ (remote_curr_state.runqueues 0).curr = 1 ∧
    (∃ s1, resched_curr 1 remote_curr_state = Except.ok s1 ∧
      resched_curr 1 s1 = Except.ok s1 ∧
      (s1.tasks 8).need_resched = true ∧
      s1.log = [SchedEvent.smp_send_reschedule 1]) ∧
    (∃ s1, resched_curr 0 remote_curr_state = Except.ok s1 ∧
      resched_curr 0 s1 = Except.ok s1 ∧
      (s1.tasks 1).need_resched = true ∧ s1.log = []) := by
  refine ⟨rfl, rfl, ?_, ?_⟩
  · obtain ⟨s1, h1, h2, h3, _⟩ :=
      C24_resched_curr_idempotent 1 remote_curr_state (by decide)
    obtain ⟨t1, _, _, t4⟩ := h3 rfl
    exact ⟨s1, h1, h2, congrArg task_struct.need_resched t1, t4⟩
  · obtain ⟨s1, h1, h2, h3, _⟩ :=
      C24_resched_curr_idempotent 0 remote_curr_state (by decide)
    obtain ⟨t1, _, _, t4⟩ := h3 rfl
    exact ⟨s1, h1, h2, congrArg task_struct.need_resched t1, t4⟩

/-- The class loop of `check_preempt_curr` for two different classes:
`resched_curr` is called exactly when the class of the waking task comes
first. -/
theorem check_preempt_curr_scan_eq (curr_class p_class : sched_class) (c : Nat) (s : Sched)
    (h : p_class ≠ curr_class) :
    check_preempt_curr_scan curr_class p_class c for_each_class s
      = if class_before p_class curr_class = true then resched_curr c s else Except.ok s := by
  cases curr_class <;> cases p_class <;>
    first
    | exact absurd rfl h
    | rfl

/-- For a null task, or on a run-queue without a current task,
`check_preempt_curr` reads through the null pointer. -/
theorem check_preempt_curr_null (k : SchedConsts) (ops : SchedOps) (c p flags : Nat) (s : Sched)
    (h : p = 0 ∨ (s.runqueues c).curr = 0) :
    check_preempt_curr k ops c p flags s = Except.error SchedStop.null_deref := by
  unfold check_preempt_curr
  dsimp only
  rw [if_pos h]

/-- The last statement of `check_preempt_curr` logs nothing. -/
theorem check_preempt_curr_skip_log (k : SchedConsts) (c : Nat) (s : Sched) :
    (check_preempt_curr_skip k c s).log = s.log := by
  unfold check_preempt_curr_skip
  split
  · rfl
  · rfl

/-- C26: on a run-queue that has a current task (`rq->curr` is not null), for a
waking task `p` (not null), `check_preempt_curr` returns: it first settles which task is marked and then
makes its closing clock-skip request. When the waking task and the current task
have the same class, the marking is left to the class operation
`check_preempt_curr` of that class, called once: the result is the closing step
applied to the state that call left, and when the class declines nothing is
marked. When the classes differ, `resched_curr(rq)` is called exactly when the
class of the waking task comes strictly before the class of the current task
in the order of `for_each_class`, and no class `check_preempt_curr` is
called. -/
theorem C26_check_preempt_curr_compares_classes_first (k : SchedConsts) (ops : SchedOps)
    (c p flags : Nat) (s : Sched) (hp : p ≠ 0) (hcurr : (s.runqueues c).curr ≠ 0) :
    ((s.tasks p).sched_class = (s.tasks (s.runqueues c).curr).sched_class →
      ∃ s1, class_check_preempt_curr ops (s.tasks (s.runqueues c).curr).sched_class c p flags s
          = Except.ok s1 ∧
        check_preempt_curr k ops c p flags s = Except.ok (check_preempt_curr_skip k c s1) ∧
        (ops.check_preempt_curr (s.tasks (s.runqueues c).curr).sched_class s c p flags = false →
          s1 = s.emit (SchedEvent.check_preempt_curr (s.tasks (s.runqueues c).curr).sched_class
            c p flags)) ∧
        (check_preempt_curr_skip k c s1).log.filter SchedEvent.is_check_preempt_curr
          = s.log.filter SchedEvent.is_check_preempt_curr
            ++ [SchedEvent.check_preempt_curr (s.tasks (s.runqueues c).curr).sched_class c p
                  flags]) ∧
    ((s.tasks p).sched_class ≠ (s.tasks (s.runqueues c).curr).sched_class →
      class_before (s.tasks p).sched_class (s.tasks (s.runqueues c).curr).sched_class = true →
      ∃ s1, resched_curr c s = Except.ok s1 ∧
        check_preempt_curr k ops c p flags s = Except.ok (check_preempt_curr_skip k c s1)) ∧
    ((s.tasks p).sched_class ≠ (s.tasks (s.runqueues c).curr).sched_class →
      class_before (s.tasks p).sched_class (s.tasks (s.runqueues c).curr).sched_class = false →
      check_preempt_curr k ops c p flags s = Except.ok (check_preempt_curr_skip k c s)) ∧
    ((s.tasks p).sched_class ≠ (s.tasks (s.runqueues c).curr).sched_class →
      ∃ s2, check_preempt_curr k ops c p flags s = Except.ok s2 ∧
        s2.log.filter SchedEvent.is_check_preempt_curr
          = s.log.filter SchedEvent.is_check_preempt_curr) := by
  obtain ⟨r1, hr1, _, _, _, hr5⟩ := resched_curr_ok c s hcurr
  have hpc : ¬ (p = 0 ∨ (s.runqueues c).curr = 0) := by
    rintro (h | h)
    · exact hp h
    · exact hcurr h
  refine ⟨?_, ?_, ?_, ?_⟩
  · intro h
    have hcl : ∃ s1, class_check_preempt_curr ops (s.tasks (s.runqueues c).curr).sched_class c p
          flags s = Except.ok s1 ∧
        (ops.check_preempt_curr (s.tasks (s.runqueues c).curr).sched_class s c p flags = false →
          s1 = s.emit (SchedEvent.check_preempt_curr (s.tasks (s.runqueues c).curr).sched_class
            c p flags)) ∧
        s1.log.filter SchedEvent.is_check_preempt_curr
          = s.log.filter SchedEvent.is_check_preempt_curr
            ++ [SchedEvent.check_preempt_curr (s.tasks (s.runqueues c).curr).sched_class c p
                  flags] := by
      unfold class_check_preempt_curr
      dsimp only
      by_cases ho : ops.check_preempt_curr (s.tasks (s.runqueues c).curr).sched_class s c p flags
          = true
      · rw [if_pos ho]
        obtain ⟨r2, hr2, _, _, _, hl2⟩ := resched_curr_ok c
          (s.emit (SchedEvent.check_preempt_curr (s.tasks (s.runqueues c).curr).sched_class c p
            flags)) hcurr
        refine ⟨r2, hr2, ?_, ?_⟩
        · intro hf
          rw [hf] at ho
          exact Bool.noConfusion ho
        · rw [hl2]
          simp [Sched.emit, SchedEvent.is_check_preempt_curr]
      · rw [if_neg ho]
        refine ⟨_, rfl, fun _ => rfl, ?_⟩
        simp [Sched.emit, SchedEvent.is_check_preempt_curr]
    obtain ⟨s1, e1, e2, e3⟩ := hcl
    refine ⟨s1, e1, ?_, e2, ?_⟩
    · unfold check_preempt_curr
      dsimp only
      rw [if_neg hpc, if_pos h, e1]
    · rw [check_preempt_curr_skip_log]
      exact e3
  · intro h hb
    refine ⟨r1, hr1, ?_⟩
    unfold check_preempt_curr
    dsimp only
    rw [if_neg hpc, if_neg h, check_preempt_curr_scan_eq _ _ c s h, if_pos hb, hr1]
  · intro h hb
    have hb2 : ¬ class_before (s.tasks p).sched_class
        (s.tasks (s.runqueues c).curr).sched_class = true := by
      rw [hb]; exact Bool.noConfusion
    unfold check_preempt_curr
    dsimp only
    rw [if_neg hpc, if_neg h, check_preempt_curr_scan_eq _ _ c s h, if_neg hb2]
  · intro h
    unfold check_preempt_curr
    dsimp only
    rw [if_neg hpc, if_neg h, check_preempt_curr_scan_eq _ _ c s h]
    by_cases hb : class_before (s.tasks p).sched_class
        (s.tasks (s.runqueues c).curr).sched_class = true
    · rw [if_pos hb, hr1]
      refine ⟨_, rfl, ?_⟩
      rw [check_preempt_curr_skip_log]
      exact hr5
    · rw [if_neg hb]
      refine ⟨_, rfl, ?_⟩
      rw [check_preempt_curr_skip_log]

/-- Witness of C26: on CPU 0, whose current task 1 is of the fair class: the
real-time task 2 gets it marked (and the clock skip requested), the idle-class
task 9 changes nothing, and for the fair task 3 the fair class is asked. -/
theorem C26_check_preempt_curr_compares_classes_first_witness :
    (rt_waker_state.runqueues 0).curr = 1 ∧
    (check_preempt_curr linux_sched_consts demo_ops 0 2 0 rt_waker_state).map
      (fun t => ((t.tasks 1).need_resched, (t.runqueues 0).clock_skip_update,
        t.log.filter SchedEvent.is_check_preempt_curr)) = Except.ok (true, 1, []) ∧
    (check_preempt_curr linux_sched_consts demo_ops 0 9 0 rt_waker_state).map
      (fun t => ((t.tasks 1).need_resched, (t.runqueues 0).clock_skip_update, t.log))
      = Except.ok (false, 0, []) ∧
    (check_preempt_curr linux_sched_consts demo_ops 0 3 0 rt_waker_state).map
      (fun t => ((t.tasks 1).need_resched, t.log))
      = Except.ok (false, [SchedEvent.check_preempt_curr sched_class.fair 0 3 0]) := by
  refine ⟨rfl, ?_, ?_, ?_⟩
  · obtain ⟨s1, h1, h2⟩ :=
      (C26_check_preempt_curr_compares_classes_first linux_sched_consts demo_ops 0 2 0
        rt_waker_state (by decide) (by decide)).2.1 (by decide) rfl
    rw [h2]
    injection h1 with h1
    subst h1
    rfl
  · rw [(C26_check_preempt_curr_compares_classes_first linux_sched_consts demo_ops 0 9 0
        rt_waker_state (by decide) (by decide)).2.2.1 (by decide) rfl]
    rfl
  · obtain ⟨s1, h1, h2, _⟩ :=
      (C26_check_preempt_curr_compares_classes_first linux_sched_consts demo_ops 0 3 0
        rt_waker_state (by decide) (by decide)).1 rfl
    rw [h2]
    injection h1 with h1
    subst h1
    rfl

/-! ## Theorems: the order of the class scan -/

/-- Asking two lists of classes in turn is asking their concatenation. -/
theorem asked_state_append (ops : SchedOps) (c prev : Nat) (a b : List sched_class) :
    ∀ s : Sched, asked_state ops c prev (a ++ b) s
      = asked_state ops c prev b (asked_state ops c prev a s) := by
  induction a with
  | nil => intro s; rfl
  | cons x xs ih =>
    intro s
    simp only [List.cons_append, asked_state]
    exact ih _

/-- The log after a list of classes has been asked: one class call each, in order. -/
theorem asked_state_log (ops : SchedOps) (c prev : Nat) (l : List sched_class) :
    ∀ s : Sched, (asked_state ops c prev l s).log
      = s.log ++ l.map (fun cls => SchedEvent.pick_next_task cls c prev) := by
  induction l with
  | nil => intro s; simp [asked_state]
  | cons x xs ih =>
    intro s
    simp only [asked_state, List.map_cons]
    rw [ih]
    simp [Sched.emit]

/-- A pass over the classes stops at the first class that returns a pointer: the
classes after it are not asked. -/
theorem pick_next_task_scan_split (ops : SchedOps) (c prev : Nat) (init : List sched_class)
    (cls : sched_class) (rest : List sched_class) :
    ∀ s : Sched, all_declined ops c prev init s = true →
      (ops.pick_next_task cls (asked_state ops c prev init s) c prev).1 ≠ 0 →
      pick_next_task_scan ops c prev (init ++ cls :: rest) s
        = ((ops.pick_next_task cls (asked_state ops c prev init s) c prev).1,
            asked_state ops c prev (init ++ [cls]) s) := by
  induction init with
  | nil =>
    intro s _ hp
    simp only [asked_state] at hp
    simp only [List.nil_append, pick_next_task_scan, asked_state]
    rw [if_pos hp]
  | cons x xs ih =>
    intro s hd hp
    simp only [all_declined, Bool.and_eq_true, beq_iff_eq, asked_state] at hd
    simp only [asked_state] at hp
    simp only [List.cons_append, pick_next_task_scan, asked_state]
    rw [if_neg (not_not.2 hd.1)]
    exact ih _ hd.2 hp

/-- The log of a returning `pick_next_task` continues the log at its start with a
call to the first class, the real-time class. -/
theorem pick_next_task_log_head (k : SchedConsts) (ops : SchedOps) (c prev fuel : Nat)
    (s : Sched) (p : Nat) (s1 : Sched)
    (h : pick_next_task k ops c prev fuel s = Except.ok (p, s1)) :
    ∃ es, s1.log = s.log ++ SchedEvent.pick_next_task sched_class.rt c prev :: es := by
  cases fuel with
  | zero => simp [pick_next_task] at h
  | succ n =>
    unfold pick_next_task at h
    dsimp only at h
    have hscan : ∃ es, (pick_next_task_scan ops c prev for_each_class s).2.log
        = s.log ++ SchedEvent.pick_next_task sched_class.rt c prev :: es := by
      unfold for_each_class pick_next_task_scan
      dsimp only
      split
      · exact ⟨[], rfl⟩
      · obtain ⟨_, _, _, _, es, he, _⟩ := pick_next_task_scan_frame ops c prev
          [sched_class.fair, sched_class.idle]
          (Sched.emit ⟨s.tasks, s.runqueues, s.cpu_online_mask, s.this_cpu, s.sched_clock,
            s.set_task_cpu_warned, s.held, (ops.pick_next_task sched_class.rt s c prev).2, s.log⟩
            (SchedEvent.pick_next_task sched_class.rt c prev))
        refine ⟨es, ?_⟩
        rw [he]
        simp [Sched.emit]
    obtain ⟨es, hes⟩ := hscan
    by_cases ha : (pick_next_task_scan ops c prev for_each_class s).1 ≠ 0
    · rw [if_pos ha] at h
      by_cases hr : (pick_next_task_scan ops c prev for_each_class s).1 = k.RETRY_TASK
      · rw [if_pos hr] at h
        obtain ⟨_, _, _, _, _, es2, g5, _⟩ := pick_next_task_ok k ops c prev n _ p s1 h
        refine ⟨es ++ es2, ?_⟩
        rw [g5, hes]
        simp
      · rw [if_neg hr] at h
        injection h with h
        refine ⟨es, ?_⟩
        rw [← hes, h]
    · rw [if_neg ha] at h
      simp at h

/-- C25: `pick_next_task` asks the classes in the order of `for_each_class`
(real-time, fair, idle). If the classes before some class all return the null
pointer and that class returns a task, this task is returned at once: the
state is the one after these calls, so no later class was asked. If instead
that class returns `RETRY_TASK`, the scan starts again from the state reached,
and the next class asked is the real-time class. -/
theorem C25_pick_next_task_follows_class_order (k : SchedConsts) (ops : SchedOps)
    (c prev fuel : Nat) (s : Sched) (init : List sched_class) (cls : sched_class)
    (rest : List sched_class) (horder : for_each_class = init ++ cls :: rest)
    (hdeclined : all_declined ops c prev init s = true)
    (hsome : (ops.pick_next_task cls (asked_state ops c prev init s) c prev).1 ≠ 0) :
    for_each_class = [sched_class.rt, sched_class.fair, sched_class.idle] ∧
    ((ops.pick_next_task cls (asked_state ops c prev init s) c prev).1 ≠ k.RETRY_TASK →
      pick_next_task k ops c prev (fuel + 1) s
        = Except.ok ((ops.pick_next_task cls (asked_state ops c prev init s) c prev).1,
            asked_state ops c prev (init ++ [cls]) s) ∧
      (asked_state ops c prev (init ++ [cls]) s).log
        = s.log ++ (init ++ [cls]).map (fun x => SchedEvent.pick_next_task x c prev)) ∧
    ((ops.pick_next_task cls (asked_state ops c prev init s) c prev).1 = k.RETRY_TASK →
      pick_next_task k ops c prev (fuel + 1) s
        = pick_next_task k ops c prev fuel (asked_state ops c prev (init ++ [cls]) s) ∧
      ∀ p s1, pick_next_task k ops c prev (fuel + 1) s = Except.ok (p, s1) →
        ∃ es, s1.log = s.log ++ (init ++ [cls]).map (fun x => SchedEvent.pick_next_task x c prev)
          ++ SchedEvent.pick_next_task sched_class.rt c prev :: es) := by
  have hscan := pick_next_task_scan_split ops c prev init cls rest s hdeclined hsome
  rw [← horder] at hscan
  refine ⟨rfl, ?_, ?_⟩
  · intro hnr
    refine ⟨?_, asked_state_log ops c prev _ s⟩
    unfold pick_next_task
    dsimp only
    rw [hscan]
    dsimp only
    rw [if_pos hsome, if_neg hnr]
  · intro hr
    have heq : pick_next_task k ops c prev (fuel + 1) s
        = pick_next_task k ops c prev fuel (asked_state ops c prev (init ++ [cls]) s) := by
      conv => lhs; unfold pick_next_task
      dsimp only
      rw [hscan]
      dsimp only
      rw [if_pos hsome, if_pos hr]
    refine ⟨heq, ?_⟩
    intro p s1 h
    rw [heq] at h
    obtain ⟨es, hes⟩ := pick_next_task_log_head k ops c prev fuel _ p s1 h
    exact ⟨es, by rw [hes, asked_state_log]⟩

/-- Witness of C25: with classes that all have a candidate the real-time task 2 is
returned after a single class call; with only the idle class having one, all
three classes are asked in order; a restart request of the real-time class
restarts the scan. -/
theorem C25_pick_next_task_follows_class_order_witness :
    (pick_next_task linux_sched_consts rt_ready_ops 0 1 1 sleeper_state
        = Except.ok (2, asked_state rt_ready_ops 0 1 [sched_class.rt] sleeper_state) ∧
      (asked_state rt_ready_ops 0 1 [sched_class.rt] sleeper_state).log
        = [SchedEvent.pick_next_task sched_class.rt 0 1]) ∧
    (pick_next_task linux_sched_consts demo_ops 0 1 1 sleeper_state
        = Except.ok (9, asked_state demo_ops 0 1
            [sched_class.rt, sched_class.fair, sched_class.idle] sleeper_state) ∧
      (asked_state demo_ops 0 1 [sched_class.rt, sched_class.fair, sched_class.idle]
          sleeper_state).log
        = [SchedEvent.pick_next_task sched_class.rt 0 1,
            SchedEvent.pick_next_task sched_class.fair 0 1,
            SchedEvent.pick_next_task sched_class.idle 0 1]) ∧
    pick_next_task linux_sched_consts retrying_ops 0 1 3 retry_state
      = pick_next_task linux_sched_consts retrying_ops 0 1 2
          (asked_state retrying_ops 0 1 [sched_class.rt] retry_state) :=
  ⟨(C25_pick_next_task_follows_class_order linux_sched_consts rt_ready_ops 0 1 0 sleeper_state
      [] sched_class.rt [sched_class.fair, sched_class.idle] rfl rfl (by decide)).2.1 (by decide),
    (C25_pick_next_task_follows_class_order linux_sched_consts demo_ops 0 1 0 sleeper_state
      [sched_class.rt, sched_class.fair] sched_class.idle [] rfl rfl (by decide)).2.1 (by decide),
    ((C25_pick_next_task_follows_class_order linux_sched_consts retrying_ops 0 1 2 retry_state
      [] sched_class.rt [sched_class.fair, sched_class.idle] rfl rfl (by decide)).2.2 rfl).1⟩

/-! ## Theorems: migration of a queued task -/

/-- The steps of `move_queued_task` entered with exactly the source lock held:
the states at the class dequeue and at the class enqueue, the log, and the
result. -/
theorem move_queued_task_spec (k : SchedConsts) (c p new_cpu : Nat) (s : Sched)
    (hheld : s.held = [c]) (hmig : k.TASK_ON_RQ_MIGRATING ≠ 0) :
    ∃ sd se s1, move_queued_task k c p new_cpu s = Except.ok (new_cpu, s1) ∧
      ((sd.tasks p).on_rq = k.TASK_ON_RQ_MIGRATING ∧ task_cpu sd p = task_cpu s p ∧
        sd.held = [c] ∧ sd.log = s.log) ∧
      (task_cpu (dequeue_task k c p 0 sd) p = task_cpu s p ∧
        spin_lock new_cpu (spin_unlock c (set_task_cpu k p new_cpu (dequeue_task k c p 0 sd)))
          = Except.ok se) ∧
      ((se.tasks p).on_rq = k.TASK_ON_RQ_MIGRATING ∧ task_cpu se p = new_cpu ∧
        se.held = [new_cpu]) ∧
      s1 = (enqueue_task k new_cpu p 0 se).set_task p
        { (enqueue_task k new_cpu p 0 se).tasks p with on_rq := k.TASK_ON_RQ_QUEUED } ∧
      s1.log = s.log ++ [SchedEvent.dequeue_task (s.tasks p).sched_class c p 0,
        SchedEvent.spin_unlock c, SchedEvent.spin_lock new_cpu,
        SchedEvent.enqueue_task (s.tasks p).sched_class new_cpu p 0] ∧
      s1.held = [new_cpu] ∧ task_cpu s1 p = new_cpu ∧
      (s1.tasks p).on_rq = k.TASK_ON_RQ_QUEUED ∧
      ((∀ d, (s.runqueues d).queue.count p = if d = c then 1 else 0) →
        ∀ d, (s1.runqueues d).queue.count p = if d = new_cpu then 1 else 0) ∧
      s1.tasks p = { s.tasks p with on_rq := k.TASK_ON_RQ_QUEUED, cpu := new_cpu,
                                    wake_cpu := new_cpu } ∧
      s1.cpu_online_mask = s.cpu_online_mask := by
  -- the state at the class dequeue
  generalize hsd : s.set_task p { s.tasks p with on_rq := k.TASK_ON_RQ_MIGRATING } = sd
  have d1 : sd.tasks p = { s.tasks p with on_rq := k.TASK_ON_RQ_MIGRATING } := by
    rw [← hsd]; simp
  have d2 : sd.held = [c] := by rw [← hsd]; exact hheld
  have d3 : sd.log = s.log := by rw [← hsd]; rfl
  have d4 : sd.runqueues = s.runqueues := by rw [← hsd]; rfl
  have d5 : sd.cpu_online_mask = s.cpu_online_mask := by rw [← hsd]; rfl
  obtain ⟨q1, q2, _, q4, _, q6, q7⟩ := dequeue_task_frame k c p 0 sd
  generalize hs2 : dequeue_task k c p 0 sd = s2 at q1 q2 q4 q6 q7
  obtain ⟨c1, _, c3, c4, _, l3, c6, _⟩ := set_task_cpu_frame k p new_cpu s2
  have hnowarn : set_task_cpu k p new_cpu s2 = __set_task_cpu p new_cpu s2 := by
    unfold set_task_cpu
    dsimp only
    rw [if_neg]
    rintro ⟨⟨_, h0⟩, _⟩
    rw [q1, d1] at h0
    exact hmig h0
  have c5 : (set_task_cpu k p new_cpu s2).log = s2.log := by rw [hnowarn]; rfl
  have c7 : (set_task_cpu k p new_cpu s2).cpu_online_mask = s2.cpu_online_mask := by
    rw [hnowarn]; rfl
  generalize hs3 : set_task_cpu k p new_cpu s2 = s3 at c1 c3 c4 c5 c7
  have hfree : new_cpu ∉ (spin_unlock c s3).held := by
    simp [spin_unlock, c4, q2, d2]
  have hlock := spin_lock_ok new_cpu (spin_unlock c s3) hfree
  generalize hse : Sched.emit ⟨(spin_unlock c s3).tasks, (spin_unlock c s3).runqueues,
      (spin_unlock c s3).cpu_online_mask, (spin_unlock c s3).this_cpu,
      (spin_unlock c s3).sched_clock, (spin_unlock c s3).set_task_cpu_warned,
      new_cpu :: (spin_unlock c s3).held, (spin_unlock c s3).priv, (spin_unlock c s3).log⟩
      (SchedEvent.spin_lock new_cpu) = se at hlock
  have e1 : se.tasks = s3.tasks := by rw [← hse]; rfl
  have e2 : se.held = [new_cpu] := by
    rw [← hse]; simp [spin_unlock, c4, q2, d2]
  have e3 : se.log = s3.log ++ [SchedEvent.spin_unlock c, SchedEvent.spin_lock new_cpu] := by
    rw [← hse]; simp [spin_unlock]
  have e4 : se.runqueues = s3.runqueues := by rw [← hse]; rfl
  have e6 : se.cpu_online_mask = s3.cpu_online_mask := by rw [← hse]; rfl
  have e5 : se.tasks p
      = { s.tasks p with on_rq := k.TASK_ON_RQ_MIGRATING, cpu := new_cpu, wake_cpu := new_cpu } := by
    rw [e1, c1, q1, d1]
  obtain ⟨n1, n2, _, n4, _, n6, n7⟩ := enqueue_task_frame k new_cpu p 0 se
  have hmove : move_queued_task k c p new_cpu s = Except.ok (new_cpu,
      (enqueue_task k new_cpu p 0 se).set_task p
        { (enqueue_task k new_cpu p 0 se).tasks p with on_rq := k.TASK_ON_RQ_QUEUED }) := by
    unfold move_queued_task
    dsimp only
    rw [hsd, hs2, hs3, hlock]
    dsimp only
    rw [if_neg]
    rw [not_not]
    show (se.tasks p).cpu = new_cpu
    rw [e5]
  refine ⟨sd, se, _, hmove, ⟨by rw [d1], ?_, d2, d3⟩, ⟨?_, ?_⟩, ⟨by rw [e5], ?_, e2⟩, rfl,
    ?_, ?_, ?_, ?_, ?_, ?_, ?_⟩
  · show (sd.tasks p).cpu = (s.tasks p).cpu
    rw [d1]
  · show ((dequeue_task k c p 0 sd).tasks p).cpu = (s.tasks p).cpu
    rw [hs2, q1, d1]
  · rw [hs2, hs3]
    exact hlock
  · show (se.tasks p).cpu = new_cpu
    rw [e5]
  · simp only [sched_set_task_log]
    rw [n4, e3, c5, q4, d3, e5, d1]
    simp
  · simp only [sched_set_task_held]
    rw [n2, e2]
  · show (((enqueue_task k new_cpu p 0 se).set_task p _).tasks p).cpu = new_cpu
    simp only [sched_set_task_tasks, if_true]
    rw [n1, e5]
  · simp only [sched_set_task_tasks, if_true]
  · intro hq d
    simp only [sched_set_task_runqueues]
    rw [(n7 d).1, e4, c3, (q7 d).1, d4]
    have hqd := hq d
    by_cases h2 : d = c
    · subst h2
      rw [if_pos rfl] at hqd
      by_cases h1 : d = new_cpu
      · simp only [if_pos h1, if_true]
        rw [List.count_append, List.count_erase_self, hqd]
        simp
      · simp only [if_neg h1, if_true]
        rw [List.count_erase_self, hqd]
    · rw [if_neg h2] at hqd
      by_cases h1 : d = new_cpu
      · simp only [if_pos h1, if_neg h2]
        rw [List.count_append, hqd]
        simp
      · simp only [if_neg h1, if_neg h2]
        exact hqd
  · simp only [sched_set_task_tasks, if_true]
    rw [n1, e5]
  · simp only [sched_set_task_online]
    rw [n6, e6, c7, q6, d5]

/-- With the lock free and the task not migrating, `task_rq_lock` takes the lock of
the run-queue of the task. -/
theorem task_rq_lock_ok (k : SchedConsts) (p : Nat) (s : Sched)
    (hfree : task_cpu s p ∉ s.held) (hnm : task_on_rq_migrating k s p = false) :
    task_rq_lock k p s
      = Except.ok (task_cpu s p, Sched.emit ⟨s.tasks, s.runqueues, s.cpu_online_mask,
          s.this_cpu, s.sched_clock, s.set_task_cpu_warned, task_cpu s p :: s.held, s.priv,
          s.log⟩ (SchedEvent.spin_lock (task_cpu s p))) := by
  unfold task_rq_lock
  dsimp only
  rw [spin_lock_ok _ _ hfree]
  dsimp only
  rw [if_pos]
  exact ⟨rfl, hnm⟩

/-- A returning `task_rq_lock` has taken the lock of the run-queue of the task and
changed nothing else. -/
theorem task_rq_lock_cases (k : SchedConsts) (p : Nat) (s : Sched) (c : Nat) (s1 : Sched)
    (h : task_rq_lock k p s = Except.ok (c, s1)) :
    c = task_cpu s p ∧ c ∉ s.held ∧ task_on_rq_migrating k s p = false ∧
    s1.tasks = s.tasks ∧ s1.runqueues = s.runqueues ∧ s1.held = c :: s.held ∧
    s1.log = s.log ++ [SchedEvent.spin_lock c] ∧ s1.cpu_online_mask = s.cpu_online_mask := by
  unfold task_rq_lock at h
  dsimp only at h
  cases hl : spin_lock (task_cpu s p) s with
  | error e => simp [hl] at h
  | ok s2 =>
    obtain ⟨hc, ht, hr, hh, _, hlog, _, ho, _⟩ := spin_lock_cases _ _ _ hl
    simp only [hl] at h
    by_cases hm : task_cpu s p = task_cpu s2 p ∧ task_on_rq_migrating k s2 p = false
    · rw [if_pos hm] at h
      injection h with h
      injection h with h1 h2
      subst h1 h2
      refine ⟨rfl, hc, ?_, ht, hr, hh, hlog, ho⟩
      have := hm.2
      unfold task_on_rq_migrating at this ⊢
      rw [ht] at this
      exact this
    · rw [if_neg hm] at h
      simp at h

/-- C21 (counterexample): the sleeping task 1 is allowed on CPU 2 only and CPUs 0
and 1 are online, so the mask `{2}` does not intersect the online CPUs; yet
`set_cpus_allowed_ptr` with this very mask returns 0, because the comparison
with the current mask comes before the validation. -/
theorem C21_unchanged_offline_mask_is_accepted :
    cpumask_intersects linux_sched_consts 4 stranded_state.cpu_online_mask = false ∧
    (stranded_state.tasks 1).cpus_allowed = 4 ∧
    (set_cpus_allowed_ptr linux_sched_consts 1 4 stranded_state).map Prod.fst = Except.ok 0 :=
  ⟨rfl, rfl, rfl⟩

/-- C21 (amended): for a mask that does not intersect the online CPUs, a call of
`__set_cpus_allowed_ptr` that can take the run-queue lock of the task returns,
and leaves tasks (allowed mask, CPU, `on_rq`), run-queues and held locks
unchanged, its only calls being the lock and unlock of that run-queue. The
result is `-EINVAL` whenever the mask differs from the current mask of the task
(or the task is affinity-locked and `check` is set); it is 0 only when the mask
equals the current mask and that test is reached. -/
theorem C21_offline_mask_is_rejected_unless_unchanged (k : SchedConsts) (p new_mask : Nat)
    (check : Bool) (s : Sched)
    (hfree : task_cpu s p ∉ s.held) (hnm : task_on_rq_migrating k s p = false)
    (hoff : cpumask_intersects k new_mask s.cpu_online_mask = false) :
    ∃ r s1, __set_cpus_allowed_ptr k p new_mask check s = Except.ok (r, s1) ∧
      s1.tasks = s.tasks ∧ s1.runqueues = s.runqueues ∧ s1.held = s.held ∧
      s1.log = s.log ++ [SchedEvent.spin_lock (task_cpu s p),
        SchedEvent.spin_unlock (task_cpu s p)] ∧
      (cpumask_equal k (s.tasks p).cpus_allowed new_mask = false → r = -(k.EINVAL : Int)) ∧
      (r ≠ -(k.EINVAL : Int) → r = 0 ∧ cpumask_equal k (s.tasks p).cpus_allowed new_mask = true ∧
        ¬ (check = true ∧ (s.tasks p).flags &&& k.PF_NO_SETAFFINITY ≠ 0)) := by
  unfold __set_cpus_allowed_ptr
  rw [task_rq_lock_ok k p s hfree hnm]
  dsimp only
  have hu : ∀ t : Sched, t.tasks = s.tasks → t.runqueues = s.runqueues →
      t.held = task_cpu s p :: s.held → t.log = s.log ++ [SchedEvent.spin_lock (task_cpu s p)] →
      (task_rq_unlock (task_cpu s p) p t).tasks = s.tasks ∧
      (task_rq_unlock (task_cpu s p) p t).runqueues = s.runqueues ∧
      (task_rq_unlock (task_cpu s p) p t).held = s.held ∧
      (task_rq_unlock (task_cpu s p) p t).log = s.log ++ [SchedEvent.spin_lock (task_cpu s p),
        SchedEvent.spin_unlock (task_cpu s p)] := by
    intro t h1 h2 h3 h4
    refine ⟨h1, h2, ?_, ?_⟩
    · simp [task_rq_unlock, spin_unlock, h3]
    · simp [task_rq_unlock, spin_unlock, h4]
  obtain ⟨u1, u2, u3, u4⟩ := hu (Sched.emit ⟨s.tasks, s.runqueues, s.cpu_online_mask,
    s.this_cpu, s.sched_clock, s.set_task_cpu_warned, task_cpu s p :: s.held, s.priv,
    s.log⟩ (SchedEvent.spin_lock (task_cpu s p))) rfl rfl rfl rfl
  simp only [sched_emit_tasks, sched_emit_online]
  by_cases hf : check = true ∧ (s.tasks p).flags &&& k.PF_NO_SETAFFINITY ≠ 0
  · rw [if_pos hf]
    exact ⟨_, _, rfl, u1, u2, u3, u4, fun _ => rfl, fun h => absurd rfl h⟩
  · rw [if_neg hf]
    by_cases he : cpumask_equal k (s.tasks p).cpus_allowed new_mask = true
    · rw [if_pos he]
      refine ⟨_, _, rfl, u1, u2, u3, u4, ?_, fun _ => ⟨rfl, he, hf⟩⟩
      intro h
      rw [h] at he
      exact Bool.noConfusion he
    · rw [if_neg he, if_pos hoff]
      exact ⟨_, _, rfl, u1, u2, u3, u4, fun _ => rfl, fun h => absurd rfl h⟩

/-- Witness of C21 (amended): for task 1 of `stranded_state` the mask `{3}` (no
online CPU, not its current mask) is rejected with `-EINVAL`, the task keeping
its mask and its CPU. -/
theorem C21_offline_mask_is_rejected_unless_unchanged_witness :
    cpumask_intersects linux_sched_consts 8 stranded_state.cpu_online_mask = false ∧
    ∃ s1, set_cpus_allowed_ptr linux_sched_consts 1 8 stranded_state = Except.ok (-22, s1) ∧
      (s1.tasks 1).cpus_allowed = 4 ∧ task_cpu s1 1 = 2 ∧ s1.runqueues = stranded_state.runqueues :=
  let ⟨_, s1, h, ht, hr, _, _, hinv, _⟩ :=
    C21_offline_mask_is_rejected_unless_unchanged linux_sched_consts 1 8 false stranded_state
      (by decide) rfl rfl
  ⟨rfl, s1, (hinv rfl) ▸ h, congrArg (fun t => (t 1).cpus_allowed) ht,
    congrArg (fun t => (t 1).cpu) ht, hr⟩

/-- C22: for a task flagged `PF_NO_SETAFFINITY`: every returning call of
`__set_cpus_allowed_ptr` with `check = true` returns `-EINVAL` and leaves all
tasks and run-queues as they were (and the call does return when the
run-queue lock of the task can be taken); `sched_setaffinity` on the pid of
the task returns `-EINVAL` without reaching `set_cpus_allowed_ptr`, its only
calls being the pid lookup and the reference get and put; hence a call of
`__set_cpus_allowed_ptr` after which the allowed mask of the task differs was
made with `check = false`. -/
theorem C22_affinity_locked_task_rejects_changes (k : SchedConsts) (ops : SchedOps)
    (p new_mask : Nat) (s : Sched)
    (hflag : (s.tasks p).flags &&& k.PF_NO_SETAFFINITY ≠ 0) :
    (∀ r s1, __set_cpus_allowed_ptr k p new_mask true s = Except.ok (r, s1) →
      r = -(k.EINVAL : Int) ∧ s1.tasks = s.tasks ∧ s1.runqueues = s.runqueues) ∧
    (task_cpu s p ∉ s.held → task_on_rq_migrating k s p = false →
      ∃ s1, __set_cpus_allowed_ptr k p new_mask true s = Except.ok (-(k.EINVAL : Int), s1)) ∧
    (∀ pid, ops.find_task_by_pid s pid = p → p ≠ 0 →
      ∃ s1, sched_setaffinity k ops pid new_mask s = Except.ok (-(k.EINVAL : Int), s1) ∧
        s1.tasks = s.tasks ∧ s1.runqueues = s.runqueues ∧ s1.held = s.held ∧
        s1.log = s.log ++ [SchedEvent.find_task_by_pid pid, SchedEvent.get_task_struct p,
          SchedEvent.put_task_struct p]) ∧
    (∀ check r s1, __set_cpus_allowed_ptr k p new_mask check s = Except.ok (r, s1) →
      (s1.tasks p).cpus_allowed ≠ (s.tasks p).cpus_allowed → check = false) := by
  have ha : ∀ r s1, __set_cpus_allowed_ptr k p new_mask true s = Except.ok (r, s1) →
      r = -(k.EINVAL : Int) ∧ s1.tasks = s.tasks ∧ s1.runqueues = s.runqueues := by
    intro r s1 h
    unfold __set_cpus_allowed_ptr at h
    cases hl : task_rq_lock k p s with
    | error e => simp [hl] at h
    | ok a =>
      obtain ⟨c, s2⟩ := a
      obtain ⟨_, _, _, ht, hr, _, _, _⟩ := task_rq_lock_cases k p s c s2 hl
      simp only [hl] at h
      rw [if_pos ⟨trivial, by rw [ht]; exact hflag⟩] at h
      injection h with h
      injection h with h1 h2
      subst h1 h2
      exact ⟨rfl, ht, hr⟩
  refine ⟨ha, ?_, ?_, ?_⟩
  · intro hfree hnm
    unfold __set_cpus_allowed_ptr
    rw [task_rq_lock_ok k p s hfree hnm]
    dsimp only
    rw [if_pos ⟨rfl, hflag⟩]
    exact ⟨_, rfl⟩
  · intro pid hpid hp0
    unfold sched_setaffinity
    dsimp only
    rw [hpid, if_neg hp0, if_pos (by simpa using hflag)]
    exact ⟨_, rfl, rfl, rfl, rfl, by simp⟩
  · intro check r s1 h hne
    cases check with
    | false => rfl
    | true =>
      exfalso
      apply hne
      rw [(ha r s1 h).2.1]

/-- Witness of C22: the bound helper task 2 of `stranded_state`: with `check`
set, and through `sched_setaffinity`, the mask `{1}` is refused with `-EINVAL`;
through `set_cpus_allowed_ptr` (no check) it is installed. -/
theorem C22_affinity_locked_task_rejects_changes_witness :
    (stranded_state.tasks 2).flags &&& linux_sched_consts.PF_NO_SETAFFINITY ≠ 0 ∧
    (∃ s1, __set_cpus_allowed_ptr linux_sched_consts 2 2 true stranded_state
      = Except.ok (-22, s1)) ∧
    (∃ s1, sched_setaffinity linux_sched_consts demo_ops 2 2 stranded_state
      = Except.ok (-22, s1) ∧ s1.tasks = stranded_state.tasks) ∧
    (set_cpus_allowed_ptr linux_sched_consts 2 2 stranded_state).map
      (fun a => (a.1, (a.2.tasks 2).cpus_allowed)) = Except.ok (0, 2) :=
  ⟨by decide,
    (C22_affinity_locked_task_rejects_changes linux_sched_consts demo_ops 2 2 stranded_state
      (by decide)).2.1 (by decide) rfl,
    let ⟨s1, h, ht, _⟩ :=
      (C22_affinity_locked_task_rejects_changes linux_sched_consts demo_ops 2 2 stranded_state
        (by decide)).2.2.1 2 rfl (by decide)
    ⟨s1, h, ht⟩,
    rfl⟩

/-- Two masks that intersect on the CPUs of the machine: `cpumask_any_and` yields
a CPU of the machine that is in both. -/
theorem cpumask_any_and_spec (k : SchedConsts) (a b : Nat)
    (h : cpumask_intersects k a b = true) :
    cpumask_test_cpu (cpumask_any_and k b a) a = true ∧
    cpumask_test_cpu (cpumask_any_and k b a) b = true ∧ cpumask_any_and k b a < k.NR_CPUS := by
  unfold cpumask_intersects at h
  unfold cpumask_any_and cpumask_any cpumask_test_cpu
  cases hf : (List.range k.NR_CPUS).find? (fun i => (b &&& a).testBit i) with
  | none =>
    exfalso
    have hall := List.find?_eq_none.1 hf
    have hz : (a &&& b) % 2 ^ k.NR_CPUS = 0 := by
      apply Nat.eq_of_testBit_eq
      intro i
      rw [Nat.testBit_mod_two_pow, Nat.zero_testBit]
      by_cases hi : i < k.NR_CPUS
      · have := hall i (List.mem_range.2 hi)
        rw [Nat.land_comm] at this
        simp only [Bool.not_eq_true] at this
        simp [hi, this]
      · simp [hi]
    rw [hz] at h
    exact Bool.noConfusion h
  | some i =>
    have hp := List.find?_some hf
    have hm := List.mem_range.1 (List.mem_of_find?_eq_some hf)
    simp only [Nat.testBit_land, Bool.and_eq_true] at hp
    simp only [Option.getD_some]
    exact ⟨hp.2, hp.1, hm⟩

/-- What `do_set_cpus_allowed` does to a queued task that is not the current task
of its run-queue: the task is dequeued, gets the mask and its weight, and is
enqueued again on the same run-queue. -/
theorem do_set_cpus_allowed_queued (k : SchedConsts) (p new_mask : Nat) (s : Sched)
    (hq : task_on_rq_queued k s p = true) (hcurr : (s.runqueues (task_cpu s p)).curr ≠ p) :
    (do_set_cpus_allowed k p new_mask s).tasks p
      = { s.tasks p with cpus_allowed := new_mask,
                         nr_cpus_allowed := cpumask_weight k new_mask } ∧
    (do_set_cpus_allowed k p new_mask s).held = s.held ∧
    (do_set_cpus_allowed k p new_mask s).cpu_online_mask = s.cpu_online_mask ∧
    ∀ d, ((do_set_cpus_allowed k p new_mask s).runqueues d).queue
      = if d = task_cpu s p then (s.runqueues d).queue.erase p ++ [p]
        else (s.runqueues d).queue := by
  have hrun : decide ((s.runqueues (task_cpu s p)).curr = p) = false := by
    simp [hcurr]
  unfold do_set_cpus_allowed
  dsimp only
  rw [hq, hrun]
  simp only [if_true, Bool.false_eq_true, if_false]
  obtain ⟨q1, q2, _, _, _, q6, q7⟩ := dequeue_task_frame k (task_cpu s p) p k.DEQUEUE_SAVE s
  generalize dequeue_task k (task_cpu s p) p k.DEQUEUE_SAVE s = s1 at q1 q2 q6 q7
  obtain ⟨n1, n2, _, _, _, n6, n7⟩ := enqueue_task_frame k (task_cpu s p) p k.ENQUEUE_RESTORE
    (class_set_cpus_allowed k p new_mask s1)
  refine ⟨?_, ?_, ?_, ?_⟩
  · rw [n1]
    simp [class_set_cpus_allowed, set_cpus_allowed_common, q1]
  · rw [n2]
    simp [class_set_cpus_allowed, set_cpus_allowed_common, q2]
  · rw [n6]
    simp [class_set_cpus_allowed, set_cpus_allowed_common, q6]
  · intro d
    rw [(n7 d).1]
    have hrq : (class_set_cpus_allowed k p new_mask s1).runqueues = s1.runqueues := rfl
    rw [hrq, (q7 d).1]
    by_cases hd : d = task_cpu s p
    · rw [if_pos hd, if_pos hd, if_pos hd]
    · rw [if_neg hd, if_neg hd, if_neg hd]

/-- What `set_cpus_allowed_ptr` does to a task queued on the run-queue of its CPU
only, not executing, when the caller holds no run-queue lock: it stops in
`stop_one_cpu` when the task is marked waking and would have to be moved, and
returns otherwise. -/
theorem set_cpus_allowed_ptr_queued (k : SchedConsts) (p new_mask : Nat) (s : Sched)
    (hq : (s.tasks p).on_rq = k.TASK_ON_RQ_QUEUED) (hncpu : (s.tasks p).on_cpu = 0)
    (hcurr : (s.runqueues (task_cpu s p)).curr ≠ p) (hheld : s.held = [])
    (hqm : k.TASK_ON_RQ_QUEUED ≠ k.TASK_ON_RQ_MIGRATING) (hmig : k.TASK_ON_RQ_MIGRATING ≠ 0)
    (heinval : k.EINVAL ≠ 0)
    (hcount : ∀ d, (s.runqueues d).queue.count p = if d = task_cpu s p then 1 else 0) :
    (set_cpus_allowed_ptr k p new_mask s = Except.error SchedStop.panic ∧
      (s.tasks p).state = k.TASK_WAKING) ∨
    ∃ r s1, set_cpus_allowed_ptr k p new_mask s = Except.ok (r, s1) ∧
      (r = 0 ∨ r = -(k.EINVAL : Int)) ∧
      (r = 0 ↔ (cpumask_equal k (s.tasks p).cpus_allowed new_mask = true ∨
        cpumask_intersects k new_mask s.cpu_online_mask = true)) ∧
      (cpumask_equal k (s.tasks p).cpus_allowed new_mask = true →
        s1.tasks = s.tasks ∧ s1.runqueues = s.runqueues) ∧
      (r = 0 →
        cpumask_equal k (s1.tasks p).cpus_allowed new_mask = true ∧
        (cpumask_equal k (s.tasks p).cpus_allowed new_mask = false →
          (s1.tasks p).cpus_allowed = new_mask) ∧
        (s1.tasks p).on_rq = k.TASK_ON_RQ_QUEUED ∧
        (∀ d, (s1.runqueues d).queue.count p = if d = task_cpu s1 p then 1 else 0) ∧
        s1.held = [] ∧
        ((cpumask_equal k (s.tasks p).cpus_allowed new_mask = false ∨
            cpumask_test_cpu (task_cpu s p) new_mask = true) →
          cpumask_test_cpu (task_cpu s1 p) new_mask = true) ∧
        ((cpu_online s (task_cpu s p) = true ∨
            (cpumask_equal k (s.tasks p).cpus_allowed new_mask = false ∧
              cpumask_test_cpu (task_cpu s p) new_mask = false)) →
          cpu_online s1 (task_cpu s1 p) = true)) := by
  have hfree : task_cpu s p ∉ s.held := by rw [hheld]; simp
  have hnm : task_on_rq_migrating k s p = false := by
    unfold task_on_rq_migrating
    rw [hq]
    simpa using hqm
  have hinv : (-(k.EINVAL : Int)) ≠ 0 := by
    simpa using heinval
  have hrefl : cpumask_equal k new_mask new_mask = true := by
    simp [cpumask_equal]
  unfold set_cpus_allowed_ptr __set_cpus_allowed_ptr
  rw [task_rq_lock_ok k p s hfree hnm]
  dsimp only
  generalize hsl : Sched.emit ⟨s.tasks, s.runqueues, s.cpu_online_mask, s.this_cpu,
    s.sched_clock, s.set_task_cpu_warned, task_cpu s p :: s.held, s.priv, s.log⟩
    (SchedEvent.spin_lock (task_cpu s p)) = sl
  have l1 : sl.tasks = s.tasks := by rw [← hsl]; rfl
  have l2 : sl.runqueues = s.runqueues := by rw [← hsl]; rfl
  have l3 : sl.held = [task_cpu s p] := by rw [← hsl]; simp [hheld]
  have l4 : sl.cpu_online_mask = s.cpu_online_mask := by rw [← hsl]; rfl
  have l5 : task_cpu sl p = task_cpu s p := by unfold task_cpu; rw [l1]
  rw [if_neg (fun h => Bool.noConfusion h.1), l1]
  by_cases heq : cpumask_equal k (s.tasks p).cpus_allowed new_mask = true
  · rw [if_pos heq]
    right
    have u1 : (task_rq_unlock (task_cpu s p) p sl).tasks = s.tasks := l1
    have u2 : (task_rq_unlock (task_cpu s p) p sl).runqueues = s.runqueues := l2
    have u3 : task_cpu (task_rq_unlock (task_cpu s p) p sl) p = task_cpu s p := l5
    have u4 : (task_rq_unlock (task_cpu s p) p sl).cpu_online_mask = s.cpu_online_mask := l4
    refine ⟨_, _, rfl, Or.inl rfl, ⟨fun _ => Or.inl heq, fun _ => rfl⟩, fun _ => ⟨u1, u2⟩,
      fun _ => ⟨?_, ?_, ?_, ?_, ?_, ?_, ?_⟩⟩
    · rw [u1]
      exact heq
    · intro hf
      rw [hf] at heq
      exact Bool.noConfusion heq
    · rw [u1]
      exact hq
    · intro d
      rw [u2, u3]
      exact hcount d
    · simp [task_rq_unlock, spin_unlock, l3]
    · rintro (hf | ht)
      · rw [hf] at heq
        exact Bool.noConfusion heq
      · rw [u3]
        exact ht
    · rintro (ho | ⟨hf, _⟩)
      · rw [u3]
        unfold cpu_online at ho ⊢
        rw [u4]
        exact ho
      · rw [hf] at heq
        exact Bool.noConfusion heq
  · rw [if_neg heq, l4]
    have heqf : cpumask_equal k (s.tasks p).cpus_allowed new_mask = false := by
      cases hc : cpumask_equal k (s.tasks p).cpus_allowed new_mask
      · rfl
      · exact absurd hc heq
    by_cases hint : cpumask_intersects k new_mask s.cpu_online_mask = false
    · rw [if_pos hint]
      right
      refine ⟨_, _, rfl, Or.inr rfl, ⟨fun h => absurd h hinv, ?_⟩, fun h => absurd h heq,
        fun h => absurd h hinv⟩
      rintro (h | h)
      · exact absurd h heq
      · rw [hint] at h
        exact Bool.noConfusion h
    · rw [if_neg hint]
      have hint1 : cpumask_intersects k new_mask s.cpu_online_mask = true := by
        cases hc : cpumask_intersects k new_mask s.cpu_online_mask
        · exact absurd hc hint
        · rfl
      have hql : task_on_rq_queued k sl p = true := by
        unfold task_on_rq_queued
        rw [l1, hq]
        simp
      obtain ⟨t1, t2, t3, t4⟩ := do_set_cpus_allowed_queued k p new_mask sl hql
        (by rw [l5, l2]; exact hcurr)
      rw [l5] at t4
      generalize hs2 : do_set_cpus_allowed k p new_mask sl = s2 at t1 t2 t3 t4
      have t5 : task_cpu s2 p = task_cpu s p := by
        unfold task_cpu
        rw [t1, l1]
      have hcount2 : ∀ d, (s2.runqueues d).queue.count p
          = if d = task_cpu s p then 1 else 0 := by
        intro d
        rw [t4 d, l2]
        have := hcount d
        by_cases hd : d = task_cpu s p
        · rw [if_pos hd] at this
          rw [if_pos hd, if_pos hd, List.count_append, List.count_erase_self, this]
          simp
        · rw [if_neg hd] at this
          rw [if_neg hd, if_neg hd, this]
      rw [t5]
      by_cases htest : cpumask_test_cpu (task_cpu s p) new_mask = true
      · rw [if_pos htest]
        right
        have u1 : (task_rq_unlock (task_cpu s p) p s2).tasks = s2.tasks := rfl
        have u2 : (task_rq_unlock (task_cpu s p) p s2).runqueues = s2.runqueues := rfl
        have u3 : task_cpu (task_rq_unlock (task_cpu s p) p s2) p = task_cpu s p := t5
        have u4 : (task_rq_unlock (task_cpu s p) p s2).cpu_online_mask = s2.cpu_online_mask :=
          rfl
        have hal : ((task_rq_unlock (task_cpu s p) p s2).tasks p).cpus_allowed = new_mask := by
          rw [u1, t1]
        refine ⟨_, _, rfl, Or.inl rfl, ⟨fun _ => Or.inr hint1, fun _ => rfl⟩,
          fun h => absurd h heq, fun _ => ⟨?_, fun _ => hal, ?_, ?_, ?_, ?_, ?_⟩⟩
        · rw [hal]
          exact hrefl
        · rw [u1, t1, l1]
          exact hq
        · intro d
          rw [u2, u3]
          exact hcount2 d
        · simp [task_rq_unlock, spin_unlock, t2, l3]
        · intro _
          rw [u3]
          exact htest
        · rintro (ho | ⟨_, hf⟩)
          · rw [u3]
            unfold cpu_online at ho ⊢
            rw [u4, t3, l4]
            exact ho
          · rw [hf] at htest
            exact Bool.noConfusion htest
      · rw [if_neg htest, t1, l1]
        dsimp only
        by_cases hstate : (s.tasks p).state = k.TASK_WAKING
        · rw [if_pos (Or.inr hstate)]
          left
          exact ⟨rfl, hstate⟩
        · rw [if_neg (by
            rintro (h | h)
            · exact h hncpu
            · exact hstate h)]
          have hq2 : task_on_rq_queued k s2 p = true := by
            unfold task_on_rq_queued
            rw [t1, l1, hq]
            simp
          rw [if_pos hq2]
          obtain ⟨_, _, s3, hm, _, _, _, _, _, m1, m2, m3, m4, m5, m6⟩ :=
            move_queued_task_spec k (task_cpu s p) p
              (cpumask_any_and k s2.cpu_online_mask new_mask) s2 (by rw [t2, l3]) hmig
          rw [hm]
          dsimp only
          obtain ⟨a1, a2, _⟩ := cpumask_any_and_spec k new_mask s.cpu_online_mask hint1
          rw [t3, l4] at m2 m5 m1 m4
          have hm2 : task_cpu s3 p = cpumask_any_and k s.cpu_online_mask new_mask := m2
          right
          have u3 : task_cpu (task_rq_unlock (cpumask_any_and k s2.cpu_online_mask new_mask) p
              s3) p = cpumask_any_and k s.cpu_online_mask new_mask := hm2
          have hal : ((task_rq_unlock (cpumask_any_and k s2.cpu_online_mask new_mask) p
              s3).tasks p).cpus_allowed = new_mask := by
            show (s3.tasks p).cpus_allowed = new_mask
            rw [m5, t1]
          refine ⟨_, _, rfl, Or.inl rfl, ⟨fun _ => Or.inr hint1, fun _ => rfl⟩,
            fun h => absurd h heq, fun _ => ⟨?_, fun _ => hal, ?_, ?_, ?_, ?_, ?_⟩⟩
          · rw [hal]
            exact hrefl
          · exact m3
          · intro d
            rw [u3]
            exact m4 (by rw [t3, l4] at *; exact hcount2) d
          · rw [t3, l4]
            simp [task_rq_unlock, spin_unlock, m1]
          · intro _
            rw [u3]
            exact a1
          · intro _
            rw [u3]
            unfold cpu_online
            show cpumask_test_cpu _ s3.cpu_online_mask = true
            rw [m6, t3, l4]
            exact a2
/-- C23 (counterexample): two queued, not executing tasks for which
`set_cpus_allowed_ptr` returns 0 and leaves the task where it was. In
`drifted_state` task 1 is queued on CPU 0 with the allowed mask `{1,2}`; the
call with this very mask returns 0 at the comparison with the current mask, and
`task_cpu` stays 0, which is not in the mask. In `offline_queued_state` task 1
is queued on the offline CPU 2; the call with the different mask `{0,2}`
installs the mask and returns 0 because CPU 2 is in it, without testing that
CPU 2 is online. Both states are produced by `wake_up_process`. -/
theorem C23_unchanged_mask_leaves_task_outside_mask :
    ((drifted_state.tasks 1).on_rq = linux_sched_consts.TASK_ON_RQ_QUEUED ∧
      (drifted_state.tasks 1).on_cpu = 0 ∧ (drifted_state.runqueues 0).curr ≠ 1 ∧
      (drifted_state.runqueues 0).queue = [1] ∧ (drifted_state.tasks 1).cpus_allowed = 6 ∧
      (set_cpus_allowed_ptr linux_sched_consts 1 6 drifted_state).map
        (fun a => (a.1, task_cpu a.2 1)) = Except.ok (0, 0) ∧
      cpumask_test_cpu 0 6 = false) ∧
    ((offline_queued_state.tasks 1).on_rq = linux_sched_consts.TASK_ON_RQ_QUEUED ∧
      (offline_queued_state.tasks 1).on_cpu = 0 ∧ (offline_queued_state.runqueues 2).curr ≠ 1 ∧
      (offline_queued_state.runqueues 2).queue = [1] ∧
      (offline_queued_state.tasks 1).cpus_allowed = 6 ∧
      (set_cpus_allowed_ptr linux_sched_consts 1 5 offline_queued_state).map
        (fun a => (a.1, task_cpu a.2 1, (a.2.tasks 1).cpus_allowed,
          cpu_online a.2 (task_cpu a.2 1))) = Except.ok (0, 2, 5, false)) :=
  ⟨⟨rfl, rfl, by decide, rfl, rfl, rfl, rfl⟩, ⟨rfl, rfl, by decide, rfl, rfl, rfl⟩⟩

/-- C23 (amended): a task queued on the run-queue of its CPU only and not
executing, the caller holding no run-queue lock. `set_cpus_allowed_ptr` returns
unless the task is marked waking, and every call that returns does so with 0
or `-EINVAL`, with 0 exactly when the mask equals the current mask of the task
or intersects the online CPUs; with a mask equal to the current one no task and
no run-queue changes. When it returns 0, the allowed mask of the task equals
the mask (and is the mask itself when that differs from the old one), `on_rq`
is `TASK_ON_RQ_QUEUED`, the task is enqueued on the run-queue of `task_cpu`
only and no lock is left held; `task_cpu` is in the mask provided the mask
differs from the old one or `task_cpu` was in it before the call; and
`task_cpu` is online provided it was online before the call or the task had to
be moved (the mask differs from the old one and does not contain the old
CPU). -/
theorem C23_queued_task_follows_new_mask (k : SchedConsts) (p new_mask : Nat) (s : Sched)
    (hq : (s.tasks p).on_rq = k.TASK_ON_RQ_QUEUED) (hncpu : (s.tasks p).on_cpu = 0)
    (hcurr : (s.runqueues (task_cpu s p)).curr ≠ p) (hheld : s.held = [])
    (hqm : k.TASK_ON_RQ_QUEUED ≠ k.TASK_ON_RQ_MIGRATING) (hmig : k.TASK_ON_RQ_MIGRATING ≠ 0)
    (heinval : k.EINVAL ≠ 0)
    (hcount : ∀ d, (s.runqueues d).queue.count p = if d = task_cpu s p then 1 else 0) :
    ((s.tasks p).state ≠ k.TASK_WAKING →
      ∃ r s1, set_cpus_allowed_ptr k p new_mask s = Except.ok (r, s1)) ∧
    ∀ r s1, set_cpus_allowed_ptr k p new_mask s = Except.ok (r, s1) →
      (r = 0 ∨ r = -(k.EINVAL : Int)) ∧
      (r = 0 ↔ (cpumask_equal k (s.tasks p).cpus_allowed new_mask = true ∨
        cpumask_intersects k new_mask s.cpu_online_mask = true)) ∧
      (cpumask_equal k (s.tasks p).cpus_allowed new_mask = true →
        s1.tasks = s.tasks ∧ s1.runqueues = s.runqueues) ∧
      (r = 0 →
        cpumask_equal k (s1.tasks p).cpus_allowed new_mask = true ∧
        (cpumask_equal k (s.tasks p).cpus_allowed new_mask = false →
          (s1.tasks p).cpus_allowed = new_mask) ∧
        (s1.tasks p).on_rq = k.TASK_ON_RQ_QUEUED ∧
        (∀ d, (s1.runqueues d).queue.count p = if d = task_cpu s1 p then 1 else 0) ∧
        s1.held = [] ∧
        ((cpumask_equal k (s.tasks p).cpus_allowed new_mask = false ∨
            cpumask_test_cpu (task_cpu s p) new_mask = true) →
          cpumask_test_cpu (task_cpu s1 p) new_mask = true) ∧
        ((cpu_online s (task_cpu s p) = true ∨
            (cpumask_equal k (s.tasks p).cpus_allowed new_mask = false ∧
              cpumask_test_cpu (task_cpu s p) new_mask = false)) →
          cpu_online s1 (task_cpu s1 p) = true)) := by
  rcases set_cpus_allowed_ptr_queued k p new_mask s hq hncpu hcurr hheld hqm hmig heinval hcount
    with ⟨hp, hw⟩ | ⟨r0, s0, h0, hprops⟩
  · refine ⟨fun hstate => absurd hw hstate, ?_⟩
    intro r s1 h
    rw [hp] at h
    exact Except.noConfusion h
  · refine ⟨fun _ => ⟨r0, s0, h0⟩, ?_⟩
    intro r s1 h
    rw [h0] at h
    injection h with h
    injection h with h1 h2
    subst h1 h2
    exact hprops

/-- Witness of C23 (amended): task 1 of `queued_state`, queued on CPU 0 and allowed
there only. Given the mask `{1}` the call returns 0 and the task is queued on
the online CPU 1 only, with the new mask; given its current mask `{0}` the
call returns 0 and the task stays queued on CPU 0, which is in the mask. -/
theorem C23_queued_task_follows_new_mask_witness :
    ((set_cpus_allowed_ptr linux_sched_consts 1 2 queued_state).map
      (fun a => (a.1, task_cpu a.2 1, (a.2.runqueues 0).queue, (a.2.runqueues 1).queue))
      = Except.ok (0, 1, [], [1]) ∧
    ∃ s1, set_cpus_allowed_ptr linux_sched_consts 1 2 queued_state = Except.ok (0, s1) ∧
      (s1.tasks 1).cpus_allowed = 2 ∧ cpumask_test_cpu (task_cpu s1 1) 2 = true ∧
      cpu_online s1 (task_cpu s1 1) = true ∧ (s1.tasks 1).on_rq = 1 ∧
      (∀ d, (s1.runqueues d).queue.count 1 = if d = task_cpu s1 1 then 1 else 0) ∧
      s1.held = []) ∧
    ((set_cpus_allowed_ptr linux_sched_consts 1 1 queued_state).map
      (fun a => (a.1, task_cpu a.2 1, (a.2.runqueues 0).queue, (a.2.runqueues 1).queue))
      = Except.ok (0, 0, [1], []) ∧
    ∃ s1, set_cpus_allowed_ptr linux_sched_consts 1 1 queued_state = Except.ok (0, s1) ∧
      s1.tasks = queued_state.tasks ∧ s1.runqueues = queued_state.runqueues ∧
      cpumask_test_cpu (task_cpu s1 1) 1 = true ∧ cpu_online s1 (task_cpu s1 1) = true) := by
  have hcount : ∀ d, (queued_state.runqueues d).queue.count 1
      = if d = task_cpu queued_state 1 then 1 else 0 := by
    intro d
    by_cases hd : d = 0
    · subst hd; rfl
    · have h1 : (queued_state.runqueues d).queue = [] := by
        simp [queued_state, hd]
      have h2 : task_cpu queued_state 1 = 0 := rfl
      rw [h1, h2, if_neg hd]
      rfl
  constructor
  · obtain ⟨hret, hpost⟩ :=
      C23_queued_task_follows_new_mask linux_sched_consts 1 2 queued_state rfl rfl
        (by decide) rfl (by decide) (by decide) (by decide) hcount
    obtain ⟨r, s1, h⟩ := hret (by decide)
    obtain ⟨_, hiff, _, hzero⟩ := hpost r s1 h
    have hr : r = 0 := hiff.2 (Or.inr rfl)
    subst hr
    obtain ⟨_, q2, q3, q4, q5, q6, q7⟩ := hzero rfl
    exact ⟨rfl, s1, h, q2 rfl, q6 (Or.inl rfl), q7 (Or.inl rfl), q3, q4, q5⟩
  · obtain ⟨hret, hpost⟩ :=
      C23_queued_task_follows_new_mask linux_sched_consts 1 1 queued_state rfl rfl
        (by decide) rfl (by decide) (by decide) (by decide) hcount
    obtain ⟨r, s1, h⟩ := hret (by decide)
    obtain ⟨_, hiff, hsame, hzero⟩ := hpost r s1 h
    have hr : r = 0 := hiff.2 (Or.inl rfl)
    subst hr
    obtain ⟨_, _, _, _, _, q6, q7⟩ := hzero rfl
    exact ⟨rfl, s1, h, (hsame rfl).1, (hsame rfl).2, q6 (Or.inr rfl), q7 (Or.inl rfl)⟩

/-! ## Theorems: the resource tree -/

/-- A sibling list is the same in two memories that agree on the `sibling` fields
of its members. -/
theorem sibling_chain_congr (h h1 : Nat → resource) (l : List Nat) :
    ∀ t, (∀ y ∈ l, (h1 y).sibling = (h y).sibling) → sibling_chain h t l →
      sibling_chain h1 t l := by
  induction l with
  | nil => intro t _ hc; exact hc
  | cons x xs ih =>
    intro t hs hc
    obtain ⟨h1', h2', h3'⟩ := hc
    refine ⟨h1', h2', ?_⟩
    rw [hs x (List.mem_cons_self x xs)]
    exact ih _ (fun y hy => hs y (List.mem_cons_of_mem x hy)) h3'

/-- The head of a sorted list of ranges does not occur in its tail. -/
theorem ranges_sorted_head_not_mem (h : Nat → resource) (x : Nat) (xs : List Nat)
    (hs : ranges_sorted h (x :: xs)) : x ∉ xs := by
  intro hx
  have h1 := (List.pairwise_cons.1 hs.1).1 x hx
  have h2 := hs.2 x (List.mem_cons_self x xs)
  omega

/-- The tail of a sorted list of ranges is sorted. -/
theorem ranges_sorted_tail (h : Nat → resource) (x : Nat) (xs : List Nat)
    (hs : ranges_sorted h (x :: xs)) : ranges_sorted h xs :=
  ⟨(List.pairwise_cons.1 hs.1).2, fun y hy => hs.2 y (List.mem_cons_of_mem x hy)⟩

/-- The memory after the three stores of a successful `__request_resource` at slot
`p`, whose owner is not the new resource. -/
theorem request_resource_link (h : Nat → resource) (root new tmp : Nat) (p : resource_slot)
    (hp : p ≠ resource_slot.child new ∧ p ≠ resource_slot.sibling new) :
    p.load (Function.update (p.store (Function.update h new { h new with sibling := tmp }) new)
        new { (p.store (Function.update h new { h new with sibling := tmp }) new) new with
          parent := root }) = new ∧
    ((Function.update (p.store (Function.update h new { h new with sibling := tmp }) new)
        new { (p.store (Function.update h new { h new with sibling := tmp }) new) new with
          parent := root }) new).sibling = tmp ∧
    ((Function.update (p.store (Function.update h new { h new with sibling := tmp }) new)
        new { (p.store (Function.update h new { h new with sibling := tmp }) new) new with
          parent := root }) new).parent = root ∧
    (∀ y, ((Function.update (p.store (Function.update h new { h new with sibling := tmp }) new)
        new { (p.store (Function.update h new { h new with sibling := tmp }) new) new with
          parent := root }) y).start = (h y).start ∧
      ((Function.update (p.store (Function.update h new { h new with sibling := tmp }) new)
        new { (p.store (Function.update h new { h new with sibling := tmp }) new) new with
          parent := root }) y).end_ = (h y).end_) ∧
    (∀ y, y ≠ new → ((Function.update (p.store (Function.update h new { h new with
        sibling := tmp }) new) new { (p.store (Function.update h new { h new with
        sibling := tmp }) new) new with parent := root }) y).parent = (h y).parent) ∧
    (∀ y, y ≠ new → p ≠ resource_slot.sibling y →
      ((Function.update (p.store (Function.update h new { h new with sibling := tmp }) new)
        new { (p.store (Function.update h new { h new with sibling := tmp }) new) new with
          parent := root }) y).sibling = (h y).sibling) ∧
    (∀ y, p ≠ resource_slot.child y →
      ((Function.update (p.store (Function.update h new { h new with sibling := tmp }) new)
        new { (p.store (Function.update h new { h new with sibling := tmp }) new) new with
          parent := root }) y).child = (h y).child) := by
  cases p with
  | child r =>
    have hr : r ≠ new := fun e => hp.1 (by rw [e])
    have hr2 : new ≠ r := fun e => hr e.symm
    refine ⟨?_, ?_, ?_, ?_, ?_, ?_, ?_⟩
    · simp [resource_slot.load, resource_slot.store, Function.update, hr, hr2]
    · simp [resource_slot.store, Function.update, hr, hr2]
    · simp [resource_slot.store, Function.update, hr, hr2]
    · intro y
      by_cases h1 : y = new <;> by_cases h2 : y = r <;>
        simp [resource_slot.store, Function.update, hr, hr2, h1, h2]
    · intro y hy
      by_cases h2 : y = r <;> simp [resource_slot.store, Function.update, hr, hr2, hy, h2]
    · intro y hy _
      by_cases h2 : y = r <;> simp [resource_slot.store, Function.update, hr, hr2, hy, h2]
    · intro y hy
      have h2 : y ≠ r := fun e => hy (by rw [e])
      by_cases h1 : y = new <;> simp [resource_slot.store, Function.update, hr, hr2, h1, h2]
  | sibling r =>
    have hr : r ≠ new := fun e => hp.2 (by rw [e])
    have hr2 : new ≠ r := fun e => hr e.symm
    refine ⟨?_, ?_, ?_, ?_, ?_, ?_, ?_⟩
    · simp [resource_slot.load, resource_slot.store, Function.update, hr, hr2]
    · simp [resource_slot.store, Function.update, hr, hr2]
    · simp [resource_slot.store, Function.update, hr, hr2]
    · intro y
      by_cases h1 : y = new <;> by_cases h2 : y = r <;>
        simp [resource_slot.store, Function.update, hr, hr2, h1, h2]
    · intro y hy
      by_cases h2 : y = r <;> simp [resource_slot.store, Function.update, hr, hr2, hy, h2]
    · intro y hy hps
      have h2 : y ≠ r := fun e => hps (by rw [e])
      simp [resource_slot.store, Function.update, hr, hr2, hy, h2]
    · intro y _
      by_cases h1 : y = new <;> by_cases h2 : y = r <;>
        simp [resource_slot.store, Function.update, hr, hr2, h1, h2]

/-- The loop of `__request_resource` on a well-formed sorted sibling list, for a
new resource that is not on the list, from a slot that is owned neither by the
new resource nor by a member of the list: it returns within `length + 1`
iterations; either with a member of the list that overlaps the range, the
memory untouched, or with 0, no member overlapping, and the new resource
linked between the members below and the members above the range. -/
theorem request_resource_walk_spec (h : Nat → resource) (root new start end_ : Nat)
    (hnew0 : new ≠ 0) (l : List Nat) :
    ∀ (p : resource_slot) (fuel : Nat), sibling_chain h (p.load h) l → ranges_sorted h l →
      new ∉ l → (p ≠ resource_slot.child new ∧ p ≠ resource_slot.sibling new) →
      (∀ z ∈ l, p ≠ resource_slot.sibling z) → l.length < fuel →
      ∃ r h1, request_resource_walk root new start end_ fuel p h = some (r, h1) ∧
        ((r ≠ 0 ∧ r ∈ l ∧ range_overlaps h start end_ r ∧ h1 = h) ∨
         (r = 0 ∧ (∀ y ∈ l, ¬ range_overlaps h start end_ y) ∧
          (∃ l1 l2, l = l1 ++ l2 ∧ (∀ y ∈ l1, (h y).end_ < start) ∧
            (∀ y ∈ l2, end_ < (h y).start) ∧
            sibling_chain h1 (p.load h1) (l1 ++ new :: l2)) ∧
          (∀ y, (h1 y).start = (h y).start ∧ (h1 y).end_ = (h y).end_) ∧
          (h1 new).parent = root ∧
          (∀ y, y ≠ new → (h1 y).parent = (h y).parent) ∧
          (∀ y, y ≠ new → y ∉ l → p ≠ resource_slot.sibling y →
            (h1 y).sibling = (h y).sibling) ∧
          (∀ y, p ≠ resource_slot.child y → (h1 y).child = (h y).child))) := by
  induction l with
  | nil =>
    intro p fuel hc _ _ hp _ hf
    obtain ⟨n, rfl⟩ : ∃ n, fuel = n + 1 := ⟨fuel - 1, by simp at hf; omega⟩
    have hc0 : p.load h = 0 := hc
    obtain ⟨k1, k2, k3, k4, k5, k6, k7⟩ := request_resource_link h root new 0 p hp
    refine ⟨0, _, ?_, Or.inr ⟨rfl, by simp, ⟨[], [], rfl, by simp, by simp, ?_⟩, k4, k3, k5,
      fun y hy _ hps => k6 y hy hps, k7⟩⟩
    · unfold request_resource_walk
      dsimp only
      rw [if_pos (Or.inl hc0), hc0]
    · exact ⟨k1, hnew0, k2⟩
  | cons x xs ih =>
    intro p fuel hc hs hnot hp hown hf
    obtain ⟨n, rfl⟩ : ∃ n, fuel = n + 1 := ⟨fuel - 1, by simp at hf; omega⟩
    obtain ⟨hpx, hx0, hcx⟩ := hc
    have hxnew : x ≠ new := fun e => hnot (by rw [← e]; exact List.mem_cons_self x xs)
    by_cases hgt : (h x).start > end_
    · -- the new resource goes in front of `x`
      obtain ⟨k1, k2, k3, k4, k5, k6, k7⟩ := request_resource_link h root new x p hp
      have hall : ∀ y ∈ x :: xs, end_ < (h y).start := by
        intro y hy
        rcases List.mem_cons.1 hy with rfl | hy
        · exact hgt
        · have h1 := (List.pairwise_cons.1 hs.1).1 y hy
          have h2 := hs.2 x (List.mem_cons_self x xs)
          omega
      refine ⟨0, _, ?_, Or.inr ⟨rfl, ?_, ⟨[], x :: xs, rfl, by simp, hall, ?_⟩, k4, k3, k5,
        fun y hy _ hps => k6 y hy hps, k7⟩⟩
      · unfold request_resource_walk
        dsimp only
        rw [hpx, if_pos (Or.inr hgt)]
      · intro y hy hov
        have := hall y hy
        unfold range_overlaps at hov
        omega
      · refine ⟨k1, hnew0, ?_⟩
        rw [k2]
        refine sibling_chain_congr h _ (x :: xs) x ?_ ⟨rfl, hx0, hcx⟩
        intro y hy
        exact k6 y (fun e => hnot (by rw [← e]; exact hy)) (hown y hy)
    · by_cases hlt : (h x).end_ < start
      · -- walk on
        have hxs : x ∉ xs := ranges_sorted_head_not_mem h x xs hs
        obtain ⟨r, h1, hw, hcase⟩ := ih (resource_slot.sibling x) n hcx
          (ranges_sorted_tail h x xs hs)
          (fun hm => hnot (List.mem_cons_of_mem x hm))
          ⟨by simp, fun e => hxnew (by injection e)⟩
          (fun z hz e => hxs (by injection e with e; rw [e]; exact hz))
          (by simp at hf; omega)
        refine ⟨r, h1, ?_, ?_⟩
        · conv => lhs; unfold request_resource_walk
          dsimp only
          rw [hpx, if_neg (by
            rintro (h0 | h0)
            · exact hx0 h0
            · exact hgt h0), if_pos hlt]
          exact hw
        · rcases hcase with ⟨hr0, hrm, hov, heq⟩ | ⟨hr0, hno, ⟨l1, l2, hsplit, hl1, hl2, hch⟩,
            f1, f2, f3, f4, f5⟩
          · exact Or.inl ⟨hr0, List.mem_cons_of_mem x hrm, hov, heq⟩
          · refine Or.inr ⟨hr0, ?_, ⟨x :: l1, l2, by rw [hsplit]; rfl, ?_, hl2, ?_⟩, f1, f2, f3,
              ?_, ?_⟩
            · intro y hy hov
              rcases List.mem_cons.1 hy with rfl | hy
              · unfold range_overlaps at hov
                omega
              · exact hno y hy hov
            · intro y hy
              rcases List.mem_cons.1 hy with rfl | hy
              · exact hlt
              · exact hl1 y hy
            · -- the slot `p` still holds `x`
              have hload : p.load h1 = x := by
                cases p with
                | child r =>
                  show (h1 r).child = x
                  rw [f5 r (by simp)]
                  exact hpx
                | sibling z =>
                  show (h1 z).sibling = x
                  have hz1 : z ≠ new := fun e => hp.2 (by rw [e])
                  have hz2 : z ∉ x :: xs := fun hm => hown z hm rfl
                  rw [f4 z hz1 (fun hm => hz2 (List.mem_cons_of_mem x hm))
                    (fun e => hz2 (by injection e with e; rw [← e]; exact List.mem_cons_self x xs))]
                  exact hpx
              exact ⟨hload, hx0, hch⟩
            · intro y hy hyl hps
              exact f4 y hy (fun hm => hyl (List.mem_cons_of_mem x hm))
                (fun e => hyl (by injection e with e; rw [← e]; exact List.mem_cons_self x xs))
            · intro y _
              exact f5 y (by simp)
      · -- conflict with `x`
        refine ⟨x, h, ?_, Or.inl ⟨hx0, List.mem_cons_self x xs, ⟨by omega, by omega⟩, rfl⟩⟩
        unfold request_resource_walk
        dsimp only
        rw [hpx, if_neg (by
          rintro (h0 | h0)
          · exact hx0 h0
          · exact hgt h0), if_neg hlt]

/-- The loop of `lookup_resource` finds the first resource of the sibling list
whose start is the one searched for. -/
theorem lookup_resource_walk_finds (h : Nat → resource) (s0 new : Nat) (l1 l2 : List Nat) :
    ∀ (t fuel : Nat), sibling_chain h t (l1 ++ new :: l2) →
      (∀ y ∈ l1, (h y).start ≠ s0) → (h new).start = s0 → l1.length < fuel →
      lookup_resource_walk s0 fuel t h = some new := by
  induction l1 with
  | nil =>
    intro t fuel hc _ hs hf
    obtain ⟨n, rfl⟩ : ∃ n, fuel = n + 1 := ⟨fuel - 1, by simp at hf; omega⟩
    obtain ⟨ht, hn0, _⟩ := hc
    unfold lookup_resource_walk
    rw [ht, if_neg hn0, if_pos hs]
  | cons x xs ih =>
    intro t fuel hc hne hs hf
    obtain ⟨n, rfl⟩ : ∃ n, fuel = n + 1 := ⟨fuel - 1, by simp at hf; omega⟩
    obtain ⟨ht, hx0, hcx⟩ := hc
    unfold lookup_resource_walk
    rw [ht, if_neg hx0, if_neg (hne x (List.mem_cons_self x xs))]
    exact ih _ n hcx (fun y hy => hne y (List.mem_cons_of_mem x hy)) hs (by simp at hf; omega)

/-- Linking a non-inverted range between the members below it and the members
above it keeps the list of ranges sorted. -/
theorem ranges_sorted_insert (h h1 : Nat → resource) (new : Nat) (l1 l2 : List Nat)
    (hf : ∀ y, (h1 y).start = (h y).start ∧ (h1 y).end_ = (h y).end_)
    (hs : ranges_sorted h (l1 ++ l2)) (hnew : (h new).start ≤ (h new).end_)
    (hl1 : ∀ y ∈ l1, (h y).end_ < (h new).start)
    (hl2 : ∀ y ∈ l2, (h new).end_ < (h y).start) :
    ranges_sorted h1 (l1 ++ new :: l2) := by
  obtain ⟨hp, hv⟩ := hs
  obtain ⟨p1, p2, p3⟩ := List.pairwise_append.1 hp
  refine ⟨List.pairwise_append.2 ⟨?_, List.pairwise_cons.2 ⟨?_, ?_⟩, ?_⟩, ?_⟩
  · exact p1.imp (fun {a b} hab => by rw [(hf a).2, (hf b).1]; exact hab)
  · intro b hb
    rw [(hf new).2, (hf b).1]
    exact hl2 b hb
  · exact p2.imp (fun {a b} hab => by rw [(hf a).2, (hf b).1]; exact hab)
  · intro a ha b hb
    rw [(hf a).2, (hf b).1]
    rcases List.mem_cons.1 hb with rfl | hb
    · exact hl1 a ha
    · exact p3 a ha b hb
  · intro y hy
    rw [(hf y).1, (hf y).2]
    rcases List.mem_append.1 hy with hy | hy
    · exact hv y (List.mem_append_left _ hy)
    · rcases List.mem_cons.1 hy with rfl | hy
      · exact hnew
      · exact hv y (List.mem_append_right _ hy)

/-- C30: `request_resource` on a root whose child list is a well-formed sibling
list, sorted with pairwise disjoint ranges, for a new resource that is neither
null, nor the root, nor already on the list: the call returns, with 0 or
`-EBUSY`; it returns 0 exactly when the range of the new resource is not
inverted, lies within the range of the root and overlaps no child; on `-EBUSY`
the memory is unchanged; on 0 no range has changed, the parent of the new
resource is the root, the child list of the root is the old list with the new
resource linked in, again sorted with pairwise disjoint ranges, and
`lookup_resource` for the start of the new resource returns it. -/
theorem C30_request_resource_inserts_or_reports_busy (EBUSY : Nat) (h : Nat → resource)
    (root new : Nat) (l : List Nat) (fuel : Nat)
    (hbusy : EBUSY ≠ 0) (hroot : root ≠ 0) (hnew0 : new ≠ 0) (hnr : new ≠ root)
    (hchain : sibling_chain h (h root).child l) (hsorted : ranges_sorted h l)
    (hfresh : new ∉ l) (hfuel : l.length < fuel) :
    ∃ r h1, request_resource EBUSY fuel root new h = some (r, h1) ∧
      (r = 0 ∨ r = -(EBUSY : Int)) ∧
      (r = 0 ↔ ((h new).start ≤ (h new).end_ ∧ (h root).start ≤ (h new).start ∧
        (h new).end_ ≤ (h root).end_ ∧
        ∀ y ∈ l, ¬ range_overlaps h (h new).start (h new).end_ y)) ∧
      (r ≠ 0 → h1 = h) ∧
      (r = 0 → (h1 new).parent = root ∧
        (∀ y, (h1 y).start = (h y).start ∧ (h1 y).end_ = (h y).end_) ∧
        (∃ l1 l2, l = l1 ++ l2 ∧ sibling_chain h1 (h1 root).child (l1 ++ new :: l2) ∧
          ranges_sorted h1 (l1 ++ new :: l2)) ∧
        ∀ fuel2, l.length < fuel2 → lookup_resource fuel2 root (h new).start h1 = some new) := by
  have hneg : (-(EBUSY : Int)) ≠ 0 := by simpa using hbusy
  have hearly : ∀ (hr : ¬ ((h new).start ≤ (h new).end_ ∧ (h root).start ≤ (h new).start ∧
      (h new).end_ ≤ (h root).end_)),
      request_resource EBUSY fuel root new h = some (-(EBUSY : Int), h) := by
    intro hr
    unfold request_resource request_resource_conflict __request_resource
    dsimp only
    by_cases h1 : (h new).end_ < (h new).start
    · rw [if_pos h1]
      simp [hroot]
    · rw [if_neg h1]
      by_cases h2 : (h new).start < (h root).start
      · rw [if_pos h2]
        simp [hroot]
      · rw [if_neg h2]
        by_cases h3 : (h new).end_ > (h root).end_
        · rw [if_pos h3]
          simp [hroot]
        · exfalso
          apply hr
          omega
  by_cases hin : (h new).start ≤ (h new).end_ ∧ (h root).start ≤ (h new).start ∧
      (h new).end_ ≤ (h root).end_
  · obtain ⟨r, h1, hw, hcase⟩ := request_resource_walk_spec h root new (h new).start
      (h new).end_ hnew0 l (resource_slot.child root) fuel hchain hsorted hfresh
      ⟨fun e => hnr (by injection e with e; exact e.symm), by simp⟩ (fun z _ => by simp) hfuel
    have hreq : request_resource EBUSY fuel root new h
        = some (if r ≠ 0 then -(EBUSY : Int) else 0, h1) := by
      unfold request_resource request_resource_conflict __request_resource
      dsimp only
      rw [if_neg (by omega), if_neg (by omega), if_neg (by omega), hw]
    rcases hcase with ⟨hr0, hmem, hov, heq⟩ | ⟨hr0, hno, ⟨l1, l2, hsplit, hl1, hl2, hch⟩, f1,
      f2, _, _, _⟩
    · rw [if_pos hr0] at hreq
      refine ⟨_, _, hreq, Or.inr rfl, ⟨fun e => absurd e hneg, ?_⟩, fun _ => heq,
        fun e => absurd e hneg⟩
      intro hall
      exact absurd hov (hall.2.2.2 r hmem)
    · rw [if_neg (not_not.2 hr0)] at hreq
      refine ⟨_, _, hreq, Or.inl rfl, ⟨fun _ => ⟨hin.1, hin.2.1, hin.2.2, hno⟩, fun _ => rfl⟩,
        fun e => absurd rfl e, fun _ => ⟨f2, f1, ⟨l1, l2, hsplit, hch, ?_⟩, ?_⟩⟩
      · exact ranges_sorted_insert h h1 new l1 l2 f1 (by rw [← hsplit]; exact hsorted) hin.1
          hl1 hl2
      · intro fuel2 hf2
        unfold lookup_resource
        refine lookup_resource_walk_finds h1 (h new).start new l1 l2 _ fuel2 hch ?_ (f1 new).1 ?_
        · intro y hy
          rw [(f1 y).1]
          have h1' := hl1 y hy
          have h2' := hsorted.2 y (by rw [hsplit]; exact List.mem_append_left _ hy)
          omega
        · have : l1.length ≤ l.length := by rw [hsplit]; simp
          omega
  · refine ⟨_, _, hearly hin, Or.inr rfl, ⟨fun e => absurd e hneg, ?_⟩, fun _ => rfl,
      fun e => absurd e hneg⟩
    intro hall
    exact absurd ⟨hall.1, hall.2.1, hall.2.2.1⟩ hin

/-- Witness of C30: under the root `[0, 0xffff]` with the children `[0x100, 0x1ff]`
and `[0x400, 0x4ff]`, the request for `[0x200, 0x2ff]` succeeds and links the
new resource between the two children, where `lookup_resource` finds it; the
request for `[0x1f0, 0x20f]` is answered `-EBUSY` and changes nothing. -/
theorem C30_request_resource_inserts_or_reports_busy_witness :
    (request_resource 16 3 1 4 demo_resources).map
      (fun a => (a.1, (a.2 1).child, (a.2 2).sibling, (a.2 4).sibling, (a.2 3).sibling,
        (a.2 4).parent)) = some (0, 2, 4, 3, 0, 1) ∧
    (∃ h1, request_resource 16 3 1 4 demo_resources = some (0, h1) ∧ (h1 4).parent = 1 ∧
      (∃ l1 l2, [2, 3] = l1 ++ l2 ∧ sibling_chain h1 (h1 1).child (l1 ++ 4 :: l2) ∧
        ranges_sorted h1 (l1 ++ 4 :: l2)) ∧
      lookup_resource 3 1 0x200 h1 = some 4) ∧
    request_resource 16 3 1 5 demo_resources = some (-16, demo_resources) := by
  have hchain : sibling_chain demo_resources (demo_resources 1).child [2, 3] :=
    ⟨rfl, by decide, rfl, by decide, rfl⟩
  have hsorted : ranges_sorted demo_resources [2, 3] := by
    unfold ranges_sorted
    decide
  refine ⟨rfl, ?_, ?_⟩
  · obtain ⟨r, h1, h, _, hiff, _, hpost⟩ :=
      C30_request_resource_inserts_or_reports_busy 16 demo_resources 1 4 [2, 3] 3
        (by decide) (by decide) (by decide) (by decide) hchain hsorted (by decide) (by decide)
    have hr : r = 0 := hiff.2 (by
      unfold range_overlaps
      decide)
    subst hr
    obtain ⟨p1, _, p3, p4⟩ := hpost rfl
    exact ⟨h1, h, p1, p3, p4 3 (by decide)⟩
  · obtain ⟨r, h1, h, hor, hiff, hsame, _⟩ :=
      C30_request_resource_inserts_or_reports_busy 16 demo_resources 1 5 [2, 3] 3
        (by decide) (by decide) (by decide) (by decide) hchain hsorted (by decide) (by decide)
    have hr : r ≠ 0 := by
      intro h0
      have := (hiff.1 h0).2.2.2 2 (by decide)
      apply this
      unfold range_overlaps
      decide
    rcases hor with h0 | h0
    · exact absurd h0 hr
    · rw [h, h0, hsame hr]
      rfl

/-! ## Theorems: the address-space lock of the LLC-miss handler -/

/-- When no VMA covers the address, `do_handle_p2m_llc_miss` returns through
`bad_area` with the read hold it took on `mmap_sem` still in place. -/
theorem do_handle_p2m_llc_miss_no_vma_keeps_hold (env : Env) (c : Consts) (p : lego_task_struct)
    (vaddr offset flags desc : Nat) (s : State) (h : env.find_vma p.mm vaddr = none) :
    ∃ s1, do_handle_p2m_llc_miss env c p vaddr offset flags desc s = .ok s1 ∧
      (s1.mms p.mm).mmap_sem = (s.mms p.mm).mmap_sem + 1 ∧
      s1.trace = s.trace ++ [Event.down_read p.mm, Event.find_vma p.mm vaddr,
        Event.reply ((c.RET_ESIGSEGV % U32_MOD : Nat) : Int) 4 desc] := by
  refine ⟨bad_area c p vaddr offset desc ((down_read p.mm s).emit (Event.find_vma p.mm vaddr)),
    ?_, ?_, ?_⟩
  · unfold do_handle_p2m_llc_miss
    simp only [h]
  · simp [bad_area, down_read, State.emit]
  · simp [bad_area, down_read, State.emit]

/-- C29 (failing input): starting with no read hold on `mmap_sem` of address space
0, a miss at an address that no VMA covers is answered with the single reply
`RET_ESIGSEGV` and leaves one read hold behind; so does a miss whose
resolution runs out of memory (single reply `RET_ENOMEM`); only the successful
miss returns with the hold released. -/
theorem C29_error_paths_keep_the_read_hold :
    ((init_state demo_pool).mms 0).mmap_sem = 0 ∧
    llc_sem_and_replies 0
      (do_handle_p2m_llc_miss demo_env x86_consts demo_task 0x9000 0 0 9 (init_state demo_pool))
      = some (1, [Event.reply (x86_consts.RET_ESIGSEGV : Nat) 4 9]) ∧
    llc_sem_and_replies 0
      (do_handle_p2m_llc_miss demo_env x86_consts demo_task 0x1500 0 0 9 (init_state []))
      = some (1, [Event.reply (x86_consts.RET_ENOMEM : Nat) 4 9]) ∧
    llc_sem_and_replies 0
      (do_handle_p2m_llc_miss demo_env x86_consts demo_task 0x1500 0 0 9 (init_state demo_pool))
      = some (0, [Event.reply_mem 0xffff880000200000 4096 9]) := by
  decide

end LegoOS
